import Mathlib

/-!
# WebSid 6510 CPU core (`src/cpu.c`): shallow embedding and verified properties

The development embeds the cycle-stepped MOS 6510 emulation of `cpu.c`:
the opcode tables, the prefetch/timing unit, the per-opcode semantics
(`runPrefetchedOp`), the interrupt sampling macros and the clock function
`cpuClockRSID`.  Machine integers are natural numbers (or integers for the
signed in-flight record) with explicit wrap-around.
-/

set_option maxRecDepth 100000
set_option linter.unusedVariables false

namespace WebSid

/-! ## Status flags -/

def FLAG_N : Nat := 128
def FLAG_V : Nat := 64
def FLAG_B1 : Nat := 32
def FLAG_B0 : Nat := 16
def FLAG_D : Nat := 8
def FLAG_I : Nat := 4
def FLAG_Z : Nat := 2
def FLAG_C : Nat := 1

def IRQ_LEAD_DEFAULT : Nat := 2

/-! ## Instruction tables -/

/-- Addressing modes of the MOS 6510 (the `#define`d mode codes of `cpu.c`). -/
inductive Mode where
  | imp | imm | abs | abx | aby | zpg | zpx | zpy | ind | idx | idy | acc | rel
  deriving DecidableEq, Repr

/-- Mnemonic codes: the anonymous `enum` of `cpu.c`, including the three pseudo
operations `sti`, `stn` and `nul` patched into unusable JAM slots. -/
inductive Mnemonic where
  | adc | alr | anc | and | ane | arr | asl | bcc | bcs | beq | bit | bmi | bne | bpl | brk | bvc
  | bvs | clc | cld | cli | clv | cmp | cpx | cpy | dcp | dec | dex | dey | eor | inc | inx | iny
  | isb | jam | jmp | jsr | lae | lax | lda | ldx | ldy | lsr | lxa | nop | ora | pha | php | pla
  | plp | rla | rol | ror | rra | rti | rts | sax | sbc | sbx | sec | sed | sei | sha | shs | shx
  | shy | slo | sre | sta | stx | sty | tax | tay | tsx | txa | txs | tya
  | sti | stn | nul
  deriving DecidableEq, Repr

def START_IRQ_OP : Nat := 0x02
def START_NMI_OP : Nat := 0x12
def NULL_OP : Nat := 0x22
def SEI_OP : Nat := 0x78

def _mnemonics : List Mnemonic := [
  Mnemonic.brk, Mnemonic.ora, Mnemonic.sti, Mnemonic.slo, Mnemonic.nop, Mnemonic.ora, Mnemonic.asl, Mnemonic.slo, Mnemonic.php, Mnemonic.ora, Mnemonic.asl, Mnemonic.anc, Mnemonic.nop, Mnemonic.ora, Mnemonic.asl, Mnemonic.slo,
  Mnemonic.bpl, Mnemonic.ora, Mnemonic.stn, Mnemonic.slo, Mnemonic.nop, Mnemonic.ora, Mnemonic.asl, Mnemonic.slo, Mnemonic.clc, Mnemonic.ora, Mnemonic.nop, Mnemonic.slo, Mnemonic.nop, Mnemonic.ora, Mnemonic.asl, Mnemonic.slo,
  Mnemonic.jsr, Mnemonic.and, Mnemonic.nul, Mnemonic.rla, Mnemonic.bit, Mnemonic.and, Mnemonic.rol, Mnemonic.rla, Mnemonic.plp, Mnemonic.and, Mnemonic.rol, Mnemonic.anc, Mnemonic.bit, Mnemonic.and, Mnemonic.rol, Mnemonic.rla,
  Mnemonic.bmi, Mnemonic.and, Mnemonic.jam, Mnemonic.rla, Mnemonic.nop, Mnemonic.and, Mnemonic.rol, Mnemonic.rla, Mnemonic.sec, Mnemonic.and, Mnemonic.nop, Mnemonic.rla, Mnemonic.nop, Mnemonic.and, Mnemonic.rol, Mnemonic.rla,
  Mnemonic.rti, Mnemonic.eor, Mnemonic.jam, Mnemonic.sre, Mnemonic.nop, Mnemonic.eor, Mnemonic.lsr, Mnemonic.sre, Mnemonic.pha, Mnemonic.eor, Mnemonic.lsr, Mnemonic.alr, Mnemonic.jmp, Mnemonic.eor, Mnemonic.lsr, Mnemonic.sre,
  Mnemonic.bvc, Mnemonic.eor, Mnemonic.jam, Mnemonic.sre, Mnemonic.nop, Mnemonic.eor, Mnemonic.lsr, Mnemonic.sre, Mnemonic.cli, Mnemonic.eor, Mnemonic.nop, Mnemonic.sre, Mnemonic.nop, Mnemonic.eor, Mnemonic.lsr, Mnemonic.sre,
  Mnemonic.rts, Mnemonic.adc, Mnemonic.jam, Mnemonic.rra, Mnemonic.nop, Mnemonic.adc, Mnemonic.ror, Mnemonic.rra, Mnemonic.pla, Mnemonic.adc, Mnemonic.ror, Mnemonic.arr, Mnemonic.jmp, Mnemonic.adc, Mnemonic.ror, Mnemonic.rra,
  Mnemonic.bvs, Mnemonic.adc, Mnemonic.jam, Mnemonic.rra, Mnemonic.nop, Mnemonic.adc, Mnemonic.ror, Mnemonic.rra, Mnemonic.sei, Mnemonic.adc, Mnemonic.nop, Mnemonic.rra, Mnemonic.nop, Mnemonic.adc, Mnemonic.ror, Mnemonic.rra,
  Mnemonic.nop, Mnemonic.sta, Mnemonic.nop, Mnemonic.sax, Mnemonic.sty, Mnemonic.sta, Mnemonic.stx, Mnemonic.sax, Mnemonic.dey, Mnemonic.nop, Mnemonic.txa, Mnemonic.ane, Mnemonic.sty, Mnemonic.sta, Mnemonic.stx, Mnemonic.sax,
  Mnemonic.bcc, Mnemonic.sta, Mnemonic.jam, Mnemonic.sha, Mnemonic.sty, Mnemonic.sta, Mnemonic.stx, Mnemonic.sax, Mnemonic.tya, Mnemonic.sta, Mnemonic.txs, Mnemonic.shs, Mnemonic.shy, Mnemonic.sta, Mnemonic.shx, Mnemonic.sha,
  Mnemonic.ldy, Mnemonic.lda, Mnemonic.ldx, Mnemonic.lax, Mnemonic.ldy, Mnemonic.lda, Mnemonic.ldx, Mnemonic.lax, Mnemonic.tay, Mnemonic.lda, Mnemonic.tax, Mnemonic.lxa, Mnemonic.ldy, Mnemonic.lda, Mnemonic.ldx, Mnemonic.lax,
  Mnemonic.bcs, Mnemonic.lda, Mnemonic.jam, Mnemonic.lax, Mnemonic.ldy, Mnemonic.lda, Mnemonic.ldx, Mnemonic.lax, Mnemonic.clv, Mnemonic.lda, Mnemonic.tsx, Mnemonic.lae, Mnemonic.ldy, Mnemonic.lda, Mnemonic.ldx, Mnemonic.lax,
  Mnemonic.cpy, Mnemonic.cmp, Mnemonic.nop, Mnemonic.dcp, Mnemonic.cpy, Mnemonic.cmp, Mnemonic.dec, Mnemonic.dcp, Mnemonic.iny, Mnemonic.cmp, Mnemonic.dex, Mnemonic.sbx, Mnemonic.cpy, Mnemonic.cmp, Mnemonic.dec, Mnemonic.dcp,
  Mnemonic.bne, Mnemonic.cmp, Mnemonic.jam, Mnemonic.dcp, Mnemonic.nop, Mnemonic.cmp, Mnemonic.dec, Mnemonic.dcp, Mnemonic.cld, Mnemonic.cmp, Mnemonic.nop, Mnemonic.dcp, Mnemonic.nop, Mnemonic.cmp, Mnemonic.dec, Mnemonic.dcp,
  Mnemonic.cpx, Mnemonic.sbc, Mnemonic.nop, Mnemonic.isb, Mnemonic.cpx, Mnemonic.sbc, Mnemonic.inc, Mnemonic.isb, Mnemonic.inx, Mnemonic.sbc, Mnemonic.nop, Mnemonic.sbc, Mnemonic.cpx, Mnemonic.sbc, Mnemonic.inc, Mnemonic.isb,
  Mnemonic.beq, Mnemonic.sbc, Mnemonic.jam, Mnemonic.isb, Mnemonic.nop, Mnemonic.sbc, Mnemonic.inc, Mnemonic.isb, Mnemonic.sed, Mnemonic.sbc, Mnemonic.nop, Mnemonic.isb, Mnemonic.nop, Mnemonic.sbc, Mnemonic.inc, Mnemonic.isb]

def _modes : List Mode := [
  Mode.imp, Mode.idx, Mode.abs, Mode.idx, Mode.zpg, Mode.zpg, Mode.zpg, Mode.zpg, Mode.imp, Mode.imm, Mode.acc, Mode.imm, Mode.abs, Mode.abs, Mode.abs, Mode.abs,
  Mode.rel, Mode.idy, Mode.abs, Mode.idy, Mode.zpx, Mode.zpx, Mode.zpx, Mode.zpx, Mode.imp, Mode.aby, Mode.imp, Mode.aby, Mode.abx, Mode.abx, Mode.abx, Mode.abx,
  Mode.abs, Mode.idx, Mode.imp, Mode.idx, Mode.zpg, Mode.zpg, Mode.zpg, Mode.zpg, Mode.imp, Mode.imm, Mode.acc, Mode.imm, Mode.abs, Mode.abs, Mode.abs, Mode.abs,
  Mode.rel, Mode.idy, Mode.imp, Mode.idy, Mode.zpx, Mode.zpx, Mode.zpx, Mode.zpx, Mode.imp, Mode.aby, Mode.imp, Mode.aby, Mode.abx, Mode.abx, Mode.abx, Mode.abx,
  Mode.imp, Mode.idx, Mode.imp, Mode.idx, Mode.zpg, Mode.zpg, Mode.zpg, Mode.zpg, Mode.imp, Mode.imm, Mode.acc, Mode.imm, Mode.abs, Mode.abs, Mode.abs, Mode.abs,
  Mode.rel, Mode.idy, Mode.imp, Mode.idy, Mode.zpx, Mode.zpx, Mode.zpx, Mode.zpx, Mode.imp, Mode.aby, Mode.imp, Mode.aby, Mode.abx, Mode.abx, Mode.abx, Mode.abx,
  Mode.imp, Mode.idx, Mode.imp, Mode.idx, Mode.zpg, Mode.zpg, Mode.zpg, Mode.zpg, Mode.imp, Mode.imm, Mode.acc, Mode.imm, Mode.ind, Mode.abs, Mode.abs, Mode.abs,
  Mode.rel, Mode.idy, Mode.imp, Mode.idy, Mode.zpx, Mode.zpx, Mode.zpx, Mode.zpx, Mode.imp, Mode.aby, Mode.imp, Mode.aby, Mode.abx, Mode.abx, Mode.abx, Mode.abx,
  Mode.imm, Mode.idx, Mode.imm, Mode.idx, Mode.zpg, Mode.zpg, Mode.zpg, Mode.zpg, Mode.imp, Mode.imm, Mode.imp, Mode.imm, Mode.abs, Mode.abs, Mode.abs, Mode.abs,
  Mode.rel, Mode.idy, Mode.imp, Mode.idy, Mode.zpx, Mode.zpx, Mode.zpy, Mode.zpy, Mode.imp, Mode.aby, Mode.imp, Mode.aby, Mode.abx, Mode.abx, Mode.aby, Mode.aby,
  Mode.imm, Mode.idx, Mode.imm, Mode.idx, Mode.zpg, Mode.zpg, Mode.zpg, Mode.zpg, Mode.imp, Mode.imm, Mode.imp, Mode.imm, Mode.abs, Mode.abs, Mode.abs, Mode.abs,
  Mode.rel, Mode.idy, Mode.imp, Mode.idy, Mode.zpx, Mode.zpx, Mode.zpy, Mode.zpy, Mode.imp, Mode.aby, Mode.imp, Mode.aby, Mode.abx, Mode.abx, Mode.aby, Mode.aby,
  Mode.imm, Mode.idx, Mode.imm, Mode.idx, Mode.zpg, Mode.zpg, Mode.zpg, Mode.zpg, Mode.imp, Mode.imm, Mode.imp, Mode.imm, Mode.abs, Mode.abs, Mode.abs, Mode.abs,
  Mode.rel, Mode.idy, Mode.imp, Mode.idy, Mode.zpx, Mode.zpx, Mode.zpx, Mode.zpx, Mode.imp, Mode.aby, Mode.imp, Mode.aby, Mode.abx, Mode.abx, Mode.abx, Mode.abx,
  Mode.imm, Mode.idx, Mode.imm, Mode.idx, Mode.zpg, Mode.zpg, Mode.zpg, Mode.zpg, Mode.imp, Mode.imm, Mode.imp, Mode.imm, Mode.abs, Mode.abs, Mode.abs, Mode.abs,
  Mode.rel, Mode.idy, Mode.imp, Mode.idy, Mode.zpx, Mode.zpx, Mode.zpx, Mode.zpx, Mode.imp, Mode.aby, Mode.imp, Mode.aby, Mode.abx, Mode.abx, Mode.abx, Mode.abx]

def _opbase_frame_cycles : List Int := [
  7, 6, 7, 8, 3, 3, 5, 5, 3, 2, 2, 2, 4, 4, 6, 6,
  2, 5, 7, 8, 4, 4, 6, 6, 2, 4, 2, 7, 4, 4, 7, 7,
  6, 6, 2, 8, 3, 3, 5, 5, 4, 2, 2, 2, 4, 4, 6, 6,
  2, 5, 0, 8, 4, 4, 6, 6, 2, 4, 2, 7, 4, 4, 7, 7,
  6, 6, 0, 8, 3, 3, 5, 5, 3, 2, 2, 2, 3, 4, 6, 6,
  2, 5, 0, 8, 4, 4, 6, 6, 2, 4, 2, 7, 4, 4, 7, 7,
  6, 6, 0, 8, 3, 3, 5, 5, 4, 2, 2, 2, 5, 4, 6, 6,
  2, 5, 0, 8, 4, 4, 6, 6, 2, 4, 2, 7, 4, 4, 7, 7,
  2, 6, 2, 6, 3, 3, 3, 3, 2, 2, 2, 2, 4, 4, 4, 4,
  2, 6, 0, 6, 4, 4, 4, 4, 2, 5, 2, 5, 5, 5, 5, 5,
  2, 6, 2, 6, 3, 3, 3, 3, 2, 2, 2, 2, 4, 4, 4, 4,
  2, 5, 0, 5, 4, 4, 4, 4, 2, 4, 2, 4, 4, 4, 4, 4,
  2, 6, 2, 8, 3, 3, 5, 5, 2, 2, 2, 2, 4, 4, 6, 6,
  2, 5, 0, 8, 4, 4, 6, 6, 2, 4, 2, 7, 4, 4, 7, 7,
  2, 6, 2, 8, 3, 3, 5, 5, 2, 2, 2, 2, 4, 4, 6, 6,
  2, 5, 0, 8, 4, 4, 6, 6, 2, 4, 2, 7, 4, 4, 7, 7]

def _opbase_write_cycle : List Nat := [
  3, 0, 3, 7, 0, 0, 4, 4, 3, 0, 0, 0, 0, 0, 5, 5,
  0, 0, 3, 7, 0, 0, 5, 5, 0, 0, 0, 6, 0, 0, 6, 6,
  4, 0, 0, 7, 0, 0, 4, 4, 0, 0, 0, 0, 0, 0, 5, 5,
  0, 0, 0, 7, 0, 0, 5, 5, 0, 0, 0, 6, 0, 0, 6, 6,
  0, 0, 0, 7, 0, 0, 4, 4, 3, 0, 0, 0, 0, 0, 5, 5,
  0, 0, 0, 7, 0, 0, 5, 5, 0, 0, 0, 6, 0, 0, 6, 6,
  0, 0, 0, 7, 0, 0, 4, 4, 0, 0, 0, 0, 0, 0, 5, 5,
  0, 0, 0, 7, 0, 0, 5, 5, 0, 0, 0, 6, 0, 0, 6, 6,
  0, 6, 0, 6, 3, 3, 3, 3, 0, 0, 0, 0, 4, 4, 4, 4,
  0, 6, 0, 0, 4, 4, 4, 4, 0, 5, 0, 0, 0, 5, 0, 0,
  0, 0, 0, 0, 0, 0, 0, 0, 0, 0, 0, 0, 0, 0, 0, 0,
  0, 0, 0, 0, 0, 0, 0, 0, 0, 0, 0, 0, 0, 0, 0, 0,
  0, 0, 0, 7, 0, 0, 4, 4, 0, 0, 0, 0, 0, 0, 5, 5,
  0, 0, 0, 7, 0, 0, 5, 5, 0, 0, 0, 6, 0, 0, 6, 6,
  0, 0, 0, 7, 0, 0, 4, 4, 0, 0, 0, 0, 0, 0, 5, 5,
  0, 0, 0, 7, 0, 0, 5, 5, 0, 0, 0, 6, 0, 0, 6, 6]

/-- Table lookup `_mnemonics[opc]`. -/
def mnemonicOf (opc : Nat) : Mnemonic := _mnemonics.getD opc .jam

/-- Table lookup `_modes[opc]`. -/
def modeOf (opc : Nat) : Mode := _modes.getD opc .imp

/-- Table lookup `_opbase_frame_cycles[opc]`. -/
def baseCycles (opc : Nat) : Int := _opbase_frame_cycles.getD opc 0

/-- Table lookup `_opbase_write_cycle[opc]`. -/
def writeCycle (opc : Nat) : Nat := _opbase_write_cycle.getD opc 0

/-! ## CPU state -/

/-- The file-level state of `cpu.c` together with the memory it drives.
`bval` is the function-static scratch byte of `runPrefetchedOp` (it survives
between calls and is read by `sax` before being assigned).  `writes` logs every
bus or RAM write in program order; `nmi_marker` is the last value handed to
`sysSetNMIMarker`; `cpuClock_rsid` tells which clock function the pointer
`cpuClock` selects. -/
structure Cpu where
  _pc : Nat
  _a : Nat
  _x : Nat
  _y : Nat
  _s : Nat
  _p : Nat
  _interrupt_lead_time : Nat
  _irq_committed : Bool
  _irq_line_ts : Nat
  _nmi_committed : Bool
  _nmi_line : Bool
  _nmi_line_ts : Nat
  _opc : Nat
  _exe_instr_opcode : Int
  _exe_instr_cycles : Int
  _exe_instr_cycles_remain : Int
  bval : Nat
  mem : Nat → Nat
  writes : List (Nat × Nat)
  nmi_marker : Bool
  cpuClock_rsid : Bool

/-- Signals read from the other chips during one clock tick. -/
structure Lines where
  vicIRQ : Bool
  ciaIRQ : Bool
  ciaNMI : Bool
  vicStunCPU : Nat
  sysCycles : Nat

/-- Registers and timestamps hold values of their C types. -/
structure Cpu.WF (s : Cpu) : Prop where
  pc : s._pc < 65536
  a : s._a < 256
  x : s._x < 256
  y : s._y < 256
  sp : s._s < 256
  p : s._p < 256

/-! ## Memory primitives -/

/-- Modelled from the spec: `memGet` of `memory.h` is not part of the sources;
it is the abstract byte read `mem_read(u16) -> u8` over a flat 64 KiB memory. -/
def memGet (s : Cpu) (addr : Nat) : Nat := s.mem (addr % 65536) % 256

/-- Modelled from the spec: `memSet` of `memory.h` is not part of the sources;
it is the abstract byte write `mem_write(u16, u8)` over a flat 64 KiB memory.
Every call is appended to the write log. -/
def memSet (s : Cpu) (addr val : Nat) : Cpu :=
  { s with
    mem := fun a => if a = addr % 65536 then val % 256 else s.mem a
    writes := s.writes ++ [(addr % 65536, val % 256)] }

/-- Modelled from the spec: `MEM_READ_RAM` of `memory_opt.h` is not part of the
sources; it is the raw RAM read used for the stack, over the same flat memory. -/
def MEM_READ_RAM (s : Cpu) (addr : Nat) : Nat := s.mem (addr % 65536) % 256

/-- Modelled from the spec: `MEM_WRITE_RAM` of `memory_opt.h` is not part of the
sources; it is the raw RAM write used for the stack, over the same flat memory. -/
def MEM_WRITE_RAM (s : Cpu) (addr val : Nat) : Cpu :=
  { s with
    mem := fun a => if a = addr % 65536 then val % 256 else s.mem a
    writes := s.writes ++ [(addr % 65536, val % 256)] }

/-- C truth value of an integer expression used as a condition. -/
def truthy (x : Nat) : Bool := decide (x ≠ 0)

/-- C logical negation `!x` used as a condition. -/
def falsy (x : Nat) : Bool := decide (x = 0)

/-- The macro `SETFLAGS(flag, cond)` on the 8-bit status register; the 32-bit
complement `~(int32_t)flag` is `flag ^ 0xffffffff`. -/
def SETFLAGS (s : Cpu) (flag : Nat) (cond : Bool) : Cpu :=
  if cond then { s with _p := (s._p ||| flag) % 256 }
  else { s with _p := (s._p &&& (flag ^^^ 0xffffffff)) % 256 }

/-- Truncation to `uint16_t`. -/
def u16 (z : Int) : Nat := (z % 65536).toNat

/-- Truncation to `uint8_t`. -/
def u8 (z : Int) : Nat := (z % 256).toNat

/-- The cast `(int8_t)b` of a byte. -/
def int8 (b : Nat) : Int := if b % 256 < 128 then (b % 256 : Nat) else ((b % 256 : Nat) : Int) - 256

/-! ## Prefetch / timing unit -/

/-- The function `adjustPageBoundaryCrossing(&pc, mode)`: the extra cycle of an
indexed read whose indexing leaves the page of the base address.  `pc` points
at the first operand byte. -/
def adjustPageBoundaryCrossing (s : Cpu) (pc : Nat) (mode : Mode) : Nat :=
  match mode with
  | .abx =>
    let ad := memGet s pc ||| (memGet s ((pc + 1) % 65536) <<< 8)
    let ad2 := (ad + s._x) % 65536
    if ad2 &&& 0xff00 ≠ ad &&& 0xff00 then 1 else 0
  | .aby =>
    let ad := memGet s pc ||| (memGet s ((pc + 1) % 65536) <<< 8)
    let ad2 := (ad + s._y) % 65536
    if ad2 &&& 0xff00 ≠ ad &&& 0xff00 then 1 else 0
  | .idy =>
    let ad := memGet s pc
    let ad2 := memGet s ad ||| (memGet s ((ad + 1) &&& 0xff) <<< 8)
    let ad := (ad2 + s._y) % 65536
    if ad2 &&& 0xff00 ≠ ad &&& 0xff00 then 1 else 0
  | _ => 0

/-- The function `adjustBranchTaken(&pc, opc, lead_time)`: returns the cycle
adjustment of a taken branch and the updated lead time.  `pc` points at the
displacement byte. -/
def adjustBranchTaken (s : Cpu) (pc : Nat) (lead_time : Nat) : Nat × Nat :=
  let dist := int8 (memGet s pc)
  let pc := (pc + 1) % 65536
  let wval := u16 ((pc : Int) + dist)
  let adjustment := if pc &&& 0x100 ≠ wval &&& 0x100 then 2 else 1
  if adjustment = 1 then (adjustment, (lead_time + 1) % 256) else (adjustment, lead_time)

/-- The statement `if (cond) (*cycles) += adjustBranchTaken(&pc, opc, lead_time);`
shared by the eight branch cases of `prefetchOperation`: the resulting cycle
count and lead time. -/
def prefetchBranch (s : Cpu) (pc : Nat) (cycles : Int) (lead_time : Nat) (taken : Bool) :
    Int × Nat :=
  if taken then
    let r := adjustBranchTaken s pc lead_time
    (cycles + r.1, r.2)
  else (cycles, lead_time)

/-- The function `prefetchOperation(&_exe_instr_opcode, &_exe_instr_cycles,
&_interrupt_lead_time)`, with its three out-parameters bound as at its call
sites in the clock functions. -/
def prefetchOperation (s : Cpu) : Cpu :=
  let pc := s._pc
  let opc := memGet s pc
  let pc := (pc + 1) % 65536
  let mode := modeOf opc
  let cycles := baseCycles opc
  let lead_time := IRQ_LEAD_DEFAULT
  let r : Int × Nat :=
    match mnemonicOf opc with
    | Mnemonic.adc | Mnemonic.and | Mnemonic.cmp | Mnemonic.eor | Mnemonic.lae | Mnemonic.lax
    | Mnemonic.lda | Mnemonic.ldx | Mnemonic.ldy | Mnemonic.nop | Mnemonic.ora | Mnemonic.sbc =>
      (cycles + adjustPageBoundaryCrossing s pc mode, lead_time)
    | Mnemonic.bcc => prefetchBranch s pc cycles lead_time (falsy (s._p &&& FLAG_C))
    | Mnemonic.bcs => prefetchBranch s pc cycles lead_time (truthy (s._p &&& FLAG_C))
    | Mnemonic.bne => prefetchBranch s pc cycles lead_time (falsy (s._p &&& FLAG_Z))
    | Mnemonic.beq => prefetchBranch s pc cycles lead_time (truthy (s._p &&& FLAG_Z))
    | Mnemonic.bpl => prefetchBranch s pc cycles lead_time (falsy (s._p &&& FLAG_N))
    | Mnemonic.bmi => prefetchBranch s pc cycles lead_time (truthy (s._p &&& FLAG_N))
    | Mnemonic.bvc => prefetchBranch s pc cycles lead_time (falsy (s._p &&& FLAG_V))
    | Mnemonic.bvs => prefetchBranch s pc cycles lead_time (truthy (s._p &&& FLAG_V))
    | _ => (cycles, lead_time)
  { s with
    _exe_instr_opcode := opc
    _exe_instr_cycles := r.1
    _interrupt_lead_time := r.2 }

/-! ## Operand access -/

/-- Post-increment of the 16-bit program counter, `_pc++`. -/
def incPC (s : Cpu) : Cpu := { s with _pc := (s._pc + 1) % 65536 }

/-- The address `_pc - k` as a `uint16_t` argument. -/
def pcMinus (s : Cpu) (k : Nat) : Nat := (s._pc + 65536 - k) % 65536

/-- The function `getH1(mode)`: high byte of the target address plus one. -/
def getH1 (s : Cpu) (mode : Mode) : Nat :=
  match mode with
  | Mode.abs => (memGet s (s._pc + 1) + 1) % 256
  | Mode.abx =>
    let ad := ((memGet s (s._pc + 0) ||| (memGet s (s._pc + 1) <<< 8)) + s._x) % 65536
    ((ad >>> 8) + 1) % 256
  | Mode.aby =>
    let ad := ((memGet s (s._pc + 0) ||| (memGet s (s._pc + 1) <<< 8)) + s._y) % 65536
    ((ad >>> 8) + 1) % 256
  | Mode.zpg =>
    let ad := memGet s (s._pc + 0)
    ((ad >>> 8) + 1) % 256
  | Mode.idx =>
    let ad := memGet s (s._pc + 0) + s._x
    let ad := memGet s (ad &&& 0xff) ||| (memGet s ((ad + 1) &&& 0xff) <<< 8)
    ((ad >>> 8) + 1) % 256
  | Mode.idy =>
    let ad := memGet s (s._pc + 0)
    let ad := ((memGet s ad ||| (memGet s ((ad + 1) &&& 0xff) <<< 8)) + s._y) % 65536
    ((ad >>> 8) + 1) % 256
  | _ => 0

/-- The function `getInput(mode)`: reads the operand, advancing `_pc` past the
operand bytes. -/
def getInput (s : Cpu) (mode : Mode) : Nat × Cpu :=
  match mode with
  | Mode.acc => (s._a, s)
  | Mode.imp => (0, s)
  | Mode.imm => (memGet s s._pc, incPC s)
  | Mode.abs =>
    let ad := memGet s s._pc
    let s := incPC s
    let ad := ad ||| (memGet s s._pc <<< 8)
    let s := incPC s
    (memGet s ad, s)
  | Mode.abx =>
    let ad := memGet s s._pc
    let s := incPC s
    let ad := ad ||| (memGet s s._pc <<< 8)
    let s := incPC s
    (memGet s (ad + s._x), s)
  | Mode.aby =>
    let ad := memGet s s._pc
    let s := incPC s
    let ad := ad ||| (memGet s s._pc <<< 8)
    let s := incPC s
    (memGet s (ad + s._y), s)
  | Mode.zpg =>
    let ad := memGet s s._pc
    let s := incPC s
    (memGet s ad, s)
  | Mode.zpx =>
    let ad := memGet s s._pc + s._x
    let s := incPC s
    let ad := ad &&& 0xff
    (memGet s ad, s)
  | Mode.zpy =>
    let ad := memGet s s._pc + s._y
    let s := incPC s
    let ad := ad &&& 0xff
    (memGet s ad, s)
  | Mode.idx =>
    let ad := memGet s s._pc + s._x
    let s := incPC s
    let ad := memGet s (ad &&& 0xff) ||| (memGet s ((ad + 1) &&& 0xff) <<< 8)
    (memGet s ad, s)
  | Mode.idy =>
    let ad := memGet s s._pc
    let s := incPC s
    let ad := ((memGet s ad ||| (memGet s ((ad + 1) &&& 0xff) <<< 8)) + s._y) % 65536
    (memGet s ad, s)
  | _ => (0, s)

/-- The function `setOutput(mode, val)`: writes to the operand location of an
instruction whose operand bytes `getInput` has already consumed. -/
def setOutput (s : Cpu) (mode : Mode) (val : Nat) : Cpu :=
  match mode with
  | Mode.acc => { s with _a := val % 256 }
  | Mode.abs =>
    let ad := memGet s (pcMinus s 2) ||| (memGet s (pcMinus s 1) <<< 8)
    memSet s ad val
  | Mode.abx =>
    let ad := ((memGet s (pcMinus s 2) ||| (memGet s (pcMinus s 1) <<< 8)) + s._x) % 65536
    memSet s ad val
  | Mode.aby =>
    let ad := ((memGet s (pcMinus s 2) ||| (memGet s (pcMinus s 1) <<< 8)) + s._y) % 65536
    memSet s ad val
  | Mode.zpg =>
    let ad := memGet s (pcMinus s 1)
    memSet s ad val
  | Mode.zpx =>
    let ad := memGet s (pcMinus s 1) + s._x
    let ad := ad &&& 0xff
    memSet s ad val
  | Mode.zpy =>
    let ad := memGet s (pcMinus s 1) + s._y
    let ad := ad &&& 0xff
    memSet s ad val
  | Mode.idx =>
    let ad := memGet s (pcMinus s 1) + s._x
    let ad := memGet s (ad &&& 0xff) ||| (memGet s ((ad + 1) &&& 0xff) <<< 8)
    memSet s ad val
  | Mode.idy =>
    let ad := memGet s (pcMinus s 1)
    let ad := ((memGet s ad ||| (memGet s ((ad + 1) &&& 0xff) <<< 8)) + s._y) % 65536
    memSet s ad val
  | _ => s

/-- The function `operationSTx(mode, val)`: store, advancing `_pc` past the
operand bytes. -/
def operationSTx (s : Cpu) (mode : Mode) (val : Nat) : Cpu :=
  match mode with
  | Mode.acc => { s with _a := val % 256 }
  | Mode.abs =>
    let ad := memGet s s._pc
    let s := incPC s
    let ad := ad ||| (memGet s s._pc <<< 8)
    let s := incPC s
    memSet s ad val
  | Mode.abx =>
    let ad := memGet s s._pc
    let s := incPC s
    let ad := ad ||| (memGet s s._pc <<< 8)
    let s := incPC s
    let ad := (ad + s._x) % 65536
    memSet s ad val
  | Mode.aby =>
    let ad := memGet s s._pc
    let s := incPC s
    let ad := ad ||| (memGet s s._pc <<< 8)
    let s := incPC s
    let ad := (ad + s._y) % 65536
    memSet s ad val
  | Mode.zpg =>
    let ad := memGet s s._pc
    let s := incPC s
    memSet s ad val
  | Mode.zpx =>
    let ad := memGet s s._pc + s._x
    let s := incPC s
    let ad := ad &&& 0xff
    memSet s ad val
  | Mode.zpy =>
    let ad := memGet s s._pc + s._y
    let s := incPC s
    let ad := ad &&& 0xff
    memSet s ad val
  | Mode.idx =>
    let ad := memGet s s._pc + s._x
    let s := incPC s
    let ad := memGet s (ad &&& 0xff) ||| (memGet s ((ad + 1) &&& 0xff) <<< 8)
    memSet s ad val
  | Mode.idy =>
    let ad := memGet s s._pc
    let s := incPC s
    let ad := ((memGet s ad ||| (memGet s ((ad + 1) &&& 0xff) <<< 8)) + s._y) % 65536
    memSet s ad val
  | _ => s

/-- The function `push(val)`; `(_s - 1) & 0xff` is computed as
`(_s + 255) & 0xff`, the same residue modulo 256. -/
def push (s : Cpu) (val : Nat) : Cpu :=
  let s := MEM_WRITE_RAM s (0x100 + s._s) val
  { s with _s := (s._s + 255) &&& 0xff }

/-- The function `pop()`. -/
def pop (s : Cpu) : Nat × Cpu :=
  let s := { s with _s := (s._s + 1) &&& 0xff }
  (MEM_READ_RAM s (0x100 + s._s), s)

/-- The function `branch(is_taken)`. -/
def branch (s : Cpu) (is_taken : Bool) : Cpu :=
  if is_taken then
    let dist := int8 (memGet s s._pc)
    let s := incPC s
    { s with _pc := u16 ((s._pc : Int) + dist) }
  else incPC s

/-- The function `cpuRegReset()`. -/
def cpuRegReset (s : Cpu) : Cpu :=
  { s with _a := 0, _x := 0, _y := 0, _p := 0, _s := 0xff, _pc := 0 }

/-- The function `cpuSetProgramCounter(pc, a)`. -/
def cpuSetProgramCounter (s : Cpu) (pc a : Nat) : Cpu :=
  let s := cpuRegReset s
  let s := { s with _a := a % 256, _pc := pc % 65536 }
  let s := push s 0
  push s 0

/-- The function `cpuIrqFlagPSID(on)`. -/
def cpuIrqFlagPSID (s : Cpu) (on' : Nat) : Cpu := SETFLAGS s FLAG_I (truthy on')

/-- The function `cpuIsValidPcPSID()`. -/
def cpuIsValidPcPSID (s : Cpu) : Bool := decide (s._pc > 1)

/-! ## Instruction semantics -/

/-- The `switch (_mnemonics[_opc])` of `runPrefetchedOp` (non-TEST build), one
alternative per mnemonic.  `_pc` already points behind the opcode byte and
`_opc` holds the opcode.  The 32-bit complement `~v` is `v ^ 0xffffffff`.  The
dummy read `memGet(_pc)` of `rti` at `$DC0D/$DD0D` has no effect on flat
memory and is omitted, as is the console log of `brk`.  The `default:` label
covers the three pseudo mnemonics. -/
def runPrefetchedOp_switch : Mnemonic → Cpu → Cpu
  | Mnemonic.adc, s =>
    let in1 := s._a
    let r := getInput s (modeOf s._opc)
    let in2 := r.1
    let s := r.2
    let wval := (in1 + in2 + (if s._p &&& FLAG_C ≠ 0 then 1 else 0)) % 65536
    let s := SETFLAGS s FLAG_C (truthy (wval &&& 0x100))
    let s := { s with _a := wval % 256 }
    let s := SETFLAGS s FLAG_Z (falsy s._a)
    let s := SETFLAGS s FLAG_N (truthy (s._a &&& 0x80))
    SETFLAGS s FLAG_V (truthy (((in1 ^^^ in2) ^^^ 0xffffffff) &&& (in1 ^^^ s._a) &&& 0x80))
  | Mnemonic.alr, s =>
    let r := getInput s (modeOf s._opc)
    let s := { r.2 with bval := r.1 }
    let s := { s with _a := s._a &&& s.bval }
    let s := SETFLAGS s FLAG_C (truthy (s._a &&& 1))
    let s := { s with _a := s._a >>> 1 }
    let s := SETFLAGS s FLAG_Z (falsy s._a)
    SETFLAGS s FLAG_N (truthy (s._a &&& 0x80))
  | Mnemonic.anc, s =>
    let r := getInput s (modeOf s._opc)
    let s := { r.2 with bval := r.1 }
    let s := { s with _a := s._a &&& s.bval }
    let s := SETFLAGS s FLAG_C (truthy (s._a &&& 0x80))
    let s := SETFLAGS s FLAG_Z (falsy s._a)
    SETFLAGS s FLAG_N (truthy (s._a &&& 0x80))
  | Mnemonic.and, s =>
    let r := getInput s (modeOf s._opc)
    let s := { r.2 with bval := r.1 }
    let s := { s with _a := s._a &&& s.bval }
    let s := SETFLAGS s FLAG_Z (falsy s._a)
    SETFLAGS s FLAG_N (truthy (s._a &&& 0x80))
  | Mnemonic.ane, s =>
    let r := getInput s (modeOf s._opc)
    let s := { r.2 with bval := r.1 }
    let con : Nat := 0x0
    let s := { s with _a := (s._a ||| con) &&& s._x &&& s.bval }
    let s := SETFLAGS s FLAG_Z (falsy s._a)
    SETFLAGS s FLAG_N (truthy (s._a &&& 0x80))
  | Mnemonic.arr, s =>
    let r := getInput s (modeOf s._opc)
    let s := { r.2 with bval := r.1 }
    let s := { s with _a := s._a &&& s.bval }
    let bit7 : Nat := if (s._a &&& 0x80 : Nat) ≠ 0 then 1 else 0
    let bit6 : Nat := if (s._a &&& 0x40 : Nat) ≠ 0 then 1 else 0
    let c : Nat := if s._p &&& FLAG_C ≠ 0 then 1 else 0
    let s := SETFLAGS s FLAG_V (truthy (bit7 ^^^ bit6))
    let s := SETFLAGS s FLAG_C (truthy bit7)
    let s := { s with _a := s._a >>> 1 }
    let s := if c ≠ 0 then { s with _a := (s._a ||| 0x80) % 256 } else s
    let s := SETFLAGS s FLAG_N (truthy (s._a &&& 0x80))
    SETFLAGS s FLAG_Z (falsy s._a)
  | Mnemonic.asl, s =>
    let mode := modeOf s._opc
    let r := getInput s mode
    let wval := r.1
    let s := r.2
    let s := setOutput s mode (wval % 256)
    let wval := (wval <<< 1) % 65536
    let s := setOutput s mode (wval % 256)
    let s := SETFLAGS s FLAG_Z (falsy (wval &&& 0xff))
    let s := SETFLAGS s FLAG_N (truthy (wval &&& 0x80))
    SETFLAGS s FLAG_C (truthy (wval &&& 0x100))
  | Mnemonic.bcc, s => branch s (falsy (s._p &&& FLAG_C))
  | Mnemonic.bcs, s => branch s (truthy (s._p &&& FLAG_C))
  | Mnemonic.bne, s => branch s (falsy (s._p &&& FLAG_Z))
  | Mnemonic.beq, s => branch s (truthy (s._p &&& FLAG_Z))
  | Mnemonic.bpl, s => branch s (falsy (s._p &&& FLAG_N))
  | Mnemonic.bmi, s => branch s (truthy (s._p &&& FLAG_N))
  | Mnemonic.bvc, s => branch s (falsy (s._p &&& FLAG_V))
  | Mnemonic.bvs, s => branch s (truthy (s._p &&& FLAG_V))
  | Mnemonic.bit, s =>
    let r := getInput s (modeOf s._opc)
    let s := { r.2 with bval := r.1 }
    let s := SETFLAGS s FLAG_Z (falsy (s._a &&& s.bval))
    let s := SETFLAGS s FLAG_N (truthy (s.bval &&& 0x80))
    SETFLAGS s FLAG_V (truthy (s.bval &&& 0x40))
  | Mnemonic.brk, s =>
    let s := push s (((s._pc + 1) >>> 8) % 256)
    let s := push s ((s._pc + 1) % 256)
    let s := push s ((s._p ||| FLAG_B0 ||| FLAG_B1) % 256)
    let s := { s with _pc := memGet s 0xfffe }
    let s := { s with _pc := s._pc ||| (memGet s 0xffff <<< 8) }
    SETFLAGS s FLAG_I true
  | Mnemonic.clc, s => SETFLAGS s FLAG_C false
  | Mnemonic.cld, s => SETFLAGS s FLAG_D false
  | Mnemonic.cli, s => SETFLAGS s FLAG_I false
  | Mnemonic.clv, s => SETFLAGS s FLAG_V false
  | Mnemonic.cmp, s =>
    let r := getInput s (modeOf s._opc)
    let s := { r.2 with bval := r.1 }
    let wval := u16 ((s._a : Int) - s.bval)
    let s := SETFLAGS s FLAG_Z (falsy wval)
    let s := SETFLAGS s FLAG_N (truthy (wval &&& 0x80))
    SETFLAGS s FLAG_C (decide (s._a ≥ s.bval))
  | Mnemonic.cpx, s =>
    let r := getInput s (modeOf s._opc)
    let s := { r.2 with bval := r.1 }
    let wval := u16 ((s._x : Int) - s.bval)
    let s := SETFLAGS s FLAG_Z (falsy wval)
    let s := SETFLAGS s FLAG_N (truthy (wval &&& 0x80))
    SETFLAGS s FLAG_C (decide (s._x ≥ s.bval))
  | Mnemonic.cpy, s =>
    let r := getInput s (modeOf s._opc)
    let s := { r.2 with bval := r.1 }
    let wval := u16 ((s._y : Int) - s.bval)
    let s := SETFLAGS s FLAG_Z (falsy wval)
    let s := SETFLAGS s FLAG_N (truthy (wval &&& 0x80))
    SETFLAGS s FLAG_C (decide (s._y ≥ s.bval))
  | Mnemonic.dcp, s =>
    let mode := modeOf s._opc
    let r := getInput s mode
    let s := { r.2 with bval := r.1 }
    let s := setOutput s mode s.bval
    let s := { s with bval := (s.bval + 255) % 256 }
    let s := setOutput s mode s.bval
    let wval := u16 ((s._a : Int) - s.bval)
    let s := SETFLAGS s FLAG_Z (falsy wval)
    let s := SETFLAGS s FLAG_N (truthy (wval &&& 0x80))
    SETFLAGS s FLAG_C (decide (s._a ≥ s.bval))
  | Mnemonic.dec, s =>
    let mode := modeOf s._opc
    let r := getInput s mode
    let s := { r.2 with bval := r.1 }
    let s := setOutput s mode s.bval
    let s := { s with bval := (s.bval + 255) % 256 }
    let s := setOutput s mode s.bval
    let s := SETFLAGS s FLAG_Z (falsy s.bval)
    SETFLAGS s FLAG_N (truthy (s.bval &&& 0x80))
  | Mnemonic.dex, s =>
    let s := { s with _x := (s._x + 255) % 256 }
    let s := SETFLAGS s FLAG_Z (falsy s._x)
    SETFLAGS s FLAG_N (truthy (s._x &&& 0x80))
  | Mnemonic.dey, s =>
    let s := { s with _y := (s._y + 255) % 256 }
    let s := SETFLAGS s FLAG_Z (falsy s._y)
    SETFLAGS s FLAG_N (truthy (s._y &&& 0x80))
  | Mnemonic.eor, s =>
    let r := getInput s (modeOf s._opc)
    let s := { r.2 with bval := r.1 }
    let s := { s with _a := s._a ^^^ s.bval }
    let s := SETFLAGS s FLAG_Z (falsy s._a)
    SETFLAGS s FLAG_N (truthy (s._a &&& 0x80))
  | Mnemonic.inc, s =>
    let mode := modeOf s._opc
    let r := getInput s mode
    let s := { r.2 with bval := r.1 }
    let s := setOutput s mode s.bval
    let s := { s with bval := (s.bval + 1) % 256 }
    let s := setOutput s mode s.bval
    let s := SETFLAGS s FLAG_Z (falsy s.bval)
    SETFLAGS s FLAG_N (truthy (s.bval &&& 0x80))
  | Mnemonic.inx, s =>
    let s := { s with _x := (s._x + 1) % 256 }
    let s := SETFLAGS s FLAG_Z (falsy s._x)
    SETFLAGS s FLAG_N (truthy (s._x &&& 0x80))
  | Mnemonic.iny, s =>
    let s := { s with _y := (s._y + 1) % 256 }
    let s := SETFLAGS s FLAG_Z (falsy s._y)
    SETFLAGS s FLAG_N (truthy (s._y &&& 0x80))
  | Mnemonic.isb, s =>
    let mode := modeOf s._opc
    let r := getInput s mode
    let s := { r.2 with bval := r.1 }
    let s := setOutput s mode s.bval
    let s := { s with bval := (s.bval + 1) % 256 }
    let s := setOutput s mode s.bval
    let s := SETFLAGS s FLAG_Z (falsy s.bval)
    let s := SETFLAGS s FLAG_N (truthy (s.bval &&& 0x80))
    let in1 := s._a
    let in2 := s.bval ^^^ 0xff
    let wval := (in1 + in2 + (if s._p &&& FLAG_C ≠ 0 then 1 else 0)) % 65536
    let s := SETFLAGS s FLAG_C (truthy (wval &&& 0x100))
    let s := { s with _a := wval % 256 }
    let s := SETFLAGS s FLAG_Z (falsy s._a)
    let s := SETFLAGS s FLAG_N (truthy (s._a &&& 0x80))
    SETFLAGS s FLAG_V (truthy (((in1 ^^^ in2) ^^^ 0xffffffff) &&& (in1 ^^^ s._a) &&& 0x80))
  | Mnemonic.jam, s => { s with _pc := 0 }
  | Mnemonic.jmp, s =>
    let s := { s with bval := memGet s s._pc }
    let s := incPC s
    let wval := (memGet s s._pc <<< 8) % 65536
    let s := incPC s
    match modeOf s._opc with
    | Mode.abs => { s with _pc := wval ||| s.bval }
    | Mode.ind =>
      let s := { s with _pc := memGet s (wval ||| s.bval) }
      { s with _pc := s._pc ||| (memGet s (wval ||| ((s.bval + 1) &&& 0xff)) <<< 8) }
    | _ => s
  | Mnemonic.jsr, s =>
    let s := push s (((s._pc + 1) >>> 8) % 256)
    let s := push s ((s._pc + 1) % 256)
    let wval := memGet s s._pc
    let s := incPC s
    let wval := wval ||| (memGet s s._pc <<< 8)
    let s := incPC s
    { s with _pc := wval }
  | Mnemonic.lae, s =>
    let r := getInput s (modeOf s._opc)
    let s := { r.2 with bval := r.1 }
    let v := s.bval &&& s._s
    let s := { s with _s := v, _x := v, _a := v }
    let s := SETFLAGS s FLAG_Z (falsy s._a)
    SETFLAGS s FLAG_N (truthy (s._a &&& 0x80))
  | Mnemonic.lax, s =>
    let r := getInput s (modeOf s._opc)
    let s := { r.2 with _a := r.1 }
    let s := { s with _x := s._a }
    let s := SETFLAGS s FLAG_Z (falsy s._a)
    SETFLAGS s FLAG_N (truthy (s._a &&& 0x80))
  | Mnemonic.lxa, s =>
    let r := getInput s (modeOf s._opc)
    let s := { r.2 with bval := r.1 }
    let con : Nat := 0xff
    let s := { s with _a := s._a ||| con }
    let s := { s with _a := s._a &&& s.bval }
    let s := { s with _x := s._a }
    let s := SETFLAGS s FLAG_Z (falsy s._a)
    SETFLAGS s FLAG_N (truthy (s._a &&& 0x80))
  | Mnemonic.lda, s =>
    let r := getInput s (modeOf s._opc)
    let s := { r.2 with _a := r.1 }
    let s := SETFLAGS s FLAG_Z (falsy s._a)
    SETFLAGS s FLAG_N (truthy (s._a &&& 0x80))
  | Mnemonic.ldx, s =>
    let r := getInput s (modeOf s._opc)
    let s := { r.2 with _x := r.1 }
    let s := SETFLAGS s FLAG_Z (falsy s._x)
    SETFLAGS s FLAG_N (truthy (s._x &&& 0x80))
  | Mnemonic.ldy, s =>
    let r := getInput s (modeOf s._opc)
    let s := { r.2 with _y := r.1 }
    let s := SETFLAGS s FLAG_Z (falsy s._y)
    SETFLAGS s FLAG_N (truthy (s._y &&& 0x80))
  | Mnemonic.lsr, s =>
    let mode := modeOf s._opc
    let r := getInput s mode
    let s := { r.2 with bval := r.1 }
    let s := setOutput s mode s.bval
    let wval := s.bval
    let wval := wval >>> 1
    let s := setOutput s mode (wval % 256)
    let s := SETFLAGS s FLAG_Z (falsy wval)
    let s := SETFLAGS s FLAG_N (truthy (wval &&& 0x80))
    SETFLAGS s FLAG_C (truthy (s.bval &&& 1))
  | Mnemonic.nop, s => (getInput s (modeOf s._opc)).2
  | Mnemonic.ora, s =>
    let r := getInput s (modeOf s._opc)
    let s := { r.2 with bval := r.1 }
    let s := { s with _a := s._a ||| s.bval }
    let s := SETFLAGS s FLAG_Z (falsy s._a)
    SETFLAGS s FLAG_N (truthy (s._a &&& 0x80))
  | Mnemonic.pha, s => push s s._a
  | Mnemonic.php, s => push s ((s._p ||| FLAG_B0 ||| FLAG_B1) % 256)
  | Mnemonic.pla, s =>
    let r := pop s
    let s := { r.2 with _a := r.1 }
    let s := SETFLAGS s FLAG_Z (falsy s._a)
    SETFLAGS s FLAG_N (truthy (s._a &&& 0x80))
  | Mnemonic.plp, s =>
    let r := pop s
    let s := { r.2 with bval := r.1 }
    { s with _p := (s.bval &&& ((FLAG_B0 ||| FLAG_B1) ^^^ 0xffffffff)) % 256 }
  | Mnemonic.rla, s =>
    let mode := modeOf s._opc
    let r := getInput s mode
    let s := { r.2 with bval := r.1 }
    let s := setOutput s mode s.bval
    let c : Nat := if s._p &&& FLAG_C ≠ 0 then 1 else 0
    let s := SETFLAGS s FLAG_C (truthy (s.bval &&& 0x80))
    let s := { s with bval := (s.bval <<< 1) % 256 }
    let s := { s with bval := s.bval ||| c }
    let s := setOutput s mode s.bval
    let s := { s with _a := s._a &&& s.bval }
    let s := SETFLAGS s FLAG_Z (falsy s._a)
    SETFLAGS s FLAG_N (truthy (s._a &&& 0x80))
  | Mnemonic.rol, s =>
    let mode := modeOf s._opc
    let r := getInput s mode
    let s := { r.2 with bval := r.1 }
    let s := setOutput s mode s.bval
    let c : Nat := if s._p &&& FLAG_C ≠ 0 then 1 else 0
    let s := SETFLAGS s FLAG_C (truthy (s.bval &&& 0x80))
    let s := { s with bval := (s.bval <<< 1) % 256 }
    let s := { s with bval := s.bval ||| c }
    let s := setOutput s mode s.bval
    let s := SETFLAGS s FLAG_N (truthy (s.bval &&& 0x80))
    SETFLAGS s FLAG_Z (falsy s.bval)
  | Mnemonic.ror, s =>
    let mode := modeOf s._opc
    let r := getInput s mode
    let s := { r.2 with bval := r.1 }
    let s := setOutput s mode s.bval
    let c : Nat := if s._p &&& FLAG_C ≠ 0 then 1 else 0
    let s := SETFLAGS s FLAG_C (truthy (s.bval &&& 1))
    let s := { s with bval := s.bval >>> 1 }
    let s := { s with bval := s.bval ||| (0x80 * c) }
    let s := setOutput s mode s.bval
    let s := SETFLAGS s FLAG_N (truthy (s.bval &&& 0x80))
    SETFLAGS s FLAG_Z (falsy s.bval)
  | Mnemonic.rra, s =>
    let mode := modeOf s._opc
    let r := getInput s mode
    let s := { r.2 with bval := r.1 }
    let s := setOutput s mode s.bval
    let c : Nat := if s._p &&& FLAG_C ≠ 0 then 1 else 0
    let s := SETFLAGS s FLAG_C (truthy (s.bval &&& 1))
    let s := { s with bval := s.bval >>> 1 }
    let s := { s with bval := s.bval ||| (0x80 * c) }
    let s := setOutput s mode s.bval
    let in1 := s._a
    let in2 := s.bval
    let wval := (in1 + in2 + (if s._p &&& FLAG_C ≠ 0 then 1 else 0)) % 65536
    let s := SETFLAGS s FLAG_C (truthy (wval &&& 0x100))
    let s := { s with _a := wval % 256 }
    let s := SETFLAGS s FLAG_Z (falsy s._a)
    let s := SETFLAGS s FLAG_N (truthy (s._a &&& 0x80))
    SETFLAGS s FLAG_V (truthy (((in1 ^^^ in2) ^^^ 0xffffffff) &&& (in1 ^^^ s._a) &&& 0x80))
  | Mnemonic.rti, s =>
    let r := pop s
    let s := { r.2 with bval := r.1 }
    let s := { s with _p := (s.bval &&& ((FLAG_B0 ||| FLAG_B1) ^^^ 0xffffffff)) % 256 }
    let r := pop s
    let wval := r.1
    let s := r.2
    let r := pop s
    let wval := wval ||| (r.1 <<< 8)
    let s := r.2
    let s := { s with _pc := wval }
    { s with nmi_marker := false }
  | Mnemonic.rts, s =>
    let r := pop s
    let wval := r.1
    let s := r.2
    let r := pop s
    let wval := wval ||| (r.1 <<< 8)
    let s := r.2
    { s with _pc := (wval + 1) % 65536 }
  | Mnemonic.sbc, s =>
    let r := getInput s (modeOf s._opc)
    let s := { r.2 with bval := r.1 ^^^ 0xff }
    let in1 := s._a
    let in2 := s.bval
    let wval := (in1 + in2 + (if s._p &&& FLAG_C ≠ 0 then 1 else 0)) % 65536
    let s := SETFLAGS s FLAG_C (truthy (wval &&& 0x100))
    let s := { s with _a := wval % 256 }
    let s := SETFLAGS s FLAG_Z (falsy s._a)
    let s := SETFLAGS s FLAG_N (truthy (s._a &&& 0x80))
    SETFLAGS s FLAG_V (truthy (((in1 ^^^ in2) ^^^ 0xffffffff) &&& (in1 ^^^ s._a) &&& 0x80))
  | Mnemonic.sha, s =>
    let mode := modeOf s._opc
    let h := getH1 s mode
    let r := getInput s mode
    let s := { r.2 with bval := r.1 }
    let s := setOutput s mode s.bval
    let s := { s with bval := s._a &&& s._x &&& h }
    setOutput s mode s.bval
  | Mnemonic.shx, s =>
    let mode := modeOf s._opc
    let h := getH1 s mode
    let r := getInput s mode
    let s := { r.2 with bval := r.1 }
    let s := setOutput s mode s.bval
    let s := { s with bval := s._x &&& h }
    setOutput s mode s.bval
  | Mnemonic.shy, s =>
    let mode := modeOf s._opc
    let h := getH1 s mode
    let r := getInput s mode
    let s := { r.2 with bval := r.1 }
    let s := setOutput s mode s.bval
    let s := { s with bval := s._y &&& h }
    setOutput s mode s.bval
  | Mnemonic.sax, s =>
    let mode := modeOf s._opc
    let s := (getInput s mode).2
    let s := setOutput s mode s.bval
    let s := { s with bval := s._a &&& s._x }
    setOutput s mode s.bval
  | Mnemonic.sbx, s =>
    let r := getInput s (modeOf s._opc)
    let s := { r.2 with bval := r.1 }
    let s := SETFLAGS s FLAG_C (decide ((s._x &&& s._a) ≥ s.bval))
    let s := { s with _x := u8 (((s._x &&& s._a : Nat) : Int) - s.bval) }
    let s := SETFLAGS s FLAG_Z (falsy s._x)
    SETFLAGS s FLAG_N (truthy (s._x &&& 0x80))
  | Mnemonic.sec, s => SETFLAGS s FLAG_C true
  | Mnemonic.sed, s => SETFLAGS s FLAG_D true
  | Mnemonic.sei, s => SETFLAGS s FLAG_I true
  | Mnemonic.shs, s =>
    let s := { s with _s := s._a &&& s._x }
    let mode := modeOf s._opc
    let h := getH1 s mode
    let r := getInput s mode
    let s := { r.2 with bval := r.1 }
    let s := setOutput s mode s.bval
    let s := { s with bval := s._s &&& h }
    setOutput s mode s.bval
  | Mnemonic.slo, s =>
    let mode := modeOf s._opc
    let r := getInput s mode
    let s := { r.2 with bval := r.1 }
    let s := setOutput s mode s.bval
    let wval := s.bval
    let wval := (wval <<< 1) % 65536
    let s := setOutput s mode (wval % 256)
    let s := SETFLAGS s FLAG_C (truthy (wval &&& 0x100))
    let s := { s with bval := wval &&& 0xff }
    let s := { s with _a := s._a ||| s.bval }
    let s := SETFLAGS s FLAG_Z (falsy s._a)
    SETFLAGS s FLAG_N (truthy (s._a &&& 0x80))
  | Mnemonic.sre, s =>
    let mode := modeOf s._opc
    let r := getInput s mode
    let s := { r.2 with bval := r.1 }
    let s := setOutput s mode s.bval
    let wval := s.bval
    let wval := wval >>> 1
    let s := setOutput s mode (wval % 256)
    let s := SETFLAGS s FLAG_Z (falsy wval)
    let s := SETFLAGS s FLAG_N (truthy (wval &&& 0x80))
    let s := SETFLAGS s FLAG_C (truthy (s.bval &&& 1))
    let s := { s with bval := wval &&& 0xff }
    let s := { s with _a := s._a ^^^ s.bval }
    let s := SETFLAGS s FLAG_Z (falsy s._a)
    SETFLAGS s FLAG_N (truthy (s._a &&& 0x80))
  | Mnemonic.sta, s => operationSTx s (modeOf s._opc) s._a
  | Mnemonic.stx, s => operationSTx s (modeOf s._opc) s._x
  | Mnemonic.sty, s => operationSTx s (modeOf s._opc) s._y
  | Mnemonic.tax, s =>
    let s := { s with _x := s._a }
    let s := SETFLAGS s FLAG_Z (falsy s._x)
    SETFLAGS s FLAG_N (truthy (s._x &&& 0x80))
  | Mnemonic.tay, s =>
    let s := { s with _y := s._a }
    let s := SETFLAGS s FLAG_Z (falsy s._y)
    SETFLAGS s FLAG_N (truthy (s._y &&& 0x80))
  | Mnemonic.tsx, s =>
    let s := { s with _x := s._s }
    let s := SETFLAGS s FLAG_Z (falsy s._x)
    SETFLAGS s FLAG_N (truthy (s._x &&& 0x80))
  | Mnemonic.txa, s =>
    let s := { s with _a := s._x }
    let s := SETFLAGS s FLAG_Z (falsy s._a)
    SETFLAGS s FLAG_N (truthy (s._a &&& 0x80))
  | Mnemonic.txs, s => { s with _s := s._x }
  | Mnemonic.tya, s =>
    let s := { s with _a := s._y }
    let s := SETFLAGS s FLAG_Z (falsy s._a)
    SETFLAGS s FLAG_N (truthy (s._a &&& 0x80))
  | Mnemonic.sti, s => (getInput s (modeOf s._opc)).2
  | Mnemonic.stn, s => (getInput s (modeOf s._opc)).2
  | Mnemonic.nul, s => (getInput s (modeOf s._opc)).2

/-- The function `runPrefetchedOp()`: executes the complete instruction whose
opcode was latched in `_exe_instr_opcode`. -/
def runPrefetchedOp (s : Cpu) : Cpu :=
  let s := incPC s
  let s := { s with _opc := u8 s._exe_instr_opcode }
  runPrefetchedOp_switch (mnemonicOf s._opc) s

/-! ## Interrupt sampling and the clock -/

/-- Conversion to `int8_t` (two's-complement wrap). -/
def wrap8 (z : Int) : Int := (z + 128) % 256 - 128

/-- Unsigned 32-bit difference `a - b` of two cycle stamps. -/
def sub32 (a b : Nat) : Nat := (a % 4294967296 + 4294967296 - b % 4294967296) % 4294967296

/-- The macro `EXECUTING_SEI_LAST_CYCLE`. -/
def EXECUTING_SEI_LAST_CYCLE (s : Cpu) : Bool :=
  decide (s._exe_instr_opcode = (SEI_OP : Int)) && decide (s._exe_instr_cycles_remain = 1)

/-- The macro `CHECK_FOR_IRQ()`. -/
def CHECK_FOR_IRQ (s : Cpu) (ln : Lines) : Cpu :=
  if (falsy (s._p &&& FLAG_I) && !EXECUTING_SEI_LAST_CYCLE s) && (ln.vicIRQ || ln.ciaIRQ) then
    if s._irq_line_ts = 0 then
      { s with _irq_committed := true, _irq_line_ts := ln.sysCycles % 4294967296 }
    else s
  else
    if !s._irq_committed then { s with _irq_line_ts := 0 } else s

/-- The macro `AFTER_SEI`. -/
def AFTER_SEI (s : Cpu) : Bool := decide (s._opc = SEI_OP)

/-- The macro `IS_IRQ_PENDING()`. -/
def IS_IRQ_PENDING (s : Cpu) (ln : Lines) : Bool :=
  if s._irq_committed then
    (AFTER_SEI s && decide (sub32 ln.sysCycles s._irq_line_ts ≥ 1)) ||
      (falsy (s._p &&& FLAG_I) &&
        decide (sub32 ln.sysCycles s._irq_line_ts ≥ s._interrupt_lead_time))
  else false

/-- The macro `CHECK_FOR_NMI()`. -/
def CHECK_FOR_NMI (s : Cpu) (ln : Lines) : Cpu :=
  if ln.ciaNMI then
    if !s._nmi_line then
      { s with _nmi_committed := true, _nmi_line := true,
               _nmi_line_ts := ln.sysCycles % 4294967296 }
    else s
  else
    let s := { s with _nmi_line := false }
    if !s._nmi_committed then { s with _nmi_line_ts := 0 } else s

/-- The macro `IS_NMI_PENDING()`. -/
def IS_NMI_PENDING (s : Cpu) (ln : Lines) : Bool :=
  if s._nmi_committed then
    decide (sub32 ln.sysCycles s._nmi_line_ts ≥ s._interrupt_lead_time)
  else false

/-- The macro `CHECK_FOR_VIC_STUN(is_stunned)`: the value left in `is_stunned`. -/
def CHECK_FOR_VIC_STUN (s : Cpu) (ln : Lines) : Bool :=
  let stun_mode := ln.vicStunCPU % 256
  if stun_mode ≠ 0 then
    if stun_mode = 2 ∨ s._exe_instr_opcode < 0 then true
    else
      let bus_write := writeCycle s._exe_instr_opcode.toNat
      if bus_write ≠ 0 then
        let p := wrap8 (s._exe_instr_cycles - s._exe_instr_cycles_remain)
        if p ≥ (bus_write : Int) then false else true
      else true
  else false

/-- The completion sequence of the `START_IRQ_OP` pseudo operation. -/
def completeIRQ (s : Cpu) : Cpu :=
  let s := push s ((s._pc >>> 8) % 256)
  let s := push s (s._pc &&& 0xff)
  let s := push s ((s._p ||| FLAG_B1) % 256)
  let s := SETFLAGS s FLAG_I true
  let s := { s with _pc := memGet s 0xfffe }
  { s with _pc := s._pc ||| (memGet s 0xffff <<< 8) }

/-- The completion sequence of the `START_NMI_OP` pseudo operation. -/
def completeNMI (s : Cpu) : Cpu :=
  let s := push s ((s._pc >>> 8) % 256)
  let s := push s (s._pc &&& 0xff)
  let s := push s ((s._p ||| FLAG_B1) % 256)
  let s := SETFLAGS s FLAG_I true
  let s := { s with _pc := memGet s 0xfffa }
  { s with _pc := s._pc ||| (memGet s 0xfffb <<< 8) }

/-- The function `cpuClockRSID()`: one system clock cycle of the full clock. -/
def cpuClockRSID (s : Cpu) (ln : Lines) : Cpu :=
  let s := CHECK_FOR_IRQ s ln
  let s := CHECK_FOR_NMI s ln
  if CHECK_FOR_VIC_STUN s ln then s
  else if s._exe_instr_opcode < 0 then
    let s :=
      if IS_NMI_PENDING s ln then
        let s := { s with nmi_marker := true }
        let s := { s with _nmi_committed := false }
        let s := { s with _nmi_line_ts := 0 }
        let s := { s with _exe_instr_opcode := (START_NMI_OP : Int) }
        { s with _exe_instr_cycles := baseCycles s._exe_instr_opcode.toNat }
      else if IS_IRQ_PENDING s ln then
        let s := { s with _irq_committed := false }
        let s := { s with _exe_instr_opcode := (START_IRQ_OP : Int) }
        { s with _exe_instr_cycles := baseCycles s._exe_instr_opcode.toNat }
      else prefetchOperation s
    { s with _exe_instr_cycles_remain := wrap8 (s._exe_instr_cycles - 1) }
  else
    let s := { s with _exe_instr_cycles_remain := wrap8 (s._exe_instr_cycles_remain - 1) }
    if s._exe_instr_cycles_remain = 0 then
      let s :=
        if s._exe_instr_opcode = (START_IRQ_OP : Int) then completeIRQ s
        else if s._exe_instr_opcode = (START_NMI_OP : Int) then completeNMI s
        else if s._exe_instr_opcode = (NULL_OP : Int) then s
        else runPrefetchedOp s
      { s with _exe_instr_opcode := -1, _exe_instr_cycles_remain := 0, _exe_instr_cycles := 0 }
    else s

/-- The function `cpuClockPSID()`: the reduced clock without NMI handling and
without the stun check. -/
def cpuClockPSID (s : Cpu) (ln : Lines) : Cpu :=
  let s := CHECK_FOR_IRQ s ln
  if s._exe_instr_opcode < 0 then
    let s :=
      if IS_IRQ_PENDING s ln then
        let s := { s with _irq_committed := false }
        let s := { s with _exe_instr_opcode := (START_IRQ_OP : Int) }
        { s with _exe_instr_cycles := baseCycles s._exe_instr_opcode.toNat }
      else prefetchOperation s
    { s with _exe_instr_cycles_remain := wrap8 (s._exe_instr_cycles - 1) }
  else
    let s := { s with _exe_instr_cycles_remain := wrap8 (s._exe_instr_cycles_remain - 1) }
    if s._exe_instr_cycles_remain = 0 then
      let s :=
        if s._exe_instr_opcode = (START_IRQ_OP : Int) then completeIRQ s
        else if s._exe_instr_opcode = (NULL_OP : Int) then s
        else runPrefetchedOp s
      { s with _exe_instr_opcode := -1, _exe_instr_cycles_remain := 0, _exe_instr_cycles := 0 }
    else s

/-- The function `cpuInit(is_rsid)` (non-TEST build). -/
def cpuInit (s : Cpu) (is_rsid : Nat) : Cpu :=
  let s := { s with cpuClock_rsid := truthy is_rsid }
  let s := { s with _pc := 0, _a := 0, _x := 0, _y := 0, _s := 0, _p := 0 }
  let s := { s with _exe_instr_cycles := 0, _exe_instr_cycles_remain := 0 }
  let s := { s with _exe_instr_opcode := -1 }
  let s := { s with _irq_line_ts := 0, _irq_committed := false }
  let s := { s with _nmi_line := false, _nmi_line_ts := 0, _nmi_committed := false }
  { s with nmi_marker := false }

/-- The call `(*cpuClock)()` through the function pointer set by `cpuInit`. -/
def cpuClock (s : Cpu) (ln : Lines) : Cpu :=
  if s.cpuClock_rsid then cpuClockRSID s ln else cpuClockPSID s ln

/-- Consecutive ticks of `cpuClockRSID`, one per element of the signal trace. -/
def runRSID (s : Cpu) : List Lines → Cpu
  | [] => s
  | ln :: rest => runRSID (cpuClockRSID s ln) rest

/-! ## Classification of a tick

The predicates below name the branch of `cpuClockRSID` that a tick takes; each
is the conjunction of the branch conditions of the source, evaluated after the
interrupt sampling of that tick. -/

/-- State after the two sampling macros at the start of a tick. -/
def sampled (s : Cpu) (ln : Lines) : Cpu := CHECK_FOR_NMI (CHECK_FOR_IRQ s ln) ln

/-- The tick returns early because the CPU is stunned. -/
def tickStunned (s : Cpu) (ln : Lines) : Bool := CHECK_FOR_VIC_STUN (sampled s ln) ln

/-- The tick is an idle tick that gets past the stun check. -/
def tickIdle (s : Cpu) (ln : Lines) : Bool :=
  !tickStunned s ln && decide ((sampled s ln)._exe_instr_opcode < 0)

/-- The tick loads the `START_NMI_OP` pseudo operation. -/
def dispatchesNMI (s : Cpu) (ln : Lines) : Bool :=
  tickIdle s ln && IS_NMI_PENDING (sampled s ln) ln

/-- The tick loads the `START_IRQ_OP` pseudo operation. -/
def dispatchesIRQ (s : Cpu) (ln : Lines) : Bool :=
  tickIdle s ln && !IS_NMI_PENDING (sampled s ln) ln && IS_IRQ_PENDING (sampled s ln) ln

/-- The tick calls `prefetchOperation`. -/
def tickFetches (s : Cpu) (ln : Lines) : Bool :=
  tickIdle s ln && !IS_NMI_PENDING (sampled s ln) ln && !IS_IRQ_PENDING (sampled s ln) ln

/-- The tick completes the instruction in flight. -/
def tickCompletes (s : Cpu) (ln : Lines) : Bool :=
  !tickStunned s ln && decide (0 ≤ (sampled s ln)._exe_instr_opcode) &&
    decide (wrap8 ((sampled s ln)._exe_instr_cycles_remain - 1) = 0)

/-! ## Vocabulary of the timing claims -/

/-- The page-penalty set of mnemonics. -/
def pagePenaltySet : List Mnemonic :=
  [Mnemonic.adc, Mnemonic.and, Mnemonic.cmp, Mnemonic.eor, Mnemonic.lae, Mnemonic.lax,
   Mnemonic.lda, Mnemonic.ldx, Mnemonic.ldy, Mnemonic.nop, Mnemonic.ora, Mnemonic.sbc]

/-- The un-indexed base address of the instruction at `_pc`: the absolute
operand for absolute-X/Y, the content of the zero-page pointer for
indirect-indexed. -/
def unindexedBase (s : Cpu) (mode : Mode) : Nat :=
  match mode with
  | Mode.idy =>
    let zp := memGet s (s._pc + 1)
    memGet s zp + 256 * memGet s ((zp + 1) % 256)
  | _ => memGet s (s._pc + 1) + 256 * memGet s (s._pc + 2)

/-- The index register an addressing mode adds. -/
def indexReg (s : Cpu) (mode : Mode) : Nat :=
  match mode with
  | Mode.abx => s._x
  | _ => s._y

/-- The eight conditional branch opcodes BPL, BMI, BVC, BVS, BCC, BCS, BNE, BEQ. -/
def branchOpcodes : List Nat := [0x10, 0x30, 0x50, 0x70, 0x90, 0xB0, 0xD0, 0xF0]

/-- Whether the branch `opc` is taken under the current flags. -/
def branchCondition (s : Cpu) (opc : Nat) : Bool :=
  if opc = 0x10 then falsy (s._p &&& FLAG_N)
  else if opc = 0x30 then truthy (s._p &&& FLAG_N)
  else if opc = 0x50 then falsy (s._p &&& FLAG_V)
  else if opc = 0x70 then truthy (s._p &&& FLAG_V)
  else if opc = 0x90 then falsy (s._p &&& FLAG_C)
  else if opc = 0xB0 then truthy (s._p &&& FLAG_C)
  else if opc = 0xD0 then falsy (s._p &&& FLAG_Z)
  else if opc = 0xF0 then truthy (s._p &&& FLAG_Z)
  else false

/-- Address of the byte following a two-byte instruction at `_pc`. -/
def nextInstr (s : Cpu) : Nat := (s._pc + 2) % 65536

/-- Target of the relative branch at `_pc`: `PC + 2 + signed displacement`,
modulo `2^16`. -/
def branchTarget (s : Cpu) : Nat := u16 ((nextInstr s : Int) + int8 (memGet s (s._pc + 1)))

/-- Two addresses have the same high byte. -/
def samePage (a b : Nat) : Bool := decide (a / 256 = b / 256)

/-- The mnemonic is one of the eight conditional branches. -/
def isBranch : Mnemonic → Bool
  | Mnemonic.bcc | Mnemonic.bcs | Mnemonic.bne | Mnemonic.beq
  | Mnemonic.bpl | Mnemonic.bmi | Mnemonic.bvc | Mnemonic.bvs => true
  | _ => false

/-! ## Concrete machine states used as witnesses -/

/-- Memory holding the listed bytes and zero elsewhere. -/
def memOf (l : List (Nat × Nat)) : Nat → Nat := fun a => (l.lookup a).getD 0

/-- An idle CPU over empty memory. -/
def blank : Cpu :=
  { _pc := 0, _a := 0, _x := 0, _y := 0, _s := 0xff, _p := 0, _interrupt_lead_time := 2,
    _irq_committed := false, _irq_line_ts := 0, _nmi_committed := false, _nmi_line := false,
    _nmi_line_ts := 0, _opc := 0, _exe_instr_opcode := -1, _exe_instr_cycles := 0,
    _exe_instr_cycles_remain := 0, bval := 0, mem := fun _ => 0, writes := [],
    nmi_marker := false, cpuClock_rsid := true }

/-- All lines inactive at cycle `t`. -/
def quiet (t : Nat) : Lines :=
  { vicIRQ := false, ciaIRQ := false, ciaNMI := false, vicStunCPU := 0, sysCycles := t }

/-- Scenario "boundary crossed": `LDA $20FF,X` at `$1000` with `X = 1`. -/
def scenLdaAbx : Cpu :=
  { blank with
    _pc := 0x1000
    _x := 1
    mem := memOf [(0x1000, 0xBD), (0x1001, 0xFF), (0x1002, 0x20), (0x2100, 0x77)] }

/-- Scenario "taken branch, same page": `BNE +2` at `$4000` with `Z = 0`. -/
def scenBne : Cpu :=
  { blank with
    _pc := 0x4000
    mem := memOf [(0x4000, 0xD0), (0x4001, 0x02)] }

/-! ## Vocabulary of the clock claims -/

/-- The registers `PC, A, X, Y, S, P`, the memory and the write log of `t` are
those of `s`. -/
def sameRegsMem (s t : Cpu) : Prop :=
  t._pc = s._pc ∧ t._a = s._a ∧ t._x = s._x ∧ t._y = s._y ∧ t._s = s._s ∧ t._p = s._p ∧
  t.mem = s.mem ∧ t.writes = s.writes

/-- The in-flight record is idle: `opcode = -1`, `cycles_total = cycles_remaining = 0`. -/
def idleRecord (s : Cpu) : Prop :=
  s._exe_instr_opcode = -1 ∧ s._exe_instr_cycles = 0 ∧ s._exe_instr_cycles_remain = 0

/-- The last four statements of a completing tick applied to the result `t` of
the instruction's effect: the in-flight record is reset. -/
def retire (t : Cpu) : Cpu :=
  { t with _exe_instr_opcode := -1, _exe_instr_cycles_remain := 0, _exe_instr_cycles := 0 }

/-- The sampling of this tick records a new NMI commitment (the inner branch of
`CHECK_FOR_NMI` is entered). -/
def commitsNMI (s : Cpu) (ln : Lines) : Bool := ln.ciaNMI && !(CHECK_FOR_IRQ s ln)._nmi_line

/-- State after the first `n` ticks of `cpuClockRSID`, tick `j` (counted from 0)
reading the signals `ln j`. -/
def runTicks (s : Cpu) (ln : Nat → Lines) : Nat → Cpu
  | 0 => s
  | n + 1 => cpuClockRSID (runTicks s ln n) (ln n)

/-- Number of the first `n` ticks that load `START_IRQ_OP`. -/
def irqDispatches (s : Cpu) (ln : Nat → Lines) : Nat → Nat
  | 0 => 0
  | n + 1 => irqDispatches s ln n + (if dispatchesIRQ (runTicks s ln n) (ln n) then 1 else 0)

/-- The condition of the outer `if` of `CHECK_FOR_IRQ`: I clear, not in the last
cycle of an SEI, and the VIC or CIA interrupt line asserted. -/
def irqSampleCond (s : Cpu) (ln : Lines) : Bool :=
  (falsy (s._p &&& FLAG_I) && !EXECUTING_SEI_LAST_CYCLE s) && (ln.vicIRQ || ln.ciaIRQ)

/-- The SEI-then-IRQ scenario: an idle CPU with I clear, no interrupt
committed and no IRQ stamp recorded (`_irq_line_ts = 0`) has `PC` at an SEI
opcode; during the first nine ticks there is no NMI and no stun, the cycle
counter advances by one per tick from `c`, and the IRQ line is high on the
first tick. -/
structure SeiIrqScenario (s : Cpu) (c : Nat) (ln : Nat → Lines) : Prop where
  wf : s.WF
  idle : s._exe_instr_opcode = -1
  iclear : s._p &&& FLAG_I = 0
  irq_uncommitted : s._irq_committed = false
  irq_unstamped : s._irq_line_ts = 0
  nmi_uncommitted : s._nmi_committed = false
  lead : 0 < s._interrupt_lead_time
  sei : memGet s s._pc = SEI_OP
  quiet : ∀ j, j < 9 →
    (ln j).ciaNMI = false ∧ (ln j).vicStunCPU = 0 ∧ (ln j).sysCycles = c + j
  irq_high : ((ln 0).vicIRQ || (ln 0).ciaIRQ) = true

/-- The status byte pushed by the interrupt entry that follows an SEI executed
with status `p`. -/
def pushedStatusAfterSei (p : Nat) : Nat := (((p ||| FLAG_I) % 256) ||| FLAG_B1) % 256

/-- Scenario "SEI then IRQ": `SEI` at `$5000`, IRQ vector `$6000`. -/
def scenSei : Cpu :=
  { blank with
    _pc := 0x5000
    mem := memOf [(0x5000, 0x78), (0xfffe, 0x00), (0xffff, 0x60)] }

/-- Signal trace with the CIA interrupt line high from cycle 10 on. -/
def irqHighFrom10 (j : Nat) : Lines :=
  { vicIRQ := false, ciaIRQ := true, ciaNMI := false, vicStunCPU := 0, sysCycles := 10 + j }

/-- Signal trace with the CIA NMI line high from cycle 10 on. -/
def nmiHighFrom10 (j : Nat) : Lines :=
  { vicIRQ := false, ciaIRQ := false, ciaNMI := true, vicStunCPU := 0, sysCycles := 10 + j }

/-- Signal trace with the CIA interrupt line and the CIA NMI line high from
cycle 10 on. -/
def bothHighFrom10 (j : Nat) : Lines :=
  { vicIRQ := false, ciaIRQ := true, ciaNMI := true, vicStunCPU := 0, sysCycles := 10 + j }

/-- Scenario "pseudo-op byte": the byte `$02` at `$1000`, IRQ vector `$1234`. -/
def scenPseudo : Cpu :=
  { blank with
    _pc := 0x1000
    mem := memOf [(0x1000, 0x02), (0xfffe, 0x34), (0xffff, 0x12)] }

/-- The four-part condition under which `CHECK_FOR_IRQ` records a commitment:
the IRQ line (VIC or CIA) is asserted, I is clear, the CPU is not in the last
cycle of an SEI, and no cycle stamp is recorded (`_irq_line_ts` is 0). -/
def commitsIRQ (s : Cpu) (ln : Lines) : Prop :=
  (ln.vicIRQ || ln.ciaIRQ) = true ∧ s._p &&& FLAG_I = 0 ∧
  ¬ (s._exe_instr_opcode = (SEI_OP : Int) ∧ s._exe_instr_cycles_remain = 1) ∧
  s._irq_line_ts = 0

/-- Scenario "NOP sled": every byte of memory is `$EA` (NOP), `PC = $1000`. -/
def scenNops : Cpu :=
  { blank with
    _pc := 0x1000
    mem := fun _ => 0xEA }

/-- The operand address of the three-byte instruction at `_pc`. -/
def operandAddr (s : Cpu) : Nat := memGet s (s._pc + 1) + 256 * memGet s (s._pc + 2)

/-- Scenario "indirect JMP at a page end": `JMP ($30FF)` at `$2000`, in flight. -/
def scenJmpInd : Cpu :=
  { blank with
    _pc := 0x2000
    _exe_instr_opcode := 0x6C
    _exe_instr_cycles := 5
    _exe_instr_cycles_remain := 1
    mem := memOf [(0x2000, 0x6C), (0x2001, 0xFF), (0x2002, 0x30), (0x30FF, 0x34),
      (0x3000, 0x12), (0x3100, 0x56)] }

/-- The vector address of an interrupt pseudo operation: `$FFFE` for
`START_IRQ_OP`, `$FFFA` for `START_NMI_OP`. -/
def vectorOf (opcode : Int) : Nat := if opcode = (START_IRQ_OP : Int) then 0xfffe else 0xfffa

/-- Scenario "interrupt entry at a wrapping stack": `START_IRQ_OP` in its last
cycle with `PC = $1234`, `S = $01`, `P = $03` and the IRQ vector `$6000`. -/
def scenEntry : Cpu :=
  { blank with
    _pc := 0x1234
    _s := 0x01
    _p := 0x03
    _exe_instr_opcode := 0x02
    _exe_instr_cycles := 7
    _exe_instr_cycles_remain := 1
    mem := memOf [(0xfffe, 0x00), (0xffff, 0x60), (0x6000, 0x40)] }

/-- Scenario "RTI after the entry": the state left by the entry of `scenEntry`,
with the RTI at `$6000` in its last cycle. -/
def scenRti : Cpu :=
  { cpuClockRSID scenEntry (quiet 10) with
    _exe_instr_opcode := 0x40
    _exe_instr_cycles := 6
    _exe_instr_cycles_remain := 1 }

/-- All lines inactive at cycle `t`, with the video chip reporting stun mode
`mode`. -/
def stunAt (mode t : Nat) : Lines :=
  { vicIRQ := false, ciaIRQ := false, ciaNMI := false, vicStunCPU := mode, sysCycles := t }

/-- Scenario "store under stun": `STA $10` at `$1000` with `A = $55`. -/
def scenSta : Cpu :=
  { blank with
    _pc := 0x1000
    _a := 0x55
    mem := memOf [(0x1000, 0x85), (0x1001, 0x10)] }

/-- Signal trace for `scenSta`: no stun on the first two ticks, stun mode 1
(WRITE_ALLOWED) from the third tick on. -/
def stunFromThird (j : Nat) : Lines :=
  { vicIRQ := false, ciaIRQ := false, ciaNMI := false,
    vicStunCPU := if j < 2 then 0 else 1, sysCycles := 10 + j }

/-- The function `cpuSetProgramCounterPSID(pc)`. -/
def cpuSetProgramCounterPSID (s : Cpu) (pc : Nat) : Cpu :=
  let s := { s with _pc := pc % 65536 }
  SETFLAGS s FLAG_I false

/-- The value `SETFLAGS(flag, cond)` leaves in a status register holding `p`. -/
def setFlag (p flag : Nat) (cond : Bool) : Nat :=
  (SETFLAGS { blank with _p := p } flag cond)._p

/-- The status register holds a byte whose bits B0 (`$10`) and B1 (`$20`) are
clear. -/
def StatusClean (p : Nat) : Prop := p < 256 ∧ p &&& (FLAG_B0 ||| FLAG_B1) = 0

/-- The states the emulator can be in: those left by `cpuInit`, called on any
earlier content of the static variables and of memory, and by any sequence of
clock ticks through the `cpuClock` pointer with any line and stun signals, of
calls of `cpuSetProgramCounter`, `cpuSetProgramCounterPSID` and
`cpuIrqFlagPSID`, and of changes of memory by the rest of the system. -/
inductive Reachable : Cpu → Prop
  | init (s0 : Cpu) (is_rsid : Nat) : Reachable (cpuInit s0 is_rsid)
  | clock (s : Cpu) (ln : Lines) : Reachable s → Reachable (cpuClock s ln)
  | setPC (s : Cpu) (pc a : Nat) : Reachable s → Reachable (cpuSetProgramCounter s pc a)
  | setPCPSID (s : Cpu) (pc : Nat) : Reachable s → Reachable (cpuSetProgramCounterPSID s pc)
  | irqFlag (s : Cpu) (on' : Nat) : Reachable s → Reachable (cpuIrqFlagPSID s on')
  | poke (s : Cpu) (m : Nat → Nat) : Reachable s → Reachable { s with mem := m }

/-- The in-flight record is in one of its three regular shapes: idle; an
instruction with at least two cycles in flight, `1 ≤ cycles_remaining <
cycles_total ≤ 10`; or a JAM opcode (base cycles 0) in flight, with
`cycles_total = 0` and a non-zero `cycles_remaining` anywhere in the `int8_t`
range. -/
def RecordOK (s : Cpu) : Prop :=
  idleRecord s ∨
  (0 ≤ s._exe_instr_opcode ∧ 2 ≤ s._exe_instr_cycles ∧ s._exe_instr_cycles ≤ 10 ∧
    1 ≤ s._exe_instr_cycles_remain ∧ s._exe_instr_cycles_remain < s._exe_instr_cycles) ∨
  (0 ≤ s._exe_instr_opcode ∧ mnemonicOf s._exe_instr_opcode.toNat = Mnemonic.jam ∧
    s._exe_instr_cycles = 0 ∧ s._exe_instr_cycles_remain ≠ 0 ∧
    -128 ≤ s._exe_instr_cycles_remain ∧ s._exe_instr_cycles_remain ≤ 127)

/-- Scenario "JAM at the reset address": every byte of memory is `$32`. -/
def scenJam : Cpu :=
  { blank with mem := fun _ => 0x32 }

/-- State after the first `n` calls of the clock function through the
`cpuClock` pointer, tick `j` reading the signals `ln j`. -/
def runClock (s : Cpu) (ln : Nat → Lines) : Nat → Cpu
  | 0 => s
  | n + 1 => cpuClock (runClock s ln n) (ln n)

/-- Scenario "PLP of `$FF`": `PLP` at the reset address `$0000`, the byte `$FF`
on the stack at `$0101`. -/
def scenPlp : Cpu :=
  { blank with mem := memOf [(0x0000, 0x28), (0x0101, 0xFF)] }

/-- The twelve read-modify-write mnemonics. -/
def rmwMnemonics : List Mnemonic :=
  [Mnemonic.asl, Mnemonic.lsr, Mnemonic.rol, Mnemonic.ror, Mnemonic.inc, Mnemonic.dec,
   Mnemonic.slo, Mnemonic.sre, Mnemonic.rla, Mnemonic.rra, Mnemonic.isb, Mnemonic.dcp]

/-- The addressing modes whose operand is a memory location. -/
def memoryModes : List Mode :=
  [Mode.abs, Mode.abx, Mode.aby, Mode.zpg, Mode.zpx, Mode.zpy, Mode.idx, Mode.idy]

/-- Number of operand bytes `getInput` consumes in a memory addressing mode. -/
def operandBytes (mode : Mode) : Nat :=
  match mode with
  | Mode.abs => 2
  | Mode.abx => 2
  | Mode.aby => 2
  | _ => 1

/-- The address `getInput(mode)` reads its operand from, `_pc` pointing at the
first operand byte: the effective address of the instruction. -/
def effectiveAddr (s : Cpu) (mode : Mode) : Nat :=
  match mode with
  | Mode.abs => memGet s s._pc ||| (memGet s (s._pc + 1) <<< 8)
  | Mode.abx => ((memGet s s._pc ||| (memGet s (s._pc + 1) <<< 8)) + s._x) % 65536
  | Mode.aby => ((memGet s s._pc ||| (memGet s (s._pc + 1) <<< 8)) + s._y) % 65536
  | Mode.zpg => memGet s s._pc
  | Mode.zpx => (memGet s s._pc + s._x) &&& 0xff
  | Mode.zpy => (memGet s s._pc + s._y) &&& 0xff
  | Mode.idx =>
    memGet s ((memGet s s._pc + s._x) &&& 0xff)
      ||| (memGet s ((memGet s s._pc + s._x + 1) &&& 0xff) <<< 8)
  | Mode.idy =>
    ((memGet s (memGet s s._pc) ||| (memGet s ((memGet s s._pc + 1) &&& 0xff) <<< 8))
      + s._y) % 65536
  | _ => 0

/-- The byte a read-modify-write instruction stores with its second write, from
the byte `v` it read and the carry `c` (0 or 1) it found in `P`. -/
def rmwValue (m : Mnemonic) (v c : Nat) : Nat :=
  match m with
  | Mnemonic.asl => (v <<< 1) % 256
  | Mnemonic.slo => (v <<< 1) % 256
  | Mnemonic.lsr => v >>> 1
  | Mnemonic.sre => v >>> 1
  | Mnemonic.rol => (v <<< 1) % 256 ||| c
  | Mnemonic.rla => (v <<< 1) % 256 ||| c
  | Mnemonic.ror => v >>> 1 ||| (0x80 * c)
  | Mnemonic.rra => v >>> 1 ||| (0x80 * c)
  | Mnemonic.inc => (v + 1) % 256
  | Mnemonic.isb => (v + 1) % 256
  | Mnemonic.dec => (v + 255) % 256
  | Mnemonic.dcp => (v + 255) % 256
  | _ => v

/-- The carry flag of `P` as the number 0 or 1. -/
def carryOf (s : Cpu) : Nat := if s._p &&& FLAG_C ≠ 0 then 1 else 0

/-- The state `t` is what `s0` (with `_pc` at the first operand byte) has become
after `getInput(mode)` consumed the operand bytes and the writes `ws` were
issued: `_pc` is behind the operand, `X`, `Y` and every memory read are as in
`s0`, and the write log has grown by `ws`. -/
def Consumed (s0 : Cpu) (mode : Mode) (t : Cpu) (ws : List (Nat × Nat)) : Prop :=
  t._pc = (s0._pc + operandBytes mode) % 65536 ∧ (∀ a, memGet t a = memGet s0 a) ∧
  t._x = s0._x ∧ t._y = s0._y ∧ t.writes = s0.writes ++ ws

/-- Scenario "INC $D019": `INC $D019` at `$3000`, in flight, with `$81` at
`$D019`. -/
def scenInc : Cpu :=
  { blank with
    _pc := 0x3000
    _exe_instr_opcode := 0xEE
    _exe_instr_cycles := 6
    _exe_instr_cycles_remain := 1
    mem := memOf [(0x3000, 0xEE), (0x3001, 0x19), (0x3002, 0xD0), (0xD019, 0x81)] }

/-- Scenario "empty stack pointer": an idle CPU with `S = $00`. -/
def scenStackZero : Cpu := { blank with _s := 0 }

/-- The operand value `getInput` reads for the instruction in flight, `_pc`
pointing at its opcode byte. -/
def operandOf (s : Cpu) : Nat :=
  (getInput (incPC s) (modeOf (u8 s._exe_instr_opcode))).1

/-- The accumulator and the status register left by the addition that `adc`,
`sbc`, `rra` and `isb` share: `a` is the accumulator, `in2` the second summand
and `p` the status register before. -/
def addCore (a in2 p : Nat) : Nat × Nat :=
  let wval := (a + in2 + (if p &&& FLAG_C ≠ 0 then 1 else 0)) % 65536
  let p := setFlag p FLAG_C (truthy (wval &&& 0x100))
  let r := wval % 256
  let p := setFlag p FLAG_Z (falsy r)
  let p := setFlag p FLAG_N (truthy (r &&& 0x80))
  (r, setFlag p FLAG_V (truthy (((a ^^^ in2) ^^^ 0xffffffff) &&& (a ^^^ r) &&& 0x80)))

/-- Scenario "ADC #$90": `ADC #$90` at `$1000`, in flight, with `A = $90`, the
carry set and the D flag set. -/
def scenAdc : Cpu :=
  { blank with
    _pc := 0x1000
    _a := 0x90
    _p := 0x09
    _exe_instr_opcode := 0x69
    _exe_instr_cycles := 2
    _exe_instr_cycles_remain := 1
    mem := memOf [(0x1000, 0x69), (0x1001, 0x90)] }

/-- Scenario "SBC #$6F": `SBC #$6F` at `$1000`, in flight, with `A = $90`, the
carry set and the D flag set. -/
def scenSbc : Cpu :=
  { blank with
    _pc := 0x1000
    _a := 0x90
    _p := 0x09
    _exe_instr_opcode := 0xE9
    _exe_instr_cycles := 2
    _exe_instr_cycles_remain := 1
    mem := memOf [(0x1000, 0xE9), (0x1001, 0x6F)] }

/-- The three compare mnemonics. -/
def compareMnemonics : List Mnemonic := [Mnemonic.cmp, Mnemonic.cpx, Mnemonic.cpy]

/-- The register a compare instruction compares: `A` for CMP, `X` for CPX, `Y`
for CPY. -/
def compareReg (m : Mnemonic) (s : Cpu) : Nat :=
  match m with
  | Mnemonic.cpx => s._x
  | Mnemonic.cpy => s._y
  | _ => s._a

/-- Scenario "CPX #$40": `CPX #$40` at `$1000`, in flight, with `X = $30` and the
V flag set. -/
def scenCpx : Cpu :=
  { blank with
    _pc := 0x1000
    _x := 0x30
    _p := 0x40
    _exe_instr_opcode := 0xE0
    _exe_instr_cycles := 2
    _exe_instr_cycles_remain := 1
    mem := memOf [(0x1000, 0xE0), (0x1001, 0x40)] }

/-- Scenario "SBC #$40": `SBC #$40` at `$1000`, in flight, with `A = $30` and the
carry set. -/
def scenSbcCarry : Cpu :=
  { blank with
    _pc := 0x1000
    _a := 0x30
    _p := 0x01
    _exe_instr_opcode := 0xE9
    _exe_instr_cycles := 2
    _exe_instr_cycles_remain := 1
    mem := memOf [(0x1000, 0xE9), (0x1001, 0x40)] }

/-- Scenario "JSR $1234": `JSR $1234` at `$1000`, in flight, with `S = $FF`. -/
def scenJsr : Cpu :=
  { blank with
    _pc := 0x1000
    _exe_instr_opcode := 0x20
    _exe_instr_cycles := 6
    _exe_instr_cycles_remain := 1
    mem := memOf [(0x1000, 0x20), (0x1001, 0x34), (0x1002, 0x12)] }

/-- Scenario "JSR inside the stack page": `JSR $1234` at `$01FD`, in flight, with
`S = $FF`, so that the operand bytes lie at `$01FE` and `$01FF`, the two stack
addresses the instruction writes. -/
def scenJsrStack : Cpu :=
  { blank with
    _pc := 0x01FD
    _exe_instr_opcode := 0x20
    _exe_instr_cycles := 6
    _exe_instr_cycles_remain := 1
    mem := memOf [(0x01FD, 0x20), (0x01FE, 0x34), (0x01FF, 0x12)] }

/-- Scenario "JSR at the end of memory": `JSR $1234` at `$FFFE`, in flight, with
`S = $00`, so that the return address and the stack pointer both wrap. -/
def scenJsrWrap : Cpu :=
  { blank with
    _pc := 0xFFFE
    _s := 0x00
    _exe_instr_opcode := 0x20
    _exe_instr_cycles := 6
    _exe_instr_cycles_remain := 1
    mem := memOf [(0xFFFE, 0x20), (0xFFFF, 0x34), (0x0000, 0x12)] }

/-- Scenario "BRK": `BRK` at `$1000`, in flight, with `S = $01`, `P = $C3` and
the vector `$6000` at `$FFFE/$FFFF`. -/
def scenBrk : Cpu :=
  { blank with
    _pc := 0x1000
    _s := 0x01
    _p := 0xC3
    _exe_instr_opcode := 0x00
    _exe_instr_cycles := 7
    _exe_instr_cycles_remain := 1
    mem := memOf [(0x1000, 0x00), (0xfffe, 0x00), (0xffff, 0x60)] }

/-- The four shift and rotate mnemonics. -/
def shiftMnemonics : List Mnemonic :=
  [Mnemonic.asl, Mnemonic.lsr, Mnemonic.rol, Mnemonic.ror]

/-- The result of a shift or rotate of the byte `v` with old carry `c`: `2v mod
256` for ASL, `v div 2` for LSR, `2v mod 256 + c` for ROL and `v div 2 + 128 c`
for ROR. -/
def shiftResult (m : Mnemonic) (v c : Nat) : Nat :=
  match m with
  | Mnemonic.asl => 2 * v % 256
  | Mnemonic.lsr => v / 2
  | Mnemonic.rol => 2 * v % 256 + c
  | Mnemonic.ror => v / 2 + 128 * c
  | _ => v

/-- The bit a shift or rotate moves into the carry: bit 7 of `v` for ASL and
ROL, bit 0 for LSR and ROR. -/
def shiftCarry (m : Mnemonic) (v : Nat) : Bool :=
  match m with
  | Mnemonic.asl => decide (128 ≤ v)
  | Mnemonic.rol => decide (128 ≤ v)
  | _ => decide (v % 2 = 1)

/-- Scenario "ROL A": `ROL A` at `$1000`, in flight, with `A = $81` and the carry
set. -/
def scenRolA : Cpu :=
  { blank with
    _pc := 0x1000
    _a := 0x81
    _p := 0x01
    _exe_instr_opcode := 0x2A
    _exe_instr_cycles := 2
    _exe_instr_cycles_remain := 1
    mem := memOf [(0x1000, 0x2A), (0x1001, 0x6A)] }

/-- The six combined illegal mnemonics with the two legal mnemonics each is
composed of. -/
def comboParts : List (Mnemonic × Mnemonic × Mnemonic) :=
  [(Mnemonic.dcp, Mnemonic.dec, Mnemonic.cmp), (Mnemonic.isb, Mnemonic.inc, Mnemonic.sbc),
   (Mnemonic.slo, Mnemonic.asl, Mnemonic.ora), (Mnemonic.sre, Mnemonic.lsr, Mnemonic.eor),
   (Mnemonic.rla, Mnemonic.rol, Mnemonic.and), (Mnemonic.rra, Mnemonic.ror, Mnemonic.adc)]

/-- The mnemonics that occur in `comboParts`. -/
def comboMnemonics : List Mnemonic :=
  [Mnemonic.dcp, Mnemonic.dec, Mnemonic.cmp, Mnemonic.isb, Mnemonic.inc, Mnemonic.sbc,
   Mnemonic.slo, Mnemonic.asl, Mnemonic.ora, Mnemonic.sre, Mnemonic.lsr, Mnemonic.eor,
   Mnemonic.rla, Mnemonic.rol, Mnemonic.and, Mnemonic.rra, Mnemonic.ror, Mnemonic.adc]

/-- Scenario "SLO $10": `SLO $10` at `$1000`, in flight, with `$81` at `$10`,
`A = $02` and N set. -/
def scenSlo : Cpu :=
  { blank with
    _pc := 0x1000
    _a := 0x02
    _p := 0x80
    _exe_instr_opcode := 0x07
    _exe_instr_cycles := 5
    _exe_instr_cycles_remain := 1
    mem := memOf [(0x1000, 0x07), (0x1001, 0x10), (0x0010, 0x81)] }

/-- Scenario "ASL $10": the state of `scenSlo` with `ASL $10` in flight instead. -/
def scenAsl : Cpu := { scenSlo with _exe_instr_opcode := 0x06 }

/-- Scenario "ORA $10 after ASL $10": the state left by the ASL of `scenAsl`,
with `ORA $10` in flight at the same address. -/
def scenOra : Cpu :=
  { runPrefetchedOp scenAsl with _pc := 0x1000, _exe_instr_opcode := 0x05 }

/-- Scenario "SAX onto its own operand": the program `LDA #$0F`, `LDX #$3C`,
`CMP #$55`, `SAX $0007` at `$0000`; the operand of the SAX is the address of
its own low operand byte. -/
def scenSax : Cpu :=
  { blank with
    mem := memOf [(0x0000, 0xA9), (0x0001, 0x0F), (0x0002, 0xA2), (0x0003, 0x3C),
      (0x0004, 0xC9), (0x0005, 0x55), (0x0006, 0x8F), (0x0007, 0x07), (0x0008, 0x00)] }

/-- Scenario "TAX": `TAX` at `$1000`, in flight, with `A = $80`, `X = $11`,
`Y = $22` and the flags Z and C set. -/
def scenTax : Cpu :=
  { blank with
    _pc := 0x1000
    _a := 0x80
    _x := 0x11
    _y := 0x22
    _p := 0x03
    _exe_instr_opcode := 0xAA
    _exe_instr_cycles := 2
    _exe_instr_cycles_remain := 1
    mem := memOf [(0x1000, 0xAA), (0x1001, 0x8A)] }

/-- Scenario "TXA after TAX": the state left by the TAX of `scenTax`, with the
`TXA` at `$1001` in flight. -/
def scenTxa : Cpu := { runPrefetchedOp scenTax with _exe_instr_opcode := 0x8A }

/-- Scenario "RTS at the sentinel": the state left by
`cpuSetProgramCounter($1000, $07)` on `scenSei`, with an `RTS` in flight. -/
def scenSentinel : Cpu :=
  { cpuSetProgramCounter scenSei 0x1000 0x07 with
    _exe_instr_opcode := 0x60
    _exe_instr_cycles := 6
    _exe_instr_cycles_remain := 1 }

/-- The opcodes whose entry in `_mnemonics` is `jam`. -/
def jamOpcodes : List Nat := [0x32, 0x42, 0x52, 0x62, 0x72, 0x92, 0xB2, 0xD2, 0xF2]

/-- Scenario "JAM in flight": the opcode `$72` at `$1000`, in flight, with
`A = $11`, `X = $22`, `Y = $33`, `S = $44` and `P = $C3`. -/
def scenJamExec : Cpu :=
  { blank with
    _pc := 0x1000
    _a := 0x11
    _x := 0x22
    _y := 0x33
    _s := 0x44
    _p := 0xC3
    _exe_instr_opcode := 0x72
    _exe_instr_cycles := 0
    _exe_instr_cycles_remain := 1
    mem := memOf [(0x1000, 0x72)] }

/-- The two's-complement value of a byte: `b` below 128, `b - 256` from 128 on. -/
def signedByte (b : Nat) : Int := if b < 128 then (b : Int) else (b : Int) - 256

/-- Scenario "STA ($F0),Y at the end of page zero": the operand bytes of a store
with the zero-page pointer `$FF`, `X = $02`, `Y = $10`; the pointer at
`$FF/$00` holds `$20F8`, the one at `$01/$02` holds `$3000`. -/
def scenZeroPage : Cpu :=
  { blank with
    _pc := 0x1001
    _x := 0x02
    _y := 0x10
    _a := 0x5A
    mem := memOf [(0x1001, 0xFF), (0x00FF, 0xF8), (0x0000, 0x20), (0x0001, 0x00),
      (0x0002, 0x30), (0x0100, 0x77), (0x0101, 0x66), (0x2108, 0x99), (0x3000, 0x88)] }

/-- State after the first `n` ticks of `cpuClockPSID`, tick `j` (counted from 0)
reading the signals `ln j`. -/
def runTicksPSID (s : Cpu) (ln : Nat → Lines) : Nat → Cpu
  | 0 => s
  | n + 1 => cpuClockPSID (runTicksPSID s ln n) (ln n)

/-- Signal trace with the video chip reporting stun mode 2 on every tick and
all interrupt lines inactive. -/
def stunned2 (j : Nat) : Lines :=
  { vicIRQ := false, ciaIRQ := false, ciaNMI := false, vicStunCPU := 2, sysCycles := 10 + j }

/-- All lines inactive, the cycle counter running from 10. -/
def quietFrom10 (j : Nat) : Lines := quiet (10 + j)

/-- History "an SEI was the last instruction": the state after the SEI of
`scenSei` has been fetched and executed; `_opc` holds `$78`. -/
def histSei : Cpu := runTicks scenSei quietFrom10 2

/-- History "a taken branch was fetched last": the state after the same-page
taken BNE of `scenBne` has been fetched; `_interrupt_lead_time` holds 3. -/
def histBne : Cpu := runTicks scenBne quietFrom10 1

/-- Signal trace after a reset: the CIA interrupt line is high from the first
tick, the video chip stuns the CPU (mode 2) on the first `k` ticks only, the
cycle counter runs from 10. -/
def stunThenIrq (k j : Nat) : Lines :=
  { vicIRQ := false, ciaIRQ := true, ciaNMI := false,
    vicStunCPU := if j < k then 2 else 0, sysCycles := 10 + j }

/-- Modelled from the spec: `MEM_SET_IO` of `memory_opt.h` is not part of the
sources; it is the raw write to the I/O area `mem_write(u16, u8)`, over the same
flat 64 KiB memory.  Every call is appended to the write log. -/
def MEM_SET_IO (s : Cpu) (addr val : Nat) : Cpu :=
  { s with
    mem := fun a => if a = addr % 65536 then val % 256 else s.mem a
    writes := s.writes ++ [(addr % 65536, val % 256)] }

/-- The function `getOutputAddr(mode)` of `cpu_operations.c`: the address
`setOutput` would write to, `-1` in accumulator mode and `-2` in the modes
without an operand location. -/
def getOutputAddr (s : Cpu) (mode : Mode) : Int :=
  match mode with
  | Mode.acc => -1
  | Mode.abs =>
    let ad := memGet s (pcMinus s 2) ||| (memGet s (pcMinus s 1) <<< 8)
    (ad : Int)
  | Mode.abx =>
    let ad := ((memGet s (pcMinus s 2) ||| (memGet s (pcMinus s 1) <<< 8)) + s._x) % 65536
    (ad : Int)
  | Mode.aby =>
    let ad := ((memGet s (pcMinus s 2) ||| (memGet s (pcMinus s 1) <<< 8)) + s._y) % 65536
    (ad : Int)
  | Mode.zpg =>
    let ad := memGet s (pcMinus s 1)
    (ad : Int)
  | Mode.zpx =>
    let ad := memGet s (pcMinus s 1) + s._x
    let ad := ad &&& 0xff
    (ad : Int)
  | Mode.zpy =>
    let ad := memGet s (pcMinus s 1) + s._y
    let ad := ad &&& 0xff
    (ad : Int)
  | Mode.idx =>
    let ad := memGet s (pcMinus s 1) + s._x
    let ad := memGet s (ad &&& 0xff) ||| (memGet s ((ad + 1) &&& 0xff) <<< 8)
    (ad : Int)
  | Mode.idy =>
    let ad := memGet s (pcMinus s 1)
    let ad := ((memGet s ad ||| (memGet s ((ad + 1) &&& 0xff) <<< 8)) + s._y) % 65536
    (ad : Int)
  | _ => -2

/-- The macro `READ_MODIFY_WRITE(mode, r, w, ...)` of `cpu_operations.c`.
`block` is the code block passed as `__VA_ARGS__`: from the state and the byte
read into `r` it yields the state and the value of the result variable; `w` is
that variable (converted to `uint8_t` by the write).  The result is the state,
the byte read and the result variable. -/
def READ_MODIFY_WRITE (s : Cpu) (mode : Mode) (block : Cpu → Nat → Cpu × Nat) :
    Cpu × Nat × Nat :=
  let i := getInput s mode
  let r := i.1
  let s := i.2
  let rmw_addr := getOutputAddr s mode
  if rmw_addr = 0xd019 then
    let s := MEM_SET_IO s rmw_addr.toNat r
    let b := block s r
    ( MEM_SET_IO b.1 rmw_addr.toNat b.2, r, b.2)
  else
    let b := block s r
    if rmw_addr < 0 then ({ b.1 with _a := b.2 % 256 }, r, b.2)
    else (memSet b.1 rmw_addr.toNat b.2, r, b.2)

/-- The twelve read-modify-write cases of the `switch (_mnemonics[_opc])` of
`runPrefetchedOp` in `cpu_operations.c`; `_pc` points behind the opcode byte
and `_opc` holds the opcode.  `bval` and `wval` are locals of the cases there.
The other mnemonics are not part of this development and leave the state. -/
def runPrefetchedOp_ops : Mnemonic → Cpu → Cpu
  | Mnemonic.asl, s =>
    let m := READ_MODIFY_WRITE s (modeOf s._opc) (fun s wval => (s, (wval <<< 1) % 65536))
    let s := m.1
    let wval := m.2.2
    let s := SETFLAGS s FLAG_Z (falsy (wval &&& 0xff))
    let s := SETFLAGS s FLAG_N (truthy (wval &&& 0x80))
    SETFLAGS s FLAG_C (truthy (wval &&& 0x100))
  | Mnemonic.dcp, s =>
    let m := READ_MODIFY_WRITE s (modeOf s._opc) (fun s bval => (s, (bval + 255) % 256))
    let s := m.1
    let bval := m.2.2
    let wval := u16 ((s._a : Int) - bval)
    let s := SETFLAGS s FLAG_Z (falsy wval)
    let s := SETFLAGS s FLAG_N (truthy (wval &&& 0x80))
    SETFLAGS s FLAG_C (decide (s._a ≥ bval))
  | Mnemonic.dec, s =>
    let m := READ_MODIFY_WRITE s (modeOf s._opc) (fun s bval => (s, (bval + 255) % 256))
    let s := m.1
    let bval := m.2.2
    let s := SETFLAGS s FLAG_Z (falsy bval)
    SETFLAGS s FLAG_N (truthy (bval &&& 0x80))
  | Mnemonic.inc, s =>
    let m := READ_MODIFY_WRITE s (modeOf s._opc) (fun s bval => (s, (bval + 1) % 256))
    let s := m.1
    let bval := m.2.2
    let s := SETFLAGS s FLAG_Z (falsy bval)
    SETFLAGS s FLAG_N (truthy (bval &&& 0x80))
  | Mnemonic.isb, s =>
    let m := READ_MODIFY_WRITE s (modeOf s._opc) (fun s bval => (s, (bval + 1) % 256))
    let s := m.1
    let bval := m.2.2
    let s := SETFLAGS s FLAG_Z (falsy bval)
    let s := SETFLAGS s FLAG_N (truthy (bval &&& 0x80))
    let in1 := s._a
    let in2 := bval ^^^ 0xff
    let wval := (in1 + in2 + (if s._p &&& FLAG_C ≠ 0 then 1 else 0)) % 65536
    let s := SETFLAGS s FLAG_C (truthy (wval &&& 0x100))
    let s := { s with _a := wval % 256 }
    let s := SETFLAGS s FLAG_Z (falsy s._a)
    let s := SETFLAGS s FLAG_N (truthy (s._a &&& 0x80))
    SETFLAGS s FLAG_V (truthy (((in1 ^^^ in2) ^^^ 0xffffffff) &&& (in1 ^^^ s._a) &&& 0x80))
  | Mnemonic.lsr, s =>
    let m := READ_MODIFY_WRITE s (modeOf s._opc) (fun s bval => (s, bval >>> 1))
    let s := m.1
    let bval := m.2.1
    let wval := m.2.2
    let s := SETFLAGS s FLAG_Z (falsy wval)
    let s := SETFLAGS s FLAG_N (truthy (wval &&& 0x80))
    SETFLAGS s FLAG_C (truthy (bval &&& 1))
  | Mnemonic.rla, s =>
    let m := READ_MODIFY_WRITE s (modeOf s._opc) (fun s bval =>
      let c : Nat := if s._p &&& FLAG_C ≠ 0 then 1 else 0
      let s := SETFLAGS s FLAG_C (truthy (bval &&& 0x80))
      let bval := (bval <<< 1) % 256
      (s, bval ||| c))
    let s := m.1
    let bval := m.2.2
    let s := { s with _a := s._a &&& bval }
    let s := SETFLAGS s FLAG_Z (falsy s._a)
    SETFLAGS s FLAG_N (truthy (s._a &&& 0x80))
  | Mnemonic.rol, s =>
    let m := READ_MODIFY_WRITE s (modeOf s._opc) (fun s bval =>
      let c : Nat := if s._p &&& FLAG_C ≠ 0 then 1 else 0
      let s := SETFLAGS s FLAG_C (truthy (bval &&& 0x80))
      let bval := (bval <<< 1) % 256
      (s, bval ||| c))
    let s := m.1
    let bval := m.2.2
    let s := SETFLAGS s FLAG_N (truthy (bval &&& 0x80))
    SETFLAGS s FLAG_Z (falsy bval)
  | Mnemonic.ror, s =>
    let m := READ_MODIFY_WRITE s (modeOf s._opc) (fun s bval =>
      let c : Nat := if s._p &&& FLAG_C ≠ 0 then 1 else 0
      let s := SETFLAGS s FLAG_C (truthy (bval &&& 1))
      let bval := bval >>> 1
      (s, bval ||| (0x80 * c)))
    let s := m.1
    let bval := m.2.2
    let s := SETFLAGS s FLAG_N (truthy (bval &&& 0x80))
    SETFLAGS s FLAG_Z (falsy bval)
  | Mnemonic.rra, s =>
    let m := READ_MODIFY_WRITE s (modeOf s._opc) (fun s bval =>
      let c : Nat := if s._p &&& FLAG_C ≠ 0 then 1 else 0
      let s := SETFLAGS s FLAG_C (truthy (bval &&& 1))
      let bval := bval >>> 1
      (s, bval ||| (0x80 * c)))
    let s := m.1
    let bval := m.2.2
    let in1 := s._a
    let wval := (in1 + bval + (if s._p &&& FLAG_C ≠ 0 then 1 else 0)) % 65536
    let s := SETFLAGS s FLAG_C (truthy (wval &&& 0x100))
    let s := { s with _a := wval % 256 }
    let s := SETFLAGS s FLAG_Z (falsy s._a)
    let s := SETFLAGS s FLAG_N (truthy (s._a &&& 0x80))
    SETFLAGS s FLAG_V (truthy (((in1 ^^^ bval) ^^^ 0xffffffff) &&& (in1 ^^^ s._a) &&& 0x80))
  | Mnemonic.slo, s =>
    let m := READ_MODIFY_WRITE s (modeOf s._opc) (fun s bval => (s, (bval <<< 1) % 65536))
    let s := m.1
    let wval := m.2.2
    let s := SETFLAGS s FLAG_C (truthy (wval &&& 0x100))
    let bval := wval &&& 0xff
    let s := { s with _a := s._a ||| bval }
    let s := SETFLAGS s FLAG_Z (falsy s._a)
    SETFLAGS s FLAG_N (truthy (s._a &&& 0x80))
  | Mnemonic.sre, s =>
    let m := READ_MODIFY_WRITE s (modeOf s._opc) (fun s bval => (s, bval >>> 1))
    let s := m.1
    let bval := m.2.1
    let wval := m.2.2
    let s := SETFLAGS s FLAG_Z (falsy wval)
    let s := SETFLAGS s FLAG_N (truthy (wval &&& 0x80))
    let s := SETFLAGS s FLAG_C (truthy (bval &&& 1))
    let bval := wval &&& 0xff
    let s := { s with _a := s._a ^^^ bval }
    let s := SETFLAGS s FLAG_Z (falsy s._a)
    SETFLAGS s FLAG_N (truthy (s._a &&& 0x80))
  | _, s => s

/-- The state in which `runPrefetchedOp` enters its switch: `_pc` behind the
opcode byte, `_opc` holding the opcode in flight. -/
def switchEntry (s : Cpu) : Cpu := { incPC s with _opc := u8 s._exe_instr_opcode }

/-- Signal trace of the lead-time scenarios: the CIA interrupt line is high from
tick `k` on, there is no NMI and no stun, the cycle counter runs from `c`. -/
def irqLate (c k j : Nat) : Lines :=
  { vicIRQ := false, ciaIRQ := decide (k ≤ j), ciaNMI := false, vicStunCPU := 0,
    sysCycles := c + j }

/-- Scenario "branch, then NOP": `BNE +2` at `$4000` with `Z = 0` (taken, same
page), `NOP` at the branch target `$4004`. -/
def scenBneNop : Cpu :=
  { blank with
    _pc := 0x4000
    mem := memOf [(0x4000, 0xD0), (0x4001, 0x02), (0x4004, 0xEA)] }

/-- Scenario "SEI, later a `$22` byte": `SEI` at `$5000`, the byte `$22`
(`NULL_OP`) at `$2000`. -/
def scenSeiNull : Cpu :=
  { blank with
    _pc := 0x5000
    mem := memOf [(0x5000, 0x78), (0x2000, 0x22)] }

/-- State "SEI was executed last, I clear": the SEI of `scenSeiNull` has run,
then `cpuSetProgramCounter($2000, 0)` has reset the registers; `_opc` still holds
`$78`. -/
def staleSei : Cpu := cpuSetProgramCounter (runTicks scenSeiNull quietFrom10 2) 0x2000 0

/-- Scenario "IRQ handler starting with SEI": `NOP` at `$0000`, the IRQ vector
points at `$5000`, where an `SEI` stands. -/
def scenIrqThenSei : Cpu :=
  { blank with mem := memOf [(0x0000, 0xEA), (0x5000, 0x78), (0xfffe, 0x00), (0xffff, 0x50)] }

/-- State "stale IRQ stamp": after `cpuInit(1)` on `scenIrqThenSei` the IRQ line
is high from cycle 10 on; the IRQ is stamped on the first tick, dispatched on
the third and its entry completes on the ninth, which sets I and loads
`PC = $5000`; then `cpuIrqFlagPSID(0)` clears I.  The stamp 10 is still
recorded. -/
def staleStampSei : Cpu :=
  cpuIrqFlagPSID (runClock (cpuInit scenIrqThenSei 1) irqHighFrom10 9) 0
/-! # Theorems -/

/-! ## Arithmetic of the C bit operations -/

theorem and_ff00 (x : Nat) (h : x < 65536) : x &&& 0xff00 = x / 256 * 256 := by
  have key : x &&& 2 ^ 8 * (2 ^ 8 - 1) = 2 ^ 8 * (x / 2 ^ 8) := by
    apply Nat.eq_of_testBit_eq
    intro i
    rw [Nat.testBit_and, Nat.testBit_mul_pow_two, Nat.testBit_mul_pow_two,
      Nat.testBit_two_pow_sub_one, ← Nat.shiftRight_eq_div_pow, Nat.testBit_shiftRight]
    by_cases h8 : 8 ≤ i
    · have e : 8 + (i - 8) = i := by omega
      by_cases h16 : i < 16
      · have : i - 8 < 8 := by omega
        simp [h8, this, e]
      · have : ¬ (i - 8 < 8) := by omega
        have hx : x.testBit i = false := by
          apply Nat.testBit_lt_two_pow
          calc x < 2 ^ 16 := by norm_num; exact h
            _ ≤ 2 ^ i := Nat.pow_le_pow_right (by norm_num) (by omega)
        simp [h8, this, hx, e]
    · simp [h8]
  norm_num at key
  omega

theorem and_100 (x : Nat) : x &&& 0x100 = (x / 256 % 2) * 256 := by
  have key : x &&& 2 ^ 8 = 2 ^ 8 * (x / 2 ^ 8 % 2 ^ 1) := by
    apply Nat.eq_of_testBit_eq
    intro i
    rw [Nat.testBit_and, Nat.testBit_mul_pow_two, Nat.testBit_two_pow,
      Nat.testBit_mod_two_pow, ← Nat.shiftRight_eq_div_pow, Nat.testBit_shiftRight]
    by_cases h8 : 8 = i
    · subst h8; simp
    · by_cases h9 : 8 ≤ i
      · have : ¬ (i - 8 < 1) := by omega
        simp [h8, h9, this]
      · simp [h8, h9]
  norm_num at key
  omega

theorem or_shl8 (lo hi : Nat) (h : lo < 256) : lo ||| (hi <<< 8) = lo + 256 * hi := by
  rw [Nat.shiftLeft_eq, Nat.lor_comm]
  have := Nat.mul_add_lt_is_or (i := 8) (b := lo) (by norm_num; exact h) hi
  norm_num at this
  rw [Nat.mul_comm hi, ← this]; ring

theorem and_ff (x : Nat) : x &&& 0xff = x % 256 := by
  have := Nat.and_pow_two_sub_one_eq_mod x 8
  norm_num at this
  exact this

theorem memGet_lt (s : Cpu) (a : Nat) : memGet s a < 256 := Nat.mod_lt _ (by norm_num)

/-- Indexing a 16-bit address by a byte changes the high byte exactly when the
low-byte addition carries; the wrap at `0xFFFF` does not matter. -/
theorem cross_iff (ad r : Nat) (had : ad < 65536) (hr : r < 256) :
    ((ad + r) % 65536 &&& 0xff00 ≠ ad &&& 0xff00) ↔ 256 ≤ ad % 256 + r := by
  rw [and_ff00 _ (Nat.mod_lt _ (by norm_num)), and_ff00 _ had]
  omega

/-- Bit 8 decides whether a relative branch leaves the page. -/
theorem bit8_page (pc b : Nat) (hpc : pc < 65536) :
    (pc &&& 0x100 ≠ u16 ((pc : Int) + int8 b) &&& 0x100) ↔
      pc / 256 ≠ u16 ((pc : Int) + int8 b) / 256 := by
  rw [and_100, and_100]
  unfold u16 int8
  split <;> omega

/-! ## The prefetch unit -/

theorem table_branch : ∀ opc, opc < 256 →
    (isBranch (mnemonicOf opc) = true ↔ opc ∈ branchOpcodes) := by decide

theorem adjustPageBoundaryCrossing_eq (s : Cpu) (hx : s._x < 256) (hy : s._y < 256)
    (mode : Mode) (hmode : mode ∈ [Mode.abx, Mode.aby, Mode.idy]) :
    adjustPageBoundaryCrossing s ((s._pc + 1) % 65536) mode
      = if 256 ≤ unindexedBase s mode % 256 + indexReg s mode then 1 else 0 := by
  simp only [List.mem_cons, List.mem_singleton, List.not_mem_nil, or_false] at hmode
  have b1 := memGet_lt s ((s._pc + 1) % 65536)
  have e1 : memGet s ((s._pc + 1) % 65536) = memGet s (s._pc + 1) := by simp [memGet]
  have e2 : memGet s (((s._pc + 1) % 65536 + 1) % 65536) = memGet s (s._pc + 2) := by
    simp only [memGet]; congr 2; omega
  have b3 := memGet_lt s (s._pc + 1)
  have b4 := memGet_lt s (s._pc + 2)
  rcases hmode with h | h | h
  · simp only [h, adjustPageBoundaryCrossing, unindexedBase, indexReg]
    rw [or_shl8 _ _ b1, e1, e2]
    exact if_congr (cross_iff _ _ (by omega) hx) rfl rfl
  · simp only [h, adjustPageBoundaryCrossing, unindexedBase, indexReg]
    rw [or_shl8 _ _ b1, e1, e2]
    exact if_congr (cross_iff _ _ (by omega) hy) rfl rfl
  · simp only [h, adjustPageBoundaryCrossing, unindexedBase, indexReg]
    rw [e1, and_ff]
    have b5 := memGet_lt s (memGet s (s._pc + 1))
    have b6 := memGet_lt s ((memGet s (s._pc + 1) + 1) % 256)
    rw [or_shl8 _ _ b5]
    have := cross_iff (memGet s (memGet s (s._pc + 1))
      + 256 * memGet s ((memGet s (s._pc + 1) + 1) % 256)) s._y (by omega) hy
    exact if_congr (Iff.trans ⟨Ne.symm, Ne.symm⟩ this) rfl rfl

theorem prefetch_penalty_cycles (s : Cpu)
    (hm : mnemonicOf (memGet s s._pc) ∈ pagePenaltySet) :
    (prefetchOperation s)._exe_instr_cycles = baseCycles (memGet s s._pc)
      + adjustPageBoundaryCrossing s ((s._pc + 1) % 65536) (modeOf (memGet s s._pc)) := by
  simp only [pagePenaltySet, List.mem_cons, List.mem_singleton, List.not_mem_nil, or_false] at hm
  rcases hm with h | h | h | h | h | h | h | h | h | h | h | h <;>
    simp only [prefetchOperation, h]

theorem adjustBranchTaken_eq (s : Cpu) (pc lead : Nat) :
    adjustBranchTaken s pc lead =
      if samePage (u16 ((((pc + 1) % 65536 : Nat) : Int) + int8 (memGet s pc))) ((pc + 1) % 65536)
      then (1, (lead + 1) % 256) else (2, lead) := by
  have h := bit8_page ((pc + 1) % 65536) (memGet s pc) (Nat.mod_lt _ (by norm_num))
  unfold adjustBranchTaken samePage
  dsimp only
  generalize u16 ((((pc + 1) % 65536 : Nat) : Int) + int8 (memGet s pc)) = w at h ⊢
  by_cases hc : ((pc + 1) % 65536) / 256 = w / 256
  · have h1 : ¬ ((pc + 1) % 65536 &&& 0x100 ≠ w &&& 0x100) := by
      rw [h]; simpa using hc
    simp only [h1, if_false, if_true, hc.symm, decide_True]
  · have h1 : ((pc + 1) % 65536 &&& 0x100 ≠ w &&& 0x100) := by
      rw [h]; exact hc
    have hc2 : ¬ w / 256 = ((pc + 1) % 65536) / 256 := fun e => hc e.symm
    simp [h1, hc2]

/-- Cycle count and lead time that the prefetch of a branch instruction stores. -/
theorem prefetchBranch_eq (s : Cpu) (taken : Bool) :
    prefetchBranch s ((s._pc + 1) % 65536) 2 2 taken =
      (if taken = true then (if samePage (branchTarget s) (nextInstr s) = true then 3 else 4) else 2,
       if taken = true ∧ samePage (branchTarget s) (nextInstr s) = true then 3 else 2) := by
  have e1 : ((s._pc + 1) % 65536 + 1) % 65536 = (s._pc + 2) % 65536 := by omega
  have e2 : memGet s ((s._pc + 1) % 65536) = memGet s (s._pc + 1) := by simp [memGet]
  unfold prefetchBranch
  rw [adjustBranchTaken_eq, e1, e2]
  unfold branchTarget nextInstr
  cases taken
  · simp
  · by_cases hc : samePage (u16 ((((s._pc + 2) % 65536 : Nat) : Int)
        + int8 (memGet s (s._pc + 1)))) ((s._pc + 2) % 65536) = true <;>
      simp only [hc] <;> simp

theorem prefetch_branch (s : Cpu) (hop : memGet s s._pc ∈ branchOpcodes) :
    (prefetchOperation s)._exe_instr_cycles =
        (if branchCondition s (memGet s s._pc) = true then
          (if samePage (branchTarget s) (nextInstr s) = true then 3 else 4) else 2) ∧
    (prefetchOperation s)._interrupt_lead_time =
        (if branchCondition s (memGet s s._pc) = true ∧
            samePage (branchTarget s) (nextInstr s) = true then 3 else 2) := by
  simp only [branchOpcodes, List.mem_cons, List.mem_singleton, List.not_mem_nil, or_false] at hop
  rcases hop with h | h | h | h | h | h | h | h <;>
    · have hm : mnemonicOf (memGet s s._pc) = mnemonicOf (memGet s s._pc) := rfl
      have hb : baseCycles (memGet s s._pc) = baseCycles (memGet s s._pc) := rfl
      conv at hm => rhs; rw [h]
      conv at hb => rhs; rw [h]
      simp only [prefetchOperation, hm, hb, mnemonicOf, baseCycles, _mnemonics,
        _opbase_frame_cycles, List.getD_cons_succ, List.getD_cons_zero, IRQ_LEAD_DEFAULT,
        prefetchBranch_eq, branchCondition, h]
      simp

theorem prefetch_lead_nonbranch (s : Cpu)
    (h : isBranch (mnemonicOf (memGet s s._pc)) = false) :
    (prefetchOperation s)._interrupt_lead_time = 2 := by
  cases hm : mnemonicOf (memGet s s._pc) <;>
    simp only [prefetchOperation, hm, isBranch, IRQ_LEAD_DEFAULT] at h ⊢ <;>
    exact absurd h (by decide)

/-- C3: page-penalty law.  For an opcode whose mnemonic is in the page-penalty
set and whose mode is absolute-X, absolute-Y or indirect-indexed,
`prefetchOperation` stores base cycles + 1 exactly when the low byte of the
un-indexed base address plus the index register reaches 256, and the base
cycles otherwise; base addresses up to `$FFFF` are included. -/
theorem C3_page_penalty_law (s : Cpu) (hx : s._x < 256) (hy : s._y < 256)
    (hm : mnemonicOf (memGet s s._pc) ∈ pagePenaltySet)
    (hmode : modeOf (memGet s s._pc) ∈ [Mode.abx, Mode.aby, Mode.idy]) :
    ((prefetchOperation s)._exe_instr_cycles = baseCycles (memGet s s._pc) + 1 ↔
      256 ≤ unindexedBase s (modeOf (memGet s s._pc)) % 256
            + indexReg s (modeOf (memGet s s._pc))) ∧
    (¬ 256 ≤ unindexedBase s (modeOf (memGet s s._pc)) % 256
            + indexReg s (modeOf (memGet s s._pc)) →
      (prefetchOperation s)._exe_instr_cycles = baseCycles (memGet s s._pc)) := by
  rw [prefetch_penalty_cycles s hm, adjustPageBoundaryCrossing_eq s hx hy _ hmode]
  constructor
  · constructor
    · intro h; by_contra hn; simp [hn] at h
    · intro h; simp [h]
  · intro h; simp [h]

/-- Witness of C3 on the scenario `LDA $20FF,X` with `X = 1`: the hypotheses
hold and the prefetch stores 4 + 1 = 5 cycles. -/
theorem C3_page_penalty_law_witness :
    (prefetchOperation scenLdaAbx)._exe_instr_cycles = 5 :=
  (C3_page_penalty_law scenLdaAbx (by decide) (by decide) (by decide) (by decide)).1.2
    (by decide)

/-- C4: branch timing.  For each of the eight conditional branch opcodes the
prefetch stores 2 cycles when the branch is not taken, 3 when it is taken to
the page of the byte following the branch, and 4 when it is taken to another
page; and the bit-8 comparison of `adjustBranchTaken` agrees with comparing the
full page numbers, for every program counter and displacement. -/
theorem C4_branch_timing (s : Cpu) (hop : memGet s s._pc ∈ branchOpcodes) :
    baseCycles (memGet s s._pc) = 2 ∧
    (prefetchOperation s)._exe_instr_cycles =
      (if branchCondition s (memGet s s._pc) = true then
        (if samePage (branchTarget s) (nextInstr s) = true then 2 + 1 else 2 + 2) else 2) ∧
    (∀ pc lead : Nat, (adjustBranchTaken s pc lead).1 =
      if ((pc + 1) % 65536) / 256
          = u16 ((((pc + 1) % 65536 : Nat) : Int) + int8 (memGet s pc)) / 256
      then 1 else 2) := by
  refine ⟨?_, ?_, ?_⟩
  · simp only [branchOpcodes, List.mem_cons, List.mem_singleton, List.not_mem_nil,
      or_false] at hop
    rcases hop with h | h | h | h | h | h | h | h <;> rw [h] <;> decide
  · exact (prefetch_branch s hop).1
  · intro pc lead
    rw [adjustBranchTaken_eq]
    unfold samePage
    by_cases hc : ((pc + 1) % 65536) / 256
        = u16 ((((pc + 1) % 65536 : Nat) : Int) + int8 (memGet s pc)) / 256
    · simp only [hc, decide_True, if_true]
    · have hc2 : ¬ u16 ((((pc + 1) % 65536 : Nat) : Int) + int8 (memGet s pc)) / 256
          = ((pc + 1) % 65536) / 256 := fun e => hc e.symm
      simp only [hc, hc2, decide_False, if_false, Bool.false_eq_true]

/-- Witness of C4 on the scenario `BNE +2` at `$4000` with `Z = 0`: the branch
is taken within the page and costs 3 cycles. -/
theorem C4_branch_timing_witness :
    (prefetchOperation scenBne)._exe_instr_cycles = 3 :=
  (C4_branch_timing scenBne (by decide)).2.1.trans (by decide)

/-- C5: the lead time stored by `prefetchOperation` is 3 exactly when the
opcode is a conditional branch that is taken to the page of the byte following
the branch, and the default 2 in every other case. -/
theorem C5_lead_time (s : Cpu) :
    ((prefetchOperation s)._interrupt_lead_time = 3 ↔
      (memGet s s._pc ∈ branchOpcodes ∧ branchCondition s (memGet s s._pc) = true ∧
        samePage (branchTarget s) (nextInstr s) = true)) ∧
    (¬ (memGet s s._pc ∈ branchOpcodes ∧ branchCondition s (memGet s s._pc) = true ∧
        samePage (branchTarget s) (nextInstr s) = true) →
      (prefetchOperation s)._interrupt_lead_time = IRQ_LEAD_DEFAULT) := by
  by_cases hop : memGet s s._pc ∈ branchOpcodes
  · rw [(prefetch_branch s hop).2]
    by_cases hc : branchCondition s (memGet s s._pc) = true ∧
        samePage (branchTarget s) (nextInstr s) = true
    · simp [hc, hop]
    · simp only [hc, if_false, hop, true_and, IRQ_LEAD_DEFAULT]
      simp
  · have hnb : isBranch (mnemonicOf (memGet s s._pc)) = false := by
      cases hb : isBranch (mnemonicOf (memGet s s._pc))
      · rfl
      · exact absurd ((table_branch _ (memGet_lt s s._pc)).1 hb) hop
    rw [prefetch_lead_nonbranch s hnb]
    simp [hop, IRQ_LEAD_DEFAULT]

/-- C6: `prefetchOperation` changes no CPU register (nor memory): it only
stores the opcode, the cycle count and the lead time. -/
theorem C6_prefetch_frame (s : Cpu) :
    (prefetchOperation s)._pc = s._pc ∧ (prefetchOperation s)._a = s._a ∧
    (prefetchOperation s)._x = s._x ∧ (prefetchOperation s)._y = s._y ∧
    (prefetchOperation s)._s = s._s ∧ (prefetchOperation s)._p = s._p ∧
    (prefetchOperation s).mem = s.mem ∧ (prefetchOperation s).writes = s.writes ∧
    (prefetchOperation s)._exe_instr_opcode = (memGet s s._pc : Nat) :=
  ⟨rfl, rfl, rfl, rfl, rfl, rfl, rfl, rfl, rfl⟩

/-! ## Frame lemmas: the instruction semantics leaves the interrupt and
in-flight state alone -/

theorem incPC_interrupt_lead_time (s : Cpu) :
    (incPC s)._interrupt_lead_time = s._interrupt_lead_time := rfl

theorem incPC_irq_committed (s : Cpu) :
    (incPC s)._irq_committed = s._irq_committed := rfl

theorem incPC_irq_line_ts (s : Cpu) :
    (incPC s)._irq_line_ts = s._irq_line_ts := rfl

theorem incPC_nmi_committed (s : Cpu) :
    (incPC s)._nmi_committed = s._nmi_committed := rfl

theorem incPC_nmi_line (s : Cpu) :
    (incPC s)._nmi_line = s._nmi_line := rfl

theorem incPC_nmi_line_ts (s : Cpu) :
    (incPC s)._nmi_line_ts = s._nmi_line_ts := rfl

theorem incPC_exe_instr_opcode (s : Cpu) :
    (incPC s)._exe_instr_opcode = s._exe_instr_opcode := rfl

theorem incPC_exe_instr_cycles (s : Cpu) :
    (incPC s)._exe_instr_cycles = s._exe_instr_cycles := rfl

theorem incPC_exe_instr_cycles_remain (s : Cpu) :
    (incPC s)._exe_instr_cycles_remain = s._exe_instr_cycles_remain := rfl

theorem incPC_cpuClock_rsid (s : Cpu) :
    (incPC s).cpuClock_rsid = s.cpuClock_rsid := rfl

theorem memSet_interrupt_lead_time (s : Cpu) (a v : Nat) :
    (memSet s a v)._interrupt_lead_time = s._interrupt_lead_time := rfl

theorem memSet_irq_committed (s : Cpu) (a v : Nat) :
    (memSet s a v)._irq_committed = s._irq_committed := rfl

theorem memSet_irq_line_ts (s : Cpu) (a v : Nat) :
    (memSet s a v)._irq_line_ts = s._irq_line_ts := rfl

theorem memSet_nmi_committed (s : Cpu) (a v : Nat) :
    (memSet s a v)._nmi_committed = s._nmi_committed := rfl

theorem memSet_nmi_line (s : Cpu) (a v : Nat) :
    (memSet s a v)._nmi_line = s._nmi_line := rfl

theorem memSet_nmi_line_ts (s : Cpu) (a v : Nat) :
    (memSet s a v)._nmi_line_ts = s._nmi_line_ts := rfl

theorem memSet_exe_instr_opcode (s : Cpu) (a v : Nat) :
    (memSet s a v)._exe_instr_opcode = s._exe_instr_opcode := rfl

theorem memSet_exe_instr_cycles (s : Cpu) (a v : Nat) :
    (memSet s a v)._exe_instr_cycles = s._exe_instr_cycles := rfl

theorem memSet_exe_instr_cycles_remain (s : Cpu) (a v : Nat) :
    (memSet s a v)._exe_instr_cycles_remain = s._exe_instr_cycles_remain := rfl

theorem memSet_cpuClock_rsid (s : Cpu) (a v : Nat) :
    (memSet s a v).cpuClock_rsid = s.cpuClock_rsid := rfl

theorem MEM_WRITE_RAM_interrupt_lead_time (s : Cpu) (a v : Nat) :
    (MEM_WRITE_RAM s a v)._interrupt_lead_time = s._interrupt_lead_time := rfl

theorem MEM_WRITE_RAM_irq_committed (s : Cpu) (a v : Nat) :
    (MEM_WRITE_RAM s a v)._irq_committed = s._irq_committed := rfl

theorem MEM_WRITE_RAM_irq_line_ts (s : Cpu) (a v : Nat) :
    (MEM_WRITE_RAM s a v)._irq_line_ts = s._irq_line_ts := rfl

theorem MEM_WRITE_RAM_nmi_committed (s : Cpu) (a v : Nat) :
    (MEM_WRITE_RAM s a v)._nmi_committed = s._nmi_committed := rfl

theorem MEM_WRITE_RAM_nmi_line (s : Cpu) (a v : Nat) :
    (MEM_WRITE_RAM s a v)._nmi_line = s._nmi_line := rfl

theorem MEM_WRITE_RAM_nmi_line_ts (s : Cpu) (a v : Nat) :
    (MEM_WRITE_RAM s a v)._nmi_line_ts = s._nmi_line_ts := rfl

theorem MEM_WRITE_RAM_exe_instr_opcode (s : Cpu) (a v : Nat) :
    (MEM_WRITE_RAM s a v)._exe_instr_opcode = s._exe_instr_opcode := rfl

theorem MEM_WRITE_RAM_exe_instr_cycles (s : Cpu) (a v : Nat) :
    (MEM_WRITE_RAM s a v)._exe_instr_cycles = s._exe_instr_cycles := rfl

theorem MEM_WRITE_RAM_exe_instr_cycles_remain (s : Cpu) (a v : Nat) :
    (MEM_WRITE_RAM s a v)._exe_instr_cycles_remain = s._exe_instr_cycles_remain := rfl

theorem MEM_WRITE_RAM_cpuClock_rsid (s : Cpu) (a v : Nat) :
    (MEM_WRITE_RAM s a v).cpuClock_rsid = s.cpuClock_rsid := rfl

theorem SETFLAGS_interrupt_lead_time (s : Cpu) (f : Nat) (c : Bool) :
    (SETFLAGS s f c)._interrupt_lead_time = s._interrupt_lead_time := by unfold SETFLAGS; split <;> rfl

theorem SETFLAGS_irq_committed (s : Cpu) (f : Nat) (c : Bool) :
    (SETFLAGS s f c)._irq_committed = s._irq_committed := by unfold SETFLAGS; split <;> rfl

theorem SETFLAGS_irq_line_ts (s : Cpu) (f : Nat) (c : Bool) :
    (SETFLAGS s f c)._irq_line_ts = s._irq_line_ts := by unfold SETFLAGS; split <;> rfl

theorem SETFLAGS_nmi_committed (s : Cpu) (f : Nat) (c : Bool) :
    (SETFLAGS s f c)._nmi_committed = s._nmi_committed := by unfold SETFLAGS; split <;> rfl

theorem SETFLAGS_nmi_line (s : Cpu) (f : Nat) (c : Bool) :
    (SETFLAGS s f c)._nmi_line = s._nmi_line := by unfold SETFLAGS; split <;> rfl

theorem SETFLAGS_nmi_line_ts (s : Cpu) (f : Nat) (c : Bool) :
    (SETFLAGS s f c)._nmi_line_ts = s._nmi_line_ts := by unfold SETFLAGS; split <;> rfl

theorem SETFLAGS_exe_instr_opcode (s : Cpu) (f : Nat) (c : Bool) :
    (SETFLAGS s f c)._exe_instr_opcode = s._exe_instr_opcode := by unfold SETFLAGS; split <;> rfl

theorem SETFLAGS_exe_instr_cycles (s : Cpu) (f : Nat) (c : Bool) :
    (SETFLAGS s f c)._exe_instr_cycles = s._exe_instr_cycles := by unfold SETFLAGS; split <;> rfl

theorem SETFLAGS_exe_instr_cycles_remain (s : Cpu) (f : Nat) (c : Bool) :
    (SETFLAGS s f c)._exe_instr_cycles_remain = s._exe_instr_cycles_remain := by unfold SETFLAGS; split <;> rfl

theorem SETFLAGS_cpuClock_rsid (s : Cpu) (f : Nat) (c : Bool) :
    (SETFLAGS s f c).cpuClock_rsid = s.cpuClock_rsid := by unfold SETFLAGS; split <;> rfl

theorem push_interrupt_lead_time (s : Cpu) (v : Nat) :
    (push s v)._interrupt_lead_time = s._interrupt_lead_time := rfl

theorem push_irq_committed (s : Cpu) (v : Nat) :
    (push s v)._irq_committed = s._irq_committed := rfl

theorem push_irq_line_ts (s : Cpu) (v : Nat) :
    (push s v)._irq_line_ts = s._irq_line_ts := rfl

theorem push_nmi_committed (s : Cpu) (v : Nat) :
    (push s v)._nmi_committed = s._nmi_committed := rfl

theorem push_nmi_line (s : Cpu) (v : Nat) :
    (push s v)._nmi_line = s._nmi_line := rfl

theorem push_nmi_line_ts (s : Cpu) (v : Nat) :
    (push s v)._nmi_line_ts = s._nmi_line_ts := rfl

theorem push_exe_instr_opcode (s : Cpu) (v : Nat) :
    (push s v)._exe_instr_opcode = s._exe_instr_opcode := rfl

theorem push_exe_instr_cycles (s : Cpu) (v : Nat) :
    (push s v)._exe_instr_cycles = s._exe_instr_cycles := rfl

theorem push_exe_instr_cycles_remain (s : Cpu) (v : Nat) :
    (push s v)._exe_instr_cycles_remain = s._exe_instr_cycles_remain := rfl

theorem push_cpuClock_rsid (s : Cpu) (v : Nat) :
    (push s v).cpuClock_rsid = s.cpuClock_rsid := rfl

theorem pop_interrupt_lead_time (s : Cpu) :
    (pop s).2._interrupt_lead_time = s._interrupt_lead_time := rfl

theorem pop_irq_committed (s : Cpu) :
    (pop s).2._irq_committed = s._irq_committed := rfl

theorem pop_irq_line_ts (s : Cpu) :
    (pop s).2._irq_line_ts = s._irq_line_ts := rfl

theorem pop_nmi_committed (s : Cpu) :
    (pop s).2._nmi_committed = s._nmi_committed := rfl

theorem pop_nmi_line (s : Cpu) :
    (pop s).2._nmi_line = s._nmi_line := rfl

theorem pop_nmi_line_ts (s : Cpu) :
    (pop s).2._nmi_line_ts = s._nmi_line_ts := rfl

theorem pop_exe_instr_opcode (s : Cpu) :
    (pop s).2._exe_instr_opcode = s._exe_instr_opcode := rfl

theorem pop_exe_instr_cycles (s : Cpu) :
    (pop s).2._exe_instr_cycles = s._exe_instr_cycles := rfl

theorem pop_exe_instr_cycles_remain (s : Cpu) :
    (pop s).2._exe_instr_cycles_remain = s._exe_instr_cycles_remain := rfl

theorem pop_cpuClock_rsid (s : Cpu) :
    (pop s).2.cpuClock_rsid = s.cpuClock_rsid := rfl

theorem getInput_interrupt_lead_time (s : Cpu) (m : Mode) :
    (getInput s m).2._interrupt_lead_time = s._interrupt_lead_time := by cases m <;> rfl

theorem getInput_irq_committed (s : Cpu) (m : Mode) :
    (getInput s m).2._irq_committed = s._irq_committed := by cases m <;> rfl

theorem getInput_irq_line_ts (s : Cpu) (m : Mode) :
    (getInput s m).2._irq_line_ts = s._irq_line_ts := by cases m <;> rfl

theorem getInput_nmi_committed (s : Cpu) (m : Mode) :
    (getInput s m).2._nmi_committed = s._nmi_committed := by cases m <;> rfl

theorem getInput_nmi_line (s : Cpu) (m : Mode) :
    (getInput s m).2._nmi_line = s._nmi_line := by cases m <;> rfl

theorem getInput_nmi_line_ts (s : Cpu) (m : Mode) :
    (getInput s m).2._nmi_line_ts = s._nmi_line_ts := by cases m <;> rfl

theorem getInput_exe_instr_opcode (s : Cpu) (m : Mode) :
    (getInput s m).2._exe_instr_opcode = s._exe_instr_opcode := by cases m <;> rfl

theorem getInput_exe_instr_cycles (s : Cpu) (m : Mode) :
    (getInput s m).2._exe_instr_cycles = s._exe_instr_cycles := by cases m <;> rfl

theorem getInput_exe_instr_cycles_remain (s : Cpu) (m : Mode) :
    (getInput s m).2._exe_instr_cycles_remain = s._exe_instr_cycles_remain := by cases m <;> rfl

theorem getInput_cpuClock_rsid (s : Cpu) (m : Mode) :
    (getInput s m).2.cpuClock_rsid = s.cpuClock_rsid := by cases m <;> rfl

theorem setOutput_interrupt_lead_time (s : Cpu) (m : Mode) (v : Nat) :
    (setOutput s m v)._interrupt_lead_time = s._interrupt_lead_time := by cases m <;> rfl

theorem setOutput_irq_committed (s : Cpu) (m : Mode) (v : Nat) :
    (setOutput s m v)._irq_committed = s._irq_committed := by cases m <;> rfl

theorem setOutput_irq_line_ts (s : Cpu) (m : Mode) (v : Nat) :
    (setOutput s m v)._irq_line_ts = s._irq_line_ts := by cases m <;> rfl

theorem setOutput_nmi_committed (s : Cpu) (m : Mode) (v : Nat) :
    (setOutput s m v)._nmi_committed = s._nmi_committed := by cases m <;> rfl

theorem setOutput_nmi_line (s : Cpu) (m : Mode) (v : Nat) :
    (setOutput s m v)._nmi_line = s._nmi_line := by cases m <;> rfl

theorem setOutput_nmi_line_ts (s : Cpu) (m : Mode) (v : Nat) :
    (setOutput s m v)._nmi_line_ts = s._nmi_line_ts := by cases m <;> rfl

theorem setOutput_exe_instr_opcode (s : Cpu) (m : Mode) (v : Nat) :
    (setOutput s m v)._exe_instr_opcode = s._exe_instr_opcode := by cases m <;> rfl

theorem setOutput_exe_instr_cycles (s : Cpu) (m : Mode) (v : Nat) :
    (setOutput s m v)._exe_instr_cycles = s._exe_instr_cycles := by cases m <;> rfl

theorem setOutput_exe_instr_cycles_remain (s : Cpu) (m : Mode) (v : Nat) :
    (setOutput s m v)._exe_instr_cycles_remain = s._exe_instr_cycles_remain := by cases m <;> rfl

theorem setOutput_cpuClock_rsid (s : Cpu) (m : Mode) (v : Nat) :
    (setOutput s m v).cpuClock_rsid = s.cpuClock_rsid := by cases m <;> rfl

theorem operationSTx_interrupt_lead_time (s : Cpu) (m : Mode) (v : Nat) :
    (operationSTx s m v)._interrupt_lead_time = s._interrupt_lead_time := by cases m <;> rfl

theorem operationSTx_irq_committed (s : Cpu) (m : Mode) (v : Nat) :
    (operationSTx s m v)._irq_committed = s._irq_committed := by cases m <;> rfl

theorem operationSTx_irq_line_ts (s : Cpu) (m : Mode) (v : Nat) :
    (operationSTx s m v)._irq_line_ts = s._irq_line_ts := by cases m <;> rfl

theorem operationSTx_nmi_committed (s : Cpu) (m : Mode) (v : Nat) :
    (operationSTx s m v)._nmi_committed = s._nmi_committed := by cases m <;> rfl

theorem operationSTx_nmi_line (s : Cpu) (m : Mode) (v : Nat) :
    (operationSTx s m v)._nmi_line = s._nmi_line := by cases m <;> rfl

theorem operationSTx_nmi_line_ts (s : Cpu) (m : Mode) (v : Nat) :
    (operationSTx s m v)._nmi_line_ts = s._nmi_line_ts := by cases m <;> rfl

theorem operationSTx_exe_instr_opcode (s : Cpu) (m : Mode) (v : Nat) :
    (operationSTx s m v)._exe_instr_opcode = s._exe_instr_opcode := by cases m <;> rfl

theorem operationSTx_exe_instr_cycles (s : Cpu) (m : Mode) (v : Nat) :
    (operationSTx s m v)._exe_instr_cycles = s._exe_instr_cycles := by cases m <;> rfl

theorem operationSTx_exe_instr_cycles_remain (s : Cpu) (m : Mode) (v : Nat) :
    (operationSTx s m v)._exe_instr_cycles_remain = s._exe_instr_cycles_remain := by cases m <;> rfl

theorem operationSTx_cpuClock_rsid (s : Cpu) (m : Mode) (v : Nat) :
    (operationSTx s m v).cpuClock_rsid = s.cpuClock_rsid := by cases m <;> rfl

theorem branch_interrupt_lead_time (s : Cpu) (t : Bool) :
    (branch s t)._interrupt_lead_time = s._interrupt_lead_time := by unfold branch; split <;> rfl

theorem branch_irq_committed (s : Cpu) (t : Bool) :
    (branch s t)._irq_committed = s._irq_committed := by unfold branch; split <;> rfl

theorem branch_irq_line_ts (s : Cpu) (t : Bool) :
    (branch s t)._irq_line_ts = s._irq_line_ts := by unfold branch; split <;> rfl

theorem branch_nmi_committed (s : Cpu) (t : Bool) :
    (branch s t)._nmi_committed = s._nmi_committed := by unfold branch; split <;> rfl

theorem branch_nmi_line (s : Cpu) (t : Bool) :
    (branch s t)._nmi_line = s._nmi_line := by unfold branch; split <;> rfl

theorem branch_nmi_line_ts (s : Cpu) (t : Bool) :
    (branch s t)._nmi_line_ts = s._nmi_line_ts := by unfold branch; split <;> rfl

theorem branch_exe_instr_opcode (s : Cpu) (t : Bool) :
    (branch s t)._exe_instr_opcode = s._exe_instr_opcode := by unfold branch; split <;> rfl

theorem branch_exe_instr_cycles (s : Cpu) (t : Bool) :
    (branch s t)._exe_instr_cycles = s._exe_instr_cycles := by unfold branch; split <;> rfl

theorem branch_exe_instr_cycles_remain (s : Cpu) (t : Bool) :
    (branch s t)._exe_instr_cycles_remain = s._exe_instr_cycles_remain := by unfold branch; split <;> rfl

theorem branch_cpuClock_rsid (s : Cpu) (t : Bool) :
    (branch s t).cpuClock_rsid = s.cpuClock_rsid := by unfold branch; split <;> rfl

theorem switch_ctl (m : Mnemonic) (s : Cpu) :
    (runPrefetchedOp_switch m s)._interrupt_lead_time = s._interrupt_lead_time ∧
    (runPrefetchedOp_switch m s)._irq_committed = s._irq_committed ∧
    (runPrefetchedOp_switch m s)._irq_line_ts = s._irq_line_ts ∧
    (runPrefetchedOp_switch m s)._nmi_committed = s._nmi_committed ∧
    (runPrefetchedOp_switch m s)._nmi_line = s._nmi_line ∧
    (runPrefetchedOp_switch m s)._nmi_line_ts = s._nmi_line_ts ∧
    (runPrefetchedOp_switch m s)._exe_instr_opcode = s._exe_instr_opcode ∧
    (runPrefetchedOp_switch m s)._exe_instr_cycles = s._exe_instr_cycles ∧
    (runPrefetchedOp_switch m s)._exe_instr_cycles_remain = s._exe_instr_cycles_remain ∧
    (runPrefetchedOp_switch m s).cpuClock_rsid = s.cpuClock_rsid := by
  cases m <;>
    simp only [runPrefetchedOp_switch, incPC_interrupt_lead_time, incPC_irq_committed, incPC_irq_line_ts, incPC_nmi_committed, incPC_nmi_line, incPC_nmi_line_ts, incPC_exe_instr_opcode, incPC_exe_instr_cycles, incPC_exe_instr_cycles_remain, incPC_cpuClock_rsid, memSet_interrupt_lead_time, memSet_irq_committed, memSet_irq_line_ts, memSet_nmi_committed, memSet_nmi_line, memSet_nmi_line_ts, memSet_exe_instr_opcode, memSet_exe_instr_cycles, memSet_exe_instr_cycles_remain, memSet_cpuClock_rsid, MEM_WRITE_RAM_interrupt_lead_time, MEM_WRITE_RAM_irq_committed, MEM_WRITE_RAM_irq_line_ts, MEM_WRITE_RAM_nmi_committed, MEM_WRITE_RAM_nmi_line, MEM_WRITE_RAM_nmi_line_ts, MEM_WRITE_RAM_exe_instr_opcode, MEM_WRITE_RAM_exe_instr_cycles, MEM_WRITE_RAM_exe_instr_cycles_remain, MEM_WRITE_RAM_cpuClock_rsid, SETFLAGS_interrupt_lead_time, SETFLAGS_irq_committed, SETFLAGS_irq_line_ts, SETFLAGS_nmi_committed, SETFLAGS_nmi_line, SETFLAGS_nmi_line_ts, SETFLAGS_exe_instr_opcode, SETFLAGS_exe_instr_cycles, SETFLAGS_exe_instr_cycles_remain, SETFLAGS_cpuClock_rsid, push_interrupt_lead_time, push_irq_committed, push_irq_line_ts, push_nmi_committed, push_nmi_line, push_nmi_line_ts, push_exe_instr_opcode, push_exe_instr_cycles, push_exe_instr_cycles_remain, push_cpuClock_rsid, pop_interrupt_lead_time, pop_irq_committed, pop_irq_line_ts, pop_nmi_committed, pop_nmi_line, pop_nmi_line_ts, pop_exe_instr_opcode, pop_exe_instr_cycles, pop_exe_instr_cycles_remain, pop_cpuClock_rsid, getInput_interrupt_lead_time, getInput_irq_committed, getInput_irq_line_ts, getInput_nmi_committed, getInput_nmi_line, getInput_nmi_line_ts, getInput_exe_instr_opcode, getInput_exe_instr_cycles, getInput_exe_instr_cycles_remain, getInput_cpuClock_rsid, setOutput_interrupt_lead_time, setOutput_irq_committed, setOutput_irq_line_ts, setOutput_nmi_committed, setOutput_nmi_line, setOutput_nmi_line_ts, setOutput_exe_instr_opcode, setOutput_exe_instr_cycles, setOutput_exe_instr_cycles_remain, setOutput_cpuClock_rsid, operationSTx_interrupt_lead_time, operationSTx_irq_committed, operationSTx_irq_line_ts, operationSTx_nmi_committed, operationSTx_nmi_line, operationSTx_nmi_line_ts, operationSTx_exe_instr_opcode, operationSTx_exe_instr_cycles, operationSTx_exe_instr_cycles_remain, operationSTx_cpuClock_rsid, branch_interrupt_lead_time, branch_irq_committed, branch_irq_line_ts, branch_nmi_committed, branch_nmi_line, branch_nmi_line_ts, branch_exe_instr_opcode, branch_exe_instr_cycles, branch_exe_instr_cycles_remain, branch_cpuClock_rsid, and_self]
  · split_ifs <;> simp only [incPC_interrupt_lead_time, incPC_irq_committed, incPC_irq_line_ts, incPC_nmi_committed, incPC_nmi_line, incPC_nmi_line_ts, incPC_exe_instr_opcode, incPC_exe_instr_cycles, incPC_exe_instr_cycles_remain, incPC_cpuClock_rsid, memSet_interrupt_lead_time, memSet_irq_committed, memSet_irq_line_ts, memSet_nmi_committed, memSet_nmi_line, memSet_nmi_line_ts, memSet_exe_instr_opcode, memSet_exe_instr_cycles, memSet_exe_instr_cycles_remain, memSet_cpuClock_rsid, MEM_WRITE_RAM_interrupt_lead_time, MEM_WRITE_RAM_irq_committed, MEM_WRITE_RAM_irq_line_ts, MEM_WRITE_RAM_nmi_committed, MEM_WRITE_RAM_nmi_line, MEM_WRITE_RAM_nmi_line_ts, MEM_WRITE_RAM_exe_instr_opcode, MEM_WRITE_RAM_exe_instr_cycles, MEM_WRITE_RAM_exe_instr_cycles_remain, MEM_WRITE_RAM_cpuClock_rsid, SETFLAGS_interrupt_lead_time, SETFLAGS_irq_committed, SETFLAGS_irq_line_ts, SETFLAGS_nmi_committed, SETFLAGS_nmi_line, SETFLAGS_nmi_line_ts, SETFLAGS_exe_instr_opcode, SETFLAGS_exe_instr_cycles, SETFLAGS_exe_instr_cycles_remain, SETFLAGS_cpuClock_rsid, push_interrupt_lead_time, push_irq_committed, push_irq_line_ts, push_nmi_committed, push_nmi_line, push_nmi_line_ts, push_exe_instr_opcode, push_exe_instr_cycles, push_exe_instr_cycles_remain, push_cpuClock_rsid, pop_interrupt_lead_time, pop_irq_committed, pop_irq_line_ts, pop_nmi_committed, pop_nmi_line, pop_nmi_line_ts, pop_exe_instr_opcode, pop_exe_instr_cycles, pop_exe_instr_cycles_remain, pop_cpuClock_rsid, getInput_interrupt_lead_time, getInput_irq_committed, getInput_irq_line_ts, getInput_nmi_committed, getInput_nmi_line, getInput_nmi_line_ts, getInput_exe_instr_opcode, getInput_exe_instr_cycles, getInput_exe_instr_cycles_remain, getInput_cpuClock_rsid, setOutput_interrupt_lead_time, setOutput_irq_committed, setOutput_irq_line_ts, setOutput_nmi_committed, setOutput_nmi_line, setOutput_nmi_line_ts, setOutput_exe_instr_opcode, setOutput_exe_instr_cycles, setOutput_exe_instr_cycles_remain, setOutput_cpuClock_rsid, operationSTx_interrupt_lead_time, operationSTx_irq_committed, operationSTx_irq_line_ts, operationSTx_nmi_committed, operationSTx_nmi_line, operationSTx_nmi_line_ts, operationSTx_exe_instr_opcode, operationSTx_exe_instr_cycles, operationSTx_exe_instr_cycles_remain, operationSTx_cpuClock_rsid, branch_interrupt_lead_time, branch_irq_committed, branch_irq_line_ts, branch_nmi_committed, branch_nmi_line, branch_nmi_line_ts, branch_exe_instr_opcode, branch_exe_instr_cycles, branch_exe_instr_cycles_remain, branch_cpuClock_rsid, and_self]
  · split <;> simp only [incPC_interrupt_lead_time, incPC_irq_committed, incPC_irq_line_ts, incPC_nmi_committed, incPC_nmi_line, incPC_nmi_line_ts, incPC_exe_instr_opcode, incPC_exe_instr_cycles, incPC_exe_instr_cycles_remain, incPC_cpuClock_rsid, memSet_interrupt_lead_time, memSet_irq_committed, memSet_irq_line_ts, memSet_nmi_committed, memSet_nmi_line, memSet_nmi_line_ts, memSet_exe_instr_opcode, memSet_exe_instr_cycles, memSet_exe_instr_cycles_remain, memSet_cpuClock_rsid, MEM_WRITE_RAM_interrupt_lead_time, MEM_WRITE_RAM_irq_committed, MEM_WRITE_RAM_irq_line_ts, MEM_WRITE_RAM_nmi_committed, MEM_WRITE_RAM_nmi_line, MEM_WRITE_RAM_nmi_line_ts, MEM_WRITE_RAM_exe_instr_opcode, MEM_WRITE_RAM_exe_instr_cycles, MEM_WRITE_RAM_exe_instr_cycles_remain, MEM_WRITE_RAM_cpuClock_rsid, SETFLAGS_interrupt_lead_time, SETFLAGS_irq_committed, SETFLAGS_irq_line_ts, SETFLAGS_nmi_committed, SETFLAGS_nmi_line, SETFLAGS_nmi_line_ts, SETFLAGS_exe_instr_opcode, SETFLAGS_exe_instr_cycles, SETFLAGS_exe_instr_cycles_remain, SETFLAGS_cpuClock_rsid, push_interrupt_lead_time, push_irq_committed, push_irq_line_ts, push_nmi_committed, push_nmi_line, push_nmi_line_ts, push_exe_instr_opcode, push_exe_instr_cycles, push_exe_instr_cycles_remain, push_cpuClock_rsid, pop_interrupt_lead_time, pop_irq_committed, pop_irq_line_ts, pop_nmi_committed, pop_nmi_line, pop_nmi_line_ts, pop_exe_instr_opcode, pop_exe_instr_cycles, pop_exe_instr_cycles_remain, pop_cpuClock_rsid, getInput_interrupt_lead_time, getInput_irq_committed, getInput_irq_line_ts, getInput_nmi_committed, getInput_nmi_line, getInput_nmi_line_ts, getInput_exe_instr_opcode, getInput_exe_instr_cycles, getInput_exe_instr_cycles_remain, getInput_cpuClock_rsid, setOutput_interrupt_lead_time, setOutput_irq_committed, setOutput_irq_line_ts, setOutput_nmi_committed, setOutput_nmi_line, setOutput_nmi_line_ts, setOutput_exe_instr_opcode, setOutput_exe_instr_cycles, setOutput_exe_instr_cycles_remain, setOutput_cpuClock_rsid, operationSTx_interrupt_lead_time, operationSTx_irq_committed, operationSTx_irq_line_ts, operationSTx_nmi_committed, operationSTx_nmi_line, operationSTx_nmi_line_ts, operationSTx_exe_instr_opcode, operationSTx_exe_instr_cycles, operationSTx_exe_instr_cycles_remain, operationSTx_cpuClock_rsid, branch_interrupt_lead_time, branch_irq_committed, branch_irq_line_ts, branch_nmi_committed, branch_nmi_line, branch_nmi_line_ts, branch_exe_instr_opcode, branch_exe_instr_cycles, branch_exe_instr_cycles_remain, branch_cpuClock_rsid, and_self]

theorem runPrefetchedOp_ctl (s : Cpu) :
    (runPrefetchedOp s)._interrupt_lead_time = s._interrupt_lead_time ∧
    (runPrefetchedOp s)._irq_committed = s._irq_committed ∧
    (runPrefetchedOp s)._irq_line_ts = s._irq_line_ts ∧
    (runPrefetchedOp s)._nmi_committed = s._nmi_committed ∧
    (runPrefetchedOp s)._nmi_line = s._nmi_line ∧
    (runPrefetchedOp s)._nmi_line_ts = s._nmi_line_ts ∧
    (runPrefetchedOp s)._exe_instr_opcode = s._exe_instr_opcode ∧
    (runPrefetchedOp s)._exe_instr_cycles = s._exe_instr_cycles ∧
    (runPrefetchedOp s)._exe_instr_cycles_remain = s._exe_instr_cycles_remain ∧
    (runPrefetchedOp s).cpuClock_rsid = s.cpuClock_rsid := by
  unfold runPrefetchedOp
  exact switch_ctl _ _

theorem runPrefetchedOp_interrupt_lead_time (s : Cpu) :
    (runPrefetchedOp s)._interrupt_lead_time = s._interrupt_lead_time := (runPrefetchedOp_ctl s).1

theorem runPrefetchedOp_irq_committed (s : Cpu) :
    (runPrefetchedOp s)._irq_committed = s._irq_committed := (runPrefetchedOp_ctl s).2.1

theorem runPrefetchedOp_irq_line_ts (s : Cpu) :
    (runPrefetchedOp s)._irq_line_ts = s._irq_line_ts := (runPrefetchedOp_ctl s).2.2.1

theorem runPrefetchedOp_nmi_committed (s : Cpu) :
    (runPrefetchedOp s)._nmi_committed = s._nmi_committed := (runPrefetchedOp_ctl s).2.2.2.1

theorem runPrefetchedOp_nmi_line (s : Cpu) :
    (runPrefetchedOp s)._nmi_line = s._nmi_line := (runPrefetchedOp_ctl s).2.2.2.2.1

theorem runPrefetchedOp_nmi_line_ts (s : Cpu) :
    (runPrefetchedOp s)._nmi_line_ts = s._nmi_line_ts := (runPrefetchedOp_ctl s).2.2.2.2.2.1

theorem runPrefetchedOp_exe_instr_opcode (s : Cpu) :
    (runPrefetchedOp s)._exe_instr_opcode = s._exe_instr_opcode := (runPrefetchedOp_ctl s).2.2.2.2.2.2.1

theorem runPrefetchedOp_exe_instr_cycles (s : Cpu) :
    (runPrefetchedOp s)._exe_instr_cycles = s._exe_instr_cycles := (runPrefetchedOp_ctl s).2.2.2.2.2.2.2.1

theorem runPrefetchedOp_exe_instr_cycles_remain (s : Cpu) :
    (runPrefetchedOp s)._exe_instr_cycles_remain = s._exe_instr_cycles_remain := (runPrefetchedOp_ctl s).2.2.2.2.2.2.2.2.1

theorem runPrefetchedOp_cpuClock_rsid (s : Cpu) :
    (runPrefetchedOp s).cpuClock_rsid = s.cpuClock_rsid := (runPrefetchedOp_ctl s).2.2.2.2.2.2.2.2.2

theorem completeIRQ_interrupt_lead_time (s : Cpu) :
    (completeIRQ s)._interrupt_lead_time = s._interrupt_lead_time := by
  simp only [completeIRQ, push_interrupt_lead_time, SETFLAGS_interrupt_lead_time]

theorem completeIRQ_irq_committed (s : Cpu) :
    (completeIRQ s)._irq_committed = s._irq_committed := by
  simp only [completeIRQ, push_irq_committed, SETFLAGS_irq_committed]

theorem completeIRQ_irq_line_ts (s : Cpu) :
    (completeIRQ s)._irq_line_ts = s._irq_line_ts := by
  simp only [completeIRQ, push_irq_line_ts, SETFLAGS_irq_line_ts]

theorem completeIRQ_nmi_committed (s : Cpu) :
    (completeIRQ s)._nmi_committed = s._nmi_committed := by
  simp only [completeIRQ, push_nmi_committed, SETFLAGS_nmi_committed]

theorem completeIRQ_nmi_line (s : Cpu) :
    (completeIRQ s)._nmi_line = s._nmi_line := by
  simp only [completeIRQ, push_nmi_line, SETFLAGS_nmi_line]

theorem completeIRQ_nmi_line_ts (s : Cpu) :
    (completeIRQ s)._nmi_line_ts = s._nmi_line_ts := by
  simp only [completeIRQ, push_nmi_line_ts, SETFLAGS_nmi_line_ts]

theorem completeIRQ_exe_instr_opcode (s : Cpu) :
    (completeIRQ s)._exe_instr_opcode = s._exe_instr_opcode := by
  simp only [completeIRQ, push_exe_instr_opcode, SETFLAGS_exe_instr_opcode]

theorem completeIRQ_exe_instr_cycles (s : Cpu) :
    (completeIRQ s)._exe_instr_cycles = s._exe_instr_cycles := by
  simp only [completeIRQ, push_exe_instr_cycles, SETFLAGS_exe_instr_cycles]

theorem completeIRQ_exe_instr_cycles_remain (s : Cpu) :
    (completeIRQ s)._exe_instr_cycles_remain = s._exe_instr_cycles_remain := by
  simp only [completeIRQ, push_exe_instr_cycles_remain, SETFLAGS_exe_instr_cycles_remain]

theorem completeIRQ_cpuClock_rsid (s : Cpu) :
    (completeIRQ s).cpuClock_rsid = s.cpuClock_rsid := by
  simp only [completeIRQ, push_cpuClock_rsid, SETFLAGS_cpuClock_rsid]

theorem completeNMI_interrupt_lead_time (s : Cpu) :
    (completeNMI s)._interrupt_lead_time = s._interrupt_lead_time := by
  simp only [completeNMI, push_interrupt_lead_time, SETFLAGS_interrupt_lead_time]

theorem completeNMI_irq_committed (s : Cpu) :
    (completeNMI s)._irq_committed = s._irq_committed := by
  simp only [completeNMI, push_irq_committed, SETFLAGS_irq_committed]

theorem completeNMI_irq_line_ts (s : Cpu) :
    (completeNMI s)._irq_line_ts = s._irq_line_ts := by
  simp only [completeNMI, push_irq_line_ts, SETFLAGS_irq_line_ts]

theorem completeNMI_nmi_committed (s : Cpu) :
    (completeNMI s)._nmi_committed = s._nmi_committed := by
  simp only [completeNMI, push_nmi_committed, SETFLAGS_nmi_committed]

theorem completeNMI_nmi_line (s : Cpu) :
    (completeNMI s)._nmi_line = s._nmi_line := by
  simp only [completeNMI, push_nmi_line, SETFLAGS_nmi_line]

theorem completeNMI_nmi_line_ts (s : Cpu) :
    (completeNMI s)._nmi_line_ts = s._nmi_line_ts := by
  simp only [completeNMI, push_nmi_line_ts, SETFLAGS_nmi_line_ts]

theorem completeNMI_exe_instr_opcode (s : Cpu) :
    (completeNMI s)._exe_instr_opcode = s._exe_instr_opcode := by
  simp only [completeNMI, push_exe_instr_opcode, SETFLAGS_exe_instr_opcode]

theorem completeNMI_exe_instr_cycles (s : Cpu) :
    (completeNMI s)._exe_instr_cycles = s._exe_instr_cycles := by
  simp only [completeNMI, push_exe_instr_cycles, SETFLAGS_exe_instr_cycles]

theorem completeNMI_exe_instr_cycles_remain (s : Cpu) :
    (completeNMI s)._exe_instr_cycles_remain = s._exe_instr_cycles_remain := by
  simp only [completeNMI, push_exe_instr_cycles_remain, SETFLAGS_exe_instr_cycles_remain]

theorem completeNMI_cpuClock_rsid (s : Cpu) :
    (completeNMI s).cpuClock_rsid = s.cpuClock_rsid := by
  simp only [completeNMI, push_cpuClock_rsid, SETFLAGS_cpuClock_rsid]

/-! ## The sampling macros touch only the interrupt state -/

theorem sampled_eq (s : Cpu) (ln : Lines) :
    sampled s ln =
      { s with
        _irq_committed := (sampled s ln)._irq_committed
        _irq_line_ts := (sampled s ln)._irq_line_ts
        _nmi_committed := (sampled s ln)._nmi_committed
        _nmi_line := (sampled s ln)._nmi_line
        _nmi_line_ts := (sampled s ln)._nmi_line_ts } := by
  unfold sampled CHECK_FOR_NMI CHECK_FOR_IRQ; dsimp only; split_ifs <;> rfl

@[simp] theorem sampled_pc (s : Cpu) (ln : Lines) :
    (sampled s ln)._pc = s._pc :=
  (congrArg Cpu._pc (sampled_eq s ln)).trans rfl

@[simp] theorem sampled_a (s : Cpu) (ln : Lines) :
    (sampled s ln)._a = s._a :=
  (congrArg Cpu._a (sampled_eq s ln)).trans rfl

@[simp] theorem sampled_x (s : Cpu) (ln : Lines) :
    (sampled s ln)._x = s._x :=
  (congrArg Cpu._x (sampled_eq s ln)).trans rfl

@[simp] theorem sampled_y (s : Cpu) (ln : Lines) :
    (sampled s ln)._y = s._y :=
  (congrArg Cpu._y (sampled_eq s ln)).trans rfl

@[simp] theorem sampled_s (s : Cpu) (ln : Lines) :
    (sampled s ln)._s = s._s :=
  (congrArg Cpu._s (sampled_eq s ln)).trans rfl

@[simp] theorem sampled_p (s : Cpu) (ln : Lines) :
    (sampled s ln)._p = s._p :=
  (congrArg Cpu._p (sampled_eq s ln)).trans rfl

@[simp] theorem sampled_mem (s : Cpu) (ln : Lines) :
    (sampled s ln).mem = s.mem :=
  (congrArg Cpu.mem (sampled_eq s ln)).trans rfl

@[simp] theorem sampled_writes (s : Cpu) (ln : Lines) :
    (sampled s ln).writes = s.writes :=
  (congrArg Cpu.writes (sampled_eq s ln)).trans rfl

@[simp] theorem sampled_exe_instr_opcode (s : Cpu) (ln : Lines) :
    (sampled s ln)._exe_instr_opcode = s._exe_instr_opcode :=
  (congrArg Cpu._exe_instr_opcode (sampled_eq s ln)).trans rfl

@[simp] theorem sampled_exe_instr_cycles (s : Cpu) (ln : Lines) :
    (sampled s ln)._exe_instr_cycles = s._exe_instr_cycles :=
  (congrArg Cpu._exe_instr_cycles (sampled_eq s ln)).trans rfl

@[simp] theorem sampled_exe_instr_cycles_remain (s : Cpu) (ln : Lines) :
    (sampled s ln)._exe_instr_cycles_remain = s._exe_instr_cycles_remain :=
  (congrArg Cpu._exe_instr_cycles_remain (sampled_eq s ln)).trans rfl

@[simp] theorem sampled_interrupt_lead_time (s : Cpu) (ln : Lines) :
    (sampled s ln)._interrupt_lead_time = s._interrupt_lead_time :=
  (congrArg Cpu._interrupt_lead_time (sampled_eq s ln)).trans rfl

@[simp] theorem sampled_opc (s : Cpu) (ln : Lines) :
    (sampled s ln)._opc = s._opc :=
  (congrArg Cpu._opc (sampled_eq s ln)).trans rfl

@[simp] theorem sampled_bval (s : Cpu) (ln : Lines) :
    (sampled s ln).bval = s.bval :=
  (congrArg Cpu.bval (sampled_eq s ln)).trans rfl

@[simp] theorem sampled_nmi_marker (s : Cpu) (ln : Lines) :
    (sampled s ln).nmi_marker = s.nmi_marker :=
  (congrArg Cpu.nmi_marker (sampled_eq s ln)).trans rfl

@[simp] theorem sampled_cpuClock_rsid (s : Cpu) (ln : Lines) :
    (sampled s ln).cpuClock_rsid = s.cpuClock_rsid :=
  (congrArg Cpu.cpuClock_rsid (sampled_eq s ln)).trans rfl

/-! ## Normal forms of a tick of `cpuClockRSID`, by the branch taken -/

theorem baseCycles_START_NMI : baseCycles ((START_NMI_OP : Nat) : Int).toNat = 7 := by decide

theorem baseCycles_START_IRQ : baseCycles ((START_IRQ_OP : Nat) : Int).toNat = 7 := by decide

theorem cpuClockRSID_unfold (s : Cpu) (ln : Lines) :
    cpuClockRSID s ln =
      if CHECK_FOR_VIC_STUN (sampled s ln) ln then sampled s ln
      else if (sampled s ln)._exe_instr_opcode < 0 then
        if IS_NMI_PENDING (sampled s ln) ln then
          { sampled s ln with
            nmi_marker := true, _nmi_committed := false, _nmi_line_ts := 0,
            _exe_instr_opcode := (START_NMI_OP : Int), _exe_instr_cycles := 7,
            _exe_instr_cycles_remain := 6 }
        else if IS_IRQ_PENDING (sampled s ln) ln then
          { sampled s ln with
            _irq_committed := false,
            _exe_instr_opcode := (START_IRQ_OP : Int), _exe_instr_cycles := 7,
            _exe_instr_cycles_remain := 6 }
        else
          { prefetchOperation (sampled s ln) with
            _exe_instr_cycles_remain :=
              wrap8 ((prefetchOperation (sampled s ln))._exe_instr_cycles - 1) }
      else if wrap8 ((sampled s ln)._exe_instr_cycles_remain - 1) = 0 then
        retire
          (if (sampled s ln)._exe_instr_opcode = (START_IRQ_OP : Int) then
            completeIRQ { sampled s ln with _exe_instr_cycles_remain := 0 }
          else if (sampled s ln)._exe_instr_opcode = (START_NMI_OP : Int) then
            completeNMI { sampled s ln with _exe_instr_cycles_remain := 0 }
          else if (sampled s ln)._exe_instr_opcode = (NULL_OP : Int) then
            { sampled s ln with _exe_instr_cycles_remain := 0 }
          else runPrefetchedOp { sampled s ln with _exe_instr_cycles_remain := 0 })
      else
        { sampled s ln with
          _exe_instr_cycles_remain := wrap8 ((sampled s ln)._exe_instr_cycles_remain - 1) } := by
  unfold cpuClockRSID sampled
  dsimp only
  generalize CHECK_FOR_NMI (CHECK_FOR_IRQ s ln) ln = t
  by_cases h1 : CHECK_FOR_VIC_STUN t ln = true
  · simp only [h1, if_true]
  · simp only [h1, if_false, Bool.false_eq_true]
    by_cases h2 : t._exe_instr_opcode < 0
    · simp only [h2, if_true]
      by_cases h3 : IS_NMI_PENDING t ln = true
      · simp only [h3, if_true, baseCycles_START_NMI]
        rfl
      · simp only [h3, if_false, Bool.false_eq_true]
        by_cases h4 : IS_IRQ_PENDING t ln = true
        · simp only [h4, if_true, baseCycles_START_IRQ]
          rfl
        · simp only [h4, if_false, Bool.false_eq_true]
    · simp only [h2, if_false]
      by_cases h5 : wrap8 (t._exe_instr_cycles_remain - 1) = 0
      · simp only [h5, if_true, retire]
      · simp only [h5, if_false]

/-! ## The prefetch stores only opcode, cycle count and lead time -/

@[simp] theorem prefetchOperation_pc (s : Cpu) :
    (prefetchOperation s)._pc = s._pc := rfl

@[simp] theorem prefetchOperation_a (s : Cpu) :
    (prefetchOperation s)._a = s._a := rfl

@[simp] theorem prefetchOperation_x (s : Cpu) :
    (prefetchOperation s)._x = s._x := rfl

@[simp] theorem prefetchOperation_y (s : Cpu) :
    (prefetchOperation s)._y = s._y := rfl

@[simp] theorem prefetchOperation_s (s : Cpu) :
    (prefetchOperation s)._s = s._s := rfl

@[simp] theorem prefetchOperation_p (s : Cpu) :
    (prefetchOperation s)._p = s._p := rfl

@[simp] theorem prefetchOperation_mem (s : Cpu) :
    (prefetchOperation s).mem = s.mem := rfl

@[simp] theorem prefetchOperation_writes (s : Cpu) :
    (prefetchOperation s).writes = s.writes := rfl

@[simp] theorem prefetchOperation_irq_committed (s : Cpu) :
    (prefetchOperation s)._irq_committed = s._irq_committed := rfl

@[simp] theorem prefetchOperation_irq_line_ts (s : Cpu) :
    (prefetchOperation s)._irq_line_ts = s._irq_line_ts := rfl

@[simp] theorem prefetchOperation_nmi_committed (s : Cpu) :
    (prefetchOperation s)._nmi_committed = s._nmi_committed := rfl

@[simp] theorem prefetchOperation_nmi_line (s : Cpu) :
    (prefetchOperation s)._nmi_line = s._nmi_line := rfl

@[simp] theorem prefetchOperation_nmi_line_ts (s : Cpu) :
    (prefetchOperation s)._nmi_line_ts = s._nmi_line_ts := rfl

@[simp] theorem prefetchOperation_exe_instr_cycles_remain (s : Cpu) :
    (prefetchOperation s)._exe_instr_cycles_remain = s._exe_instr_cycles_remain := rfl

@[simp] theorem prefetchOperation_opc (s : Cpu) :
    (prefetchOperation s)._opc = s._opc := rfl

@[simp] theorem prefetchOperation_bval (s : Cpu) :
    (prefetchOperation s).bval = s.bval := rfl

@[simp] theorem prefetchOperation_nmi_marker (s : Cpu) :
    (prefetchOperation s).nmi_marker = s.nmi_marker := rfl

@[simp] theorem prefetchOperation_cpuClock_rsid (s : Cpu) :
    (prefetchOperation s).cpuClock_rsid = s.cpuClock_rsid := rfl


theorem prefetchOperation_opcode (s : Cpu) :
    (prefetchOperation s)._exe_instr_opcode = (memGet s s._pc : Nat) := rfl

/-! ## Claims about the clock -/

/-- C2: a tick of `cpuClockRSID` that does not complete an instruction (a
stunned tick, the tick that fetches an opcode or dispatches an interrupt
pseudo-op, a countdown tick that leaves `cycles_remaining` non-zero) performs
no memory write and leaves PC, A, X, Y, S and P unchanged. -/
theorem C2_noncompleting_tick_frame (s : Cpu) (ln : Lines)
    (h : tickCompletes s ln = false) : sameRegsMem s (cpuClockRSID s ln) := by
  rw [cpuClockRSID_unfold]
  unfold tickCompletes tickStunned at h
  unfold sameRegsMem
  by_cases h1 : CHECK_FOR_VIC_STUN (sampled s ln) ln = true
  · rw [if_pos h1]; simp
  · rw [if_neg h1]
    by_cases h2 : (sampled s ln)._exe_instr_opcode < 0
    · rw [if_pos h2]; split_ifs <;> simp
    · rw [if_neg h2]
      have h5 : ¬ wrap8 ((sampled s ln)._exe_instr_cycles_remain - 1) = 0 := by
        intro h5
        have h2' : 0 ≤ (sampled s ln)._exe_instr_opcode := by omega
        rw [h5] at h
        simp only [Bool.not_eq_true] at h1
        simp only [h1, decide_eq_true h2', decide_True, Bool.not_false, Bool.and_self] at h
        exact absurd h (by decide)
      rw [if_neg h5]; simp

/-! ## Single ticks, by kind -/

theorem stun_zero (t : Cpu) (ln : Lines) (h : ln.vicStunCPU = 0) :
    CHECK_FOR_VIC_STUN t ln = false := by
  unfold CHECK_FOR_VIC_STUN
  simp [h]

theorem tick_fetch (s : Cpu) (ln : Lines) (h : tickFetches s ln = true) :
    cpuClockRSID s ln =
      { prefetchOperation (sampled s ln) with
        _exe_instr_cycles_remain :=
          wrap8 ((prefetchOperation (sampled s ln))._exe_instr_cycles - 1) } := by
  unfold tickFetches tickIdle tickStunned at h
  simp only [Bool.and_eq_true, Bool.not_eq_true', decide_eq_true_eq] at h
  obtain ⟨⟨⟨h1, h2⟩, h3⟩, h4⟩ := h
  rw [cpuClockRSID_unfold]
  simp only [h1, h2, h3, h4, if_true, if_false, Bool.false_eq_true]

theorem tick_dispatchIRQ (s : Cpu) (ln : Lines) (h : dispatchesIRQ s ln = true) :
    cpuClockRSID s ln =
      { sampled s ln with
        _irq_committed := false,
        _exe_instr_opcode := (START_IRQ_OP : Int), _exe_instr_cycles := 7,
        _exe_instr_cycles_remain := 6 } := by
  unfold dispatchesIRQ tickIdle tickStunned at h
  simp only [Bool.and_eq_true, Bool.not_eq_true', decide_eq_true_eq] at h
  obtain ⟨⟨⟨h1, h2⟩, h3⟩, h4⟩ := h
  rw [cpuClockRSID_unfold]
  simp only [h1, h2, h3, h4, if_true, if_false, Bool.false_eq_true]

theorem tick_dispatchNMI (s : Cpu) (ln : Lines) (h : dispatchesNMI s ln = true) :
    cpuClockRSID s ln =
      { sampled s ln with
        nmi_marker := true, _nmi_committed := false, _nmi_line_ts := 0,
        _exe_instr_opcode := (START_NMI_OP : Int), _exe_instr_cycles := 7,
        _exe_instr_cycles_remain := 6 } := by
  unfold dispatchesNMI tickIdle tickStunned at h
  simp only [Bool.and_eq_true, Bool.not_eq_true', decide_eq_true_eq] at h
  obtain ⟨⟨h1, h2⟩, h3⟩ := h
  rw [cpuClockRSID_unfold]
  simp only [h1, h2, h3, if_true, if_false, Bool.false_eq_true]

theorem tick_stunned (s : Cpu) (ln : Lines) (h : tickStunned s ln = true) :
    cpuClockRSID s ln = sampled s ln := by
  unfold tickStunned at h
  rw [cpuClockRSID_unfold]
  simp only [h, if_true]

theorem tick_countdown (s : Cpu) (ln : Lines) (hs : tickStunned s ln = false)
    (ho : 0 ≤ s._exe_instr_opcode) (hr : wrap8 (s._exe_instr_cycles_remain - 1) ≠ 0) :
    cpuClockRSID s ln =
      { sampled s ln with
        _exe_instr_cycles_remain := wrap8 (s._exe_instr_cycles_remain - 1) } := by
  unfold tickStunned at hs
  have h1 : ¬ CHECK_FOR_VIC_STUN (sampled s ln) ln = true := by simp [hs]
  have h2 : ¬ (sampled s ln)._exe_instr_opcode < 0 := by simp; omega
  have h3 : ¬ wrap8 ((sampled s ln)._exe_instr_cycles_remain - 1) = 0 := by simpa using hr
  rw [cpuClockRSID_unfold, if_neg h1, if_neg h2, if_neg h3, sampled_exe_instr_cycles_remain]

theorem tick_complete (s : Cpu) (ln : Lines) (hs : tickStunned s ln = false)
    (ho : 0 ≤ s._exe_instr_opcode) (hr : wrap8 (s._exe_instr_cycles_remain - 1) = 0) :
    cpuClockRSID s ln =
      retire
        (if s._exe_instr_opcode = (START_IRQ_OP : Int) then
          completeIRQ { sampled s ln with _exe_instr_cycles_remain := 0 }
        else if s._exe_instr_opcode = (START_NMI_OP : Int) then
          completeNMI { sampled s ln with _exe_instr_cycles_remain := 0 }
        else if s._exe_instr_opcode = (NULL_OP : Int) then
          { sampled s ln with _exe_instr_cycles_remain := 0 }
        else runPrefetchedOp { sampled s ln with _exe_instr_cycles_remain := 0 }) := by
  unfold tickStunned at hs
  have h1 : ¬ CHECK_FOR_VIC_STUN (sampled s ln) ln = true := by simp [hs]
  have h2 : ¬ (sampled s ln)._exe_instr_opcode < 0 := by simp; omega
  have h3 : wrap8 ((sampled s ln)._exe_instr_cycles_remain - 1) = 0 := by simpa using hr
  rw [cpuClockRSID_unfold, if_neg h1, if_neg h2, if_pos h3, sampled_exe_instr_opcode]

theorem runRSID_append (s : Cpu) (l1 l2 : List Lines) :
    runRSID s (l1 ++ l2) = runRSID (runRSID s l1) l2 := by
  induction l1 generalizing s with
  | nil => rfl
  | cons a l ih => exact ih (cpuClockRSID s a)

/-- Countdown: while more than one cycle remains, unstunned ticks only
decrement `cycles_remaining`. -/
theorem countdown_run (mid : List Lines) :
    ∀ (t : Cpu), 0 ≤ t._exe_instr_opcode →
      (mid.length : Int) < t._exe_instr_cycles_remain → t._exe_instr_cycles_remain ≤ 127 →
      (∀ l ∈ mid, l.vicStunCPU = 0) →
      sameRegsMem t (runRSID t mid) ∧
      (runRSID t mid)._exe_instr_cycles_remain = t._exe_instr_cycles_remain - mid.length ∧
      (runRSID t mid)._exe_instr_opcode = t._exe_instr_opcode ∧
      (runRSID t mid)._exe_instr_cycles = t._exe_instr_cycles ∧
      (runRSID t mid).bval = t.bval ∧ (runRSID t mid)._opc = t._opc := by
  induction mid with
  | nil =>
    intro t _ _ _ _
    simp [runRSID, sameRegsMem]
  | cons ln rest ih =>
    intro t ho hlen hle hst
    have hs : tickStunned t ln = false := stun_zero _ _ (hst ln (List.mem_cons_self _ _))
    have hl : ((ln :: rest).length : Int) = rest.length + 1 := by simp
    rw [hl] at hlen
    have hw : wrap8 (t._exe_instr_cycles_remain - 1) = t._exe_instr_cycles_remain - 1 := by
      unfold wrap8; omega
    have hr : wrap8 (t._exe_instr_cycles_remain - 1) ≠ 0 := by rw [hw]; omega
    have hstep := tick_countdown t ln hs ho hr
    rw [hw] at hstep
    simp only [runRSID]
    rw [hstep]
    have := ih { sampled t ln with _exe_instr_cycles_remain := t._exe_instr_cycles_remain - 1 }
      (by simpa using ho) (by simp; omega) (by simp; omega)
      (fun l hl => hst l (List.mem_cons_of_mem _ hl))
    obtain ⟨h1, h2, h3, h4, h5, h6⟩ := this
    refine ⟨?_, ?_, ?_, ?_, ?_, ?_⟩
    · unfold sameRegsMem at h1 ⊢
      simpa using h1
    · rw [h2]; simp; omega
    · rw [h3]; simp
    · rw [h4]; simp
    · rw [h5]; simp
    · rw [h6]; simp

/-! ## Facts about the prefetched cycle count -/

theorem baseCycles_bound : ∀ opc, opc < 256 → 0 ≤ baseCycles opc ∧ baseCycles opc ≤ 8 := by
  decide

theorem adjustPageBoundaryCrossing_le (s : Cpu) (pc : Nat) (mode : Mode) :
    adjustPageBoundaryCrossing s pc mode ≤ 1 := by
  cases mode <;> simp only [adjustPageBoundaryCrossing] <;> first | omega | (split <;> omega)

theorem prefetchBranch_bound (s : Cpu) (pc : Nat) (c : Int) (l : Nat) (t : Bool) :
    c ≤ (prefetchBranch s pc c l t).1 ∧ (prefetchBranch s pc c l t).1 ≤ c + 2 := by
  unfold prefetchBranch
  cases t
  · simp
  · simp only [if_true, adjustBranchTaken_eq]
    split <;> simp

theorem prefetch_cycles_bound (s : Cpu) :
    0 ≤ (prefetchOperation s)._exe_instr_cycles ∧ (prefetchOperation s)._exe_instr_cycles ≤ 10 := by
  have hb := baseCycles_bound _ (memGet_lt s s._pc)
  have hp := adjustPageBoundaryCrossing_le s ((s._pc + 1) % 65536) (modeOf (memGet s s._pc))
  have b1 := prefetchBranch_bound s ((s._pc + 1) % 65536) (baseCycles (memGet s s._pc))
    IRQ_LEAD_DEFAULT (falsy (s._p &&& FLAG_C))
  have b2 := prefetchBranch_bound s ((s._pc + 1) % 65536) (baseCycles (memGet s s._pc))
    IRQ_LEAD_DEFAULT (truthy (s._p &&& FLAG_C))
  have b3 := prefetchBranch_bound s ((s._pc + 1) % 65536) (baseCycles (memGet s s._pc))
    IRQ_LEAD_DEFAULT (falsy (s._p &&& FLAG_Z))
  have b4 := prefetchBranch_bound s ((s._pc + 1) % 65536) (baseCycles (memGet s s._pc))
    IRQ_LEAD_DEFAULT (truthy (s._p &&& FLAG_Z))
  have b5 := prefetchBranch_bound s ((s._pc + 1) % 65536) (baseCycles (memGet s s._pc))
    IRQ_LEAD_DEFAULT (falsy (s._p &&& FLAG_N))
  have b6 := prefetchBranch_bound s ((s._pc + 1) % 65536) (baseCycles (memGet s s._pc))
    IRQ_LEAD_DEFAULT (truthy (s._p &&& FLAG_N))
  have b7 := prefetchBranch_bound s ((s._pc + 1) % 65536) (baseCycles (memGet s s._pc))
    IRQ_LEAD_DEFAULT (falsy (s._p &&& FLAG_V))
  have b8 := prefetchBranch_bound s ((s._pc + 1) % 65536) (baseCycles (memGet s s._pc))
    IRQ_LEAD_DEFAULT (truthy (s._p &&& FLAG_V))
  cases hm : mnemonicOf (memGet s s._pc) <;> simp only [prefetchOperation, hm] <;> omega

/-- The prefetch reads only `PC`, `X`, `Y`, `P` and memory. -/
theorem prefetch_congr (s t : Cpu) (h1 : t._pc = s._pc) (h2 : t._x = s._x) (h3 : t._y = s._y)
    (h4 : t._p = s._p) (h5 : t.mem = s.mem) :
    (prefetchOperation t)._exe_instr_opcode = (prefetchOperation s)._exe_instr_opcode ∧
    (prefetchOperation t)._exe_instr_cycles = (prefetchOperation s)._exe_instr_cycles ∧
    (prefetchOperation t)._interrupt_lead_time = (prefetchOperation s)._interrupt_lead_time := by
  unfold prefetchOperation prefetchBranch adjustBranchTaken adjustPageBoundaryCrossing memGet
  simp only [h1, h2, h3, h4, h5, and_self]

theorem prefetch_sampled (s : Cpu) (ln : Lines) :
    (prefetchOperation (sampled s ln))._exe_instr_opcode = (prefetchOperation s)._exe_instr_opcode ∧
    (prefetchOperation (sampled s ln))._exe_instr_cycles = (prefetchOperation s)._exe_instr_cycles ∧
    (prefetchOperation (sampled s ln))._interrupt_lead_time
      = (prefetchOperation s)._interrupt_lead_time :=
  prefetch_congr s (sampled s ln) (sampled_pc s ln) (sampled_x s ln) (sampled_y s ln)
    (sampled_p s ln) (sampled_mem s ln)

theorem sameRegsMem_trans {a b c : Cpu} (h1 : sameRegsMem a b) (h2 : sameRegsMem b c) :
    sameRegsMem a c := by
  unfold sameRegsMem at *
  obtain ⟨a1, a2, a3, a4, a5, a6, a7, a8⟩ := h1
  obtain ⟨b1, b2, b3, b4, b5, b6, b7, b8⟩ := h2
  exact ⟨b1.trans a1, b2.trans a2, b3.trans a3, b4.trans a4, b5.trans a5, b6.trans a6,
    b7.trans a7, b8.trans a8⟩

theorem fetch_tick_facts (s : Cpu) (ln : Lines) (h : tickFetches s ln = true) :
    sameRegsMem s (cpuClockRSID s ln) ∧
    (cpuClockRSID s ln)._exe_instr_opcode = (memGet s s._pc : Nat) ∧
    (cpuClockRSID s ln)._exe_instr_cycles = (prefetchOperation s)._exe_instr_cycles ∧
    (cpuClockRSID s ln)._exe_instr_cycles_remain = (prefetchOperation s)._exe_instr_cycles - 1 ∧
    (cpuClockRSID s ln)._interrupt_lead_time = (prefetchOperation s)._interrupt_lead_time ∧
    (cpuClockRSID s ln).bval = s.bval ∧ (cpuClockRSID s ln)._opc = s._opc := by
  have hb := prefetch_cycles_bound s
  obtain ⟨e1, e2, e3⟩ := prefetch_sampled s ln
  rw [tick_fetch s ln h]
  refine ⟨?_, ?_, ?_, ?_, ?_, ?_, ?_⟩
  · unfold sameRegsMem; simp
  · exact e1.trans (prefetchOperation_opcode s)
  · exact e2
  · show wrap8 ((prefetchOperation (sampled s ln))._exe_instr_cycles - 1) = _
    rw [e2]; unfold wrap8; omega
  · exact e3
  · simp
  · simp

/-- C1 (amended): for every opcode other than the pseudo-operation slots `$02`,
`$12`, `$22` whose prefetched cycle count `N` is at least 2, starting from an
idle record on a tick that fetches (unstunned, no interrupt pending) and with
no stun on the following ticks: the fetch tick leaves `cycles_remaining = N-1`;
after each of the ticks `1 .. N-1` registers, memory and write log are still
those of the start state while `cycles_remaining` counts down; the `N`-th tick
applies `runPrefetchedOp` to the latched opcode and leaves the record idle. -/
theorem C1_completion_on_last_cycle (s : Cpu) (ln lnN : Lines) (mid : List Lines) (N : Nat)
    (hfetch : tickFetches s ln = true)
    (hop : memGet s s._pc ≠ START_IRQ_OP ∧ memGet s s._pc ≠ START_NMI_OP ∧
      memGet s s._pc ≠ NULL_OP)
    (hN : (prefetchOperation s)._exe_instr_cycles = N) (h2 : 2 ≤ N)
    (hlen : mid.length + 2 = N)
    (hstun : ∀ l ∈ mid ++ [lnN], l.vicStunCPU = 0) :
    (cpuClockRSID s ln)._exe_instr_cycles_remain = (N : Int) - 1 ∧
    (∀ k, k ≤ mid.length →
      sameRegsMem s (runRSID s (ln :: mid.take k)) ∧
      (runRSID s (ln :: mid.take k))._exe_instr_cycles_remain = (N : Int) - 1 - k ∧
      (runRSID s (ln :: mid.take k))._exe_instr_opcode = (memGet s s._pc : Nat)) ∧
    runRSID s (ln :: mid ++ [lnN]) =
      retire (runPrefetchedOp
        { sampled (runRSID s (ln :: mid)) lnN with _exe_instr_cycles_remain := 0 }) ∧
    idleRecord (runRSID s (ln :: mid ++ [lnN])) := by
  obtain ⟨f1, f2, f3, f4, f5, f6, f7⟩ := fetch_tick_facts s ln hfetch
  have hb := prefetch_cycles_bound s
  rw [hN] at f3 f4 hb
  have hcount : ∀ k, k ≤ mid.length →
      sameRegsMem s (runRSID s (ln :: mid.take k)) ∧
      (runRSID s (ln :: mid.take k))._exe_instr_cycles_remain = (N : Int) - 1 - k ∧
      (runRSID s (ln :: mid.take k))._exe_instr_opcode = (memGet s s._pc : Nat) := by
    intro k hk
    have hlk : (mid.take k).length = k := by simp [hk]
    have := countdown_run (mid.take k) (cpuClockRSID s ln) (by rw [f2]; omega)
      (by rw [f4, hlk]; omega) (by rw [f4]; omega)
      (fun l hl => hstun l (List.mem_append_left _ (List.mem_of_mem_take hl)))
    obtain ⟨c1, c2, c3, _, _, _⟩ := this
    refine ⟨sameRegsMem_trans f1 c1, ?_, ?_⟩
    · show (runRSID (cpuClockRSID s ln) (mid.take k))._exe_instr_cycles_remain = _
      rw [c2, f4, hlk]
    · show (runRSID (cpuClockRSID s ln) (mid.take k))._exe_instr_opcode = _
      rw [c3, f2]
  have hfull := hcount mid.length (le_refl _)
  rw [List.take_length] at hfull
  obtain ⟨g1, g2, g3⟩ := hfull
  have hlast : runRSID s (ln :: mid ++ [lnN]) = cpuClockRSID (runRSID s (ln :: mid)) lnN := by
    rw [show ln :: mid ++ [lnN] = (ln :: mid) ++ [lnN] from rfl, runRSID_append]
    rfl
  have hs : tickStunned (runRSID s (ln :: mid)) lnN = false :=
    stun_zero _ _ (hstun lnN (List.mem_append_right _ (List.mem_singleton_self _)))
  have hr : wrap8 ((runRSID s (ln :: mid))._exe_instr_cycles_remain - 1) = 0 := by
    rw [g2]; unfold wrap8; omega
  have hstep := tick_complete (runRSID s (ln :: mid)) lnN hs (by rw [g3]; omega) hr
  have hb1 := memGet_lt s s._pc
  have n1 : ¬ (runRSID s (ln :: mid))._exe_instr_opcode = (START_IRQ_OP : Int) := by
    rw [g3]; intro h; exact hop.1 (by exact_mod_cast h)
  have n2 : ¬ (runRSID s (ln :: mid))._exe_instr_opcode = (START_NMI_OP : Int) := by
    rw [g3]; intro h; exact hop.2.1 (by exact_mod_cast h)
  have n3 : ¬ (runRSID s (ln :: mid))._exe_instr_opcode = (NULL_OP : Int) := by
    rw [g3]; intro h; exact hop.2.2 (by exact_mod_cast h)
  rw [if_neg n1, if_neg n2, if_neg n3] at hstep
  refine ⟨f4, hcount, hlast.trans hstep, ?_⟩
  rw [hlast, hstep]
  exact ⟨rfl, rfl, rfl⟩

/-! ## Interrupt state across a tick -/

theorem complete_ctl (t : Cpu) (o : Int) :
    (retire (if o = (START_IRQ_OP : Int) then completeIRQ t
       else if o = (START_NMI_OP : Int) then completeNMI t
       else if o = (NULL_OP : Int) then t
       else runPrefetchedOp t))._irq_committed = t._irq_committed ∧
    (retire (if o = (START_IRQ_OP : Int) then completeIRQ t
       else if o = (START_NMI_OP : Int) then completeNMI t
       else if o = (NULL_OP : Int) then t
       else runPrefetchedOp t))._irq_line_ts = t._irq_line_ts ∧
    (retire (if o = (START_IRQ_OP : Int) then completeIRQ t
       else if o = (START_NMI_OP : Int) then completeNMI t
       else if o = (NULL_OP : Int) then t
       else runPrefetchedOp t))._nmi_committed = t._nmi_committed ∧
    (retire (if o = (START_IRQ_OP : Int) then completeIRQ t
       else if o = (START_NMI_OP : Int) then completeNMI t
       else if o = (NULL_OP : Int) then t
       else runPrefetchedOp t))._nmi_line = t._nmi_line ∧
    (retire (if o = (START_IRQ_OP : Int) then completeIRQ t
       else if o = (START_NMI_OP : Int) then completeNMI t
       else if o = (NULL_OP : Int) then t
       else runPrefetchedOp t))._nmi_line_ts = t._nmi_line_ts ∧
    (retire (if o = (START_IRQ_OP : Int) then completeIRQ t
       else if o = (START_NMI_OP : Int) then completeNMI t
       else if o = (NULL_OP : Int) then t
       else runPrefetchedOp t))._interrupt_lead_time = t._interrupt_lead_time := by
  split_ifs <;>
    simp only [retire, completeIRQ_irq_committed, completeIRQ_irq_line_ts,
      completeIRQ_nmi_committed, completeIRQ_nmi_line, completeIRQ_nmi_line_ts,
      completeIRQ_interrupt_lead_time, completeNMI_irq_committed, completeNMI_irq_line_ts,
      completeNMI_nmi_committed, completeNMI_nmi_line, completeNMI_nmi_line_ts,
      completeNMI_interrupt_lead_time, runPrefetchedOp_irq_committed,
      runPrefetchedOp_irq_line_ts, runPrefetchedOp_nmi_committed, runPrefetchedOp_nmi_line,
      runPrefetchedOp_nmi_line_ts, runPrefetchedOp_interrupt_lead_time, and_self]

theorem tick_ctl (s : Cpu) (ln : Lines) :
    (cpuClockRSID s ln)._irq_committed = ((sampled s ln)._irq_committed && !dispatchesIRQ s ln) ∧
    (cpuClockRSID s ln)._irq_line_ts = (sampled s ln)._irq_line_ts ∧
    (cpuClockRSID s ln)._nmi_committed = ((sampled s ln)._nmi_committed && !dispatchesNMI s ln) ∧
    (cpuClockRSID s ln)._nmi_line = (sampled s ln)._nmi_line ∧
    (cpuClockRSID s ln)._nmi_line_ts
      = (if dispatchesNMI s ln = true then 0 else (sampled s ln)._nmi_line_ts) ∧
    (cpuClockRSID s ln)._interrupt_lead_time
      = (if tickFetches s ln = true then (prefetchOperation s)._interrupt_lead_time
         else s._interrupt_lead_time) := by
  by_cases h1 : tickStunned s ln = true
  · have d1 : dispatchesIRQ s ln = false := by simp [dispatchesIRQ, tickIdle, h1]
    have d2 : dispatchesNMI s ln = false := by simp [dispatchesNMI, tickIdle, h1]
    have d3 : tickFetches s ln = false := by simp [tickFetches, tickIdle, h1]
    rw [tick_stunned s ln h1, d1, d2, d3]
    simp
  · simp only [Bool.not_eq_true] at h1
    by_cases h2 : s._exe_instr_opcode < 0
    · have hid : tickIdle s ln = true := by simp [tickIdle, h1, h2]
      by_cases h3 : IS_NMI_PENDING (sampled s ln) ln = true
      · have d2 : dispatchesNMI s ln = true := by simp [dispatchesNMI, hid, h3]
        have d1 : dispatchesIRQ s ln = false := by simp [dispatchesIRQ, hid, h3]
        have d3 : tickFetches s ln = false := by simp [tickFetches, hid, h3]
        rw [tick_dispatchNMI s ln d2, d1, d2, d3]
        simp
      · simp only [Bool.not_eq_true] at h3
        have d2 : dispatchesNMI s ln = false := by simp [dispatchesNMI, hid, h3]
        by_cases h4 : IS_IRQ_PENDING (sampled s ln) ln = true
        · have d1 : dispatchesIRQ s ln = true := by simp [dispatchesIRQ, hid, h3, h4]
          have d3 : tickFetches s ln = false := by simp [tickFetches, hid, h3, h4]
          rw [tick_dispatchIRQ s ln d1, d1, d2, d3]
          simp
        · simp only [Bool.not_eq_true] at h4
          have d1 : dispatchesIRQ s ln = false := by simp [dispatchesIRQ, hid, h3, h4]
          have d3 : tickFetches s ln = true := by simp [tickFetches, hid, h3, h4]
          have := (prefetch_sampled s ln).2.2
          rw [tick_fetch s ln d3, d1, d2, d3]
          simp [this]
    · have hid : tickIdle s ln = false := by simp [tickIdle, h1, h2]
      have d1 : dispatchesIRQ s ln = false := by simp [dispatchesIRQ, hid]
      have d2 : dispatchesNMI s ln = false := by simp [dispatchesNMI, hid]
      have d3 : tickFetches s ln = false := by simp [tickFetches, hid]
      rw [d1, d2, d3]
      by_cases h5 : wrap8 (s._exe_instr_cycles_remain - 1) = 0
      · rw [tick_complete s ln h1 (by omega) h5]
        obtain ⟨c1, c2, c3, c4, c5, c6⟩ :=
          complete_ctl { sampled s ln with _exe_instr_cycles_remain := 0 } s._exe_instr_opcode
        rw [c1, c2, c3, c4, c5, c6]
        simp
      · rw [tick_countdown s ln h1 (by omega) h5]
        simp

/-! ## What the sampling macros record -/

theorem sampled_irq (s : Cpu) (ln : Lines) :
    (sampled s ln)._irq_committed
      = (s._irq_committed || (irqSampleCond s ln && decide (s._irq_line_ts = 0))) ∧
    (sampled s ln)._irq_line_ts
      = (if irqSampleCond s ln = true then
          (if s._irq_line_ts = 0 then ln.sysCycles % 4294967296 else s._irq_line_ts)
         else (if s._irq_committed = true then s._irq_line_ts else 0)) := by
  unfold sampled CHECK_FOR_NMI CHECK_FOR_IRQ irqSampleCond
  dsimp only
  by_cases h1 : ln.ciaNMI = true <;> by_cases h2 : s._nmi_line = true <;>
    by_cases h3 : s._nmi_committed = true <;> by_cases h4 : s._irq_committed = true <;>
    by_cases h5 : s._irq_line_ts = 0 <;>
    by_cases h6 : ((falsy (s._p &&& FLAG_I) && !EXECUTING_SEI_LAST_CYCLE s)
      && (ln.vicIRQ || ln.ciaIRQ)) = true <;>
    simp [h1, h2, h3, h4, h5, h6]

theorem sampled_nmi (s : Cpu) (ln : Lines) :
    (sampled s ln)._nmi_committed = (s._nmi_committed || (ln.ciaNMI && !s._nmi_line)) ∧
    (sampled s ln)._nmi_line = ln.ciaNMI ∧
    (sampled s ln)._nmi_line_ts
      = (if ln.ciaNMI = true then
          (if s._nmi_line = true then s._nmi_line_ts else ln.sysCycles % 4294967296)
         else (if s._nmi_committed = true then s._nmi_line_ts else 0)) := by
  unfold sampled CHECK_FOR_NMI CHECK_FOR_IRQ
  dsimp only
  by_cases h1 : ln.ciaNMI = true <;> by_cases h2 : s._nmi_line = true <;>
    by_cases h3 : s._nmi_committed = true <;> by_cases h4 : s._irq_committed = true <;>
    by_cases h5 : s._irq_line_ts = 0 <;>
    by_cases h6 : ((falsy (s._p &&& FLAG_I) && !EXECUTING_SEI_LAST_CYCLE s)
      && (ln.vicIRQ || ln.ciaIRQ)) = true <;>
    simp [h1, h2, h3, h4, h5, h6]

/-! ## Runs over a signal trace -/

theorem irq_stays_uncommitted (u : Cpu) (ln : Lines) (hI : u._p &&& FLAG_I ≠ 0)
    (hc : u._irq_committed = false) :
    (cpuClockRSID u ln)._irq_committed = false ∧ dispatchesIRQ u ln = false := by
  have hcond : irqSampleCond u ln = false := by
    simp [irqSampleCond, falsy, hI]
  have hs : (sampled u ln)._irq_committed = false := by
    rw [(sampled_irq u ln).1, hc, hcond]; rfl
  have hd : dispatchesIRQ u ln = false := by
    simp [dispatchesIRQ, IS_IRQ_PENDING, hs]
  exact ⟨by rw [(tick_ctl u ln).1, hs]; rfl, hd⟩

theorem nmi_stays_uncommitted (u : Cpu) (ln : Lines) (hn : ln.ciaNMI = false)
    (hc : u._nmi_committed = false) :
    (cpuClockRSID u ln)._nmi_committed = false ∧ dispatchesNMI u ln = false ∧
    IS_NMI_PENDING (sampled u ln) ln = false := by
  have hs : (sampled u ln)._nmi_committed = false := by
    rw [(sampled_nmi u ln).1, hc, hn]; rfl
  have hp : IS_NMI_PENDING (sampled u ln) ln = false := by simp [IS_NMI_PENDING, hs]
  have hd : dispatchesNMI u ln = false := by
    simp [dispatchesNMI, hp]
  exact ⟨by rw [(tick_ctl u ln).2.2.1, hs]; rfl, hd, hp⟩

/-- Countdown over a trace: while more than one cycle remains, unstunned ticks
only decrement `cycles_remaining`. -/
theorem countdown_ticks (s : Cpu) (ln : Nat → Lines) (t0 : Nat) :
    ∀ m : Nat, 0 ≤ (runTicks s ln t0)._exe_instr_opcode →
      (m : Int) < (runTicks s ln t0)._exe_instr_cycles_remain →
      (runTicks s ln t0)._exe_instr_cycles_remain ≤ 127 →
      (∀ j, t0 ≤ j → j < t0 + m → (ln j).vicStunCPU = 0) →
      sameRegsMem (runTicks s ln t0) (runTicks s ln (t0 + m)) ∧
      (runTicks s ln (t0 + m))._exe_instr_cycles_remain
        = (runTicks s ln t0)._exe_instr_cycles_remain - m ∧
      (runTicks s ln (t0 + m))._exe_instr_opcode = (runTicks s ln t0)._exe_instr_opcode ∧
      (runTicks s ln (t0 + m))._exe_instr_cycles = (runTicks s ln t0)._exe_instr_cycles ∧
      (runTicks s ln (t0 + m)).bval = (runTicks s ln t0).bval ∧
      (runTicks s ln (t0 + m))._opc = (runTicks s ln t0)._opc := by
  intro m
  induction m with
  | zero =>
    intro _ _ _ _
    simp [sameRegsMem]
  | succ m ih =>
    intro ho hlen hle hst
    obtain ⟨h1, h2, h3, h4, h5, h6⟩ := ih ho (by push_cast at hlen; omega) hle
      (fun j hj1 hj2 => hst j hj1 (by omega))
    have hs : tickStunned (runTicks s ln (t0 + m)) (ln (t0 + m)) = false :=
      stun_zero _ _ (hst (t0 + m) (by omega) (by omega))
    have hw : wrap8 ((runTicks s ln (t0 + m))._exe_instr_cycles_remain - 1)
        = (runTicks s ln (t0 + m))._exe_instr_cycles_remain - 1 := by
      unfold wrap8; push_cast at hlen; omega
    have hr : wrap8 ((runTicks s ln (t0 + m))._exe_instr_cycles_remain - 1) ≠ 0 := by
      rw [hw]; push_cast at hlen; omega
    have hstep := tick_countdown (runTicks s ln (t0 + m)) (ln (t0 + m)) hs (by rw [h3]; exact ho) hr
    rw [hw] at hstep
    have e : runTicks s ln (t0 + (m + 1))
        = cpuClockRSID (runTicks s ln (t0 + m)) (ln (t0 + m)) := rfl
    rw [e, hstep]
    refine ⟨?_, ?_, ?_, ?_, ?_, ?_⟩
    · unfold sameRegsMem at h1 ⊢
      simpa using h1
    · simp; rw [h2]; omega
    · simpa using h3
    · simpa using h4
    · simpa using h5
    · simpa using h6

/-! ## SEI -/

theorem prefetch_sei (s : Cpu) (h : memGet s s._pc = SEI_OP) :
    (prefetchOperation s)._exe_instr_cycles = 2 ∧
    (prefetchOperation s)._interrupt_lead_time = 2 := by
  have hm : mnemonicOf (memGet s s._pc) = Mnemonic.sei := by rw [h]; decide
  have hb : baseCycles (memGet s s._pc) = 2 := by rw [h]; decide
  simp only [prefetchOperation, hm, hb, IRQ_LEAD_DEFAULT, and_self]

theorem runPrefetchedOp_sei (t : Cpu) (h : t._exe_instr_opcode = (SEI_OP : Int)) :
    runPrefetchedOp t = SETFLAGS { incPC t with _opc := SEI_OP } FLAG_I true := by
  have e : u8 (incPC t)._exe_instr_opcode = SEI_OP := by
    show u8 t._exe_instr_opcode = SEI_OP
    rw [h]; decide
  have hm : mnemonicOf SEI_OP = Mnemonic.sei := by decide
  unfold runPrefetchedOp
  simp only [e, hm, runPrefetchedOp_switch]

/-! ## Interrupt entry -/

theorem push_s (t : Cpu) (v : Nat) : (push t v)._s = (t._s + 255) % 256 := by
  simp only [push, MEM_WRITE_RAM, and_ff]

theorem push_writes (t : Cpu) (v : Nat) :
    (push t v).writes = t.writes ++ [((0x100 + t._s) % 65536, v % 256)] := rfl

theorem push_mem (t : Cpu) (v a : Nat) :
    memGet (push t v) a
      = if a % 65536 = (0x100 + t._s) % 65536 then v % 256 else memGet t a := by
  simp only [push, MEM_WRITE_RAM, memGet]
  split <;> simp

theorem push_pc (t : Cpu) (v : Nat) : (push t v)._pc = t._pc := rfl

theorem push_p (t : Cpu) (v : Nat) : (push t v)._p = t._p := rfl

theorem push_a (t : Cpu) (v : Nat) : (push t v)._a = t._a := rfl

theorem push_x (t : Cpu) (v : Nat) : (push t v)._x = t._x := rfl

theorem push_y (t : Cpu) (v : Nat) : (push t v)._y = t._y := rfl

/-- Three pushes leave the bytes at `$FFFA..$FFFF` alone. -/
theorem push3_vector (t : Cpu) (v1 v2 v3 a : Nat) (hs : t._s < 256) (ha1 : 0xfffa ≤ a)
    (ha2 : a < 65536) :
    memGet (push (push (push t v1) v2) v3) a = memGet t a := by
  rw [push_mem, push_mem, push_mem, push_s, push_s]
  rw [if_neg (by omega), if_neg (by omega), if_neg (by omega)]

theorem SETFLAGS_pc (s : Cpu) (f : Nat) (c : Bool) :
    (SETFLAGS s f c)._pc = s._pc := by
  unfold SETFLAGS; split <;> rfl

theorem SETFLAGS_a (s : Cpu) (f : Nat) (c : Bool) :
    (SETFLAGS s f c)._a = s._a := by
  unfold SETFLAGS; split <;> rfl

theorem SETFLAGS_x (s : Cpu) (f : Nat) (c : Bool) :
    (SETFLAGS s f c)._x = s._x := by
  unfold SETFLAGS; split <;> rfl

theorem SETFLAGS_y (s : Cpu) (f : Nat) (c : Bool) :
    (SETFLAGS s f c)._y = s._y := by
  unfold SETFLAGS; split <;> rfl

theorem SETFLAGS_s (s : Cpu) (f : Nat) (c : Bool) :
    (SETFLAGS s f c)._s = s._s := by
  unfold SETFLAGS; split <;> rfl

theorem SETFLAGS_mem (s : Cpu) (f : Nat) (c : Bool) :
    (SETFLAGS s f c).mem = s.mem := by
  unfold SETFLAGS; split <;> rfl

theorem SETFLAGS_writes (s : Cpu) (f : Nat) (c : Bool) :
    (SETFLAGS s f c).writes = s.writes := by
  unfold SETFLAGS; split <;> rfl

theorem SETFLAGS_opc (s : Cpu) (f : Nat) (c : Bool) :
    (SETFLAGS s f c)._opc = s._opc := by
  unfold SETFLAGS; split <;> rfl

theorem SETFLAGS_bval (s : Cpu) (f : Nat) (c : Bool) :
    (SETFLAGS s f c).bval = s.bval := by
  unfold SETFLAGS; split <;> rfl

theorem SETFLAGS_nmi_marker (s : Cpu) (f : Nat) (c : Bool) :
    (SETFLAGS s f c).nmi_marker = s.nmi_marker := by
  unfold SETFLAGS; split <;> rfl

theorem SETFLAGS_p_true (s : Cpu) (f : Nat) :
    (SETFLAGS s f true)._p = (s._p ||| f) % 256 := rfl

theorem SETFLAGS_p_false (s : Cpu) (f : Nat) :
    (SETFLAGS s f false)._p = (s._p &&& (f ^^^ 0xffffffff)) % 256 := rfl

theorem memGet_SETFLAGS (s : Cpu) (f : Nat) (c : Bool) (a : Nat) :
    memGet (SETFLAGS s f c) a = memGet s a := by
  unfold memGet; rw [SETFLAGS_mem]

theorem push_opc (t : Cpu) (v : Nat) : (push t v)._opc = t._opc := rfl

theorem push_bval (t : Cpu) (v : Nat) : (push t v).bval = t.bval := rfl

theorem push_nmi_marker (t : Cpu) (v : Nat) : (push t v).nmi_marker = t.nmi_marker := rfl

theorem completeIRQ_result (t : Cpu) (hs : t._s < 256) :
    (completeIRQ t)._pc = memGet t 0xfffe + 256 * memGet t 0xffff ∧
    (completeIRQ t)._s = (t._s + 253) % 256 ∧
    (completeIRQ t)._p = (t._p ||| FLAG_I) % 256 ∧
    (completeIRQ t).writes = t.writes ++
      [(0x100 + t._s, (t._pc >>> 8) % 256 % 256),
       (0x100 + (t._s + 255) % 256, (t._pc &&& 0xff) % 256),
       (0x100 + (t._s + 254) % 256, (t._p ||| FLAG_B1) % 256 % 256)] ∧
    (completeIRQ t)._a = t._a ∧ (completeIRQ t)._x = t._x ∧ (completeIRQ t)._y = t._y ∧
    (completeIRQ t)._opc = t._opc := by
  have b1 := memGet_lt t 0xfffe
  have v1 := push3_vector t ((t._pc >>> 8) % 256) (t._pc &&& 0xff) ((t._p ||| FLAG_B1) % 256)
    0xfffe hs (by norm_num) (by norm_num)
  have v2 := push3_vector t ((t._pc >>> 8) % 256) (t._pc &&& 0xff) ((t._p ||| FLAG_B1) % 256)
    0xffff hs (by norm_num) (by norm_num)
  unfold completeIRQ
  dsimp only
  refine ⟨?_, ?_, ?_, ?_, ?_, ?_, ?_, ?_⟩
  · have e : ∀ (u : Cpu) (x : Nat),
        memGet { u with _pc := x } 0xffff = memGet u 0xffff := fun _ _ => rfl
    simp only [e, memGet_SETFLAGS, push_pc, push_p]
    rw [v1, v2, or_shl8 _ _ b1]
  · simp only [SETFLAGS_s, push_s]
    omega
  · simp only [SETFLAGS_p_true, push_p]
  · simp only [SETFLAGS_writes, push_writes, push_s, push_pc, push_p]
    have e0 : (0x100 + t._s) % 65536 = 0x100 + t._s := by omega
    have e1 : (0x100 + (t._s + 255) % 256) % 65536 = 0x100 + (t._s + 255) % 256 := by omega
    have e2 : (0x100 + ((t._s + 255) % 256 + 255) % 256) % 65536
        = 0x100 + (t._s + 254) % 256 := by omega
    rw [e0, e1, e2]
    simp only [List.append_assoc, List.singleton_append, List.cons_append, List.nil_append]
  · simp only [SETFLAGS_a, push_a]
  · simp only [SETFLAGS_x, push_x]
  · simp only [SETFLAGS_y, push_y]
  · simp only [SETFLAGS_opc, push_opc]

/-! ## The SEI-then-IRQ scenario -/

theorem sub32_self (c : Nat) : sub32 c (c % 4294967296) = 0 := by
  unfold sub32; omega

theorem sub32_two (c : Nat) : 1 ≤ sub32 (c + 2) (c % 4294967296) := by
  unfold sub32; omega

theorem flagI_set : ∀ p, p < 256 → ((p ||| FLAG_I) % 256) &&& FLAG_I ≠ 0 := by decide

theorem dispatchesIRQ_busy (u : Cpu) (ln : Lines) (h : 0 ≤ u._exe_instr_opcode) :
    dispatchesIRQ u ln = false ∧ dispatchesNMI u ln = false ∧ tickFetches u ln = false := by
  have hid : tickIdle u ln = false := by
    simp only [tickIdle, sampled_exe_instr_opcode]
    have : ¬ u._exe_instr_opcode < 0 := by omega
    simp [this]
  simp [dispatchesIRQ, dispatchesNMI, tickFetches, hid]

/-- First tick of the SEI-then-IRQ scenario: SEI is fetched and the IRQ line is
observed and committed. -/
theorem sei_fetch_tick (s : Cpu) (c : Nat) (l0 : Lines)
    (hidle : s._exe_instr_opcode = -1) (hI : s._p &&& FLAG_I = 0)
    (hic : s._irq_committed = false) (hits : s._irq_line_ts = 0)
    (hnc : s._nmi_committed = false) (hlead : 0 < s._interrupt_lead_time)
    (hsei : memGet s s._pc = SEI_OP)
    (h0 : l0.ciaNMI = false ∧ l0.vicStunCPU = 0 ∧ l0.sysCycles = c)
    (hirq : (l0.vicIRQ || l0.ciaIRQ) = true) :
    tickFetches s l0 = true ∧
    (cpuClockRSID s l0)._exe_instr_opcode = (SEI_OP : Int) ∧
    (cpuClockRSID s l0)._exe_instr_cycles_remain = 1 ∧
    sameRegsMem s (cpuClockRSID s l0) ∧
    (cpuClockRSID s l0)._irq_committed = true ∧
    (cpuClockRSID s l0)._irq_line_ts = c % 4294967296 ∧
    (cpuClockRSID s l0)._nmi_committed = false ∧
    dispatchesIRQ s l0 = false := by
  have hst : tickStunned s l0 = false := stun_zero _ _ h0.2.1
  have hn := nmi_stays_uncommitted s l0 h0.1 hnc
  have hcond : irqSampleCond s l0 = true := by
    have : ¬ s._exe_instr_opcode = (SEI_OP : Int) := by rw [hidle]; decide
    simp [irqSampleCond, falsy, hI, EXECUTING_SEI_LAST_CYCLE, this, hirq]
  obtain ⟨q1, q2⟩ := sampled_irq s l0
  rw [hic, hcond, hits] at q1
  rw [hcond, hits, h0.2.2] at q2
  simp only [if_true, Bool.false_or, decide_True, Bool.and_self] at q1 q2
  have hp : IS_IRQ_PENDING (sampled s l0) l0 = false := by
    unfold IS_IRQ_PENDING
    rw [q1, q2, h0.2.2, sub32_self]
    simp only [if_true, sampled_interrupt_lead_time]
    have : ¬ (0 ≥ s._interrupt_lead_time) := by omega
    simp [this]
  have hf : tickFetches s l0 = true := by
    simp [tickFetches, tickIdle, hst, hn.2.2, hp, hidle]
  obtain ⟨f1, f2, f3, f4, f5, f6, f7⟩ := fetch_tick_facts s l0 hf
  obtain ⟨c1, c2, c3, c4, c5, c6⟩ := tick_ctl s l0
  have hd : dispatchesIRQ s l0 = false := by simp [dispatchesIRQ, hp]
  refine ⟨hf, ?_, ?_, f1, ?_, ?_, hn.1, hd⟩
  · rw [f2, hsei]
  · rw [f4, (prefetch_sei s hsei).1]; rfl
  · rw [c1, q1, hd]; rfl
  · rw [c2, q2]


/-- Second tick of the SEI-then-IRQ scenario: SEI completes and sets I while
the commitment stays. -/
theorem sei_complete_tick (u : Cpu) (l1 : Lines) (ts : Nat)
    (ho : u._exe_instr_opcode = (SEI_OP : Int)) (hr : u._exe_instr_cycles_remain = 1)
    (hic : u._irq_committed = true) (hits : u._irq_line_ts = ts)
    (hnc : u._nmi_committed = false)
    (h1 : l1.ciaNMI = false ∧ l1.vicStunCPU = 0) :
    idleRecord (cpuClockRSID u l1) ∧
    (cpuClockRSID u l1)._p = (u._p ||| FLAG_I) % 256 ∧
    (cpuClockRSID u l1)._pc = (u._pc + 1) % 65536 ∧
    (cpuClockRSID u l1)._s = u._s ∧ (cpuClockRSID u l1).mem = u.mem ∧
    (cpuClockRSID u l1).writes = u.writes ∧
    (cpuClockRSID u l1)._opc = SEI_OP ∧
    (cpuClockRSID u l1)._irq_committed = true ∧
    (cpuClockRSID u l1)._irq_line_ts = ts ∧
    (cpuClockRSID u l1)._nmi_committed = false ∧
    dispatchesIRQ u l1 = false := by
  have hst : tickStunned u l1 = false := stun_zero _ _ h1.2
  have hn := nmi_stays_uncommitted u l1 h1.1 hnc
  have hge : 0 ≤ u._exe_instr_opcode := by rw [ho]; decide
  have hbusy := dispatchesIRQ_busy u l1 hge
  have hcond : irqSampleCond u l1 = false := by
    simp [irqSampleCond, EXECUTING_SEI_LAST_CYCLE, ho, hr]
  obtain ⟨q1, q2⟩ := sampled_irq u l1
  rw [hic] at q1
  rw [hcond, hic, hits] at q2
  simp only [Bool.true_or, if_true, if_false, Bool.false_eq_true] at q1 q2
  obtain ⟨c1, c2, c3, c4, c5, c6⟩ := tick_ctl u l1
  have hw : wrap8 (u._exe_instr_cycles_remain - 1) = 0 := by rw [hr]; decide
  have hstep := tick_complete u l1 hst hge hw
  have n1 : ¬ u._exe_instr_opcode = (START_IRQ_OP : Int) := by rw [ho]; decide
  have n2 : ¬ u._exe_instr_opcode = (START_NMI_OP : Int) := by rw [ho]; decide
  have n3 : ¬ u._exe_instr_opcode = (NULL_OP : Int) := by rw [ho]; decide
  rw [if_neg n1, if_neg n2, if_neg n3, runPrefetchedOp_sei _ (by simpa using ho)] at hstep
  refine ⟨?_, ?_, ?_, ?_, ?_, ?_, ?_, ?_, ?_, hn.1, hbusy.1⟩
  · rw [hstep]; exact ⟨rfl, rfl, rfl⟩
  · rw [hstep]
    show (SETFLAGS _ FLAG_I true)._p = _
    rw [SETFLAGS_p_true]
    show ((sampled u l1)._p ||| FLAG_I) % 256 = _
    rw [sampled_p]
  · rw [hstep]
    show (SETFLAGS _ FLAG_I true)._pc = _
    rw [SETFLAGS_pc]
    show ((sampled u l1)._pc + 1) % 65536 = _
    rw [sampled_pc]
  · rw [hstep]
    show (SETFLAGS _ FLAG_I true)._s = _
    rw [SETFLAGS_s]
    show (sampled u l1)._s = _
    rw [sampled_s]
  · rw [hstep]
    show (SETFLAGS _ FLAG_I true).mem = _
    rw [SETFLAGS_mem]
    show (sampled u l1).mem = _
    rw [sampled_mem]
  · rw [hstep]
    show (SETFLAGS _ FLAG_I true).writes = _
    rw [SETFLAGS_writes]
    show (sampled u l1).writes = _
    rw [sampled_writes]
  · rw [hstep]
    show (SETFLAGS _ FLAG_I true)._opc = _
    rw [SETFLAGS_opc]
    rfl
  · rw [c1, q1, hbusy.1]; rfl
  · rw [c2, q2]

/-- Third tick of the SEI-then-IRQ scenario: the committed IRQ is dispatched
although I is set, because the last executed opcode is SEI. -/
theorem sei_dispatch_tick (u : Cpu) (l2 : Lines) (c : Nat)
    (hid : idleRecord u) (hopc : u._opc = SEI_OP) (hI : u._p &&& FLAG_I ≠ 0)
    (hic : u._irq_committed = true) (hits : u._irq_line_ts = c % 4294967296)
    (hnc : u._nmi_committed = false)
    (h2 : l2.ciaNMI = false ∧ l2.vicStunCPU = 0 ∧ l2.sysCycles = c + 2) :
    dispatchesIRQ u l2 = true ∧
    (cpuClockRSID u l2)._exe_instr_opcode = (START_IRQ_OP : Int) ∧
    (cpuClockRSID u l2)._exe_instr_cycles_remain = 6 ∧
    sameRegsMem u (cpuClockRSID u l2) ∧
    (cpuClockRSID u l2)._irq_committed = false ∧
    (cpuClockRSID u l2)._nmi_committed = false := by
  have hst : tickStunned u l2 = false := stun_zero _ _ h2.2.1
  have hn := nmi_stays_uncommitted u l2 h2.1 hnc
  have hcond : irqSampleCond u l2 = false := by
    simp [irqSampleCond, falsy, hI]
  obtain ⟨q1, q2⟩ := sampled_irq u l2
  rw [hic] at q1
  rw [hcond, hic, hits] at q2
  simp only [Bool.true_or, if_true, if_false, Bool.false_eq_true] at q1 q2
  have hp : IS_IRQ_PENDING (sampled u l2) l2 = true := by
    unfold IS_IRQ_PENDING AFTER_SEI
    rw [q1, q2, h2.2.2, sampled_opc, hopc]
    have := sub32_two c
    simp [this]
  have hd : dispatchesIRQ u l2 = true := by
    simp [dispatchesIRQ, tickIdle, hst, hn.2.2, hp, hid.1]
  have hstep := tick_dispatchIRQ u l2 hd
  obtain ⟨c1, c2, c3, c4, c5, c6⟩ := tick_ctl u l2
  refine ⟨hd, ?_, ?_, ?_, ?_, hn.1⟩
  · rw [hstep]
  · rw [hstep]
  · rw [hstep]; unfold sameRegsMem; simp
  · rw [c1, hd]; simp


/-- While an operation counts down with I set, no IRQ is committed or
dispatched, and without an NMI edge no NMI either. -/
theorem inflight_quiet (s : Cpu) (ln : Nat → Lines) (t0 : Nat)
    (ho : 0 ≤ (runTicks s ln t0)._exe_instr_opcode)
    (hle : (runTicks s ln t0)._exe_instr_cycles_remain ≤ 127)
    (hI : (runTicks s ln t0)._p &&& FLAG_I ≠ 0)
    (hic : (runTicks s ln t0)._irq_committed = false)
    (hnc : (runTicks s ln t0)._nmi_committed = false) :
    ∀ m : Nat, (m : Int) < (runTicks s ln t0)._exe_instr_cycles_remain →
      (∀ j, t0 ≤ j → j < t0 + m → (ln j).ciaNMI = false ∧ (ln j).vicStunCPU = 0) →
      (runTicks s ln (t0 + m))._irq_committed = false ∧
      (runTicks s ln (t0 + m))._nmi_committed = false := by
  intro m
  induction m with
  | zero => intro _ _; exact ⟨hic, hnc⟩
  | succ m ih =>
    intro hlen hq
    obtain ⟨i1, i2⟩ := ih (by push_cast at hlen; omega) (fun j a b => hq j a (by omega))
    obtain ⟨k1, _, _, _, _, _⟩ := countdown_ticks s ln t0 m ho (by push_cast at hlen; omega) hle
      (fun j a b => (hq j a (by omega)).2)
    have hI' : (runTicks s ln (t0 + m))._p &&& FLAG_I ≠ 0 := by
      rw [k1.2.2.2.2.2.1]; exact hI
    have e : runTicks s ln (t0 + (m + 1))
        = cpuClockRSID (runTicks s ln (t0 + m)) (ln (t0 + m)) := rfl
    rw [e]
    exact ⟨(irq_stays_uncommitted _ _ hI' i1).1,
      (nmi_stays_uncommitted _ _ (hq (t0 + m) (by omega) (by omega)).1 i2).1⟩

/-- The tick that completes `START_IRQ_OP`. -/
theorem irq_complete_tick (u : Cpu) (l : Lines)
    (ho : u._exe_instr_opcode = (START_IRQ_OP : Int)) (hr : u._exe_instr_cycles_remain = 1)
    (hs : u._s < 256) (hst : l.vicStunCPU = 0) :
    idleRecord (cpuClockRSID u l) ∧
    (cpuClockRSID u l)._pc = memGet u 0xfffe + 256 * memGet u 0xffff ∧
    (cpuClockRSID u l)._s = (u._s + 253) % 256 ∧
    (cpuClockRSID u l)._p = (u._p ||| FLAG_I) % 256 ∧
    (cpuClockRSID u l).writes = u.writes ++
      [(0x100 + u._s, (u._pc >>> 8) % 256 % 256),
       (0x100 + (u._s + 255) % 256, (u._pc &&& 0xff) % 256),
       (0x100 + (u._s + 254) % 256, (u._p ||| FLAG_B1) % 256 % 256)] := by
  have hstun : tickStunned u l = false := stun_zero _ _ hst
  have hge : 0 ≤ u._exe_instr_opcode := by rw [ho]; decide
  have hw : wrap8 (u._exe_instr_cycles_remain - 1) = 0 := by rw [hr]; decide
  have hstep := tick_complete u l hstun hge hw
  rw [if_pos ho] at hstep
  have hs' : ({ sampled u l with _exe_instr_cycles_remain := 0 } : Cpu)._s < 256 := by
    show (sampled u l)._s < 256
    rw [sampled_s]; exact hs
  obtain ⟨r1, r2, r3, r4, _, _, _, _⟩ :=
    completeIRQ_result { sampled u l with _exe_instr_cycles_remain := 0 } hs'
  have em : ∀ a, memGet ({ sampled u l with _exe_instr_cycles_remain := 0 } : Cpu) a
      = memGet u a := by
    intro a
    show (sampled u l).mem (a % 65536) % 256 = u.mem (a % 65536) % 256
    rw [sampled_mem]
  rw [hstep]
  refine ⟨⟨rfl, rfl, rfl⟩, ?_, ?_, ?_, ?_⟩
  · show (completeIRQ _)._pc = _
    rw [r1, em, em]
  · show (completeIRQ _)._s = _
    rw [r2]
    show ((sampled u l)._s + 253) % 256 = _
    rw [sampled_s]
  · show (completeIRQ _)._p = _
    rw [r3]
    show ((sampled u l)._p ||| FLAG_I) % 256 = _
    rw [sampled_p]
  · show (completeIRQ _).writes = _
    rw [r4]
    show (sampled u l).writes ++ [(0x100 + (sampled u l)._s, ((sampled u l)._pc >>> 8) % 256 % 256),
       (0x100 + ((sampled u l)._s + 255) % 256, ((sampled u l)._pc &&& 0xff) % 256),
       (0x100 + ((sampled u l)._s + 254) % 256, ((sampled u l)._p ||| FLAG_B1) % 256 % 256)] = _
    rw [sampled_writes, sampled_s, sampled_pc, sampled_p]

theorem runTicks_succ (s : Cpu) (ln : Nat → Lines) (n : Nat) :
    runTicks s ln (n + 1) = cpuClockRSID (runTicks s ln n) (ln n) := rfl

/-- The whole SEI-then-IRQ run, tick by tick. -/
theorem sei_irq_run (s : Cpu) (c : Nat) (ln : Nat → Lines) (h : SeiIrqScenario s c ln) :
    (tickFetches s (ln 0) = true ∧
      (runTicks s ln 1)._exe_instr_opcode = (SEI_OP : Int) ∧
      (runTicks s ln 1)._exe_instr_cycles_remain = 1 ∧
      dispatchesIRQ s (ln 0) = false) ∧
    (idleRecord (runTicks s ln 2) ∧
      (runTicks s ln 2)._p = (s._p ||| FLAG_I) % 256 ∧
      (runTicks s ln 2)._pc = (s._pc + 1) % 65536 ∧
      (runTicks s ln 2)._s = s._s ∧
      (runTicks s ln 2).mem = s.mem ∧
      (runTicks s ln 2).writes = s.writes ∧
      dispatchesIRQ (runTicks s ln 1) (ln 1) = false) ∧
    dispatchesIRQ (runTicks s ln 2) (ln 2) = true ∧
    (∀ m, m ≤ 5 →
      (runTicks s ln (3 + m))._exe_instr_opcode = (START_IRQ_OP : Int) ∧
      (runTicks s ln (3 + m))._exe_instr_cycles_remain = 6 - (m : Int) ∧
      sameRegsMem (runTicks s ln 2) (runTicks s ln (3 + m)) ∧
      (runTicks s ln (3 + m))._irq_committed = false ∧
      (runTicks s ln (3 + m))._nmi_committed = false) := by
  have q0 := h.quiet 0 (by norm_num)
  have q1 := h.quiet 1 (by norm_num)
  have q2 := h.quiet 2 (by norm_num)
  obtain ⟨a1, a2, a3, a4, a5, a6, a7, a8⟩ := sei_fetch_tick s c (ln 0) h.idle h.iclear
    h.irq_uncommitted h.irq_unstamped h.nmi_uncommitted h.lead h.sei
    ⟨q0.1, q0.2.1, by rw [q0.2.2]; rfl⟩ h.irq_high
  have e1 : runTicks s ln 1 = cpuClockRSID s (ln 0) := rfl
  rw [← e1] at a2 a3 a4 a5 a6 a7
  obtain ⟨b1, b2, b3, b4, b5, b6, b7, b8, b9, b10, b11⟩ :=
    sei_complete_tick (runTicks s ln 1) (ln 1) (c % 4294967296) a2 a3 a5 a6 a7 ⟨q1.1, q1.2.1⟩
  have e2 : runTicks s ln 2 = cpuClockRSID (runTicks s ln 1) (ln 1) := rfl
  rw [← e2] at b1 b2 b3 b4 b5 b6 b7 b8 b9 b10
  obtain ⟨r1, r2, r3, r4, r5, r6, r7, r8⟩ := a4
  rw [r6] at b2
  rw [r1] at b3
  rw [r5] at b4
  rw [r7] at b5
  rw [r8] at b6
  have hI2 : (runTicks s ln 2)._p &&& FLAG_I ≠ 0 := by
    rw [b2]; exact flagI_set _ h.wf.p
  obtain ⟨d1, d2, d3, d4, d5, d6⟩ := sei_dispatch_tick (runTicks s ln 2) (ln 2) c b1 b7 hI2 b8 b9
    b10 q2
  have e3 : runTicks s ln 3 = cpuClockRSID (runTicks s ln 2) (ln 2) := rfl
  rw [← e3] at d2 d3 d4 d5 d6
  refine ⟨⟨a1, a2, a3, a8⟩, ⟨b1, b2, b3, b4, b5, b6, b11⟩, d1, ?_⟩
  intro m hm
  have ho3 : 0 ≤ (runTicks s ln 3)._exe_instr_opcode := by rw [d2]; decide
  have hI3 : (runTicks s ln 3)._p &&& FLAG_I ≠ 0 := by rw [d4.2.2.2.2.2.1]; exact hI2
  have hq : ∀ j, 3 ≤ j → j < 3 + m → (ln j).ciaNMI = false ∧ (ln j).vicStunCPU = 0 := by
    intro j _ hj
    have := h.quiet j (by omega)
    exact ⟨this.1, this.2.1⟩
  obtain ⟨k1, k2, k3, _, _, _⟩ := countdown_ticks s ln 3 m ho3 (by rw [d3]; omega)
    (by rw [d3]; norm_num) (fun j a b => (hq j a b).2)
  obtain ⟨i1, i2⟩ := inflight_quiet s ln 3 ho3 (by rw [d3]; norm_num) hI3 d5 d6 m
    (by rw [d3]; omega) hq
  exact ⟨by rw [k3, d2], by rw [k2, d3], sameRegsMem_trans d4 k1, i1, i2⟩


theorem pushedStatus_bits : ∀ p, p < 256 →
    pushedStatusAfterSei p &&& FLAG_B1 ≠ 0 ∧ pushedStatusAfterSei p &&& FLAG_I ≠ 0 ∧
    (p &&& FLAG_B0 = 0 → pushedStatusAfterSei p &&& FLAG_B0 = 0) := by decide

/-- C9 (amended): SEI then IRQ.  In the scenario `SeiIrqScenario`, which
includes that no IRQ stamp is recorded at the start, SEI is fetched on the
first tick and completes on the second, leaving I set; `START_IRQ_OP` is
dispatched on the third tick although I is set; it stays in flight for ticks
4 to 8 and completes on its seventh tick (tick 9 of the run), loading `PC`
from `$FFFE/$FFFF`; it is the only IRQ dispatch of the nine ticks, and no IRQ
is dispatched on any later tick as long as I is set at the start of every tick
since. -/
theorem C9_sei_then_irq (s : Cpu) (c : Nat) (ln : Nat → Lines) (h : SeiIrqScenario s c ln) :
    ((runTicks s ln 1)._exe_instr_opcode = (SEI_OP : Int) ∧ idleRecord (runTicks s ln 2) ∧
      (runTicks s ln 2)._p &&& FLAG_I ≠ 0 ∧ (runTicks s ln 2)._pc = (s._pc + 1) % 65536) ∧
    dispatchesIRQ (runTicks s ln 2) (ln 2) = true ∧
    (∀ k, 3 ≤ k → k ≤ 8 →
      (runTicks s ln k)._exe_instr_opcode = (START_IRQ_OP : Int) ∧
      (runTicks s ln k)._exe_instr_cycles_remain = 9 - (k : Int)) ∧
    (idleRecord (runTicks s ln 9) ∧
      (runTicks s ln 9)._pc = memGet s 0xfffe + 256 * memGet s 0xffff) ∧
    (∀ j, j < 9 → (dispatchesIRQ (runTicks s ln j) (ln j) = true ↔ j = 2)) ∧
    (∀ n, (∀ j, 9 ≤ j → j < n → (runTicks s ln j)._p &&& FLAG_I ≠ 0) →
      ∀ j, 9 ≤ j → j < n → dispatchesIRQ (runTicks s ln j) (ln j) = false) := by
  obtain ⟨⟨a1, a2, a3, a4⟩, ⟨b1, b2, b3, b4, b5, b6, b7⟩, d1, hrun⟩ := sei_irq_run s c ln h
  have hI2 : (runTicks s ln 2)._p &&& FLAG_I ≠ 0 := by
    rw [b2]; exact flagI_set _ h.wf.p
  obtain ⟨k1, k2, k3, k4, k5⟩ := hrun 5 (le_refl _)
  have hI8 : (runTicks s ln 8)._p &&& FLAG_I ≠ 0 := by
    rw [show (8 : Nat) = 3 + 5 from rfl, k3.2.2.2.2.2.1]; exact hI2
  have hcomp := irq_complete_tick (runTicks s ln 8) (ln 8) k1 (by rw [k2]; norm_num)
    (by rw [show (8 : Nat) = 3 + 5 from rfl, k3.2.2.2.2.1, b4]; exact h.wf.sp)
    (h.quiet 8 (by norm_num)).2.1
  have e9 : runTicks s ln 9 = cpuClockRSID (runTicks s ln 8) (ln 8) := rfl
  rw [← e9] at hcomp
  have hmem8 : ∀ a, memGet (runTicks s ln 8) a = memGet s a := by
    intro a
    unfold memGet
    rw [show (8 : Nat) = 3 + 5 from rfl, k3.2.2.2.2.2.2.1, b5]
  have inv : ∀ d, (∀ j, 9 ≤ j → j < 9 + d → (runTicks s ln j)._p &&& FLAG_I ≠ 0) →
      (runTicks s ln (9 + d))._irq_committed = false := by
    intro d
    induction d with
    | zero =>
      intro _
      exact (irq_stays_uncommitted (runTicks s ln 8) (ln 8) hI8 k4).1
    | succ d ih =>
      intro hI
      have := ih (fun j x y => hI j x (by omega))
      exact (irq_stays_uncommitted (runTicks s ln (9 + d)) (ln (9 + d))
        (hI (9 + d) (by omega) (by omega)) this).1
  refine ⟨⟨a2, b1, hI2, b3⟩, d1, ?_, ⟨hcomp.1, ?_⟩, ?_, ?_⟩
  · intro k hk1 hk2
    obtain ⟨m, rfl⟩ : ∃ m, k = 3 + m := ⟨k - 3, by omega⟩
    obtain ⟨x1, x2, _, _, _⟩ := hrun m (by omega)
    exact ⟨x1, by rw [x2]; push_cast; omega⟩
  · rw [hcomp.2.1, hmem8, hmem8]
  · intro j hj
    rcases Nat.lt_or_ge j 3 with hlt | hge
    · interval_cases j
      · simp only [runTicks]; rw [a4]; simp
      · rw [b7]; simp
      · rw [d1]; simp
    · obtain ⟨m, rfl⟩ : ∃ m, j = 3 + m := ⟨j - 3, by omega⟩
      obtain ⟨x1, _, _, _, _⟩ := hrun m (by omega)
      have := (dispatchesIRQ_busy (runTicks s ln (3 + m)) (ln (3 + m)) (by rw [x1]; decide)).1
      rw [this]
      constructor
      · intro hc; exact absurd hc (by decide)
      · intro hc; omega
  · intro n hI j hj1 hj2
    obtain ⟨d, rfl⟩ : ∃ d, j = 9 + d := ⟨j - 9, by omega⟩
    exact (irq_stays_uncommitted (runTicks s ln (9 + d)) (ln (9 + d)) (hI (9 + d) hj1 hj2)
      (inv d (fun i x y => hI i x (by omega)))).2

/-- C10 (amended): in the SEI-then-IRQ scenario, with B0 clear in `P`, nothing
is written before the completion tick of `START_IRQ_OP`; that tick pushes the
high and low byte of the address after the SEI and then a status byte that has
B1 set, B0 clear and I set (the I flag set by the SEI is pushed). -/
theorem C10_pushed_status (s : Cpu) (c : Nat) (ln : Nat → Lines) (h : SeiIrqScenario s c ln)
    (hB0 : s._p &&& FLAG_B0 = 0) :
    (runTicks s ln 8).writes = s.writes ∧
    (runTicks s ln 9).writes = s.writes ++
      [(0x100 + s._s, (s._pc + 1) % 65536 / 256),
       (0x100 + (s._s + 255) % 256, (s._pc + 1) % 65536 % 256),
       (0x100 + (s._s + 254) % 256, pushedStatusAfterSei s._p)] ∧
    pushedStatusAfterSei s._p &&& FLAG_B1 ≠ 0 ∧
    pushedStatusAfterSei s._p &&& FLAG_B0 = 0 ∧
    pushedStatusAfterSei s._p &&& FLAG_I ≠ 0 := by
  obtain ⟨⟨a1, a2, a3, a4⟩, ⟨b1, b2, b3, b4, b5, b6, b7⟩, d1, hrun⟩ := sei_irq_run s c ln h
  obtain ⟨k1, k2, k3, k4, k5⟩ := hrun 5 (le_refl _)
  have k1' : (runTicks s ln 8)._exe_instr_opcode = (START_IRQ_OP : Int) := k1
  have k2' : (runTicks s ln 8)._exe_instr_cycles_remain = 1 := by
    have : (runTicks s ln 8)._exe_instr_cycles_remain = 6 - ((5 : Nat) : Int) := k2
    rw [this]; norm_num
  have k3' : sameRegsMem (runTicks s ln 2) (runTicks s ln 8) := k3
  obtain ⟨r1, r2, r3, r4, r5, r6, r7, r8⟩ := k3'
  have hcomp := irq_complete_tick (runTicks s ln 8) (ln 8) k1' k2'
    (by rw [r5, b4]; exact h.wf.sp) (h.quiet 8 (by norm_num)).2.1
  have e9 : runTicks s ln 9 = cpuClockRSID (runTicks s ln 8) (ln 8) := rfl
  rw [← e9] at hcomp
  obtain ⟨p1, p2, p3⟩ := pushedStatus_bits s._p h.wf.p
  refine ⟨by rw [r8, b6], ?_, p1, p3 hB0, p2⟩
  rw [hcomp.2.2.2.2, r8, r5, r1, r6, b6, b4, b3, b2]
  have w1 : (((s._pc + 1) % 65536) >>> 8) % 256 % 256 = (s._pc + 1) % 65536 / 256 := by
    rw [Nat.shiftRight_eq_div_pow]; omega
  have w2 : ((s._pc + 1) % 65536 &&& 0xff) % 256 = (s._pc + 1) % 65536 % 256 := by
    rw [and_ff]; omega
  have w3 : ((s._p ||| FLAG_I) % 256 ||| FLAG_B1) % 256 % 256 = pushedStatusAfterSei s._p := by
    unfold pushedStatusAfterSei; rw [Nat.mod_mod]
  rw [w1, w2, w3]

/-! ## The NMI edge detector -/

theorem CHECK_FOR_IRQ_nmi_line (s : Cpu) (ln : Lines) :
    (CHECK_FOR_IRQ s ln)._nmi_line = s._nmi_line := by
  unfold CHECK_FOR_IRQ; split_ifs <;> rfl

theorem commitsNMI_eq (s : Cpu) (ln : Lines) :
    commitsNMI s ln = (ln.ciaNMI && !s._nmi_line) := by
  unfold commitsNMI; rw [CHECK_FOR_IRQ_nmi_line]

theorem nmi_committed_after_tick (s : Cpu) (ln : Lines) :
    (cpuClockRSID s ln)._nmi_committed
      = ((s._nmi_committed || commitsNMI s ln) && !dispatchesNMI s ln) := by
  rw [(tick_ctl s ln).2.2.1, (sampled_nmi s ln).1, commitsNMI_eq]

theorem prefetch_lead_le (s : Cpu) : (prefetchOperation s)._interrupt_lead_time ≤ 3 := by
  by_cases hop : memGet s s._pc ∈ branchOpcodes
  · rw [(prefetch_branch s hop).2]; split <;> omega
  · have hnb : isBranch (mnemonicOf (memGet s s._pc)) = false := by
      cases hb : isBranch (mnemonicOf (memGet s s._pc))
      · rfl
      · exact absurd ((table_branch _ (memGet_lt s s._pc)).1 hb) hop
    rw [prefetch_lead_nonbranch s hnb]; omega

theorem lead_le_tick (u : Cpu) (ln : Lines) (h : u._interrupt_lead_time ≤ 3) :
    (cpuClockRSID u ln)._interrupt_lead_time ≤ 3 := by
  rw [(tick_ctl u ln).2.2.2.2.2]
  split
  · exact prefetch_lead_le u
  · exact h

theorem sub32_offset (c j : Nat) (hj : j < 4294967296) :
    sub32 (c + j) (c % 4294967296) = j := by
  unfold sub32; omega

theorem irq_committed_after_tick (u : Cpu) (l : Lines) :
    (cpuClockRSID u l)._irq_committed
      = ((u._irq_committed || (irqSampleCond u l && decide (u._irq_line_ts = 0)))
          && !dispatchesIRQ u l) := by
  rw [(tick_ctl u l).1, (sampled_irq u l).1]

theorem irq_pending_committed (t : Cpu) (l : Lines) (h : IS_IRQ_PENDING t l = true) :
    t._irq_committed = true := by
  unfold IS_IRQ_PENDING at h
  cases hc : t._irq_committed
  · rw [hc] at h; simp at h
  · rfl

/-- The stamp of a committed IRQ survives the sampling when it is non-zero. -/
theorem irq_stamp_sampled (u : Cpu) (l : Lines) (hc : u._irq_committed = true)
    (hts : u._irq_line_ts ≠ 0) : (sampled u l)._irq_line_ts = u._irq_line_ts := by
  rw [(sampled_irq u l).2, hc]
  simp [hts]

/-- With an IRQ committed, the tick dispatches it exactly when it is idle and
unstunned, no NMI is pending, and either the last completed instruction is SEI
and one cycle has elapsed since the stamp, or I is clear and the lead time has
elapsed. -/
theorem dispatchesIRQ_iff (u : Cpu) (l : Lines) (hc : u._irq_committed = true) :
    dispatchesIRQ u l = true ↔
      (tickIdle u l = true ∧ IS_NMI_PENDING (sampled u l) l = false ∧
        ((u._opc = SEI_OP ∧ 1 ≤ sub32 l.sysCycles (sampled u l)._irq_line_ts) ∨
         (u._p &&& FLAG_I = 0 ∧
            u._interrupt_lead_time ≤ sub32 l.sysCycles (sampled u l)._irq_line_ts))) := by
  have hsc : (sampled u l)._irq_committed = true := by
    rw [(sampled_irq u l).1, hc]; rfl
  unfold dispatchesIRQ IS_IRQ_PENDING AFTER_SEI falsy
  rw [hsc, sampled_opc, sampled_p, sampled_interrupt_lead_time]
  simp only [if_true, Bool.and_eq_true, Bool.or_eq_true, Bool.not_eq_true', decide_eq_true_eq,
    ge_iff_le, and_assoc]


/-- A committed IRQ stays committed, with its non-zero stamp, over every tick
that does not dispatch it. -/
theorem irq_commit_persists (s : Cpu) (ln : Nat → Lines) (t0 : Nat)
    (hc : (runTicks s ln t0)._irq_committed = true) :
    ∀ m, (∀ j, t0 ≤ j → j < t0 + m → dispatchesIRQ (runTicks s ln j) (ln j) = false) →
      (runTicks s ln (t0 + m))._irq_committed = true ∧
      ((runTicks s ln t0)._irq_line_ts ≠ 0 →
        (runTicks s ln (t0 + m))._irq_line_ts = (runTicks s ln t0)._irq_line_ts) := by
  intro m
  induction m with
  | zero => intro _; exact ⟨hc, fun _ => rfl⟩
  | succ m ih =>
    intro hnd
    obtain ⟨i1, i2⟩ := ih (fun j h1 h2 => hnd j h1 (by omega))
    have hd := hnd (t0 + m) (by omega) (by omega)
    refine ⟨?_, ?_⟩
    · show (cpuClockRSID (runTicks s ln (t0 + m)) (ln (t0 + m)))._irq_committed = true
      rw [irq_committed_after_tick, i1, hd]; rfl
    · intro hts
      show (cpuClockRSID (runTicks s ln (t0 + m)) (ln (t0 + m)))._irq_line_ts = _
      rw [(tick_ctl _ _).2.1, irq_stamp_sampled _ _ i1 (by rw [i2 hts]; exact hts), i2 hts]

/-- C8 (amended): NMI has priority over IRQ.  On an idle, unstunned tick at
which both the NMI-pending and the IRQ-pending condition hold, the in-flight
record is loaded with `START_NMI_OP` (opcode `$12`, 7 cycles, 6 remaining),
`nmi_committed` is cleared, no IRQ is dispatched and `irq_committed` is still
true after the tick.  From then on, as long as no IRQ has been dispatched,
`irq_committed` stays true and keeps its non-zero cycle stamp, and a tick
dispatches the IRQ exactly when it is idle and unstunned, no NMI is pending on
it, and either the last completed instruction is SEI and one cycle has elapsed
since the stamp (whatever the I flag), or I is clear and the lead time has
elapsed. -/
theorem C8_nmi_priority (s : Cpu) (ln : Nat → Lines)
    (hidle : tickIdle s (ln 0) = true)
    (hnmi : IS_NMI_PENDING (sampled s (ln 0)) (ln 0) = true)
    (hirq : IS_IRQ_PENDING (sampled s (ln 0)) (ln 0) = true) :
    ((runTicks s ln 1)._exe_instr_opcode = (START_NMI_OP : Int) ∧ START_NMI_OP = 0x12 ∧
      (runTicks s ln 1)._exe_instr_cycles = 7 ∧
      (runTicks s ln 1)._exe_instr_cycles_remain = 6 ∧
      (runTicks s ln 1)._nmi_committed = false ∧
      (runTicks s ln 1)._irq_committed = true ∧
      dispatchesIRQ s (ln 0) = false) ∧
    (∀ n, 1 ≤ n →
      (∀ j, 1 ≤ j → j < n → dispatchesIRQ (runTicks s ln j) (ln j) = false) →
      (runTicks s ln n)._irq_committed = true ∧
      ((sampled s (ln 0))._irq_line_ts ≠ 0 →
        (runTicks s ln n)._irq_line_ts = (sampled s (ln 0))._irq_line_ts) ∧
      (dispatchesIRQ (runTicks s ln n) (ln n) = true ↔
        (tickIdle (runTicks s ln n) (ln n) = true ∧
          IS_NMI_PENDING (sampled (runTicks s ln n) (ln n)) (ln n) = false ∧
          (((runTicks s ln n)._opc = SEI_OP ∧
              1 ≤ sub32 (ln n).sysCycles (sampled (runTicks s ln n) (ln n))._irq_line_ts) ∨
           ((runTicks s ln n)._p &&& FLAG_I = 0 ∧
              (runTicks s ln n)._interrupt_lead_time
                ≤ sub32 (ln n).sysCycles
                    (sampled (runTicks s ln n) (ln n))._irq_line_ts))))) := by
  have hdn : dispatchesNMI s (ln 0) = true := by
    unfold dispatchesNMI; rw [hidle, hnmi]; rfl
  have hdi : dispatchesIRQ s (ln 0) = false := by
    unfold dispatchesIRQ; rw [hidle, hnmi]; rfl
  have hsc := irq_pending_committed _ _ hirq
  have e1 : runTicks s ln 1 = cpuClockRSID s (ln 0) := rfl
  have hc1 : (runTicks s ln 1)._irq_committed = true := by
    rw [e1, (tick_ctl s (ln 0)).1, hsc, hdi]; rfl
  have hts1 : (runTicks s ln 1)._irq_line_ts = (sampled s (ln 0))._irq_line_ts := by
    rw [e1, (tick_ctl s (ln 0)).2.1]
  refine ⟨⟨?_, rfl, ?_, ?_, ?_, hc1, hdi⟩, ?_⟩
  · rw [e1, tick_dispatchNMI s (ln 0) hdn]
  · rw [e1, tick_dispatchNMI s (ln 0) hdn]
  · rw [e1, tick_dispatchNMI s (ln 0) hdn]
  · rw [e1, tick_dispatchNMI s (ln 0) hdn]
  · intro n hn hnd
    obtain ⟨m, rfl⟩ : ∃ m, n = 1 + m := ⟨n - 1, by omega⟩
    obtain ⟨p1, p2⟩ := irq_commit_persists s ln 1 hc1 m (fun j h1 h2 => hnd j h1 h2)
    refine ⟨p1, ?_, dispatchesIRQ_iff _ _ p1⟩
    intro hts
    rw [← hts1] at hts ⊢
    exact p2 hts


/-- Counterexample to C8 as stated: in the SEI scenario with the IRQ and the NMI
line both high, the third tick is idle with both interrupts pending and
dispatches the NMI; no tick is idle while `START_NMI_OP` is in flight; the
first idle tick after it (tick 10) has the I flag set and nevertheless
dispatches the IRQ, so the IRQ is not dispatched on an idle tick at which I is
clear. -/
theorem C8_counterexample :
    tickIdle (runTicks scenSei bothHighFrom10 2) (bothHighFrom10 2) = true ∧
    IS_NMI_PENDING (sampled (runTicks scenSei bothHighFrom10 2) (bothHighFrom10 2))
      (bothHighFrom10 2) = true ∧
    IS_IRQ_PENDING (sampled (runTicks scenSei bothHighFrom10 2) (bothHighFrom10 2))
      (bothHighFrom10 2) = true ∧
    (runTicks scenSei bothHighFrom10 3)._exe_instr_opcode = (START_NMI_OP : Int) ∧
    (∀ j, 3 ≤ j → j < 9 →
      tickIdle (runTicks scenSei bothHighFrom10 j) (bothHighFrom10 j) = false) ∧
    tickIdle (runTicks scenSei bothHighFrom10 9) (bothHighFrom10 9) = true ∧
    (runTicks scenSei bothHighFrom10 9)._p &&& FLAG_I ≠ 0 ∧
    dispatchesIRQ (runTicks scenSei bothHighFrom10 9) (bothHighFrom10 9) = true ∧
    (runTicks scenSei bothHighFrom10 10)._exe_instr_opcode = (START_IRQ_OP : Int) := by
  decide

/-- Witness of C8 (amended) on the state reached after the SEI of the scenario
with both lines high: the hypotheses hold and the NMI is dispatched while the
IRQ stays committed. -/
theorem C8_nmi_priority_witness :
    (runTicks (runTicks scenSei bothHighFrom10 2) (fun j => bothHighFrom10 (2 + j)) 1)._exe_instr_opcode
        = (START_NMI_OP : Int) ∧
    (runTicks (runTicks scenSei bothHighFrom10 2) (fun j => bothHighFrom10 (2 + j)) 1)._irq_committed
        = true :=
  ⟨(C8_nmi_priority (runTicks scenSei bothHighFrom10 2) (fun j => bothHighFrom10 (2 + j))
      (by decide) (by decide) (by decide)).1.1,
   (C8_nmi_priority (runTicks scenSei bothHighFrom10 2) (fun j => bothHighFrom10 (2 + j))
      (by decide) (by decide) (by decide)).1.2.2.2.2.2.1⟩

/-- Counterexample to C1 as stated: the byte `$02` at `PC` is fetched like an
opcode with 7 prefetched cycles from an idle record with no interrupt pending
and no stun, but its seventh tick runs the `START_IRQ_OP` completion (three
pushes, `PC` from `$FFFE/$FFFF`, I set) instead of `runPrefetchedOp`, which
would leave `PC = $1003` and write nothing. -/
theorem C1_counterexample :
    tickFetches scenPseudo (quiet 10) = true ∧
    (prefetchOperation scenPseudo)._exe_instr_cycles = 7 ∧
    (runRSID scenPseudo [quiet 10, quiet 11, quiet 12, quiet 13, quiet 14, quiet 15,
        quiet 16])._pc = 0x1234 ∧
    (runRSID scenPseudo [quiet 10, quiet 11, quiet 12, quiet 13, quiet 14, quiet 15,
        quiet 16]).writes = [(0x1ff, 0x10), (0x1fe, 0x00), (0x1fd, 0x20)] ∧
    (retire (runPrefetchedOp
      { sampled (runRSID scenPseudo [quiet 10, quiet 11, quiet 12, quiet 13, quiet 14,
          quiet 15]) (quiet 16) with _exe_instr_cycles_remain := 0 }))._pc = 0x1003 ∧
    (retire (runPrefetchedOp
      { sampled (runRSID scenPseudo [quiet 10, quiet 11, quiet 12, quiet 13, quiet 14,
          quiet 15]) (quiet 16) with _exe_instr_cycles_remain := 0 })).writes = [] := by
  decide

/-- Witness of C1 (amended) on the scenario `LDA $20FF,X`: five cycles, the
record is idle after the fifth tick. -/
theorem C1_completion_on_last_cycle_witness :
    (cpuClockRSID scenLdaAbx (quiet 10))._exe_instr_cycles_remain = ((5 : Nat) : Int) - 1 ∧
    idleRecord (runRSID scenLdaAbx
      (quiet 10 :: [quiet 11, quiet 12, quiet 13] ++ [quiet 14])) :=
  ⟨(C1_completion_on_last_cycle scenLdaAbx (quiet 10) (quiet 14)
      [quiet 11, quiet 12, quiet 13] 5 (by decide) (by decide) (by decide) (by decide)
      (by decide) (by decide)).1,
   (C1_completion_on_last_cycle scenLdaAbx (quiet 10) (quiet 14)
      [quiet 11, quiet 12, quiet 13] 5 (by decide) (by decide) (by decide) (by decide)
      (by decide) (by decide)).2.2.2⟩

/-- Witness of C2 on the fetch tick of the scenario `LDA $20FF,X`. -/
theorem C2_noncompleting_tick_frame_witness :
    sameRegsMem scenLdaAbx (cpuClockRSID scenLdaAbx (quiet 10)) :=
  C2_noncompleting_tick_frame scenLdaAbx (quiet 10) (by decide)

/-- Witness of C9 on the scenario `SEI` at `$5000` with the IRQ line high from
cycle 10: the IRQ is dispatched on the third tick and `PC` is `$6000` after the
ninth. -/
theorem C9_sei_then_irq_witness :
    dispatchesIRQ (runTicks scenSei irqHighFrom10 2) (irqHighFrom10 2) = true ∧
    (runTicks scenSei irqHighFrom10 9)._pc
      = memGet scenSei 0xfffe + 256 * memGet scenSei 0xffff :=
  ⟨(C9_sei_then_irq scenSei 10 irqHighFrom10
      { wf := ⟨by decide, by decide, by decide, by decide, by decide, by decide⟩
        idle := rfl
        iclear := by decide
        irq_uncommitted := rfl
        irq_unstamped := rfl
        nmi_uncommitted := rfl
        lead := by decide
        sei := by decide
        quiet := fun _ _ => ⟨rfl, rfl, rfl⟩
        irq_high := rfl }).2.1,
   (C9_sei_then_irq scenSei 10 irqHighFrom10
      { wf := ⟨by decide, by decide, by decide, by decide, by decide, by decide⟩
        idle := rfl
        iclear := by decide
        irq_uncommitted := rfl
        irq_unstamped := rfl
        nmi_uncommitted := rfl
        lead := by decide
        sei := by decide
        quiet := fun _ _ => ⟨rfl, rfl, rfl⟩
        irq_high := rfl }).2.2.2.1.2⟩

/-- Counterexample to C10 as stated: in the scenario `SEI` at `$5000` with the
IRQ line high, the completion of `START_IRQ_OP` on the ninth tick pushes the
status byte `$24`, in which I (`$04`) is set. -/
theorem C10_counterexample :
    (runTicks scenSei irqHighFrom10 8).writes = [] ∧
    (runTicks scenSei irqHighFrom10 9).writes
      = [(0x1ff, 0x50), (0x1fe, 0x01), (0x1fd, 0x24)] ∧
    0x24 &&& FLAG_I ≠ 0 ∧
    (runTicks scenSei irqHighFrom10 9)._pc = 0x6000 := by
  decide

/-- Witness of C10 (amended) on the scenario `SEI` at `$5000`: the pushed
status byte has I set. -/
theorem C10_pushed_status_witness :
    (runTicks scenSei irqHighFrom10 8).writes = scenSei.writes ∧
    pushedStatusAfterSei scenSei._p &&& FLAG_I ≠ 0 :=
  ⟨(C10_pushed_status scenSei 10 irqHighFrom10
      { wf := ⟨by decide, by decide, by decide, by decide, by decide, by decide⟩
        idle := rfl
        iclear := by decide
        irq_uncommitted := rfl
        irq_unstamped := rfl
        nmi_uncommitted := rfl
        lead := by decide
        sei := by decide
        quiet := fun _ _ => ⟨rfl, rfl, rfl⟩
        irq_high := rfl } (by decide)).1,
   (C10_pushed_status scenSei 10 irqHighFrom10
      { wf := ⟨by decide, by decide, by decide, by decide, by decide, by decide⟩
        idle := rfl
        iclear := by decide
        irq_uncommitted := rfl
        irq_unstamped := rfl
        nmi_uncommitted := rfl
        lead := by decide
        sei := by decide
        quiet := fun _ _ => ⟨rfl, rfl, rfl⟩
        irq_high := rfl } (by decide)).2.2.2.2⟩

/-! ## IRQ sampling, NMI persistence, stunned ticks, indirect JMP -/

theorem irqSampleCond_iff (s : Cpu) (ln : Lines) :
    irqSampleCond s ln = true ↔
      ((ln.vicIRQ || ln.ciaIRQ) = true ∧ s._p &&& FLAG_I = 0 ∧
        ¬ (s._exe_instr_opcode = (SEI_OP : Int) ∧ s._exe_instr_cycles_remain = 1)) := by
  unfold irqSampleCond falsy EXECUTING_SEI_LAST_CYCLE
  simp only [Bool.and_eq_true, Bool.not_eq_true', decide_eq_true_eq, Bool.and_eq_false_imp,
    decide_eq_false_iff_not, not_and]
  tauto

theorem CHECK_FOR_IRQ_eq (s : Cpu) (ln : Lines) :
    CHECK_FOR_IRQ s ln =
      if irqSampleCond s ln = true then
        (if s._irq_line_ts = 0 then
          { s with _irq_committed := true, _irq_line_ts := ln.sysCycles % 4294967296 }
         else s)
      else (if s._irq_committed = true then s else { s with _irq_line_ts := 0 }) := by
  unfold CHECK_FOR_IRQ irqSampleCond
  by_cases h1 : ((falsy (s._p &&& FLAG_I) && !EXECUTING_SEI_LAST_CYCLE s)
      && (ln.vicIRQ || ln.ciaIRQ)) = true
  · simp only [h1, if_true]
  · simp only [h1, if_false]
    cases hc : s._irq_committed <;> simp

theorem CHECK_FOR_NMI_irq (s : Cpu) (ln : Lines) :
    (sampled s ln)._irq_committed = (CHECK_FOR_IRQ s ln)._irq_committed ∧
    (sampled s ln)._irq_line_ts = (CHECK_FOR_IRQ s ln)._irq_line_ts := by
  unfold sampled CHECK_FOR_NMI
  dsimp only
  split_ifs <;> exact ⟨rfl, rfl⟩

/-- C13: the IRQ sampling rule of `CHECK_FOR_IRQ`, the first statement of every
tick.  A commitment is recorded (`irq_committed` becomes true, the stamp
becomes the current cycle) exactly when the IRQ line is asserted, I is clear,
the CPU is not in the last cycle of an SEI and no stamp is recorded; when the
three-part line condition fails the stamp is cleared if no IRQ is committed
and both are kept if one is; when it holds with a stamp already recorded
nothing changes; a tick on which I is set creates no commitment; and the
macro changes nothing besides these two variables. -/
theorem C13_irq_sampling_rule (s : Cpu) (ln : Lines) :
    (commitsIRQ s ln →
      (CHECK_FOR_IRQ s ln)._irq_committed = true ∧
      (CHECK_FOR_IRQ s ln)._irq_line_ts = ln.sysCycles % 4294967296) ∧
    (¬ commitsIRQ s ln → (CHECK_FOR_IRQ s ln)._irq_committed = s._irq_committed) ∧
    (s._irq_committed = false →
      ((CHECK_FOR_IRQ s ln)._irq_committed = true ↔ commitsIRQ s ln)) ∧
    (irqSampleCond s ln = false → s._irq_committed = false →
      (CHECK_FOR_IRQ s ln)._irq_line_ts = 0 ∧ (CHECK_FOR_IRQ s ln)._irq_committed = false) ∧
    (irqSampleCond s ln = false → s._irq_committed = true →
      (CHECK_FOR_IRQ s ln)._irq_committed = true ∧
      (CHECK_FOR_IRQ s ln)._irq_line_ts = s._irq_line_ts) ∧
    (irqSampleCond s ln = true → s._irq_line_ts ≠ 0 → CHECK_FOR_IRQ s ln = s) ∧
    (s._p &&& FLAG_I ≠ 0 →
      ¬ commitsIRQ s ln ∧ (CHECK_FOR_IRQ s ln)._irq_committed = s._irq_committed) ∧
    (irqSampleCond s ln = true ↔
      ((ln.vicIRQ || ln.ciaIRQ) = true ∧ s._p &&& FLAG_I = 0 ∧
        ¬ (s._exe_instr_opcode = (SEI_OP : Int) ∧ s._exe_instr_cycles_remain = 1))) ∧
    CHECK_FOR_IRQ s ln =
      { s with _irq_committed := (CHECK_FOR_IRQ s ln)._irq_committed
               _irq_line_ts := (CHECK_FOR_IRQ s ln)._irq_line_ts } ∧
    ((cpuClockRSID s ln)._irq_line_ts = (CHECK_FOR_IRQ s ln)._irq_line_ts ∧
      (cpuClockRSID s ln)._irq_committed
        = ((CHECK_FOR_IRQ s ln)._irq_committed && !dispatchesIRQ s ln)) := by
  have hiff := irqSampleCond_iff s ln
  have hcm : commitsIRQ s ln ↔ (irqSampleCond s ln = true ∧ s._irq_line_ts = 0) := by
    unfold commitsIRQ; rw [hiff]; tauto
  have heq := CHECK_FOR_IRQ_eq s ln
  have hkeep : ¬ commitsIRQ s ln → (CHECK_FOR_IRQ s ln)._irq_committed = s._irq_committed := by
    intro hn
    rw [heq]
    by_cases h1 : irqSampleCond s ln = true
    · have h2 : ¬ s._irq_line_ts = 0 := fun h => hn (hcm.2 ⟨h1, h⟩)
      rw [if_pos h1, if_neg h2]
    · rw [if_neg h1]; split <;> rfl
  have hset : commitsIRQ s ln →
      (CHECK_FOR_IRQ s ln)._irq_committed = true ∧
      (CHECK_FOR_IRQ s ln)._irq_line_ts = ln.sysCycles % 4294967296 := by
    intro hc
    obtain ⟨h1, h2⟩ := hcm.1 hc
    rw [heq, if_pos h1, if_pos h2]
    exact ⟨rfl, rfl⟩
  refine ⟨hset, hkeep, ?_, ?_, ?_, ?_, ?_, hiff, ?_, ?_⟩
  · intro hc
    constructor
    · intro h
      by_contra hn
      rw [hkeep hn, hc] at h
      exact Bool.noConfusion h
    · intro h; exact (hset h).1
  · intro h1 h2
    have h1' : ¬ irqSampleCond s ln = true := by rw [h1]; decide
    have h2' : ¬ s._irq_committed = true := by rw [h2]; decide
    rw [heq, if_neg h1', if_neg h2']
    exact ⟨rfl, h2⟩
  · intro h1 h2
    have h1' : ¬ irqSampleCond s ln = true := by rw [h1]; decide
    rw [heq, if_neg h1', if_pos h2]
    exact ⟨h2, rfl⟩
  · intro h1 h2
    rw [heq, if_pos h1, if_neg h2]
  · intro hI
    have hn : ¬ commitsIRQ s ln := fun h => hI h.2.1
    exact ⟨hn, hkeep hn⟩
  · rw [heq]; split_ifs <;> rfl
  · rw [(tick_ctl s ln).1, (tick_ctl s ln).2.1, (CHECK_FOR_NMI_irq s ln).1,
      (CHECK_FOR_NMI_irq s ln).2]
    exact ⟨rfl, rfl⟩

/-- Counterexample to C13 as stated: with NOPs in memory and the IRQ line high
from cycle 10, the IRQ stamped on the first tick is dispatched on the third;
at the start of the fourth tick the line is asserted, I is clear and no SEI is
in flight, but a stamp is recorded, so the four-part condition fails, and no
IRQ is committed; `CHECK_FOR_IRQ` nevertheless keeps the stamp. -/
theorem C13_counterexample :
    ((irqHighFrom10 3).vicIRQ || (irqHighFrom10 3).ciaIRQ) = true ∧
    (runTicks scenNops irqHighFrom10 3)._p &&& FLAG_I = 0 ∧
    (runTicks scenNops irqHighFrom10 3)._exe_instr_opcode = (START_IRQ_OP : Int) ∧
    (runTicks scenNops irqHighFrom10 3)._irq_line_ts = 10 ∧
    (runTicks scenNops irqHighFrom10 3)._irq_committed = false ∧
    (CHECK_FOR_IRQ (runTicks scenNops irqHighFrom10 3) (irqHighFrom10 3))._irq_line_ts = 10 ∧
    (CHECK_FOR_IRQ (runTicks scenNops irqHighFrom10 3) (irqHighFrom10 3))._irq_committed
      = false := by
  decide

/-- C14: a committed NMI is never retracted.  In a run of `cpuClockRSID`, once
`nmi_committed` is true it is still true after every later tick up to the first
tick that loads `START_NMI_OP`, whatever the lines, the stun mode and the
executed instructions do; a tick clears it exactly when it loads
`START_NMI_OP` into the in-flight record. -/
theorem C14_nmi_never_retracted (s : Cpu) (ln : Nat → Lines) (t0 : Nat)
    (hc : (runTicks s ln t0)._nmi_committed = true) :
    (∀ m, (∀ j, t0 ≤ j → j < t0 + m → dispatchesNMI (runTicks s ln j) (ln j) = false) →
      (runTicks s ln (t0 + m))._nmi_committed = true) ∧
    (∀ (u : Cpu) (l : Lines), u._nmi_committed = true →
      ((cpuClockRSID u l)._nmi_committed = false ↔ dispatchesNMI u l = true)) ∧
    (∀ (u : Cpu) (l : Lines), dispatchesNMI u l = true →
      (cpuClockRSID u l)._exe_instr_opcode = (START_NMI_OP : Int) ∧
      (cpuClockRSID u l)._exe_instr_cycles = 7 ∧
      (cpuClockRSID u l)._nmi_committed = false) := by
  have hstep : ∀ (u : Cpu) (l : Lines), u._nmi_committed = true →
      (cpuClockRSID u l)._nmi_committed = !dispatchesNMI u l := by
    intro u l hu
    rw [nmi_committed_after_tick, hu]; rfl
  refine ⟨?_, ?_, ?_⟩
  · intro m
    induction m with
    | zero => intro _; exact hc
    | succ m ih =>
      intro hnd
      have i1 := ih (fun j h1 h2 => hnd j h1 (by omega))
      show (cpuClockRSID (runTicks s ln (t0 + m)) (ln (t0 + m)))._nmi_committed = true
      rw [hstep _ _ i1, hnd (t0 + m) (by omega) (by omega)]; rfl
  · intro u l hu
    rw [hstep u l hu]
    cases dispatchesNMI u l <;> simp
  · intro u l hd
    rw [tick_dispatchNMI u l hd]
    exact ⟨rfl, rfl, rfl⟩

/-- C16: a tick on which the video chip reports FULLY_STUNNED (stun mode 2),
or reports WRITE_ALLOWED (stun mode 1) while no instruction is in flight,
returns right after the interrupt sampling: the in-flight record, the
registers `PC, A, X, Y, S, P`, the memory and the write log are unchanged, and
the state is the one left by `CHECK_FOR_IRQ` and `CHECK_FOR_NMI`. -/
theorem C16_stunned_tick_frame (s : Cpu) (ln : Lines)
    (h : ln.vicStunCPU = 2 ∨ (ln.vicStunCPU = 1 ∧ s._exe_instr_opcode < 0)) :
    cpuClockRSID s ln = CHECK_FOR_NMI (CHECK_FOR_IRQ s ln) ln ∧
    sameRegsMem s (cpuClockRSID s ln) ∧
    (cpuClockRSID s ln)._exe_instr_opcode = s._exe_instr_opcode ∧
    (cpuClockRSID s ln)._exe_instr_cycles = s._exe_instr_cycles ∧
    (cpuClockRSID s ln)._exe_instr_cycles_remain = s._exe_instr_cycles_remain ∧
    (cpuClockRSID s ln)._irq_committed = (CHECK_FOR_IRQ s ln)._irq_committed ∧
    (cpuClockRSID s ln)._nmi_committed = (s._nmi_committed || (ln.ciaNMI && !s._nmi_line)) := by
  have hst : tickStunned s ln = true := by
    unfold tickStunned CHECK_FOR_VIC_STUN
    rw [sampled_exe_instr_opcode]
    rcases h with h | ⟨h1, h2⟩
    · simp [h]
    · simp [h1, h2]
  have he := tick_stunned s ln hst
  rw [he]
  refine ⟨rfl, ?_, sampled_exe_instr_opcode s ln, sampled_exe_instr_cycles s ln,
    sampled_exe_instr_cycles_remain s ln, ?_, (sampled_nmi s ln).1⟩
  · unfold sameRegsMem
    simp
  · unfold sampled CHECK_FOR_NMI
    dsimp only
    split_ifs <;> rfl

theorem memGet_mod (s : Cpu) (a : Nat) : memGet s (a % 65536) = memGet s a := by
  unfold memGet; rw [Nat.mod_mod]

theorem shl8_mod (b : Nat) (h : b < 256) : (b <<< 8) % 65536 = 256 * b := by
  rw [Nat.shiftLeft_eq]; omega

theorem runPrefetchedOp_jmp_ind (s : Cpu) (h : s._exe_instr_opcode = 0x6C) :
    (runPrefetchedOp s)._pc =
      memGet s ((memGet s (s._pc + 2) <<< 8) % 65536 ||| memGet s (s._pc + 1)) |||
      (memGet s ((memGet s (s._pc + 2) <<< 8) % 65536 |||
          ((memGet s (s._pc + 1) + 1) &&& 0xff)) <<< 8) := by
  have e : u8 (incPC s)._exe_instr_opcode = 0x6C := by
    show u8 s._exe_instr_opcode = 0x6C
    rw [h]; decide
  have hm : mnemonicOf 0x6C = Mnemonic.jmp := by decide
  have hmode : modeOf 0x6C = Mode.ind := by decide
  have e1 : memGet s ((s._pc + 1) % 65536) = memGet s (s._pc + 1) := memGet_mod s _
  have e2 : memGet s (((s._pc + 1) % 65536 + 1) % 65536) = memGet s (s._pc + 2) := by
    rw [memGet_mod]; unfold memGet
    have : ((s._pc + 1) % 65536 + 1) % 65536 = (s._pc + 2) % 65536 := by omega
    rw [this]
  unfold runPrefetchedOp
  simp only [e, hm, runPrefetchedOp_switch, hmode]
  simp only [incPC, memGet, hmode] at e1 e2 ⊢
  rw [e2, e1]

theorem mul256_or (lo hi : Nat) (h : lo < 256) : 256 * hi ||| lo = lo + 256 * hi := by
  rw [Nat.lor_comm, ← or_shl8 lo hi h, Nat.shiftLeft_eq]
  norm_num [Nat.mul_comm]

theorem jmp_ind_high_addr (hi lo : Nat) (hhi : hi < 256) (hlo : lo < 256) :
    (256 * hi ||| ((lo + 1) &&& 0xff)) =
      ((lo + 256 * hi) &&& 0xff00) ||| ((lo + 256 * hi + 1) &&& 0xff) := by
  have h1 : lo + 256 * hi < 65536 := by omega
  rw [and_ff00 _ h1, and_ff, and_ff]
  have e1 : (lo + 256 * hi) / 256 * 256 = 256 * hi := by omega
  have e2 : (lo + 256 * hi + 1) % 256 = (lo + 1) % 256 := by omega
  rw [e1, e2]

/-- C18: the indirect JMP page bug.  Executing `JMP (addr)` (opcode `$6C`) loads
the low byte of `PC` from `addr` and the high byte from
`(addr & 0xFF00) | ((addr + 1) & 0xFF)`; for `addr = $xxFF` the high byte comes
from `$xx00`, the start of the same page. -/
theorem C18_jmp_indirect_page_bug (s : Cpu) (h : s._exe_instr_opcode = 0x6C) :
    (runPrefetchedOp s)._pc =
      memGet s (operandAddr s) +
        256 * memGet s ((operandAddr s &&& 0xff00) ||| ((operandAddr s + 1) &&& 0xff)) ∧
    (operandAddr s % 256 = 255 →
      (operandAddr s &&& 0xff00) ||| ((operandAddr s + 1) &&& 0xff) = operandAddr s - 255 ∧
      (runPrefetchedOp s)._pc =
        memGet s (operandAddr s) + 256 * memGet s (operandAddr s - 255)) := by
  have hlo := memGet_lt s (s._pc + 1)
  have hhi := memGet_lt s (s._pc + 2)
  have hmain : (runPrefetchedOp s)._pc =
      memGet s (operandAddr s) +
        256 * memGet s ((operandAddr s &&& 0xff00) ||| ((operandAddr s + 1) &&& 0xff)) := by
    rw [runPrefetchedOp_jmp_ind s h, shl8_mod _ hhi, or_shl8 _ _ (memGet_lt _ _),
      mul256_or _ _ hlo, jmp_ind_high_addr _ _ hhi hlo]
    rfl
  refine ⟨hmain, ?_⟩
  intro h255
  have hlt : operandAddr s < 65536 := by unfold operandAddr; omega
  have e : (operandAddr s &&& 0xff00) ||| ((operandAddr s + 1) &&& 0xff) = operandAddr s - 255 := by
    rw [and_ff00 _ hlt, and_ff]
    have e1 : (operandAddr s + 1) % 256 = 0 := by omega
    rw [e1, Nat.or_zero]
    omega
  rw [hmain, e]
  exact ⟨rfl, rfl⟩

/-- Witness of C18 on the scenario `JMP ($30FF)` with `$34` at `$30FF`, `$12` at
`$3000` and `$56` at `$3100`: the new `PC` is `$1234`. -/
theorem C18_jmp_indirect_page_bug_witness : (runPrefetchedOp scenJmpInd)._pc = 0x1234 :=
  (C18_jmp_indirect_page_bug scenJmpInd rfl).1.trans (by decide)

/-! ## Interrupt entry and RTI -/

/-- Memory after three pushes, read through `memGet`. -/
theorem push3_mem (t : Cpu) (v1 v2 v3 a : Nat) (hs : t._s < 256) :
    memGet (push (push (push t v1) v2) v3) a =
      if a % 65536 = 0x100 + (t._s + 254) % 256 then v3 % 256
      else if a % 65536 = 0x100 + (t._s + 255) % 256 then v2 % 256
      else if a % 65536 = 0x100 + t._s then v1 % 256
      else memGet t a := by
  rw [push_mem, push_mem, push_mem, push_s, push_s]
  have e0 : (0x100 + t._s) % 65536 = 0x100 + t._s := by omega
  have e1 : (0x100 + (t._s + 255) % 256) % 65536 = 0x100 + (t._s + 255) % 256 := by omega
  have e2 : (0x100 + ((t._s + 255) % 256 + 255) % 256) % 65536
      = 0x100 + (t._s + 254) % 256 := by omega
  rw [e0, e1, e2]

theorem completeIRQ_mem (t : Cpu) (a : Nat) :
    memGet (completeIRQ t) a =
      memGet (push (push (push t ((t._pc >>> 8) % 256)) (t._pc &&& 0xff))
        ((t._p ||| FLAG_B1) % 256)) a := by
  have e : ∀ (u : Cpu) (x : Nat), memGet { u with _pc := x } a = memGet u a := fun _ _ => rfl
  unfold completeIRQ
  dsimp only
  simp only [e, memGet_SETFLAGS, push_pc, push_p]

theorem completeNMI_mem (t : Cpu) (a : Nat) :
    memGet (completeNMI t) a =
      memGet (push (push (push t ((t._pc >>> 8) % 256)) (t._pc &&& 0xff))
        ((t._p ||| FLAG_B1) % 256)) a := by
  have e : ∀ (u : Cpu) (x : Nat), memGet { u with _pc := x } a = memGet u a := fun _ _ => rfl
  unfold completeNMI
  dsimp only
  simp only [e, memGet_SETFLAGS, push_pc, push_p]

theorem completeNMI_result (t : Cpu) (hs : t._s < 256) :
    (completeNMI t)._pc = memGet t 0xfffa + 256 * memGet t 0xfffb ∧
    (completeNMI t)._s = (t._s + 253) % 256 ∧
    (completeNMI t)._p = (t._p ||| FLAG_I) % 256 ∧
    (completeNMI t).writes = t.writes ++
      [(0x100 + t._s, (t._pc >>> 8) % 256 % 256),
       (0x100 + (t._s + 255) % 256, (t._pc &&& 0xff) % 256),
       (0x100 + (t._s + 254) % 256, (t._p ||| FLAG_B1) % 256 % 256)] ∧
    (completeNMI t)._a = t._a ∧ (completeNMI t)._x = t._x ∧ (completeNMI t)._y = t._y ∧
    (completeNMI t)._opc = t._opc := by
  have b1 := memGet_lt t 0xfffa
  have v1 := push3_vector t ((t._pc >>> 8) % 256) (t._pc &&& 0xff) ((t._p ||| FLAG_B1) % 256)
    0xfffa hs (by norm_num) (by norm_num)
  have v2 := push3_vector t ((t._pc >>> 8) % 256) (t._pc &&& 0xff) ((t._p ||| FLAG_B1) % 256)
    0xfffb hs (by norm_num) (by norm_num)
  unfold completeNMI
  dsimp only
  refine ⟨?_, ?_, ?_, ?_, ?_, ?_, ?_, ?_⟩
  · have e : ∀ (u : Cpu) (x : Nat),
        memGet { u with _pc := x } 0xfffb = memGet u 0xfffb := fun _ _ => rfl
    simp only [e, memGet_SETFLAGS, push_pc, push_p]
    rw [v1, v2, or_shl8 _ _ b1]
  · simp only [SETFLAGS_s, push_s]
    omega
  · simp only [SETFLAGS_p_true, push_p]
  · simp only [SETFLAGS_writes, push_writes, push_s, push_pc, push_p]
    have e0 : (0x100 + t._s) % 65536 = 0x100 + t._s := by omega
    have e1 : (0x100 + (t._s + 255) % 256) % 65536 = 0x100 + (t._s + 255) % 256 := by omega
    have e2 : (0x100 + ((t._s + 255) % 256 + 255) % 256) % 65536
        = 0x100 + (t._s + 254) % 256 := by omega
    rw [e0, e1, e2]
    simp only [List.append_assoc, List.singleton_append, List.cons_append, List.nil_append]
  · simp only [SETFLAGS_a, push_a]
  · simp only [SETFLAGS_x, push_x]
  · simp only [SETFLAGS_y, push_y]
  · simp only [SETFLAGS_opc, push_opc]

theorem status_bits : ∀ p, p < 256 →
    (p ||| FLAG_B1) % 256 % 256 = p ||| FLAG_B1 ∧ (p ||| FLAG_I) % 256 = p ||| FLAG_I ∧
    (p &&& FLAG_B0 = 0 → (p ||| FLAG_B1) &&& FLAG_B0 = 0) ∧
    (p ||| FLAG_I) &&& FLAG_I ≠ 0 ∧
    (p &&& (FLAG_B0 ||| FLAG_B1) = 0 →
      ((p ||| FLAG_B1) &&& ((FLAG_B0 ||| FLAG_B1) ^^^ 0xffffffff)) % 256 = p) := by
  decide

theorem pc_bytes (pc : Nat) (h : pc < 65536) :
    (pc >>> 8) % 256 % 256 = pc / 256 ∧ (pc &&& 0xff) % 256 = pc % 256 := by
  rw [Nat.shiftRight_eq_div_pow, and_ff]
  omega

/-- The state in which the completion sequences run, and the result of the
tick, for a tick that completes an interrupt pseudo operation. -/
theorem entry_tick (u : Cpu) (l : Lines)
    (hop : u._exe_instr_opcode = (START_IRQ_OP : Int) ∨
      u._exe_instr_opcode = (START_NMI_OP : Int))
    (hcomp : tickCompletes u l = true) :
    cpuClockRSID u l =
      retire (if u._exe_instr_opcode = (START_IRQ_OP : Int)
        then completeIRQ { sampled u l with _exe_instr_cycles_remain := 0 }
        else completeNMI { sampled u l with _exe_instr_cycles_remain := 0 }) := by
  unfold tickCompletes at hcomp
  simp only [Bool.and_eq_true, Bool.not_eq_true', decide_eq_true_eq,
    sampled_exe_instr_opcode, sampled_exe_instr_cycles_remain] at hcomp
  obtain ⟨⟨h1, h2⟩, h3⟩ := hcomp
  rw [tick_complete u l h1 h2 h3]
  rcases hop with h | h
  · rw [if_pos h, if_pos h]
  · have hne : ¬ u._exe_instr_opcode = (START_IRQ_OP : Int) := by rw [h]; decide
    rw [if_neg hne, if_pos h, if_neg hne]

/-- Everything a tick that completes an interrupt pseudo operation does. -/
theorem entry_result (u : Cpu) (l : Lines) (hs : u._s < 256)
    (hop : u._exe_instr_opcode = (START_IRQ_OP : Int) ∨
      u._exe_instr_opcode = (START_NMI_OP : Int))
    (hcomp : tickCompletes u l = true) :
    idleRecord (cpuClockRSID u l) ∧
    (cpuClockRSID u l)._pc = memGet u (vectorOf u._exe_instr_opcode)
      + 256 * memGet u (vectorOf u._exe_instr_opcode + 1) ∧
    (cpuClockRSID u l)._s = (u._s + 253) % 256 ∧
    (cpuClockRSID u l)._p = (u._p ||| FLAG_I) % 256 ∧
    (cpuClockRSID u l).writes = u.writes ++
      [(0x100 + u._s, (u._pc >>> 8) % 256 % 256),
       (0x100 + (u._s + 255) % 256, (u._pc &&& 0xff) % 256),
       (0x100 + (u._s + 254) % 256, (u._p ||| FLAG_B1) % 256 % 256)] ∧
    ((cpuClockRSID u l)._a = u._a ∧ (cpuClockRSID u l)._x = u._x ∧
      (cpuClockRSID u l)._y = u._y) ∧
    (∀ a, memGet (cpuClockRSID u l) a =
      if a % 65536 = 0x100 + (u._s + 254) % 256 then (u._p ||| FLAG_B1) % 256 % 256
      else if a % 65536 = 0x100 + (u._s + 255) % 256 then (u._pc &&& 0xff) % 256
      else if a % 65536 = 0x100 + u._s then (u._pc >>> 8) % 256 % 256
      else memGet u a) := by
  have hstep := entry_tick u l hop hcomp
  have hs' : ({ sampled u l with _exe_instr_cycles_remain := 0 } : Cpu)._s < 256 := by
    show (sampled u l)._s < 256
    rw [sampled_s]; exact hs
  have em : ∀ a, memGet ({ sampled u l with _exe_instr_cycles_remain := 0 } : Cpu) a
      = memGet u a := by
    intro a
    show (sampled u l).mem (a % 65536) % 256 = u.mem (a % 65536) % 256
    rw [sampled_mem]
  have f1 : ({ sampled u l with _exe_instr_cycles_remain := 0 } : Cpu)._s = u._s :=
    sampled_s u l
  have f2 : ({ sampled u l with _exe_instr_cycles_remain := 0 } : Cpu)._pc = u._pc :=
    sampled_pc u l
  have f3 : ({ sampled u l with _exe_instr_cycles_remain := 0 } : Cpu)._p = u._p :=
    sampled_p u l
  have f4 : ({ sampled u l with _exe_instr_cycles_remain := 0 } : Cpu).writes = u.writes :=
    sampled_writes u l
  have f5 : ({ sampled u l with _exe_instr_cycles_remain := 0 } : Cpu)._a = u._a :=
    sampled_a u l
  have f6 : ({ sampled u l with _exe_instr_cycles_remain := 0 } : Cpu)._x = u._x :=
    sampled_x u l
  have f7 : ({ sampled u l with _exe_instr_cycles_remain := 0 } : Cpu)._y = u._y :=
    sampled_y u l
  have hm := push3_mem { sampled u l with _exe_instr_cycles_remain := 0 }
    ((u._pc >>> 8) % 256) (u._pc &&& 0xff) ((u._p ||| FLAG_B1) % 256)
  rw [hstep]
  rcases hop with h | h
  · rw [if_pos h]
    obtain ⟨r1, r2, r3, r4, r5, r6, r7, _⟩ :=
      completeIRQ_result { sampled u l with _exe_instr_cycles_remain := 0 } hs'
    have hv : vectorOf u._exe_instr_opcode = 0xfffe := by rw [h]; rfl
    rw [hv]
    refine ⟨⟨rfl, rfl, rfl⟩, ?_, ?_, ?_, ?_, ⟨?_, ?_, ?_⟩, ?_⟩
    · show (completeIRQ _)._pc = _
      rw [r1, em, em]
    · show (completeIRQ _)._s = _
      rw [r2, f1]
    · show (completeIRQ _)._p = _
      rw [r3, f3]
    · show (completeIRQ _).writes = _
      rw [r4, f1, f2, f3, f4]
    · exact r5.trans f5
    · exact r6.trans f6
    · exact r7.trans f7
    · intro a
      show memGet (completeIRQ _) a = _
      rw [completeIRQ_mem, f2, f3, hm a hs', f1, em]
  · have hne : ¬ u._exe_instr_opcode = (START_IRQ_OP : Int) := by rw [h]; decide
    rw [if_neg hne]
    obtain ⟨r1, r2, r3, r4, r5, r6, r7, _⟩ :=
      completeNMI_result { sampled u l with _exe_instr_cycles_remain := 0 } hs'
    have hv : vectorOf u._exe_instr_opcode = 0xfffa := by rw [h]; rfl
    rw [hv]
    refine ⟨⟨rfl, rfl, rfl⟩, ?_, ?_, ?_, ?_, ⟨?_, ?_, ?_⟩, ?_⟩
    · show (completeNMI _)._pc = _
      rw [r1, em, em]
    · show (completeNMI _)._s = _
      rw [r2, f1]
    · show (completeNMI _)._p = _
      rw [r3, f3]
    · show (completeNMI _).writes = _
      rw [r4, f1, f2, f3, f4]
    · exact r5.trans f5
    · exact r6.trans f6
    · exact r7.trans f7
    · intro a
      show memGet (completeNMI _) a = _
      rw [completeNMI_mem, f2, f3, hm a hs', f1, em]

/-- C11: the completion tick of `START_IRQ_OP` or `START_NMI_OP`.  For every
state with well-formed registers whose `P` has B0 clear, the tick writes the
high byte of `PC` at `$0100+S`, the low byte at `$0100+((S-1) mod 256)` and the
byte `P | $20`, whose bit `$10` is clear, at `$0100+((S-2) mod 256)`, and
nothing else; `S` becomes `(S-3) mod 256`; `P` becomes `P | $04`; `PC` is
loaded little-endian from `$FFFE/$FFFF` for the IRQ and from `$FFFA/$FFFB` for
the NMI; `A`, `X`, `Y` are unchanged and the record is idle afterwards. -/
theorem C11_interrupt_entry (u : Cpu) (l : Lines) (hwf : u.WF)
    (hB0 : u._p &&& FLAG_B0 = 0)
    (hop : u._exe_instr_opcode = (START_IRQ_OP : Int) ∨
      u._exe_instr_opcode = (START_NMI_OP : Int))
    (hcomp : tickCompletes u l = true) :
    (cpuClockRSID u l).writes = u.writes ++
      [(0x100 + u._s, u._pc / 256),
       (0x100 + (u._s + 255) % 256, u._pc % 256),
       (0x100 + (u._s + 254) % 256, u._p ||| FLAG_B1)] ∧
    (u._p ||| FLAG_B1) &&& FLAG_B0 = 0 ∧
    (cpuClockRSID u l)._s = (u._s + 253) % 256 ∧
    ((cpuClockRSID u l)._p = u._p ||| FLAG_I ∧ (cpuClockRSID u l)._p &&& FLAG_I ≠ 0) ∧
    (cpuClockRSID u l)._pc =
      (if u._exe_instr_opcode = (START_IRQ_OP : Int)
        then memGet u 0xfffe + 256 * memGet u 0xffff
        else memGet u 0xfffa + 256 * memGet u 0xfffb) ∧
    ((cpuClockRSID u l)._a = u._a ∧ (cpuClockRSID u l)._x = u._x ∧
      (cpuClockRSID u l)._y = u._y) ∧
    idleRecord (cpuClockRSID u l) := by
  obtain ⟨r0, r1, r2, r3, r4, r5, _⟩ := entry_result u l hwf.sp hop hcomp
  obtain ⟨s1, s2, s3, s4, _⟩ := status_bits u._p hwf.p
  obtain ⟨p1, p2⟩ := pc_bytes u._pc hwf.pc
  refine ⟨?_, s3 hB0, r2, ⟨?_, ?_⟩, ?_, r5, r0⟩
  · rw [r4, p1, p2, s1]
  · rw [r3, s2]
  · rw [r3, s2]; exact s4
  · rw [r1]
    unfold vectorOf
    split <;> rfl

theorem pop_val (t : Cpu) : (pop t).1 = memGet t (0x100 + (t._s + 1) % 256) := by
  simp only [pop, MEM_READ_RAM, memGet, and_ff]

theorem pop_s (t : Cpu) : (pop t).2._s = (t._s + 1) % 256 := by
  simp only [pop, and_ff]

theorem pop_eq (t : Cpu) : (pop t).2 = { t with _s := (t._s + 1) % 256 } := by
  simp only [pop, and_ff]

theorem runPrefetchedOp_rti (t : Cpu) (h : t._exe_instr_opcode = 0x40) :
    (runPrefetchedOp t)._p =
        (memGet t (0x100 + (t._s + 1) % 256) &&& ((FLAG_B0 ||| FLAG_B1) ^^^ 0xffffffff)) % 256 ∧
    (runPrefetchedOp t)._pc =
        memGet t (0x100 + ((t._s + 1) % 256 + 1) % 256) |||
          (memGet t (0x100 + (((t._s + 1) % 256 + 1) % 256 + 1) % 256) <<< 8) ∧
    (runPrefetchedOp t)._s = (((t._s + 1) % 256 + 1) % 256 + 1) % 256 ∧
    (runPrefetchedOp t).writes = t.writes ∧ (runPrefetchedOp t).mem = t.mem ∧
    (runPrefetchedOp t)._a = t._a ∧ (runPrefetchedOp t)._x = t._x ∧
    (runPrefetchedOp t)._y = t._y := by
  have e : u8 (incPC t)._exe_instr_opcode = 0x40 := by
    show u8 t._exe_instr_opcode = 0x40
    rw [h]; decide
  have hm : mnemonicOf 0x40 = Mnemonic.rti := by decide
  unfold runPrefetchedOp
  simp only [e, hm, runPrefetchedOp_switch, pop_val, pop_eq]
  simp only [incPC, memGet, and_self]

/-- The tick that completes an RTI. -/
theorem rti_tick (t : Cpu) (l : Lines) (h : t._exe_instr_opcode = 0x40)
    (hcomp : tickCompletes t l = true) :
    (cpuClockRSID t l)._p =
        (memGet t (0x100 + (t._s + 1) % 256) &&& ((FLAG_B0 ||| FLAG_B1) ^^^ 0xffffffff)) % 256 ∧
    (cpuClockRSID t l)._pc =
        memGet t (0x100 + ((t._s + 1) % 256 + 1) % 256) |||
          (memGet t (0x100 + (((t._s + 1) % 256 + 1) % 256 + 1) % 256) <<< 8) ∧
    (cpuClockRSID t l)._s = (((t._s + 1) % 256 + 1) % 256 + 1) % 256 ∧
    (cpuClockRSID t l).writes = t.writes ∧ (cpuClockRSID t l).mem = t.mem := by
  unfold tickCompletes at hcomp
  simp only [Bool.and_eq_true, Bool.not_eq_true', decide_eq_true_eq,
    sampled_exe_instr_opcode, sampled_exe_instr_cycles_remain] at hcomp
  obtain ⟨⟨h1, h2⟩, h3⟩ := hcomp
  have n1 : ¬ t._exe_instr_opcode = (START_IRQ_OP : Int) := by rw [h]; decide
  have n2 : ¬ t._exe_instr_opcode = (START_NMI_OP : Int) := by rw [h]; decide
  have n3 : ¬ t._exe_instr_opcode = (NULL_OP : Int) := by rw [h]; decide
  rw [tick_complete t l h1 h2 h3, if_neg n1, if_neg n2, if_neg n3]
  have ho : ({ sampled t l with _exe_instr_cycles_remain := 0 } : Cpu)._exe_instr_opcode
      = 0x40 := (sampled_exe_instr_opcode t l).trans h
  obtain ⟨r1, r2, r3, r4, r5, _⟩ :=
    runPrefetchedOp_rti { sampled t l with _exe_instr_cycles_remain := 0 } ho
  have em : ∀ a, memGet ({ sampled t l with _exe_instr_cycles_remain := 0 } : Cpu) a
      = memGet t a := by
    intro a
    show (sampled t l).mem (a % 65536) % 256 = t.mem (a % 65536) % 256
    rw [sampled_mem]
  have f1 : ({ sampled t l with _exe_instr_cycles_remain := 0 } : Cpu)._s = t._s :=
    sampled_s t l
  rw [f1] at r1 r2 r3
  rw [em] at r1 r2
  rw [em] at r2
  exact ⟨r1, r2, r3, r4.trans (sampled_writes t l), r5.trans (sampled_mem t l)⟩

theorem stack_addr (S : Nat) (h : S < 256) :
    ((S + 253) % 256 + 1) % 256 = (S + 254) % 256 ∧
    (((S + 253) % 256 + 1) % 256 + 1) % 256 = (S + 255) % 256 ∧
    ((((S + 253) % 256 + 1) % 256 + 1) % 256 + 1) % 256 = S := by
  omega

/-- The three stack bytes left by an interrupt entry. -/
theorem entry_stack (u : Cpu) (l : Lines) (hwf : u.WF)
    (hop : u._exe_instr_opcode = (START_IRQ_OP : Int) ∨
      u._exe_instr_opcode = (START_NMI_OP : Int))
    (hcomp : tickCompletes u l = true) :
    memGet (cpuClockRSID u l) (0x100 + u._s) = u._pc / 256 ∧
    memGet (cpuClockRSID u l) (0x100 + (u._s + 255) % 256) = u._pc % 256 ∧
    memGet (cpuClockRSID u l) (0x100 + (u._s + 254) % 256) = u._p ||| FLAG_B1 := by
  obtain ⟨_, _, _, _, _, _, rm⟩ := entry_result u l hwf.sp hop hcomp
  obtain ⟨s1, _, _, _, _⟩ := status_bits u._p hwf.p
  obtain ⟨p1, p2⟩ := pc_bytes u._pc hwf.pc
  have hsp := hwf.sp
  clear hop hcomp hwf
  refine ⟨?_, ?_, ?_⟩
  · rw [rm, if_neg (by omega), if_neg (by omega), if_pos (by omega), p1]
  · rw [rm, if_neg (by omega), if_pos (by omega), p2]
  · rw [rm, if_pos (by omega), s1]

/-- C12: interrupt entry and RTI are inverse.  Let a tick complete
`START_IRQ_OP` or `START_NMI_OP` in a state with well-formed registers whose
`P` has B0 and B1 clear; in any later state whose `S` is the one left by the
entry and whose three stack bytes are those written by the entry, the tick
that completes an RTI restores `PC`, `S` and `P` (the I flag included) to
their values before the entry; the restored `PC` is the pushed address itself.
All values of `S`, the wrap cases included, are covered. -/
theorem C12_entry_rti_inverse (u t : Cpu) (l1 l2 : Lines) (hwf : u.WF)
    (hB : u._p &&& (FLAG_B0 ||| FLAG_B1) = 0)
    (hop : u._exe_instr_opcode = (START_IRQ_OP : Int) ∨
      u._exe_instr_opcode = (START_NMI_OP : Int))
    (hentry : tickCompletes u l1 = true)
    (hS : t._s = (cpuClockRSID u l1)._s)
    (hstack : memGet t (0x100 + u._s) = memGet (cpuClockRSID u l1) (0x100 + u._s) ∧
      memGet t (0x100 + (u._s + 255) % 256)
        = memGet (cpuClockRSID u l1) (0x100 + (u._s + 255) % 256) ∧
      memGet t (0x100 + (u._s + 254) % 256)
        = memGet (cpuClockRSID u l1) (0x100 + (u._s + 254) % 256))
    (hrti : t._exe_instr_opcode = 0x40)
    (hexec : tickCompletes t l2 = true) :
    (cpuClockRSID t l2)._pc = u._pc ∧
    (cpuClockRSID t l2)._s = u._s ∧
    (cpuClockRSID t l2)._p = u._p ∧
    (cpuClockRSID t l2)._pc =
      memGet t (0x100 + (u._s + 255) % 256) + 256 * memGet t (0x100 + u._s) := by
  obtain ⟨_, _, r2, _, _, _, _⟩ := entry_result u l1 hwf.sp hop hentry
  obtain ⟨m3, m2, m1⟩ := entry_stack u l1 hwf hop hentry
  obtain ⟨q1, q2, q3, _, _⟩ := rti_tick t l2 hrti hexec
  obtain ⟨_, _, _, _, s5⟩ := status_bits u._p hwf.p
  obtain ⟨a1, a2, a3⟩ := stack_addr u._s hwf.sp
  obtain ⟨h3, h2, h1⟩ := hstack
  rw [hS, r2, a1, h1, m1] at q1
  rw [hS, r2, a3, a2, or_shl8 _ _ (memGet_lt _ _)] at q2
  rw [hS, r2, a3] at q3
  have hpc : u._pc % 256 + 256 * (u._pc / 256) = u._pc := by omega
  refine ⟨?_, q3, ?_, q2⟩
  · rw [q2, h2, h3, m2, m3]; exact hpc
  · rw [q1]; exact s5 hB

/-! ## Witnesses of the interrupt claims -/

/-- Witness of C11 on `scenEntry`: the three bytes go to `$0101`, `$0100` and
`$01FF`, and `S` wraps to `$FE`. -/
theorem C11_interrupt_entry_witness :
    (cpuClockRSID scenEntry (quiet 10)).writes = scenEntry.writes ++
      [(0x100 + scenEntry._s, scenEntry._pc / 256),
       (0x100 + (scenEntry._s + 255) % 256, scenEntry._pc % 256),
       (0x100 + (scenEntry._s + 254) % 256, scenEntry._p ||| FLAG_B1)] ∧
    (cpuClockRSID scenEntry (quiet 10))._s = (scenEntry._s + 253) % 256 :=
  ⟨(C11_interrupt_entry scenEntry (quiet 10)
      ⟨by decide, by decide, by decide, by decide, by decide, by decide⟩
      (by decide) (Or.inl rfl) (by decide)).1,
   (C11_interrupt_entry scenEntry (quiet 10)
      ⟨by decide, by decide, by decide, by decide, by decide, by decide⟩
      (by decide) (Or.inl rfl) (by decide)).2.2.1⟩

/-- Witness of C12 on `scenEntry` followed by `scenRti`: `PC`, `S` and `P` are
those before the entry. -/
theorem C12_entry_rti_inverse_witness :
    (cpuClockRSID scenRti (quiet 20))._pc = scenEntry._pc ∧
    (cpuClockRSID scenRti (quiet 20))._s = scenEntry._s ∧
    (cpuClockRSID scenRti (quiet 20))._p = scenEntry._p :=
  have h := C12_entry_rti_inverse scenEntry scenRti (quiet 10) (quiet 20)
    ⟨by decide, by decide, by decide, by decide, by decide, by decide⟩
    (by decide) (Or.inl rfl) (by decide) (by decide) (by decide) (by decide) (by decide)
  ⟨h.1, h.2.1, h.2.2.1⟩

/-- Witness of C14 on an idle CPU with the NMI line high: the commitment of
the first tick is still there after the second. -/
theorem C14_nmi_never_retracted_witness :
    (runTicks blank nmiHighFrom10 (1 + 1))._nmi_committed = true :=
  (C14_nmi_never_retracted blank nmiHighFrom10 1 (by decide)).1 1
    (fun j h1 h2 => by
      have e : j = 1 := by omega
      subst e
      decide)

/-- Witness of C16 on the scenario `LDA $20FF,X` with the CPU fully stunned. -/
theorem C16_stunned_tick_frame_witness :
    sameRegsMem scenLdaAbx (cpuClockRSID scenLdaAbx (stunAt 2 10)) :=
  (C16_stunned_tick_frame scenLdaAbx (stunAt 2 10) (Or.inl rfl)).2.1

/-! ## The stun check under WRITE_ALLOWED -/

/-- What `CHECK_FOR_VIC_STUN` computes under stun mode 1: the tick proceeds
exactly when an instruction is in flight, its write-cycle entry is non-zero and
`(int8_t)(cycles_total - cycles_remaining)` has reached the entry. -/
theorem stun_write_allowed (s : Cpu) (ln : Lines) (h : ln.vicStunCPU = 1) :
    tickStunned s ln = false ↔
      (0 ≤ s._exe_instr_opcode ∧ writeCycle s._exe_instr_opcode.toNat ≠ 0 ∧
        (writeCycle s._exe_instr_opcode.toNat : Int)
          ≤ wrap8 (s._exe_instr_cycles - s._exe_instr_cycles_remain)) := by
  unfold tickStunned CHECK_FOR_VIC_STUN
  rw [sampled_exe_instr_opcode, sampled_exe_instr_cycles, sampled_exe_instr_cycles_remain, h]
  by_cases h1 : s._exe_instr_opcode < 0
  · simp [h1]
  · by_cases h2 : writeCycle s._exe_instr_opcode.toNat = 0
    · simp [h1, h2]
    · by_cases h3 : (writeCycle s._exe_instr_opcode.toNat : Int)
          ≤ wrap8 (s._exe_instr_cycles - s._exe_instr_cycles_remain)
      · simp [h1, h2, h3]; omega
      · simp [h1, h2, h3]

/-- C15: the stun check under WRITE_ALLOWED compares
`cycles_total - cycles_remaining`, without the `+ 1` of the 1-based cycle
position.  `STA $10` (3 cycles, write cycle 3) reaches its final tick with
`cycles_remaining = 1`, so its 1-based position is 3, which has reached the
write cycle; the check computes `3 - 1 = 2 < 3` and the tick is suppressed: the
state is unchanged and nothing is written, on this tick and on every later
tick under stun mode 1.  Without stun the same tick completes the store. -/
theorem C15_write_allowed_position :
    (runTicks scenSta stunFromThird 2)._exe_instr_opcode = 0x85 ∧
    (runTicks scenSta stunFromThird 2)._exe_instr_cycles = 3 ∧
    (runTicks scenSta stunFromThird 2)._exe_instr_cycles_remain = 1 ∧
    writeCycle 0x85 = 3 ∧
    (stunFromThird 2).vicStunCPU = 1 ∧
    (writeCycle 0x85 : Int) ≤ (runTicks scenSta stunFromThird 2)._exe_instr_cycles
      - (runTicks scenSta stunFromThird 2)._exe_instr_cycles_remain + 1 ∧
    tickStunned (runTicks scenSta stunFromThird 2) (stunFromThird 2) = true ∧
    (runTicks scenSta stunFromThird 3)._exe_instr_cycles_remain = 1 ∧
    (runTicks scenSta stunFromThird 3).writes = [] ∧
    (runTicks scenSta stunFromThird 40)._exe_instr_cycles_remain = 1 ∧
    (runTicks scenSta stunFromThird 40).writes = [] ∧
    (cpuClockRSID (runTicks scenSta stunFromThird 2) (quiet 12)).writes = [(0x10, 0x55)] ∧
    (cpuClockRSID (runTicks scenSta stunFromThird 2) (quiet 12))._exe_instr_opcode = -1 := by
  decide

/-! ## The status register never holds B0 or B1 -/

theorem SETFLAGS_p (s : Cpu) (f : Nat) (c : Bool) : (SETFLAGS s f c)._p = setFlag s._p f c := by
  unfold setFlag SETFLAGS; split <;> rfl

theorem incPC_p (s : Cpu) : (incPC s)._p = s._p := rfl

theorem memSet_p (s : Cpu) (a v : Nat) : (memSet s a v)._p = s._p := rfl

theorem pop_p (s : Cpu) : (pop s).2._p = s._p := rfl

theorem getInput_p (s : Cpu) (m : Mode) : (getInput s m).2._p = s._p := by cases m <;> rfl

theorem setOutput_p (s : Cpu) (m : Mode) (v : Nat) : (setOutput s m v)._p = s._p := by
  cases m <;> rfl

theorem operationSTx_p (s : Cpu) (m : Mode) (v : Nat) : (operationSTx s m v)._p = s._p := by
  cases m <;> rfl

theorem branch_p (s : Cpu) (t : Bool) : (branch s t)._p = s._p := by
  unfold branch; split <;> rfl

theorem setFlag_clean : ∀ p, p < 256 → p &&& (FLAG_B0 ||| FLAG_B1) = 0 → ∀ c : Bool,
    StatusClean (setFlag p FLAG_N c) ∧ StatusClean (setFlag p FLAG_V c) ∧
    StatusClean (setFlag p FLAG_D c) ∧ StatusClean (setFlag p FLAG_I c) ∧
    StatusClean (setFlag p FLAG_Z c) ∧ StatusClean (setFlag p FLAG_C c) := by
  unfold StatusClean
  decide

theorem clean_set (p f : Nat) (c : Bool)
    (hf : f ∈ [FLAG_N, FLAG_V, FLAG_D, FLAG_I, FLAG_Z, FLAG_C]) (h : StatusClean p) :
    StatusClean (setFlag p f c) := by
  obtain ⟨h1, h2, h3, h4, h5, h6⟩ := setFlag_clean p h.1 h.2 c
  simp only [List.mem_cons, List.mem_singleton, List.not_mem_nil, or_false] at hf
  rcases hf with e | e | e | e | e | e <;> rw [e] <;> assumption

/-- Masking B0 and B1 out of any value, as PLP and RTI do, gives a clean
status byte. -/
theorem clean_mask (b : Nat) :
    StatusClean ((b &&& ((FLAG_B0 ||| FLAG_B1) ^^^ 0xffffffff)) % 256) := by
  have e : (b &&& ((FLAG_B0 ||| FLAG_B1) ^^^ 0xffffffff)) % 256 = b &&& 0xcf := by
    rw [← and_ff, Nat.and_assoc]
    rfl
  rw [e]
  constructor
  · exact lt_of_le_of_lt Nat.and_le_right (by norm_num)
  · rw [Nat.and_assoc]
    exact Nat.and_zero b

theorem switch_clean (m : Mnemonic) (s : Cpu) (h : StatusClean s._p) :
    StatusClean (runPrefetchedOp_switch m s)._p := by
  cases m <;>
    simp only [runPrefetchedOp_switch, SETFLAGS_p, incPC_p, memSet_p, pop_p, getInput_p,
      setOutput_p, operationSTx_p, branch_p, push_p] <;>
    first
    | exact h
    | exact clean_mask _
    | repeat first
        | exact h
        | refine clean_set _ _ _ (by decide) ?_
  · split <;>
      repeat first
        | exact h
        | refine clean_set _ _ _ (by decide) ?_
  · split <;> exact h

theorem runPrefetchedOp_clean (s : Cpu) (h : StatusClean s._p) :
    StatusClean (runPrefetchedOp s)._p := by
  unfold runPrefetchedOp
  exact switch_clean _ _ h

/-! ## Invariants of the reachable states -/

theorem cpuClockPSID_unfold (s : Cpu) (ln : Lines) :
    cpuClockPSID s ln =
      if (CHECK_FOR_IRQ s ln)._exe_instr_opcode < 0 then
        if IS_IRQ_PENDING (CHECK_FOR_IRQ s ln) ln then
          { CHECK_FOR_IRQ s ln with
            _irq_committed := false,
            _exe_instr_opcode := (START_IRQ_OP : Int), _exe_instr_cycles := 7,
            _exe_instr_cycles_remain := 6 }
        else
          { prefetchOperation (CHECK_FOR_IRQ s ln) with
            _exe_instr_cycles_remain :=
              wrap8 ((prefetchOperation (CHECK_FOR_IRQ s ln))._exe_instr_cycles - 1) }
      else if wrap8 ((CHECK_FOR_IRQ s ln)._exe_instr_cycles_remain - 1) = 0 then
        retire
          (if (CHECK_FOR_IRQ s ln)._exe_instr_opcode = (START_IRQ_OP : Int) then
            completeIRQ { CHECK_FOR_IRQ s ln with _exe_instr_cycles_remain := 0 }
          else if (CHECK_FOR_IRQ s ln)._exe_instr_opcode = (NULL_OP : Int) then
            { CHECK_FOR_IRQ s ln with _exe_instr_cycles_remain := 0 }
          else runPrefetchedOp { CHECK_FOR_IRQ s ln with _exe_instr_cycles_remain := 0 })
      else
        { CHECK_FOR_IRQ s ln with
          _exe_instr_cycles_remain :=
            wrap8 ((CHECK_FOR_IRQ s ln)._exe_instr_cycles_remain - 1) } := by
  unfold cpuClockPSID
  dsimp only
  generalize CHECK_FOR_IRQ s ln = t
  by_cases h2 : t._exe_instr_opcode < 0
  · simp only [h2, if_true]
    by_cases h4 : IS_IRQ_PENDING t ln = true
    · simp only [h4, if_true, baseCycles_START_IRQ]
      rfl
    · simp only [h4, if_false, Bool.false_eq_true]
  · simp only [h2, if_false]
    by_cases h5 : wrap8 (t._exe_instr_cycles_remain - 1) = 0
    · simp only [h5, if_true]
      rfl
    · simp only [h5, if_false]

theorem CHECK_FOR_IRQ_frame (s : Cpu) (ln : Lines) :
    (CHECK_FOR_IRQ s ln)._exe_instr_opcode = s._exe_instr_opcode ∧
    (CHECK_FOR_IRQ s ln)._exe_instr_cycles = s._exe_instr_cycles ∧
    (CHECK_FOR_IRQ s ln)._exe_instr_cycles_remain = s._exe_instr_cycles_remain ∧
    (CHECK_FOR_IRQ s ln)._p = s._p ∧ (CHECK_FOR_IRQ s ln)._pc = s._pc ∧
    (CHECK_FOR_IRQ s ln).mem = s.mem ∧ (CHECK_FOR_IRQ s ln)._x = s._x ∧
    (CHECK_FOR_IRQ s ln)._y = s._y := by
  unfold CHECK_FOR_IRQ
  split_ifs <;> exact ⟨rfl, rfl, rfl, rfl, rfl, rfl, rfl, rfl⟩

theorem table_cycles : ∀ op, op < 256 →
    (baseCycles op = 0 ↔ mnemonicOf op = Mnemonic.jam) ∧
    (baseCycles op = 0 ∨ 2 ≤ baseCycles op) := by
  decide

theorem prefetch_cycles_ge (s : Cpu) :
    baseCycles (memGet s s._pc) ≤ (prefetchOperation s)._exe_instr_cycles := by
  have b1 := prefetchBranch_bound s ((s._pc + 1) % 65536) (baseCycles (memGet s s._pc))
    IRQ_LEAD_DEFAULT (falsy (s._p &&& FLAG_C))
  have b2 := prefetchBranch_bound s ((s._pc + 1) % 65536) (baseCycles (memGet s s._pc))
    IRQ_LEAD_DEFAULT (truthy (s._p &&& FLAG_C))
  have b3 := prefetchBranch_bound s ((s._pc + 1) % 65536) (baseCycles (memGet s s._pc))
    IRQ_LEAD_DEFAULT (falsy (s._p &&& FLAG_Z))
  have b4 := prefetchBranch_bound s ((s._pc + 1) % 65536) (baseCycles (memGet s s._pc))
    IRQ_LEAD_DEFAULT (truthy (s._p &&& FLAG_Z))
  have b5 := prefetchBranch_bound s ((s._pc + 1) % 65536) (baseCycles (memGet s s._pc))
    IRQ_LEAD_DEFAULT (falsy (s._p &&& FLAG_N))
  have b6 := prefetchBranch_bound s ((s._pc + 1) % 65536) (baseCycles (memGet s s._pc))
    IRQ_LEAD_DEFAULT (truthy (s._p &&& FLAG_N))
  have b7 := prefetchBranch_bound s ((s._pc + 1) % 65536) (baseCycles (memGet s s._pc))
    IRQ_LEAD_DEFAULT (falsy (s._p &&& FLAG_V))
  have b8 := prefetchBranch_bound s ((s._pc + 1) % 65536) (baseCycles (memGet s s._pc))
    IRQ_LEAD_DEFAULT (truthy (s._p &&& FLAG_V))
  cases hm : mnemonicOf (memGet s s._pc) <;> simp only [prefetchOperation, hm] <;> omega

theorem prefetch_cycles_jam (s : Cpu) (hm : mnemonicOf (memGet s s._pc) = Mnemonic.jam) :
    (prefetchOperation s)._exe_instr_cycles = baseCycles (memGet s s._pc) := by
  simp only [prefetchOperation, hm]

/-- The cycle count stored by the prefetch is 0 for a JAM opcode and between 2
and 10 for every other opcode. -/
theorem prefetch_cycles_shape (s : Cpu) :
    ((prefetchOperation s)._exe_instr_cycles = 0 ∧
      mnemonicOf (memGet s s._pc) = Mnemonic.jam) ∨
    (2 ≤ (prefetchOperation s)._exe_instr_cycles ∧
      (prefetchOperation s)._exe_instr_cycles ≤ 10) := by
  obtain ⟨t1, t2⟩ := table_cycles _ (memGet_lt s s._pc)
  have hge := prefetch_cycles_ge s
  have hle := (prefetch_cycles_bound s).2
  by_cases hj : mnemonicOf (memGet s s._pc) = Mnemonic.jam
  · left
    rw [prefetch_cycles_jam s hj]
    exact ⟨t1.2 hj, hj⟩
  · right
    have : baseCycles (memGet s s._pc) ≠ 0 := fun h => hj (t1.1 h)
    omega

theorem RecordOK_seven (s : Cpu) (h1 : 0 ≤ s._exe_instr_opcode) (h2 : s._exe_instr_cycles = 7)
    (h3 : s._exe_instr_cycles_remain = 6) : RecordOK s := by
  right; left
  rw [h2, h3]
  exact ⟨h1, by decide, by decide, by decide, by decide⟩

/-- The three shapes of the record are preserved by whatever a clock tick does
after the interrupt sampling: `t` is the sampled state, `e` the effect applied
at completion, and `stun`, `nmi`, `irq` the outcome of the three tests. -/
theorem record_step (t : Cpu) (e : Cpu → Cpu) (stun nmi irq : Bool) (h : RecordOK t) :
    RecordOK
      (if stun = true then t
       else if t._exe_instr_opcode < 0 then
        if nmi = true then
          { t with
            nmi_marker := true, _nmi_committed := false, _nmi_line_ts := 0,
            _exe_instr_opcode := (START_NMI_OP : Int), _exe_instr_cycles := 7,
            _exe_instr_cycles_remain := 6 }
        else if irq = true then
          { t with
            _irq_committed := false,
            _exe_instr_opcode := (START_IRQ_OP : Int), _exe_instr_cycles := 7,
            _exe_instr_cycles_remain := 6 }
        else
          { prefetchOperation t with
            _exe_instr_cycles_remain := wrap8 ((prefetchOperation t)._exe_instr_cycles - 1) }
       else if wrap8 (t._exe_instr_cycles_remain - 1) = 0 then retire (e t)
       else { t with _exe_instr_cycles_remain := wrap8 (t._exe_instr_cycles_remain - 1) }) := by
  by_cases h1 : stun = true
  · rw [if_pos h1]; exact h
  rw [if_neg h1]
  by_cases h2 : t._exe_instr_opcode < 0
  · rw [if_pos h2]
    by_cases h3 : nmi = true
    · rw [if_pos h3]
      exact RecordOK_seven _ (by decide : (0 : Int) ≤ ((START_NMI_OP : Nat) : Int)) rfl rfl
    rw [if_neg h3]
    by_cases h4 : irq = true
    · rw [if_pos h4]
      exact RecordOK_seven _ (by decide : (0 : Int) ≤ ((START_IRQ_OP : Nat) : Int)) rfl rfl
    rw [if_neg h4]
    have hop : (prefetchOperation t)._exe_instr_opcode = (memGet t t._pc : Nat) :=
      prefetchOperation_opcode t
    rcases prefetch_cycles_shape t with ⟨c0, hj⟩ | ⟨c2, c10⟩
    · right; right
      refine ⟨?_, ?_, c0, ?_, ?_, ?_⟩
      · show 0 ≤ (prefetchOperation t)._exe_instr_opcode
        rw [hop]; exact Int.natCast_nonneg _
      · show mnemonicOf (prefetchOperation t)._exe_instr_opcode.toNat = Mnemonic.jam
        rw [hop, Int.toNat_natCast]; exact hj
      · show wrap8 ((prefetchOperation t)._exe_instr_cycles - 1) ≠ 0
        rw [c0]; decide
      · show -128 ≤ wrap8 ((prefetchOperation t)._exe_instr_cycles - 1)
        rw [c0]; decide
      · show wrap8 ((prefetchOperation t)._exe_instr_cycles - 1) ≤ 127
        rw [c0]; decide
    · right; left
      have hw : wrap8 ((prefetchOperation t)._exe_instr_cycles - 1)
          = (prefetchOperation t)._exe_instr_cycles - 1 := by
        unfold wrap8; omega
      refine ⟨?_, c2, c10, ?_, ?_⟩
      · show 0 ≤ (prefetchOperation t)._exe_instr_opcode
        rw [hop]; exact Int.natCast_nonneg _
      · show 1 ≤ wrap8 ((prefetchOperation t)._exe_instr_cycles - 1)
        rw [hw]; omega
      · show wrap8 ((prefetchOperation t)._exe_instr_cycles - 1)
          < (prefetchOperation t)._exe_instr_cycles
        rw [hw]; omega
  · rw [if_neg h2]
    by_cases h5 : wrap8 (t._exe_instr_cycles_remain - 1) = 0
    · rw [if_pos h5]
      left
      exact ⟨rfl, rfl, rfl⟩
    · rw [if_neg h5]
      rcases h with ⟨hi, _, _⟩ | ⟨a1, a2, a3, a4, a5⟩ | ⟨a1, a2, a3, a4, a5, a6⟩
      · exact absurd hi (by omega)
      · right; left
        have hw : wrap8 (t._exe_instr_cycles_remain - 1) = t._exe_instr_cycles_remain - 1 := by
          unfold wrap8; omega
        rw [hw] at h5
        refine ⟨a1, a2, a3, ?_, ?_⟩
        · show 1 ≤ wrap8 (t._exe_instr_cycles_remain - 1)
          rw [hw]; omega
        · show wrap8 (t._exe_instr_cycles_remain - 1) < t._exe_instr_cycles
          rw [hw]; omega
      · right; right
        refine ⟨a1, a2, a3, h5, ?_, ?_⟩
        · show -128 ≤ wrap8 (t._exe_instr_cycles_remain - 1)
          unfold wrap8; omega
        · show wrap8 (t._exe_instr_cycles_remain - 1) ≤ 127
          unfold wrap8; omega

theorem retire_p (x : Cpu) : (retire x)._p = x._p := rfl

theorem completeIRQ_p (t : Cpu) : (completeIRQ t)._p = setFlag t._p FLAG_I true := by
  simp only [completeIRQ, SETFLAGS_p, push_p]

theorem completeNMI_p (t : Cpu) : (completeNMI t)._p = setFlag t._p FLAG_I true := by
  simp only [completeNMI, SETFLAGS_p, push_p]

theorem completion_clean (t : Cpu) (h : StatusClean t._p) :
    StatusClean (completeIRQ t)._p ∧ StatusClean (completeNMI t)._p ∧
    StatusClean (runPrefetchedOp t)._p := by
  refine ⟨?_, ?_, runPrefetchedOp_clean t h⟩
  · rw [completeIRQ_p]; exact clean_set _ _ _ (by decide) h
  · rw [completeNMI_p]; exact clean_set _ _ _ (by decide) h

/-- One tick of the full clock keeps both invariants. -/
theorem tick_inv_RSID (s : Cpu) (ln : Lines) (h1 : RecordOK s) (h2 : StatusClean s._p) :
    RecordOK (cpuClockRSID s ln) ∧ StatusClean (cpuClockRSID s ln)._p := by
  have r : RecordOK (sampled s ln) := by
    unfold RecordOK idleRecord at h1 ⊢
    rw [sampled_exe_instr_opcode, sampled_exe_instr_cycles, sampled_exe_instr_cycles_remain]
    exact h1
  have c : StatusClean (sampled s ln)._p := by rw [sampled_p]; exact h2
  have c0 : StatusClean ({ sampled s ln with _exe_instr_cycles_remain := 0 } : Cpu)._p := c
  obtain ⟨e1, e2, e3⟩ := completion_clean { sampled s ln with _exe_instr_cycles_remain := 0 } c0
  rw [cpuClockRSID_unfold]
  constructor
  · exact record_step (sampled s ln)
      (fun u =>
        if u._exe_instr_opcode = (START_IRQ_OP : Int) then
          completeIRQ { u with _exe_instr_cycles_remain := 0 }
        else if u._exe_instr_opcode = (START_NMI_OP : Int) then
          completeNMI { u with _exe_instr_cycles_remain := 0 }
        else if u._exe_instr_opcode = (NULL_OP : Int) then
          { u with _exe_instr_cycles_remain := 0 }
        else runPrefetchedOp { u with _exe_instr_cycles_remain := 0 })
      (CHECK_FOR_VIC_STUN (sampled s ln) ln) (IS_NMI_PENDING (sampled s ln) ln)
      (IS_IRQ_PENDING (sampled s ln) ln) r
  · split_ifs
    · exact c
    · exact c
    · exact c
    · exact c
    · rw [retire_p]; exact e1
    · rw [retire_p]; exact e2
    · rw [retire_p]; exact c0
    · rw [retire_p]; exact e3
    · exact c

/-- One tick of the reduced clock keeps both invariants. -/
theorem tick_inv_PSID (s : Cpu) (ln : Lines) (h1 : RecordOK s) (h2 : StatusClean s._p) :
    RecordOK (cpuClockPSID s ln) ∧ StatusClean (cpuClockPSID s ln)._p := by
  obtain ⟨f1, f2, f3, f4, _⟩ := CHECK_FOR_IRQ_frame s ln
  have r : RecordOK (CHECK_FOR_IRQ s ln) := by
    unfold RecordOK idleRecord at h1 ⊢
    rw [f1, f2, f3]
    exact h1
  have c : StatusClean (CHECK_FOR_IRQ s ln)._p := by rw [f4]; exact h2
  have c0 : StatusClean ({ CHECK_FOR_IRQ s ln with _exe_instr_cycles_remain := 0 } : Cpu)._p := c
  obtain ⟨e1, _, e3⟩ :=
    completion_clean { CHECK_FOR_IRQ s ln with _exe_instr_cycles_remain := 0 } c0
  rw [cpuClockPSID_unfold]
  constructor
  · exact record_step (CHECK_FOR_IRQ s ln)
      (fun u =>
        if u._exe_instr_opcode = (START_IRQ_OP : Int) then
          completeIRQ { u with _exe_instr_cycles_remain := 0 }
        else if u._exe_instr_opcode = (NULL_OP : Int) then
          { u with _exe_instr_cycles_remain := 0 }
        else runPrefetchedOp { u with _exe_instr_cycles_remain := 0 })
      false false (IS_IRQ_PENDING (CHECK_FOR_IRQ s ln) ln) r
  · split_ifs
    · exact c
    · exact c
    · rw [retire_p]; exact e1
    · rw [retire_p]; exact c0
    · rw [retire_p]; exact e3
    · exact c

theorem clean_zero : StatusClean 0 := ⟨by decide, by decide⟩

/-- Both invariants hold in every reachable state. -/
theorem reachable_inv (s : Cpu) (h : Reachable s) : RecordOK s ∧ StatusClean s._p := by
  induction h with
  | init s0 r =>
    exact ⟨Or.inl ⟨rfl, rfl, rfl⟩, clean_zero⟩
  | clock s ln _ ih =>
    unfold cpuClock
    split
    · exact tick_inv_RSID s ln ih.1 ih.2
    · exact tick_inv_PSID s ln ih.1 ih.2
  | setPC s pc a _ ih =>
    exact ⟨ih.1, clean_zero⟩
  | setPCPSID s pc _ ih =>
    refine ⟨?_, ?_⟩
    · have e : (cpuSetProgramCounterPSID s pc)._exe_instr_opcode = s._exe_instr_opcode ∧
          (cpuSetProgramCounterPSID s pc)._exe_instr_cycles = s._exe_instr_cycles ∧
          (cpuSetProgramCounterPSID s pc)._exe_instr_cycles_remain
            = s._exe_instr_cycles_remain := ⟨rfl, rfl, rfl⟩
      unfold RecordOK idleRecord
      rw [e.1, e.2.1, e.2.2]
      exact ih.1
    · show StatusClean (SETFLAGS _ FLAG_I false)._p
      rw [SETFLAGS_p]
      exact clean_set _ _ _ (by decide) ih.2
  | irqFlag s o _ ih =>
    refine ⟨?_, ?_⟩
    · unfold RecordOK idleRecord cpuIrqFlagPSID
      rw [SETFLAGS_exe_instr_opcode, SETFLAGS_exe_instr_cycles, SETFLAGS_exe_instr_cycles_remain]
      exact ih.1
    · unfold cpuIrqFlagPSID
      rw [SETFLAGS_p]
      exact clean_set _ _ _ (by decide) ih.2
  | poke s m _ ih => exact ih

theorem reachable_runClock (s : Cpu) (ln : Nat → Lines) (h : Reachable s) :
    ∀ n, Reachable (runClock s ln n) := by
  intro n
  induction n with
  | zero => exact h
  | succ n ih => exact Reachable.clock _ _ ih

theorem clean_bits : ∀ p, p < 256 → p &&& (FLAG_B0 ||| FLAG_B1) = 0 →
    p &&& FLAG_B0 = 0 ∧ p &&& FLAG_B1 = 0 := by
  decide

/-- C19 (amended): in every reachable state the in-flight record is idle, or
holds an instruction of 2 to 10 cycles with `1 ≤ cycles_remaining <
cycles_total`, or holds a JAM opcode with `cycles_total = 0` and a non-zero
`cycles_remaining` in the `int8_t` range; so `0 ≤ cycles_remaining ≤
cycles_total` holds whenever no JAM opcode is in flight. -/
theorem C19_inflight_record_bounds (s : Cpu) (h : Reachable s) :
    RecordOK s ∧
    (¬ (0 ≤ s._exe_instr_opcode ∧ mnemonicOf s._exe_instr_opcode.toNat = Mnemonic.jam) →
      0 ≤ s._exe_instr_cycles_remain ∧ s._exe_instr_cycles_remain ≤ s._exe_instr_cycles) ∧
    (-128 ≤ s._exe_instr_cycles_remain ∧ s._exe_instr_cycles_remain ≤ 127) ∧
    (0 ≤ s._exe_instr_cycles ∧ s._exe_instr_cycles ≤ 10) := by
  have hr := (reachable_inv s h).1
  refine ⟨hr, ?_, ?_, ?_⟩
  · intro hj
    rcases hr with ⟨_, a2, a3⟩ | ⟨_, a2, a3, a4, a5⟩ | ⟨a1, a2, _⟩
    · rw [a2, a3]; exact ⟨le_refl _, le_refl _⟩
    · omega
    · exact absurd ⟨a1, a2⟩ hj
  · rcases hr with ⟨_, a2, a3⟩ | ⟨_, a2, a3, a4, a5⟩ | ⟨_, _, _, _, a5, a6⟩
    · rw [a3]; decide
    · omega
    · exact ⟨a5, a6⟩
  · rcases hr with ⟨_, a2, a3⟩ | ⟨_, a2, a3, a4, a5⟩ | ⟨_, _, a3, _⟩
    · rw [a2]; decide
    · omega
    · rw [a3]; decide

/-- Counterexample to C19 as stated: with the JAM byte `$32` at the reset
address, the first tick after `cpuInit` fetches it with `cycles_total = 0` and
leaves `cycles_remaining = -1`; 128 ticks later `cycles_remaining` is 127,
above `cycles_total`. -/
theorem C19_counterexample :
    Reachable (runClock (cpuInit scenJam 1) quiet 1) ∧
    (runClock (cpuInit scenJam 1) quiet 1)._exe_instr_opcode = 0x32 ∧
    (runClock (cpuInit scenJam 1) quiet 1)._exe_instr_cycles = 0 ∧
    (runClock (cpuInit scenJam 1) quiet 1)._exe_instr_cycles_remain = -1 ∧
    Reachable (runClock (cpuInit scenJam 1) quiet 129) ∧
    (runClock (cpuInit scenJam 1) quiet 129)._exe_instr_cycles = 0 ∧
    (runClock (cpuInit scenJam 1) quiet 129)._exe_instr_cycles_remain = 127 :=
  ⟨reachable_runClock _ _ (Reachable.init _ _) 1, by decide, by decide, by decide,
   reachable_runClock _ _ (Reachable.init _ _) 129, by decide, by decide⟩

/-- Witness of C19 (amended): the state after `cpuInit` and two ticks over a
NOP sled is reachable and its record is within the bounds. -/
theorem C19_inflight_record_bounds_witness :
    -128 ≤ (runClock (cpuInit scenNops 1) quiet 2)._exe_instr_cycles_remain ∧
    (runClock (cpuInit scenNops 1) quiet 2)._exe_instr_cycles_remain ≤ 127 :=
  (C19_inflight_record_bounds (runClock (cpuInit scenNops 1) quiet 2)
    (reachable_runClock _ _ (Reachable.init _ _) 2)).2.2.1

/-- C20: in every reachable state (after `cpuInit`, any clock ticks of either
clock function executing any opcodes, `cpuSetProgramCounter`,
`cpuSetProgramCounterPSID`, `cpuIrqFlagPSID`, with memory changing
arbitrarily), the status register `P` is a byte with B0 (`$10`) and B1 (`$20`)
clear. -/
theorem C20_status_bits_clear (s : Cpu) (h : Reachable s) :
    s._p < 256 ∧ s._p &&& FLAG_B0 = 0 ∧ s._p &&& FLAG_B1 = 0 := by
  obtain ⟨h1, h2⟩ := (reachable_inv s h).2
  exact ⟨h1, clean_bits _ h1 h2⟩

/-- Witness of C20: after `cpuInit` and the four ticks of a PLP that pops
`$FF`, `P` is `$CF`. -/
theorem C20_status_bits_clear_witness :
    ((runClock (cpuInit scenPlp 1) quiet 4)._p &&& FLAG_B0 = 0 ∧
      (runClock (cpuInit scenPlp 1) quiet 4)._p &&& FLAG_B1 = 0) ∧
    (runClock (cpuInit scenPlp 1) quiet 4)._p = 0xCF :=
  ⟨(C20_status_bits_clear (runClock (cpuInit scenPlp 1) quiet 4)
      (reachable_runClock _ _ (Reachable.init _ _) 4)).2, by decide⟩

/-! ## Read-modify-write instructions -/

theorem or_shl8_lt (a b : Nat) (ha : a < 256) (hb : b < 256) : a ||| (b <<< 8) < 65536 := by
  have h1 : a < 2 ^ 16 := by omega
  have h2 : b <<< 8 < 2 ^ 16 := by
    rw [Nat.shiftLeft_eq]
    omega
  exact Nat.or_lt_two_pow h1 h2

theorem and_ff_lt (a : Nat) : a &&& 0xff < 65536 :=
  lt_of_le_of_lt Nat.and_le_right (by norm_num)

theorem effectiveAddr_lt (s : Cpu) (mode : Mode) (h : mode ∈ memoryModes) :
    effectiveAddr s mode < 65536 := by
  have m := memGet_lt s
  simp only [memoryModes, List.mem_cons, List.mem_singleton, List.not_mem_nil, or_false] at h
  rcases h with rfl | rfl | rfl | rfl | rfl | rfl | rfl | rfl <;> simp only [effectiveAddr]
  · exact or_shl8_lt _ _ (m _) (m _)
  · exact Nat.mod_lt _ (by norm_num)
  · exact Nat.mod_lt _ (by norm_num)
  · exact lt_trans (m _) (by norm_num)
  · exact and_ff_lt _
  · exact and_ff_lt _
  · exact or_shl8_lt _ _ (m _) (m _)
  · exact Nat.mod_lt _ (by norm_num)

theorem pc_two (p : Nat) : ((p + 1) % 65536 + 1) % 65536 = (p + 2) % 65536 := by omega

theorem memGet_incPC (s : Cpu) (a : Nat) : memGet (incPC s) a = memGet s a := rfl

theorem incPC_pc_eq (s : Cpu) : (incPC s)._pc = (s._pc + 1) % 65536 := rfl

theorem incPC_x_eq (s : Cpu) : (incPC s)._x = s._x := rfl

theorem incPC_y_eq (s : Cpu) : (incPC s)._y = s._y := rfl

theorem memGet_next (s : Cpu) : memGet s ((s._pc + 1) % 65536) = memGet s (s._pc + 1) :=
  memGet_mod s _

/-- The value `getInput` returns in a memory mode is the byte at the effective
address. -/
theorem getInput_val (s : Cpu) (mode : Mode) (h : mode ∈ memoryModes) :
    (getInput s mode).1 = memGet s (effectiveAddr s mode) := by
  simp only [memoryModes, List.mem_cons, List.mem_singleton, List.not_mem_nil, or_false] at h
  rcases h with rfl | rfl | rfl | rfl | rfl | rfl | rfl | rfl <;>
    simp only [getInput, effectiveAddr, memGet_incPC, incPC_pc_eq, incPC_x_eq, incPC_y_eq,
      memGet_mod]

theorem getInput_consumed (s : Cpu) (mode : Mode) (h : mode ∈ memoryModes) :
    Consumed s mode (getInput s mode).2 [] := by
  simp only [memoryModes, List.mem_cons, List.mem_singleton, List.not_mem_nil, or_false] at h
  rcases h with rfl | rfl | rfl | rfl | rfl | rfl | rfl | rfl <;>
    refine ⟨?_, fun _ => rfl, rfl, rfl, (List.append_nil _).symm⟩ <;>
    simp only [getInput, incPC_pc_eq, operandBytes, pc_two]

theorem pcm_22 (p : Nat) : ((p + 2) % 65536 + 65536 - 2) % 65536 = p % 65536 := by omega

theorem pcm_21 (p : Nat) : ((p + 2) % 65536 + 65536 - 1) % 65536 = (p + 1) % 65536 := by omega

theorem pcm_11 (p : Nat) : ((p + 1) % 65536 + 65536 - 1) % 65536 = p % 65536 := by omega

/-- With the operand bytes consumed, `setOutput` writes to the effective
address. -/
theorem setOutput_consumed (s0 t : Cpu) (mode : Mode) (ws : List (Nat × Nat)) (v : Nat)
    (hm : mode ∈ memoryModes) (h : Consumed s0 mode t ws) :
    setOutput t mode v = memSet t (effectiveAddr s0 mode) v := by
  obtain ⟨hpc, hrd, hx, hy, _⟩ := h
  simp only [memoryModes, List.mem_cons, List.mem_singleton, List.not_mem_nil, or_false] at hm
  rcases hm with rfl | rfl | rfl | rfl | rfl | rfl | rfl | rfl <;>
    simp only [operandBytes] at hpc <;>
    simp only [setOutput, effectiveAddr, pcMinus, hpc, hrd, hx, hy, pcm_22, pcm_21, pcm_11,
      memGet_mod]

theorem memGet_memSet (t : Cpu) (a v b : Nat) :
    memGet (memSet t a v) b = if b % 65536 = a % 65536 then v % 256 else memGet t b := by
  unfold memGet memSet
  dsimp only
  split
  · exact Nat.mod_mod _ _
  · rfl

/-- Writing back the byte just read keeps the state consumed. -/
theorem consumed_write_orig (s0 t : Cpu) (mode : Mode) (ws : List (Nat × Nat)) (v : Nat)
    (hm : mode ∈ memoryModes) (hv : v % 256 = memGet s0 (effectiveAddr s0 mode))
    (h : Consumed s0 mode t ws) :
    Consumed s0 mode (setOutput t mode v)
      (ws ++ [(effectiveAddr s0 mode, memGet s0 (effectiveAddr s0 mode))]) := by
  rw [setOutput_consumed s0 t mode ws v hm h]
  obtain ⟨hpc, hrd, hx, hy, hw⟩ := h
  refine ⟨hpc, ?_, hx, hy, ?_⟩
  · intro a
    rw [memGet_memSet, hrd, hv]
    split
    · next e => rw [← memGet_mod s0 a, e, memGet_mod]
    · rfl
  · show t.writes ++ [(effectiveAddr s0 mode % 65536, v % 256)] = _
    rw [hw, hv, Nat.mod_eq_of_lt (effectiveAddr_lt s0 mode hm), List.append_assoc]

theorem consumed_SETFLAGS (s0 t : Cpu) (mode : Mode) (ws : List (Nat × Nat)) (f : Nat)
    (c : Bool) (h : Consumed s0 mode t ws) : Consumed s0 mode (SETFLAGS t f c) ws := by
  obtain ⟨hpc, hrd, hx, hy, hw⟩ := h
  refine ⟨?_, ?_, ?_, ?_, ?_⟩
  · rw [SETFLAGS_pc]; exact hpc
  · intro a; rw [memGet_SETFLAGS]; exact hrd a
  · rw [SETFLAGS_x]; exact hx
  · rw [SETFLAGS_y]; exact hy
  · rw [SETFLAGS_writes]; exact hw

/-- Only `_pc`, `X`, `Y`, memory and the write log matter for `Consumed`. -/
theorem consumed_mk (s0 t : Cpu) (mode : Mode) (ws : List (Nat × Nat))
    (a sp p lead : Nat) (ic : Bool) (its : Nat) (nc nl : Bool) (nts opc : Nat)
    (eo ec er : Int) (bv : Nat) (nm clk : Bool) (h : Consumed s0 mode t ws) :
    Consumed s0 mode
      { _pc := t._pc, _a := a, _x := t._x, _y := t._y, _s := sp, _p := p,
        _interrupt_lead_time := lead, _irq_committed := ic, _irq_line_ts := its,
        _nmi_committed := nc, _nmi_line := nl, _nmi_line_ts := nts, _opc := opc,
        _exe_instr_opcode := eo, _exe_instr_cycles := ec, _exe_instr_cycles_remain := er,
        bval := bv, mem := t.mem, writes := t.writes, nmi_marker := nm, cpuClock_rsid := clk }
      ws := h

/-- The write log after a `setOutput` in a consumed state. -/
theorem consumed_write (s0 t : Cpu) (mode : Mode) (ws : List (Nat × Nat)) (w : Nat)
    (hm : mode ∈ memoryModes) (h : Consumed s0 mode t ws) :
    (setOutput t mode w).writes = s0.writes ++ (ws ++ [(effectiveAddr s0 mode, w % 256)]) := by
  rw [setOutput_consumed s0 t mode ws w hm h]
  show t.writes ++ [(effectiveAddr s0 mode % 65536, w % 256)] = _
  rw [h.2.2.2.2, Nat.mod_eq_of_lt (effectiveAddr_lt s0 mode hm), List.append_assoc]

theorem getInput_val_mod (s : Cpu) (mode : Mode) (h : mode ∈ memoryModes) :
    (getInput s mode).1 % 256 = memGet s (effectiveAddr s mode) := by
  rw [getInput_val s mode h]
  exact Nat.mod_eq_of_lt (memGet_lt _ _)

theorem getInput_val_mod2 (s : Cpu) (mode : Mode) (h : mode ∈ memoryModes) :
    (getInput s mode).1 % 256 % 256 = memGet s (effectiveAddr s mode) := by
  rw [Nat.mod_mod]
  exact getInput_val_mod s mode h

theorem setOutput_bval (s : Cpu) (m : Mode) (v : Nat) : (setOutput s m v).bval = s.bval := by
  cases m <;> rfl

theorem carryOf_if (s : Cpu) : (if s._p &&& FLAG_C ≠ 0 then 1 else 0) = carryOf s := rfl

theorem carryOf_lt (s : Cpu) : carryOf s < 2 := by
  unfold carryOf; split <;> decide

theorem rmw_arith : ∀ v, v < 256 → ∀ c, c < 2 →
    v <<< 1 % 65536 % 256 % 256 = v <<< 1 % 256 ∧
    v >>> 1 % 256 % 256 = v >>> 1 ∧
    (v <<< 1 % 256 ||| c) % 256 = v <<< 1 % 256 ||| c ∧
    (v >>> 1 ||| 128 * c) % 256 = v >>> 1 ||| 128 * c ∧
    (v + 1) % 256 % 256 = (v + 1) % 256 ∧
    (v + 255) % 256 % 256 = (v + 255) % 256 := by
  decide

theorem rmw_switch (m : Mnemonic) (s : Cpu) (hm : m ∈ rmwMnemonics)
    (hmode : modeOf s._opc ∈ memoryModes) :
    (runPrefetchedOp_switch m s).writes = s.writes ++
      [(effectiveAddr s (modeOf s._opc), memGet s (effectiveAddr s (modeOf s._opc))),
       (effectiveAddr s (modeOf s._opc),
        rmwValue m (memGet s (effectiveAddr s (modeOf s._opc))) (carryOf s))] := by
  simp only [rmwMnemonics, List.mem_cons, List.mem_singleton, List.not_mem_nil, or_false] at hm
  generalize hmd : modeOf s._opc = mode at hmode ⊢
  rcases hm with rfl | rfl | rfl | rfl | rfl | rfl | rfl | rfl | rfl | rfl | rfl | rfl <;>
    simp only [runPrefetchedOp_switch, SETFLAGS_writes, SETFLAGS_pc, SETFLAGS_x, SETFLAGS_y,
      SETFLAGS_mem, hmd]
  all_goals
    refine (consumed_write s _ mode
      ([] ++ [(effectiveAddr s mode, memGet s (effectiveAddr s mode))]) _ hmode ?_).trans ?_
  all_goals
    first
    | done
    | repeat first
        | exact getInput_consumed s mode hmode
        | exact getInput_val_mod s mode hmode
        | exact getInput_val_mod2 s mode hmode
        | refine consumed_write_orig _ _ _ _ _ hmode ?_ ?_
        | apply consumed_mk
        | refine consumed_SETFLAGS _ _ _ _ _ _ ?_
  all_goals
    obtain ⟨a1, a2, a3, a4, a5, a6⟩ :=
      rmw_arith (memGet s (effectiveAddr s mode)) (memGet_lt _ _) (carryOf s) (carryOf_lt s)
    simp only [setOutput_bval, SETFLAGS_bval, setOutput_p, getInput_p, getInput_val s mode hmode,
      carryOf_if, rmwValue, List.nil_append, List.singleton_append, a1, a2, a3, a4, a5, a6]

/-- C17: for every state and every opcode whose mnemonic is one of ASL, LSR,
ROL, ROR, INC, DEC, SLO, SRE, RLA, RRA, ISB, DCP and whose addressing mode is a
memory mode, executing the instruction (`runPrefetchedOp`) appends exactly two
writes to the write log, both to the effective address of the instruction: first
the byte read there, then the modified byte. -/
theorem C17_rmw_double_write (s : Cpu)
    (hm : mnemonicOf (u8 s._exe_instr_opcode) ∈ rmwMnemonics)
    (hmode : modeOf (u8 s._exe_instr_opcode) ∈ memoryModes) :
    (runPrefetchedOp s).writes = s.writes ++
      [(effectiveAddr (incPC s) (modeOf (u8 s._exe_instr_opcode)),
        memGet s (effectiveAddr (incPC s) (modeOf (u8 s._exe_instr_opcode)))),
       (effectiveAddr (incPC s) (modeOf (u8 s._exe_instr_opcode)),
        rmwValue (mnemonicOf (u8 s._exe_instr_opcode))
          (memGet s (effectiveAddr (incPC s) (modeOf (u8 s._exe_instr_opcode))))
          (carryOf s))] :=
  rmw_switch (mnemonicOf (u8 s._exe_instr_opcode))
    { incPC s with _opc := u8 (incPC s)._exe_instr_opcode } hm hmode

/-- Witness of C17: `INC $D019` with `$81` at `$D019` writes `$81` and then `$82`
to `$D019`. -/
theorem C17_rmw_double_write_witness :
    (runPrefetchedOp scenInc).writes = [(0xD019, 0x81), (0xD019, 0x82)] :=
  (C17_rmw_double_write scenInc (by decide) (by decide)).trans (by decide)

/-! ## Stack primitives -/

theorem stack_wrap (S : Nat) (h : S < 256) : ((S + 255) % 256 + 1) % 256 = S := by omega

theorem stack_addr_mod (S : Nat) (h : S < 256) : (0x100 + S) % 65536 = 0x100 + S := by omega

theorem pop_mem (t : Cpu) : (pop t).2.mem = t.mem := rfl

theorem pop_writes (t : Cpu) : (pop t).2.writes = t.writes := rfl

/-- C21: for every byte `v` and every stack pointer `S`, `push(v)` writes `v`
at `$0100+S` and leaves `S-1` modulo 256 (`$FF` when `S = $00`), `pop()` leaves
`S+1` modulo 256 and returns the byte at `$0100+` the new `S`, and `push(v)`
followed by `pop()` returns `v` with `S` as before the push. -/
theorem C21_push_pop_roundtrip (s : Cpu) (v : Nat) (hs : s._s < 256) (hv : v < 256) :
    (pop (push s v)).1 = v ∧ (pop (push s v)).2._s = s._s ∧
    (push s v).writes = s.writes ++ [(0x100 + s._s, v)] ∧
    memGet (push s v) (0x100 + s._s) = v ∧
    (∀ a, a % 65536 ≠ 0x100 + s._s → memGet (push s v) a = memGet s a) ∧
    (push s v)._s = (s._s + 255) % 256 ∧
    (s._s = 0 → (push s v)._s = 0xFF) ∧
    (pop s).2._s = (s._s + 1) % 256 ∧
    (pop s).1 = MEM_READ_RAM s (0x100 + (s._s + 1) % 256) ∧
    (pop s).2.mem = s.mem ∧ (pop s).2.writes = s.writes := by
  have e := stack_addr_mod s._s hs
  have hm : memGet (push s v) (0x100 + s._s) = v := by
    rw [push_mem, if_pos rfl, Nat.mod_eq_of_lt hv]
  refine ⟨?_, ?_, ?_, hm, ?_, push_s s v, ?_, pop_s s, ?_, rfl, rfl⟩
  · rw [pop_val, push_s, stack_wrap _ hs]; exact hm
  · rw [pop_s, push_s, stack_wrap _ hs]
  · rw [push_writes, e, Nat.mod_eq_of_lt hv]
  · intro a ha
    rw [push_mem, e, if_neg ha]
  · intro h0
    rw [push_s, h0]
  · rw [pop_val]; rfl

/-- Witness of C21: with `S = $00`, pushing `$AB` leaves `S = $FF` and popping
returns `$AB` with `S = $00`. -/
theorem C21_push_pop_roundtrip_witness :
    ((pop (push scenStackZero 0xAB)).1 = 0xAB ∧ (pop (push scenStackZero 0xAB)).2._s = 0) ∧
    (push scenStackZero 0xAB)._s = 0xFF :=
  ⟨⟨(C21_push_pop_roundtrip scenStackZero 0xAB (by decide) (by decide)).1,
    (C21_push_pop_roundtrip scenStackZero 0xAB (by decide) (by decide)).2.1⟩, by decide⟩

/-! ## Addition, subtraction and compare -/

theorem getInput_a (s : Cpu) (m : Mode) : (getInput s m).2._a = s._a := by cases m <;> rfl

theorem getInput_x (s : Cpu) (m : Mode) : (getInput s m).2._x = s._x := by cases m <;> rfl

theorem getInput_y (s : Cpu) (m : Mode) : (getInput s m).2._y = s._y := by cases m <;> rfl

theorem getInput_s (s : Cpu) (m : Mode) : (getInput s m).2._s = s._s := by cases m <;> rfl

theorem getInput_mem (s : Cpu) (m : Mode) : (getInput s m).2.mem = s.mem := by cases m <;> rfl

theorem getInput_writes (s : Cpu) (m : Mode) : (getInput s m).2.writes = s.writes := by
  cases m <;> rfl

theorem getInput_bval (s : Cpu) (m : Mode) : (getInput s m).2.bval = s.bval := by
  cases m <;> rfl

theorem getInput_opc (s : Cpu) (m : Mode) (o : Nat) :
    (getInput { s with _opc := o } m).1 = (getInput s m).1 := by cases m <;> rfl

/-- The operand read by `getInput` is a byte. -/
theorem getInput_lt (s : Cpu) (m : Mode) (ha : s._a < 256) : (getInput s m).1 < 256 := by
  cases m <;> simp only [getInput] <;> first | exact ha | exact memGet_lt _ _ | decide

theorem operandOf_lt (s : Cpu) (ha : s._a < 256) : operandOf s < 256 :=
  getInput_lt _ _ ha

/-- The four flags set one after the other in the order C, Z, N, V. -/
theorem flags_CZNV : ∀ p, p < 256 → ∀ c z n v : Bool,
    (setFlag (setFlag (setFlag (setFlag p FLAG_C c) FLAG_Z z) FLAG_N n) FLAG_V v
        &&& FLAG_C ≠ 0 ↔ c = true) ∧
    (setFlag (setFlag (setFlag (setFlag p FLAG_C c) FLAG_Z z) FLAG_N n) FLAG_V v
        &&& FLAG_Z ≠ 0 ↔ z = true) ∧
    (setFlag (setFlag (setFlag (setFlag p FLAG_C c) FLAG_Z z) FLAG_N n) FLAG_V v
        &&& FLAG_N ≠ 0 ↔ n = true) ∧
    (setFlag (setFlag (setFlag (setFlag p FLAG_C c) FLAG_Z z) FLAG_N n) FLAG_V v
        &&& FLAG_V ≠ 0 ↔ v = true) ∧
    setFlag (setFlag (setFlag (setFlag p FLAG_C c) FLAG_Z z) FLAG_N n) FLAG_V v &&& 0x3C
      = p &&& 0x3C ∧
    setFlag (setFlag (setFlag (setFlag p FLAG_C c) FLAG_Z z) FLAG_N n) FLAG_V v < 256 := by
  decide

theorem compl_bit7 : ∀ x, x < 256 → (x ^^^ 0xffffffff) &&& 0x80 = (x ^^^ 0xff) &&& 0x80 := by
  decide

theorem xor_byte (a b : Nat) (ha : a < 256) (hb : b < 256) : a ^^^ b < 256 :=
  Nat.xor_lt_two_pow (n := 8) ha hb

theorem and_swap (x y z : Nat) : x &&& y &&& z = x &&& z &&& y := by
  rw [Nat.and_assoc, Nat.and_comm y z, ← Nat.and_assoc]

theorem overflow_expr (a m r : Nat) (ha : a < 256) (hm : m < 256) :
    ((a ^^^ m) ^^^ 0xffffffff) &&& (a ^^^ r) &&& 0x80
      = ((a ^^^ m) ^^^ 0xff) &&& (a ^^^ r) &&& 0x80 := by
  rw [and_swap, compl_bit7 _ (xor_byte a m ha hm), and_swap]

theorem bit8_sum (n : Nat) (h : n < 512) : (n % 65536 &&& 0x100 ≠ 0) ↔ 256 ≤ n := by
  rw [and_100]
  omega

/-- What the shared addition computes, in arithmetic terms. -/
theorem addCore_spec (a m p : Nat) (ha : a < 256) (hm : m < 256) (hp : p < 256) :
    (addCore a m p).1 = (a + m + (if p &&& FLAG_C ≠ 0 then 1 else 0)) % 256 ∧
    ((addCore a m p).2 &&& FLAG_C ≠ 0 ↔
      256 ≤ a + m + (if p &&& FLAG_C ≠ 0 then 1 else 0)) ∧
    ((addCore a m p).2 &&& FLAG_Z ≠ 0 ↔
      (a + m + (if p &&& FLAG_C ≠ 0 then 1 else 0)) % 256 = 0) ∧
    ((addCore a m p).2 &&& FLAG_N ≠ 0 ↔
      (a + m + (if p &&& FLAG_C ≠ 0 then 1 else 0)) % 256 &&& 0x80 ≠ 0) ∧
    ((addCore a m p).2 &&& FLAG_V ≠ 0 ↔
      ((a ^^^ m) ^^^ 0xff) &&&
        (a ^^^ (a + m + (if p &&& FLAG_C ≠ 0 then 1 else 0)) % 256) &&& 0x80 ≠ 0) ∧
    (addCore a m p).2 &&& 0x3C = p &&& 0x3C ∧ (addCore a m p).2 < 256 := by
  generalize hc : (if p &&& FLAG_C ≠ 0 then 1 else 0) = c
  have hc2 : c < 2 := by rw [← hc]; split <;> decide
  have e : (a + m + c) % 65536 % 256 = (a + m + c) % 256 := by omega
  obtain ⟨f1, f2, f3, f4, f5, f6⟩ := flags_CZNV p hp
    (truthy ((a + m + c) % 65536 &&& 0x100)) (falsy ((a + m + c) % 256))
    (truthy ((a + m + c) % 256 &&& 0x80))
    (truthy (((a ^^^ m) ^^^ 0xffffffff) &&& (a ^^^ (a + m + c) % 256) &&& 0x80))
  simp only [addCore, hc, e]
  refine ⟨trivial, ?_, ?_, ?_, ?_, f5, f6⟩
  · rw [f1]
    unfold truthy
    rw [decide_eq_true_iff]
    exact bit8_sum _ (by omega)
  · rw [f2]
    unfold falsy
    rw [decide_eq_true_iff]
  · rw [f3]
    unfold truthy
    rw [decide_eq_true_iff]
  · rw [f4]
    unfold truthy
    rw [decide_eq_true_iff, overflow_expr a m _ ha hm]

theorem runPrefetchedOp_eq (s : Cpu) :
    runPrefetchedOp s =
      runPrefetchedOp_switch (mnemonicOf (u8 s._exe_instr_opcode))
        { incPC s with _opc := u8 s._exe_instr_opcode } := rfl

theorem operandOf_eq (s : Cpu) :
    (getInput { incPC s with _opc := u8 s._exe_instr_opcode }
      (modeOf (u8 s._exe_instr_opcode))).1 = operandOf s :=
  getInput_opc _ _ _

/-- The case `adc` of the switch, in terms of the shared addition. -/
theorem switch_adc (s : Cpu) :
    (runPrefetchedOp_switch Mnemonic.adc s)._a
      = (addCore s._a (getInput s (modeOf s._opc)).1 s._p).1 ∧
    (runPrefetchedOp_switch Mnemonic.adc s)._p
      = (addCore s._a (getInput s (modeOf s._opc)).1 s._p).2 ∧
    (runPrefetchedOp_switch Mnemonic.adc s)._x = s._x ∧
    (runPrefetchedOp_switch Mnemonic.adc s)._y = s._y ∧
    (runPrefetchedOp_switch Mnemonic.adc s)._s = s._s ∧
    (runPrefetchedOp_switch Mnemonic.adc s).mem = s.mem ∧
    (runPrefetchedOp_switch Mnemonic.adc s).writes = s.writes := by
  simp only [runPrefetchedOp_switch, addCore, SETFLAGS_p, SETFLAGS_a, SETFLAGS_x, SETFLAGS_y,
    SETFLAGS_s, SETFLAGS_mem, SETFLAGS_writes, getInput_a, getInput_p, getInput_x, getInput_y,
    getInput_s, getInput_mem, getInput_writes, and_self]

/-- The case `sbc` of the switch, in terms of the shared addition. -/
theorem switch_sbc (s : Cpu) :
    (runPrefetchedOp_switch Mnemonic.sbc s)._a
      = (addCore s._a ((getInput s (modeOf s._opc)).1 ^^^ 0xff) s._p).1 ∧
    (runPrefetchedOp_switch Mnemonic.sbc s)._p
      = (addCore s._a ((getInput s (modeOf s._opc)).1 ^^^ 0xff) s._p).2 ∧
    (runPrefetchedOp_switch Mnemonic.sbc s)._x = s._x ∧
    (runPrefetchedOp_switch Mnemonic.sbc s)._y = s._y ∧
    (runPrefetchedOp_switch Mnemonic.sbc s)._s = s._s ∧
    (runPrefetchedOp_switch Mnemonic.sbc s).mem = s.mem ∧
    (runPrefetchedOp_switch Mnemonic.sbc s).writes = s.writes := by
  simp only [runPrefetchedOp_switch, addCore, SETFLAGS_p, SETFLAGS_a, SETFLAGS_x, SETFLAGS_y,
    SETFLAGS_s, SETFLAGS_mem, SETFLAGS_writes, getInput_a, getInput_p, getInput_x, getInput_y,
    getInput_s, getInput_mem, getInput_writes, and_self]

/-- ADC in flight: result in terms of the shared addition. -/
theorem run_adc (s : Cpu) (hm : mnemonicOf (u8 s._exe_instr_opcode) = Mnemonic.adc) :
    (runPrefetchedOp s)._a = (addCore s._a (operandOf s) s._p).1 ∧
    (runPrefetchedOp s)._p = (addCore s._a (operandOf s) s._p).2 ∧
    (runPrefetchedOp s)._x = s._x ∧ (runPrefetchedOp s)._y = s._y ∧
    (runPrefetchedOp s)._s = s._s ∧ (runPrefetchedOp s).mem = s.mem ∧
    (runPrefetchedOp s).writes = s.writes := by
  rw [runPrefetchedOp_eq, hm, ← operandOf_eq]
  exact switch_adc _

/-- SBC in flight: result in terms of the shared addition. -/
theorem run_sbc (s : Cpu) (hm : mnemonicOf (u8 s._exe_instr_opcode) = Mnemonic.sbc) :
    (runPrefetchedOp s)._a = (addCore s._a (operandOf s ^^^ 0xff) s._p).1 ∧
    (runPrefetchedOp s)._p = (addCore s._a (operandOf s ^^^ 0xff) s._p).2 ∧
    (runPrefetchedOp s)._x = s._x ∧ (runPrefetchedOp s)._y = s._y ∧
    (runPrefetchedOp s)._s = s._s ∧ (runPrefetchedOp s).mem = s.mem ∧
    (runPrefetchedOp s).writes = s.writes := by
  rw [runPrefetchedOp_eq, hm, ← operandOf_eq]
  exact switch_sbc _

/-- C22: ADC, for every accumulator `A`, operand `M` and carry-in `c`, whatever
the D flag: with `sum = A + M + c` the new `A` is `sum mod 256`, C is set iff
`sum ≥ 256`, Z iff the new `A` is 0, N is bit 7 of the new `A`, V is bit 7 of
`~(A xor M) and (A xor newA)`; `X`, `Y`, `S`, the flags D, I, B0, B1, memory and
the write log are unchanged. -/
theorem C22_adc_result (s : Cpu) (hm : mnemonicOf (u8 s._exe_instr_opcode) = Mnemonic.adc)
    (ha : s._a < 256) (hp : s._p < 256) :
    (runPrefetchedOp s)._a = (s._a + operandOf s + carryOf s) % 256 ∧
    ((runPrefetchedOp s)._p &&& FLAG_C ≠ 0 ↔ 256 ≤ s._a + operandOf s + carryOf s) ∧
    ((runPrefetchedOp s)._p &&& FLAG_Z ≠ 0 ↔ (s._a + operandOf s + carryOf s) % 256 = 0) ∧
    ((runPrefetchedOp s)._p &&& FLAG_N ≠ 0 ↔
      (s._a + operandOf s + carryOf s) % 256 &&& 0x80 ≠ 0) ∧
    ((runPrefetchedOp s)._p &&& FLAG_V ≠ 0 ↔
      ((s._a ^^^ operandOf s) ^^^ 0xff) &&&
        (s._a ^^^ (s._a + operandOf s + carryOf s) % 256) &&& 0x80 ≠ 0) ∧
    (runPrefetchedOp s)._p &&& (FLAG_D ||| FLAG_I ||| FLAG_B0 ||| FLAG_B1) =
      s._p &&& (FLAG_D ||| FLAG_I ||| FLAG_B0 ||| FLAG_B1) ∧
    (runPrefetchedOp s)._p < 256 ∧
    (runPrefetchedOp s)._x = s._x ∧ (runPrefetchedOp s)._y = s._y ∧
    (runPrefetchedOp s)._s = s._s ∧ (runPrefetchedOp s).mem = s.mem ∧
    (runPrefetchedOp s).writes = s.writes := by
  obtain ⟨r1, r2, r3, r4, r5, r6, r7⟩ := run_adc s hm
  obtain ⟨a1, a2, a3, a4, a5, a6, a7⟩ :=
    addCore_spec s._a (operandOf s) s._p ha (operandOf_lt s ha) hp
  rw [r1, r2]
  exact ⟨a1, a2, a3, a4, a5, a6, a7, r3, r4, r5, r6, r7⟩

/-- Witness of C22: `ADC #$90` with `A = $90`, carry set and D set gives
`A = $21` with C and V set, N and Z clear and D still set. -/
theorem C22_adc_result_witness :
    (runPrefetchedOp scenAdc)._a = (0x90 + 0x90 + 1) % 256 ∧
    (runPrefetchedOp scenAdc)._p = 0x49 :=
  ⟨(C22_adc_result scenAdc (by decide) (by decide) (by decide)).1, by decide⟩

/-- C23: for every accumulator, operand `x` and carry-in, SBC with operand `x`
leaves the same `A` and the same status register (so the same N, Z, C and V) as
ADC with operand `x xor $FF` executed with the same `A` and `P`. -/
theorem C23_adc_sbc_duality (s1 s2 : Cpu)
    (h1 : mnemonicOf (u8 s1._exe_instr_opcode) = Mnemonic.sbc)
    (h2 : mnemonicOf (u8 s2._exe_instr_opcode) = Mnemonic.adc)
    (ha : s2._a = s1._a) (hp : s2._p = s1._p)
    (hx : operandOf s2 = operandOf s1 ^^^ 0xff) :
    (runPrefetchedOp s1)._a = (runPrefetchedOp s2)._a ∧
    (runPrefetchedOp s1)._p = (runPrefetchedOp s2)._p ∧
    (runPrefetchedOp s1)._p &&& FLAG_N = (runPrefetchedOp s2)._p &&& FLAG_N ∧
    (runPrefetchedOp s1)._p &&& FLAG_Z = (runPrefetchedOp s2)._p &&& FLAG_Z ∧
    (runPrefetchedOp s1)._p &&& FLAG_C = (runPrefetchedOp s2)._p &&& FLAG_C ∧
    (runPrefetchedOp s1)._p &&& FLAG_V = (runPrefetchedOp s2)._p &&& FLAG_V := by
  obtain ⟨r1, r2, _⟩ := run_sbc s1 h1
  obtain ⟨q1, q2, _⟩ := run_adc s2 h2
  rw [r1, r2, q1, q2, ha, hp, hx]
  exact ⟨rfl, rfl, rfl, rfl, rfl, rfl⟩

/-- Witness of C23: `SBC #$6F` and `ADC #$90`, both with `A = $90` and the carry
set, leave `A = $21` and `P = $49`. -/
theorem C23_adc_sbc_duality_witness :
    ((runPrefetchedOp scenSbc)._a = (runPrefetchedOp scenAdc)._a ∧
      (runPrefetchedOp scenSbc)._p = (runPrefetchedOp scenAdc)._p) ∧
    (runPrefetchedOp scenSbc)._a = 0x21 ∧ (runPrefetchedOp scenSbc)._p = 0x49 :=
  ⟨⟨(C23_adc_sbc_duality scenSbc scenAdc (by decide) (by decide) (by decide) (by decide)
      (by decide)).1,
    (C23_adc_sbc_duality scenSbc scenAdc (by decide) (by decide) (by decide) (by decide)
      (by decide)).2.1⟩, by decide, by decide⟩

/-- The three flags set one after the other in the order Z, N, C. -/
theorem flags_ZNC : ∀ p, p < 256 → ∀ z n c : Bool,
    (setFlag (setFlag (setFlag p FLAG_Z z) FLAG_N n) FLAG_C c &&& FLAG_Z ≠ 0 ↔ z = true) ∧
    (setFlag (setFlag (setFlag p FLAG_Z z) FLAG_N n) FLAG_C c &&& FLAG_N ≠ 0 ↔ n = true) ∧
    (setFlag (setFlag (setFlag p FLAG_Z z) FLAG_N n) FLAG_C c &&& FLAG_C ≠ 0 ↔ c = true) ∧
    setFlag (setFlag (setFlag p FLAG_Z z) FLAG_N n) FLAG_C c &&& 0x7C = p &&& 0x7C ∧
    setFlag (setFlag (setFlag p FLAG_Z z) FLAG_N n) FLAG_C c < 256 := by
  decide

theorem u16_sub (r m : Nat) (hr : r < 256) (hm : m < 256) :
    u16 ((r : Int) - (m : Int)) = (r + 65536 - m) % 65536 := by
  unfold u16
  omega

theorem and80_mod (n : Nat) : n &&& 0x80 = n % 256 &&& 0x80 := by
  rw [← and_ff, Nat.and_assoc]
  rfl

theorem xor_ff : ∀ m, m < 256 → m ^^^ 0xff = 255 - m := by
  decide

/-- The compare cases of the switch. -/
theorem switch_compare (m : Mnemonic) (s : Cpu) (hm : m ∈ compareMnemonics) :
    (runPrefetchedOp_switch m s)._p =
      setFlag (setFlag (setFlag s._p FLAG_Z
        (falsy (u16 ((compareReg m s : Int) - ((getInput s (modeOf s._opc)).1 : Int)))))
        FLAG_N (truthy (u16 ((compareReg m s : Int) -
          ((getInput s (modeOf s._opc)).1 : Int)) &&& 0x80)))
        FLAG_C (decide (compareReg m s ≥ (getInput s (modeOf s._opc)).1)) ∧
    (runPrefetchedOp_switch m s)._a = s._a ∧
    (runPrefetchedOp_switch m s)._x = s._x ∧
    (runPrefetchedOp_switch m s)._y = s._y ∧
    (runPrefetchedOp_switch m s)._s = s._s ∧
    (runPrefetchedOp_switch m s).mem = s.mem ∧
    (runPrefetchedOp_switch m s).writes = s.writes := by
  simp only [compareMnemonics, List.mem_cons, List.mem_singleton, List.not_mem_nil,
    or_false] at hm
  rcases hm with rfl | rfl | rfl <;>
    simp only [runPrefetchedOp_switch, compareReg, SETFLAGS_p, SETFLAGS_a, SETFLAGS_x,
      SETFLAGS_y, SETFLAGS_s, SETFLAGS_mem, SETFLAGS_writes, SETFLAGS_bval, getInput_a,
      getInput_p,
      getInput_x, getInput_y, getInput_s, getInput_mem, getInput_writes, and_self]

theorem compareReg_eq (m : Mnemonic) (s : Cpu) (o : Nat) :
    compareReg m { incPC s with _opc := o } = compareReg m s := by
  cases m <;> rfl

theorem compareReg_lt (m : Mnemonic) (s : Cpu) (h : s.WF) : compareReg m s < 256 := by
  cases m <;> first | exact h.a | exact h.x | exact h.y

/-- Z, N and C of a compare, in arithmetic terms. -/
theorem compare_flags (p r m : Nat) (hp : p < 256) (hr : r < 256) (hm : m < 256) :
    (setFlag (setFlag (setFlag p FLAG_Z (falsy (u16 ((r : Int) - (m : Int)))))
        FLAG_N (truthy (u16 ((r : Int) - (m : Int)) &&& 0x80)))
        FLAG_C (decide (r ≥ m)) &&& FLAG_Z ≠ 0 ↔ r = m) ∧
    (setFlag (setFlag (setFlag p FLAG_Z (falsy (u16 ((r : Int) - (m : Int)))))
        FLAG_N (truthy (u16 ((r : Int) - (m : Int)) &&& 0x80)))
        FLAG_C (decide (r ≥ m)) &&& FLAG_N ≠ 0 ↔ (r + 256 - m) % 256 &&& 0x80 ≠ 0) ∧
    (setFlag (setFlag (setFlag p FLAG_Z (falsy (u16 ((r : Int) - (m : Int)))))
        FLAG_N (truthy (u16 ((r : Int) - (m : Int)) &&& 0x80)))
        FLAG_C (decide (r ≥ m)) &&& FLAG_C ≠ 0 ↔ m ≤ r) ∧
    setFlag (setFlag (setFlag p FLAG_Z (falsy (u16 ((r : Int) - (m : Int)))))
        FLAG_N (truthy (u16 ((r : Int) - (m : Int)) &&& 0x80)))
        FLAG_C (decide (r ≥ m)) &&& 0x7C = p &&& 0x7C ∧
    setFlag (setFlag (setFlag p FLAG_Z (falsy (u16 ((r : Int) - (m : Int)))))
        FLAG_N (truthy (u16 ((r : Int) - (m : Int)) &&& 0x80)))
        FLAG_C (decide (r ≥ m)) < 256 := by
  obtain ⟨f1, f2, f3, f4, f5⟩ := flags_ZNC p hp (falsy (u16 ((r : Int) - (m : Int))))
    (truthy (u16 ((r : Int) - (m : Int)) &&& 0x80)) (decide (r ≥ m))
  have e : (r + 65536 - m) % 65536 % 256 = (r + 256 - m) % 256 := by omega
  refine ⟨?_, ?_, ?_, f4, f5⟩
  · rw [f1, u16_sub r m hr hm]
    unfold falsy
    rw [decide_eq_true_iff]
    omega
  · rw [f2, u16_sub r m hr hm, and80_mod, e]
    unfold truthy
    rw [decide_eq_true_iff]
  · rw [f3, decide_eq_true_iff]

/-- Z, N and C left by the shared addition when it subtracts `m` from `r` with
the carry set. -/
theorem sub_flags (p r m : Nat) (hp : p < 256) (hr : r < 256) (hm : m < 256)
    (hc : p &&& FLAG_C ≠ 0) :
    ((addCore r (m ^^^ 0xff) p).2 &&& FLAG_Z ≠ 0 ↔ r = m) ∧
    ((addCore r (m ^^^ 0xff) p).2 &&& FLAG_N ≠ 0 ↔ (r + 256 - m) % 256 &&& 0x80 ≠ 0) ∧
    ((addCore r (m ^^^ 0xff) p).2 &&& FLAG_C ≠ 0 ↔ m ≤ r) := by
  have hx : m ^^^ 0xff < 256 := xor_byte m 0xff hm (by norm_num)
  obtain ⟨_, a2, a3, a4, _⟩ := addCore_spec r (m ^^^ 0xff) p hr hx hp
  have e : (r + (255 - m) + 1) % 256 = (r + 256 - m) % 256 := by omega
  refine ⟨?_, ?_, ?_⟩
  · rw [a3, if_pos hc, xor_ff m hm]; omega
  · rw [a4, if_pos hc, xor_ff m hm, e]
  · rw [a2, if_pos hc, xor_ff m hm]; omega

/-- C24: CMP, CPX and CPY, for every register value `r` (`A`, `X` or `Y`) and
operand `m`: Z is set iff `r = m`, C iff `r ≥ m`, N is bit 7 of `(r - m) mod
256`; `A`, `X`, `Y`, `S`, memory, the V flag and the flags D, I, B0, B1 are
unchanged; and N, Z, C are those an SBC of `m` from `r` with the carry set leaves. -/
theorem C24_compare_flags (s : Cpu)
    (hm : mnemonicOf (u8 s._exe_instr_opcode) ∈ compareMnemonics) (hwf : s.WF) :
    ((runPrefetchedOp s)._p &&& FLAG_Z ≠ 0 ↔
      compareReg (mnemonicOf (u8 s._exe_instr_opcode)) s = operandOf s) ∧
    ((runPrefetchedOp s)._p &&& FLAG_C ≠ 0 ↔
      operandOf s ≤ compareReg (mnemonicOf (u8 s._exe_instr_opcode)) s) ∧
    ((runPrefetchedOp s)._p &&& FLAG_N ≠ 0 ↔
      (compareReg (mnemonicOf (u8 s._exe_instr_opcode)) s + 256 - operandOf s) % 256
        &&& 0x80 ≠ 0) ∧
    (runPrefetchedOp s)._p &&& (FLAG_V ||| FLAG_D ||| FLAG_I ||| FLAG_B0 ||| FLAG_B1) =
      s._p &&& (FLAG_V ||| FLAG_D ||| FLAG_I ||| FLAG_B0 ||| FLAG_B1) ∧
    (runPrefetchedOp s)._a = s._a ∧ (runPrefetchedOp s)._x = s._x ∧
    (runPrefetchedOp s)._y = s._y ∧ (runPrefetchedOp s)._s = s._s ∧
    (runPrefetchedOp s).mem = s.mem ∧ (runPrefetchedOp s).writes = s.writes ∧
    (∀ u : Cpu, mnemonicOf (u8 u._exe_instr_opcode) = Mnemonic.sbc →
      u._a = compareReg (mnemonicOf (u8 s._exe_instr_opcode)) s → u._p < 256 →
      u._p &&& FLAG_C ≠ 0 → operandOf u = operandOf s →
      ((runPrefetchedOp u)._p &&& FLAG_N ≠ 0 ↔ (runPrefetchedOp s)._p &&& FLAG_N ≠ 0) ∧
      ((runPrefetchedOp u)._p &&& FLAG_Z ≠ 0 ↔ (runPrefetchedOp s)._p &&& FLAG_Z ≠ 0) ∧
      ((runPrefetchedOp u)._p &&& FLAG_C ≠ 0 ↔ (runPrefetchedOp s)._p &&& FLAG_C ≠ 0)) := by
  have hr := compareReg_lt (mnemonicOf (u8 s._exe_instr_opcode)) s hwf
  have hop := operandOf_lt s hwf.a
  obtain ⟨r1, r2, r3, r4, r5, r6, r7⟩ :=
    switch_compare (mnemonicOf (u8 s._exe_instr_opcode))
      { incPC s with _opc := u8 s._exe_instr_opcode } hm
  have hpeq : ({ incPC s with _opc := u8 s._exe_instr_opcode } : Cpu)._p = s._p := rfl
  rw [← runPrefetchedOp_eq, compareReg_eq, operandOf_eq, hpeq] at r1
  rw [← runPrefetchedOp_eq] at r2 r3 r4 r5 r6 r7
  obtain ⟨c1, c2, c3, c4, _⟩ := compare_flags s._p _ _ hwf.p hr hop
  rw [← r1] at c1 c2 c3 c4
  refine ⟨c1, c3, c2, c4, r2, r3, r4, r5, r6, r7, ?_⟩
  intro u hu ha hp hc hx
  obtain ⟨_, q2, _⟩ := run_sbc u hu
  obtain ⟨b1, b2, b3⟩ := sub_flags u._p _ _ hp hr hop hc
  rw [q2, ha, hx, b1, b2, b3, c1, c2, c3]
  exact ⟨Iff.rfl, Iff.rfl, Iff.rfl⟩

/-- Witness of C24: `CPX #$40` with `X = $30` and V set leaves N set, Z and C
clear and V set, as `SBC #$40` from `A = $30` with the carry set does for N, Z
and C. -/
theorem C24_compare_flags_witness :
    (((runPrefetchedOp scenSbcCarry)._p &&& FLAG_N ≠ 0 ↔
        (runPrefetchedOp scenCpx)._p &&& FLAG_N ≠ 0) ∧
      ((runPrefetchedOp scenSbcCarry)._p &&& FLAG_Z ≠ 0 ↔
        (runPrefetchedOp scenCpx)._p &&& FLAG_Z ≠ 0) ∧
      ((runPrefetchedOp scenSbcCarry)._p &&& FLAG_C ≠ 0 ↔
        (runPrefetchedOp scenCpx)._p &&& FLAG_C ≠ 0)) ∧
    (runPrefetchedOp scenCpx)._p = 0xC0 :=
  ⟨(C24_compare_flags scenCpx (by decide)
      ⟨by decide, by decide, by decide, by decide, by decide, by decide⟩).2.2.2.2.2.2.2.2.2.2
      scenSbcCarry (by decide) (by decide) (by decide) (by decide) (by decide), by decide⟩

/-! ## Subroutine call, return and BRK -/

theorem ret_bytes (pc : Nat) :
    (((pc + 1) % 65536 + 1) >>> 8) % 256 = (pc + 2) % 65536 / 256 ∧
    ((pc + 1) % 65536 + 1) % 256 = (pc + 2) % 65536 % 256 := by
  rw [Nat.shiftRight_eq_div_pow]
  omega

/-- The state left by JSR: the two pushes of the return address minus one, then
`_pc` loaded from the operand bytes as they are after the pushes. -/
theorem run_jsr (s : Cpu) (h : s._exe_instr_opcode = 0x20) :
    (runPrefetchedOp s)._pc =
      memGet (runPrefetchedOp s) (s._pc + 1) ||| (memGet (runPrefetchedOp s) (s._pc + 2) <<< 8) ∧
    (∀ a, memGet (runPrefetchedOp s) a =
      memGet (push (push s ((s._pc + 2) % 65536 / 256)) ((s._pc + 2) % 65536 % 256)) a) ∧
    (runPrefetchedOp s).writes =
      (push (push s ((s._pc + 2) % 65536 / 256)) ((s._pc + 2) % 65536 % 256)).writes ∧
    (runPrefetchedOp s)._s = ((s._s + 255) % 256 + 255) % 256 ∧
    (runPrefetchedOp s)._p = s._p ∧ (runPrefetchedOp s)._a = s._a ∧
    (runPrefetchedOp s)._x = s._x ∧ (runPrefetchedOp s)._y = s._y := by
  have e : u8 s._exe_instr_opcode = 0x20 := by rw [h]; decide
  have hm : mnemonicOf 0x20 = Mnemonic.jsr := by decide
  obtain ⟨b1, b2⟩ := ret_bytes s._pc
  rw [runPrefetchedOp_eq, e, hm]
  simp only [runPrefetchedOp_switch, incPC_pc_eq, push_pc, b1, b2, memGet_incPC, pc_two,
    memGet_mod]
  refine ⟨rfl, fun _ => rfl, rfl, ?_, rfl, rfl, rfl, rfl⟩
  show (push (push _ _) _)._s = _
  rw [push_s, push_s]
  rfl

theorem push2_mem (t : Cpu) (v1 v2 a : Nat) (hs : t._s < 256) :
    memGet (push (push t v1) v2) a =
      if a % 65536 = 0x100 + (t._s + 255) % 256 then v2 % 256
      else if a % 65536 = 0x100 + t._s then v1 % 256
      else memGet t a := by
  rw [push_mem, push_mem, push_s]
  have e0 : (0x100 + t._s) % 65536 = 0x100 + t._s := by omega
  have e1 : (0x100 + (t._s + 255) % 256) % 65536 = 0x100 + (t._s + 255) % 256 := by omega
  rw [e0, e1]

theorem push2_writes (t : Cpu) (v1 v2 : Nat) (hs : t._s < 256) (h1 : v1 < 256)
    (h2 : v2 < 256) :
    (push (push t v1) v2).writes =
      t.writes ++ [(0x100 + t._s, v1), (0x100 + (t._s + 255) % 256, v2)] := by
  rw [push_writes, push_writes, push_s]
  have e0 : (0x100 + t._s) % 65536 = 0x100 + t._s := by omega
  have e1 : (0x100 + (t._s + 255) % 256) % 65536 = 0x100 + (t._s + 255) % 256 := by omega
  rw [e0, e1, Nat.mod_eq_of_lt h1, Nat.mod_eq_of_lt h2, List.append_assoc]
  rfl

theorem stack2 (S : Nat) (hS : S < 256) :
    ((S + 255) % 256 + 255) % 256 = (S + 254) % 256 ∧ (S + 255) % 256 ≠ S := by
  omega

theorem ret_lt (pc : Nat) : (pc + 2) % 65536 / 256 < 256 ∧ (pc + 2) % 65536 % 256 < 256 := by
  omega

/-- The two stack bytes and the stack pointer left by JSR. -/
theorem jsr_stack (s : Cpu) (h : s._exe_instr_opcode = 0x20) (hs : s._s < 256) :
    memGet (runPrefetchedOp s) (0x100 + s._s) = (s._pc + 2) % 65536 / 256 ∧
    memGet (runPrefetchedOp s) (0x100 + (s._s + 255) % 256) = (s._pc + 2) % 65536 % 256 ∧
    (runPrefetchedOp s)._s = (s._s + 254) % 256 := by
  obtain ⟨_, r2, _, r4, _⟩ := run_jsr s h
  obtain ⟨k1, k2⟩ := stack2 s._s hs
  obtain ⟨v1, v2⟩ := ret_lt s._pc
  refine ⟨?_, ?_, r4.trans k1⟩
  · have e : (0x100 + s._s) % 65536 ≠ 0x100 + (s._s + 255) % 256 := by omega
    have e0 : (0x100 + s._s) % 65536 = 0x100 + s._s := by omega
    rw [r2, push2_mem _ _ _ _ hs, if_neg e, if_pos e0, Nat.mod_eq_of_lt v1]
  · have e0 : (0x100 + (s._s + 255) % 256) % 65536 = 0x100 + (s._s + 255) % 256 := by omega
    rw [r2, push2_mem _ _ _ _ hs, if_pos e0, Nat.mod_eq_of_lt v2]

/-- C25 (amended): JSR at `PC0` writes the high byte of `(PC0+2) mod 2^16` at
`$0100+S` and its low byte at `$0100+((S-1) mod 256)`, changes no other byte of
memory, leaves `S-2` modulo 256, changes no flag and no other register, and
sets `PC` to the operand held at `PC0+1` and `PC0+2` after the two stack
writes; this is the operand held there before the instruction whenever neither
operand byte lies at one of the two written stack addresses. -/
theorem C25_jsr_effect (s : Cpu) (h : s._exe_instr_opcode = 0x20) (hs : s._s < 256) :
    (runPrefetchedOp s).writes = s.writes ++
      [(0x100 + s._s, (s._pc + 2) % 65536 / 256),
       (0x100 + (s._s + 255) % 256, (s._pc + 2) % 65536 % 256)] ∧
    memGet (runPrefetchedOp s) (0x100 + s._s) = (s._pc + 2) % 65536 / 256 ∧
    memGet (runPrefetchedOp s) (0x100 + (s._s + 255) % 256) = (s._pc + 2) % 65536 % 256 ∧
    (∀ a, a % 65536 ≠ 0x100 + s._s → a % 65536 ≠ 0x100 + (s._s + 255) % 256 →
      memGet (runPrefetchedOp s) a = memGet s a) ∧
    (runPrefetchedOp s)._s = (s._s + 254) % 256 ∧
    (runPrefetchedOp s)._p = s._p ∧ (runPrefetchedOp s)._a = s._a ∧
    (runPrefetchedOp s)._x = s._x ∧ (runPrefetchedOp s)._y = s._y ∧
    (runPrefetchedOp s)._pc =
      memGet (runPrefetchedOp s) (s._pc + 1) + 256 * memGet (runPrefetchedOp s) (s._pc + 2) ∧
    ((s._pc + 1) % 65536 ≠ 0x100 + s._s → (s._pc + 1) % 65536 ≠ 0x100 + (s._s + 255) % 256 →
      (s._pc + 2) % 65536 ≠ 0x100 + s._s → (s._pc + 2) % 65536 ≠ 0x100 + (s._s + 255) % 256 →
      (runPrefetchedOp s)._pc = memGet s (s._pc + 1) + 256 * memGet s (s._pc + 2)) := by
  obtain ⟨r1, r2, r3, r4, r5, r6, r7, r8⟩ := run_jsr s h
  obtain ⟨m1, m2, m3⟩ := jsr_stack s h hs
  obtain ⟨v1, v2⟩ := ret_lt s._pc
  have far : ∀ a, a % 65536 ≠ 0x100 + s._s → a % 65536 ≠ 0x100 + (s._s + 255) % 256 →
      memGet (runPrefetchedOp s) a = memGet s a := by
    intro a h1 h2
    rw [r2, push2_mem _ _ _ _ hs, if_neg h2, if_neg h1]
  have hpc : (runPrefetchedOp s)._pc =
      memGet (runPrefetchedOp s) (s._pc + 1) + 256 * memGet (runPrefetchedOp s) (s._pc + 2) :=
    r1.trans (or_shl8 _ _ (memGet_lt _ _))
  refine ⟨?_, m1, m2, far, m3, r5, r6, r7, r8, hpc, ?_⟩
  · rw [r3, push2_writes _ _ _ hs v1 v2]
  · intro h1 h2 h3 h4
    rw [hpc, far _ h1 h2, far _ h3 h4]

/-- Counterexample to C25 as stated: with `JSR $1234` at `$01FD` and `S = $FF`
the two stack writes replace the operand bytes, and `PC` becomes `$01FF`, not
`$1234`. -/
theorem C25_counterexample :
    scenJsrStack._exe_instr_opcode = 0x20 ∧ scenJsrStack._s = 0xFF ∧
    memGet scenJsrStack (scenJsrStack._pc + 1)
      + 256 * memGet scenJsrStack (scenJsrStack._pc + 2) = 0x1234 ∧
    (runPrefetchedOp scenJsrStack)._pc = 0x01FF ∧
    (runPrefetchedOp scenJsrStack).writes = [(0x01FF, 0x01), (0x01FE, 0xFF)] := by
  decide

/-- Witness of C25 (amended): `JSR $1234` at `$1000` with `S = $FF` pushes `$10`,
`$02` and jumps to `$1234`. -/
theorem C25_jsr_effect_witness :
    (runPrefetchedOp scenJsr).writes = [] ++ [(0x100 + 0xFF, 0x10), (0x100 + 0xFE, 0x02)] ∧
    (runPrefetchedOp scenJsr)._pc = 0x1234 :=
  ⟨(C25_jsr_effect scenJsr (by decide) (by decide)).1, by decide⟩

/-- The state left by RTS. -/
theorem run_rts (u : Cpu) (h : u._exe_instr_opcode = 0x60) :
    (runPrefetchedOp u)._pc =
      ((memGet u (0x100 + (u._s + 1) % 256) |||
        (memGet u (0x100 + ((u._s + 1) % 256 + 1) % 256) <<< 8)) + 1) % 65536 ∧
    (runPrefetchedOp u)._s = ((u._s + 1) % 256 + 1) % 256 ∧
    (runPrefetchedOp u).writes = u.writes ∧ (runPrefetchedOp u).mem = u.mem ∧
    (runPrefetchedOp u)._p = u._p ∧ (runPrefetchedOp u)._a = u._a ∧
    (runPrefetchedOp u)._x = u._x ∧ (runPrefetchedOp u)._y = u._y := by
  have e : u8 u._exe_instr_opcode = 0x60 := by rw [h]; decide
  have hm : mnemonicOf 0x60 = Mnemonic.rts := by decide
  rw [runPrefetchedOp_eq, e, hm]
  simp only [runPrefetchedOp_switch, pop_val, pop_eq]
  simp only [incPC, memGet, and_self]

theorem unstack2 (S : Nat) (h : S < 256) :
    ((S + 254) % 256 + 1) % 256 = (S + 255) % 256 ∧
    (((S + 254) % 256 + 1) % 256 + 1) % 256 = S := by
  omega

theorem ret_join (pc : Nat) :
    ((pc + 2) % 65536 % 256 + 256 * ((pc + 2) % 65536 / 256) + 1) % 65536
      = (pc + 3) % 65536 := by
  omega

/-- C26: for every `PC0` and `S`, JSR at `PC0` followed by RTS, executed in any
later state that has the `S` left by the JSR and the same two stack bytes,
leaves `PC = (PC0 + 3) mod 2^16` and `S` as before the JSR; RTS pops the low
byte, then the high byte, and adds 1 modulo `2^16`. -/
theorem C26_jsr_rts_roundtrip (s u : Cpu) (h : s._exe_instr_opcode = 0x20) (hs : s._s < 256)
    (hu : u._exe_instr_opcode = 0x60) (hS : u._s = (runPrefetchedOp s)._s)
    (hstack : memGet u (0x100 + s._s) = memGet (runPrefetchedOp s) (0x100 + s._s) ∧
      memGet u (0x100 + (s._s + 255) % 256)
        = memGet (runPrefetchedOp s) (0x100 + (s._s + 255) % 256)) :
    (runPrefetchedOp u)._pc = (s._pc + 3) % 65536 ∧ (runPrefetchedOp u)._s = s._s ∧
    (runPrefetchedOp u)._pc =
      (memGet u (0x100 + (u._s + 1) % 256)
        + 256 * memGet u (0x100 + ((u._s + 1) % 256 + 1) % 256) + 1) % 65536 ∧
    (runPrefetchedOp u)._s = ((u._s + 1) % 256 + 1) % 256 ∧
    (runPrefetchedOp u)._p = u._p ∧ (runPrefetchedOp u)._a = u._a ∧
    (runPrefetchedOp u)._x = u._x ∧ (runPrefetchedOp u)._y = u._y ∧
    (runPrefetchedOp u).mem = u.mem ∧ (runPrefetchedOp u).writes = u.writes := by
  obtain ⟨j2, j3, j5⟩ := jsr_stack s h hs
  obtain ⟨r1, r2, r3, r4, r5, r6, r7, r8⟩ := run_rts u hu
  obtain ⟨k1, k2⟩ := unstack2 s._s hs
  rw [or_shl8 _ _ (memGet_lt _ _)] at r1
  refine ⟨?_, ?_, r1, r2, r5, r6, r7, r8, r4, r3⟩
  · rw [r1, hS, j5, k2, k1, hstack.2, hstack.1, j3, j2]
    exact ret_join s._pc
  · rw [r2, hS, j5, k2]

/-- Witness of C26: JSR at `$FFFE` with `S = $00`, then RTS in the state the
JSR left: `PC = $0001` and `S = $00`. -/
theorem C26_jsr_rts_roundtrip_witness :
    (runPrefetchedOp { runPrefetchedOp scenJsrWrap with _exe_instr_opcode := 0x60 })._pc
      = (0xFFFE + 3) % 65536 ∧
    (runPrefetchedOp { runPrefetchedOp scenJsrWrap with _exe_instr_opcode := 0x60 })._s = 0 :=
  ⟨(C26_jsr_rts_roundtrip scenJsrWrap
      { runPrefetchedOp scenJsrWrap with _exe_instr_opcode := 0x60 }
      (by decide) (by decide) rfl rfl ⟨rfl, rfl⟩).1,
   (C26_jsr_rts_roundtrip scenJsrWrap
      { runPrefetchedOp scenJsrWrap with _exe_instr_opcode := 0x60 }
      (by decide) (by decide) rfl rfl ⟨rfl, rfl⟩).2.1⟩

/-- The state left by BRK (non-TEST build). -/
theorem run_brk (s : Cpu) (h : s._exe_instr_opcode = 0x00) :
    (runPrefetchedOp s)._pc =
      memGet (runPrefetchedOp s) 0xfffe ||| (memGet (runPrefetchedOp s) 0xffff <<< 8) ∧
    (∀ a, memGet (runPrefetchedOp s) a =
      memGet (push (push (push s ((s._pc + 2) % 65536 / 256)) ((s._pc + 2) % 65536 % 256))
        ((s._p ||| FLAG_B0 ||| FLAG_B1) % 256)) a) ∧
    (runPrefetchedOp s).writes =
      (push (push (push s ((s._pc + 2) % 65536 / 256)) ((s._pc + 2) % 65536 % 256))
        ((s._p ||| FLAG_B0 ||| FLAG_B1) % 256)).writes ∧
    (runPrefetchedOp s)._s = (((s._s + 255) % 256 + 255) % 256 + 255) % 256 ∧
    (runPrefetchedOp s)._p = setFlag s._p FLAG_I true ∧ (runPrefetchedOp s)._a = s._a ∧
    (runPrefetchedOp s)._x = s._x ∧ (runPrefetchedOp s)._y = s._y := by
  have e : u8 s._exe_instr_opcode = 0x00 := by rw [h]; decide
  have hm : mnemonicOf 0x00 = Mnemonic.brk := by decide
  obtain ⟨b1, b2⟩ := ret_bytes s._pc
  rw [runPrefetchedOp_eq, e, hm]
  simp only [runPrefetchedOp_switch, incPC_pc_eq, push_pc, push_p, b1, b2, SETFLAGS_p,
    SETFLAGS_pc, SETFLAGS_a, SETFLAGS_x, SETFLAGS_y, SETFLAGS_s, SETFLAGS_writes,
    memGet_SETFLAGS]
  refine ⟨rfl, fun _ => rfl, rfl, ?_, rfl, rfl, rfl, rfl⟩
  show (push (push (push _ _) _) _)._s = _
  rw [push_s, push_s, push_s]
  rfl

theorem push3_writes (t : Cpu) (v1 v2 v3 : Nat) (hs : t._s < 256) (h1 : v1 < 256)
    (h2 : v2 < 256) (h3 : v3 < 256) :
    (push (push (push t v1) v2) v3).writes =
      t.writes ++ [(0x100 + t._s, v1), (0x100 + (t._s + 255) % 256, v2),
        (0x100 + (t._s + 254) % 256, v3)] := by
  rw [push_writes, push_writes, push_writes, push_s, push_s, push_s]
  have e0 : (0x100 + t._s) % 65536 = 0x100 + t._s := by omega
  have e1 : (0x100 + (t._s + 255) % 256) % 65536 = 0x100 + (t._s + 255) % 256 := by omega
  have e2 : (0x100 + ((t._s + 255) % 256 + 255) % 256) % 65536
      = 0x100 + (t._s + 254) % 256 := by omega
  rw [e0, e1, e2, Nat.mod_eq_of_lt h1, Nat.mod_eq_of_lt h2, Nat.mod_eq_of_lt h3,
    List.append_assoc, List.append_assoc]
  rfl

theorem brk_status : ∀ p, p < 256 →
    (p ||| FLAG_B0 ||| FLAG_B1) % 256 = p ||| 0x30 ∧ p ||| 0x30 < 256 ∧
    setFlag p FLAG_I true = p ||| FLAG_I ∧
    setFlag p FLAG_I true &&& FLAG_I ≠ 0 ∧
    setFlag p FLAG_I true &&& 0xFB = p &&& 0xFB ∧
    (p &&& (FLAG_B0 ||| FLAG_B1) = 0 →
      ((p ||| 0x30) &&& ((FLAG_B0 ||| FLAG_B1) ^^^ 0xffffffff)) % 256 = p) := by
  decide

theorem stack3 (S : Nat) (hS : S < 256) :
    (((S + 255) % 256 + 255) % 256 + 255) % 256 = (S + 253) % 256 := by
  omega

/-- C27: BRK at `PC0` (non-TEST build) pushes the high byte and the low byte of
`(PC0+2) mod 2^16` and then `P | $30`, leaving `S-3` modulo 256; sets I and
changes no other flag and no other register; loads `PC` from `$FFFE/$FFFF`;
and, `P` having B0 and B1 clear as in every reachable state, an RTI executed
in any later state with that `S` and the same three stack bytes returns to
`PC0+2` with `P` and `S` as before the BRK. -/
theorem C27_brk_effect (s : Cpu) (h : s._exe_instr_opcode = 0x00) (hs : s._s < 256)
    (hp : s._p < 256) :
    (runPrefetchedOp s).writes = s.writes ++
      [(0x100 + s._s, (s._pc + 2) % 65536 / 256),
       (0x100 + (s._s + 255) % 256, (s._pc + 2) % 65536 % 256),
       (0x100 + (s._s + 254) % 256, s._p ||| 0x30)] ∧
    (runPrefetchedOp s)._s = (s._s + 253) % 256 ∧
    (runPrefetchedOp s)._p = s._p ||| FLAG_I ∧
    (runPrefetchedOp s)._p &&& FLAG_I ≠ 0 ∧
    (runPrefetchedOp s)._p &&& 0xFB = s._p &&& 0xFB ∧
    (runPrefetchedOp s)._pc = memGet s 0xfffe + 256 * memGet s 0xffff ∧
    (runPrefetchedOp s)._a = s._a ∧ (runPrefetchedOp s)._x = s._x ∧
    (runPrefetchedOp s)._y = s._y ∧
    (s._p &&& (FLAG_B0 ||| FLAG_B1) = 0 →
      ∀ u : Cpu, u._exe_instr_opcode = 0x40 → u._s = (runPrefetchedOp s)._s →
        memGet u (0x100 + s._s) = memGet (runPrefetchedOp s) (0x100 + s._s) →
        memGet u (0x100 + (s._s + 255) % 256)
          = memGet (runPrefetchedOp s) (0x100 + (s._s + 255) % 256) →
        memGet u (0x100 + (s._s + 254) % 256)
          = memGet (runPrefetchedOp s) (0x100 + (s._s + 254) % 256) →
        (runPrefetchedOp u)._pc = (s._pc + 2) % 65536 ∧ (runPrefetchedOp u)._p = s._p ∧
        (runPrefetchedOp u)._s = s._s) := by
  obtain ⟨r1, r2, r3, r4, r5, r6, r7, r8⟩ := run_brk s h
  obtain ⟨v1, v2⟩ := ret_lt s._pc
  obtain ⟨p1, p2, p3, p4, p5, p6⟩ := brk_status s._p hp
  have hS := r4.trans (stack3 s._s hs)
  have m3 : memGet (runPrefetchedOp s) (0x100 + (s._s + 254) % 256) = s._p ||| 0x30 := by
    have e : (0x100 + (s._s + 254) % 256) % 65536 = 0x100 + (s._s + 254) % 256 := by omega
    rw [r2, push3_mem _ _ _ _ _ hs, if_pos e, p1, Nat.mod_eq_of_lt p2]
  have m2 : memGet (runPrefetchedOp s) (0x100 + (s._s + 255) % 256)
      = (s._pc + 2) % 65536 % 256 := by
    have e : (0x100 + (s._s + 255) % 256) % 65536 = 0x100 + (s._s + 255) % 256 := by omega
    have n : (0x100 + (s._s + 255) % 256) % 65536 ≠ 0x100 + (s._s + 254) % 256 := by omega
    rw [r2, push3_mem _ _ _ _ _ hs, if_neg n, if_pos e, Nat.mod_eq_of_lt v2]
  have m1 : memGet (runPrefetchedOp s) (0x100 + s._s) = (s._pc + 2) % 65536 / 256 := by
    have e : (0x100 + s._s) % 65536 = 0x100 + s._s := by omega
    have n1 : (0x100 + s._s) % 65536 ≠ 0x100 + (s._s + 254) % 256 := by omega
    have n2 : (0x100 + s._s) % 65536 ≠ 0x100 + (s._s + 255) % 256 := by omega
    rw [r2, push3_mem _ _ _ _ _ hs, if_neg n1, if_neg n2, if_pos e, Nat.mod_eq_of_lt v1]
  have far : ∀ a, 512 ≤ a % 65536 → memGet (runPrefetchedOp s) a = memGet s a := by
    intro a ha
    have n1 : a % 65536 ≠ 0x100 + (s._s + 254) % 256 := by omega
    have n2 : a % 65536 ≠ 0x100 + (s._s + 255) % 256 := by omega
    have n3 : a % 65536 ≠ 0x100 + s._s := by omega
    rw [r2, push3_mem _ _ _ _ _ hs, if_neg n1, if_neg n2, if_neg n3]
  refine ⟨?_, hS, r5.trans p3, ?_, ?_, ?_, r6, r7, r8, ?_⟩
  · rw [r3, push3_writes _ _ _ _ hs v1 v2 (Nat.mod_lt _ (by norm_num)), p1]
  · rw [r5]; exact p4
  · rw [r5]; exact p5
  · rw [r1, or_shl8 _ _ (memGet_lt _ _), far _ (by norm_num), far _ (by norm_num)]
  · intro hB u hu hSu h1 h2 h3
    obtain ⟨q1, q2, q3, _⟩ := runPrefetchedOp_rti u hu
    obtain ⟨k1, k2, k3⟩ := stack_addr s._s hs
    rw [or_shl8 _ _ (memGet_lt _ _)] at q2
    refine ⟨?_, ?_, ?_⟩
    · rw [q2, hSu, hS, k3, k2, h2, h1, m2, m1]
      omega
    · rw [q1, hSu, hS, k1, h3, m3]
      exact p6 hB
    · rw [q3, hSu, hS, k3]

/-- Witness of C27: `BRK` at `$1000` with `S = $01` and `P = $C3` pushes `$10`,
`$02`, `$F3`, leaves `S = $FE`, `P = $C7`, `PC = $6000`, and an RTI in the state
it left returns to `$1002` with `P = $C3`. -/
theorem C27_brk_effect_witness :
    (runPrefetchedOp scenBrk).writes =
      [] ++ [(0x100 + 0x01, 0x10), (0x100 + 0x00, 0x02), (0x100 + 0xFF, 0xC3 ||| 0x30)] ∧
    ((runPrefetchedOp { runPrefetchedOp scenBrk with _exe_instr_opcode := 0x40 })._pc
        = (0x1000 + 2) % 65536 ∧
      (runPrefetchedOp { runPrefetchedOp scenBrk with _exe_instr_opcode := 0x40 })._p = 0xC3 ∧
      (runPrefetchedOp { runPrefetchedOp scenBrk with _exe_instr_opcode := 0x40 })._s
        = 0x01) ∧
    (runPrefetchedOp scenBrk)._pc = 0x6000 ∧ (runPrefetchedOp scenBrk)._p = 0xC7 :=
  ⟨(C27_brk_effect scenBrk (by decide) (by decide) (by decide)).1,
   (C27_brk_effect scenBrk (by decide) (by decide) (by decide)).2.2.2.2.2.2.2.2.2 (by decide)
      { runPrefetchedOp scenBrk with _exe_instr_opcode := 0x40 } rfl rfl rfl rfl rfl,
   by decide, by decide⟩

/-! ## Shifts and rotates -/

theorem setOutput_x (s : Cpu) (m : Mode) (v : Nat) : (setOutput s m v)._x = s._x := by
  cases m <;> rfl

theorem setOutput_y (s : Cpu) (m : Mode) (v : Nat) : (setOutput s m v)._y = s._y := by
  cases m <;> rfl

theorem setOutput_s (s : Cpu) (m : Mode) (v : Nat) : (setOutput s m v)._s = s._s := by
  cases m <;> rfl

theorem setOutput_a_mem (s : Cpu) (m : Mode) (v : Nat) (h : m ∈ memoryModes) :
    (setOutput s m v)._a = s._a := by
  simp only [memoryModes, List.mem_cons, List.mem_singleton, List.not_mem_nil, or_false] at h
  rcases h with rfl | rfl | rfl | rfl | rfl | rfl | rfl | rfl <;> rfl

/-- Memory after a `setOutput` in a consumed state. -/
theorem consumed_read (s0 t : Cpu) (mode : Mode) (ws : List (Nat × Nat)) (w a : Nat)
    (hm : mode ∈ memoryModes) (h : Consumed s0 mode t ws) :
    (setOutput t mode w).mem (a % 65536) % 256 =
      if a % 65536 = effectiveAddr s0 mode then w % 256 else memGet s0 a := by
  rw [setOutput_consumed s0 t mode ws w hm h]
  show memGet (memSet t (effectiveAddr s0 mode) w) a = _
  rw [memGet_memSet, Nat.mod_eq_of_lt (effectiveAddr_lt s0 mode hm), h.2.1]

/-- Memory after a read-modify-write instruction: the modified byte at the
effective address, every other byte as before. -/
theorem rmw_read (m : Mnemonic) (s : Cpu) (a : Nat) (hm : m ∈ rmwMnemonics)
    (hmode : modeOf s._opc ∈ memoryModes) :
    (runPrefetchedOp_switch m s).mem (a % 65536) % 256 =
      if a % 65536 = effectiveAddr s (modeOf s._opc)
      then rmwValue m (memGet s (effectiveAddr s (modeOf s._opc))) (carryOf s)
      else memGet s a := by
  simp only [rmwMnemonics, List.mem_cons, List.mem_singleton, List.not_mem_nil, or_false] at hm
  generalize hmd : modeOf s._opc = mode at hmode ⊢
  rcases hm with rfl | rfl | rfl | rfl | rfl | rfl | rfl | rfl | rfl | rfl | rfl | rfl <;>
    simp only [runPrefetchedOp_switch, SETFLAGS_writes, SETFLAGS_pc, SETFLAGS_x, SETFLAGS_y,
      SETFLAGS_mem, hmd]
  all_goals
    refine (consumed_read s _ mode
      ([] ++ [(effectiveAddr s mode, memGet s (effectiveAddr s mode))]) _ a hmode ?_).trans ?_
  all_goals
    first
    | done
    | repeat first
        | exact getInput_consumed s mode hmode
        | exact getInput_val_mod s mode hmode
        | exact getInput_val_mod2 s mode hmode
        | refine consumed_write_orig _ _ _ _ _ hmode ?_ ?_
        | apply consumed_mk
        | refine consumed_SETFLAGS _ _ _ _ _ _ ?_
  all_goals
    obtain ⟨a1, a2, a3, a4, a5, a6⟩ :=
      rmw_arith (memGet s (effectiveAddr s mode)) (memGet_lt _ _) (carryOf s) (carryOf_lt s)
    simp only [setOutput_bval, SETFLAGS_bval, setOutput_p, getInput_p, getInput_val s mode hmode,
      carryOf_if, rmwValue, a1, a2, a3, a4, a5, a6]

/-- The three flags set one after the other in the order C, N, Z. -/
theorem flags_CNZ : ∀ p, p < 256 → ∀ c n z : Bool,
    (setFlag (setFlag (setFlag p FLAG_C c) FLAG_N n) FLAG_Z z &&& FLAG_C ≠ 0 ↔ c = true) ∧
    (setFlag (setFlag (setFlag p FLAG_C c) FLAG_N n) FLAG_Z z &&& FLAG_N ≠ 0 ↔ n = true) ∧
    (setFlag (setFlag (setFlag p FLAG_C c) FLAG_N n) FLAG_Z z &&& FLAG_Z ≠ 0 ↔ z = true) ∧
    setFlag (setFlag (setFlag p FLAG_C c) FLAG_N n) FLAG_Z z &&& 0x7C = p &&& 0x7C ∧
    setFlag (setFlag (setFlag p FLAG_C c) FLAG_N n) FLAG_Z z < 256 := by
  decide

theorem shift_arith_asl : ∀ v, v < 256 →
    (truthy (v <<< 1 % 65536 &&& 256) = true ↔ 128 ≤ v) ∧
    (truthy (v <<< 1 % 65536 &&& 128) = true ↔ 2 * v % 256 &&& 0x80 ≠ 0) ∧
    (falsy (v <<< 1 % 65536 &&& 255) = true ↔ 2 * v % 256 = 0) := by
  decide

theorem shift_arith_lsr : ∀ v, v < 256 →
    (truthy (v &&& 1) = true ↔ v % 2 = 1) ∧
    (truthy (v >>> 1 &&& 128) = true ↔ v / 2 &&& 0x80 ≠ 0) ∧
    (falsy (v >>> 1) = true ↔ v / 2 = 0) := by
  decide

theorem shift_arith_rol : ∀ v, v < 256 → ∀ c, c < 2 →
    (truthy (v &&& 128) = true ↔ 128 ≤ v) ∧
    (truthy ((v <<< 1 % 256 ||| c) &&& 128) = true ↔ (2 * v % 256 + c) &&& 0x80 ≠ 0) ∧
    (falsy (v <<< 1 % 256 ||| c) = true ↔ 2 * v % 256 + c = 0) := by
  decide

theorem shift_arith_ror : ∀ v, v < 256 → ∀ c, c < 2 →
    (truthy ((v >>> 1 ||| 128 * c) &&& 128) = true ↔ (v / 2 + 128 * c) &&& 0x80 ≠ 0) ∧
    (falsy (v >>> 1 ||| 128 * c) = true ↔ v / 2 + 128 * c = 0) := by
  decide

theorem shift_acc_arith : ∀ v, v < 256 → ∀ c, c < 2 →
    v <<< 1 % 65536 % 256 % 256 = shiftResult Mnemonic.asl v c ∧
    v >>> 1 % 256 % 256 = shiftResult Mnemonic.lsr v c ∧
    (v <<< 1 % 256 ||| c) % 256 = shiftResult Mnemonic.rol v c ∧
    (v >>> 1 ||| 128 * c) % 256 = shiftResult Mnemonic.ror v c := by
  decide

theorem shift_value : ∀ v, v < 256 → ∀ c, c < 2 →
    rmwValue Mnemonic.asl v c = shiftResult Mnemonic.asl v c ∧
    rmwValue Mnemonic.lsr v c = shiftResult Mnemonic.lsr v c ∧
    rmwValue Mnemonic.rol v c = shiftResult Mnemonic.rol v c ∧
    rmwValue Mnemonic.ror v c = shiftResult Mnemonic.ror v c := by
  decide

/-- The flags left by the four shift and rotate cases of the switch, in any
addressing mode. -/
theorem shift_flags (m : Mnemonic) (s : Cpu) (hm : m ∈ shiftMnemonics) (hp : s._p < 256)
    (hv : (getInput s (modeOf s._opc)).1 < 256) :
    ((runPrefetchedOp_switch m s)._p &&& FLAG_C ≠ 0 ↔
      shiftCarry m (getInput s (modeOf s._opc)).1 = true) ∧
    ((runPrefetchedOp_switch m s)._p &&& FLAG_N ≠ 0 ↔
      shiftResult m (getInput s (modeOf s._opc)).1 (carryOf s) &&& 0x80 ≠ 0) ∧
    ((runPrefetchedOp_switch m s)._p &&& FLAG_Z ≠ 0 ↔
      shiftResult m (getInput s (modeOf s._opc)).1 (carryOf s) = 0) ∧
    (runPrefetchedOp_switch m s)._p &&& 0x7C = s._p &&& 0x7C ∧
    (runPrefetchedOp_switch m s)._p < 256 := by
  obtain ⟨a1, a2, a3⟩ := shift_arith_asl _ hv
  obtain ⟨b1, b2, b3⟩ := shift_arith_lsr _ hv
  obtain ⟨c1, c2, c3⟩ := shift_arith_rol _ hv (carryOf s) (carryOf_lt s)
  obtain ⟨d2, d3⟩ := shift_arith_ror _ hv (carryOf s) (carryOf_lt s)
  simp only [shiftMnemonics, List.mem_cons, List.mem_singleton, List.not_mem_nil,
    or_false] at hm
  rcases hm with rfl | rfl | rfl | rfl <;>
    simp only [runPrefetchedOp_switch, SETFLAGS_p, setOutput_p, setOutput_bval, SETFLAGS_bval,
      getInput_p, getInput_bval, carryOf_if, shiftCarry, shiftResult, decide_eq_true_eq]
  · obtain ⟨f1, f2, f3, f4, f5⟩ := flags_ZNC s._p hp
      (falsy ((getInput s (modeOf s._opc)).1 <<< 1 % 65536 &&& 255))
      (truthy ((getInput s (modeOf s._opc)).1 <<< 1 % 65536 &&& 128))
      (truthy ((getInput s (modeOf s._opc)).1 <<< 1 % 65536 &&& 256))
    exact ⟨f3.trans a1, f2.trans a2, f1.trans a3, f4, f5⟩
  · obtain ⟨f1, f2, f3, f4, f5⟩ := flags_ZNC s._p hp
      (falsy ((getInput s (modeOf s._opc)).1 >>> 1))
      (truthy ((getInput s (modeOf s._opc)).1 >>> 1 &&& 128))
      (truthy ((getInput s (modeOf s._opc)).1 &&& 1))
    exact ⟨f3.trans b1, f2.trans b2, f1.trans b3, f4, f5⟩
  · obtain ⟨f1, f2, f3, f4, f5⟩ := flags_CNZ s._p hp
      (truthy ((getInput s (modeOf s._opc)).1 &&& 128))
      (truthy (((getInput s (modeOf s._opc)).1 <<< 1 % 256 ||| carryOf s) &&& 128))
      (falsy ((getInput s (modeOf s._opc)).1 <<< 1 % 256 ||| carryOf s))
    exact ⟨f1.trans c1, f2.trans c2, f3.trans c3, f4, f5⟩
  · obtain ⟨f1, f2, f3, f4, f5⟩ := flags_CNZ s._p hp
      (truthy ((getInput s (modeOf s._opc)).1 &&& 1))
      (truthy (((getInput s (modeOf s._opc)).1 >>> 1 ||| 128 * carryOf s) &&& 128))
      (falsy ((getInput s (modeOf s._opc)).1 >>> 1 ||| 128 * carryOf s))
    exact ⟨f1.trans b1, f2.trans d2, f3.trans d3, f4, f5⟩

/-- The registers other than `A` and `P` after a shift or rotate. -/
theorem shift_regs (m : Mnemonic) (s : Cpu) (hm : m ∈ shiftMnemonics) :
    (runPrefetchedOp_switch m s)._x = s._x ∧ (runPrefetchedOp_switch m s)._y = s._y ∧
    (runPrefetchedOp_switch m s)._s = s._s := by
  simp only [shiftMnemonics, List.mem_cons, List.mem_singleton, List.not_mem_nil,
    or_false] at hm
  rcases hm with rfl | rfl | rfl | rfl <;>
    simp only [runPrefetchedOp_switch, SETFLAGS_x, SETFLAGS_y, SETFLAGS_s, setOutput_x,
      setOutput_y, setOutput_s, getInput_x, getInput_y, getInput_s, and_self]

/-- A shift or rotate of the accumulator. -/
theorem shift_acc (m : Mnemonic) (s : Cpu) (hm : m ∈ shiftMnemonics)
    (hmode : modeOf s._opc = Mode.acc) (ha : s._a < 256) :
    (runPrefetchedOp_switch m s)._a = shiftResult m s._a (carryOf s) ∧
    (runPrefetchedOp_switch m s).mem = s.mem ∧
    (runPrefetchedOp_switch m s).writes = s.writes := by
  obtain ⟨a1, a2, a3, a4⟩ := shift_acc_arith s._a ha (carryOf s) (carryOf_lt s)
  simp only [shiftMnemonics, List.mem_cons, List.mem_singleton, List.not_mem_nil,
    or_false] at hm
  rcases hm with rfl | rfl | rfl | rfl <;>
    simp only [runPrefetchedOp_switch, hmode, getInput, setOutput, SETFLAGS_a, SETFLAGS_mem,
      SETFLAGS_writes, SETFLAGS_p, SETFLAGS_bval, carryOf_if, a1, a2, a3, a4, and_self]

/-- A shift or rotate of a memory operand leaves the accumulator alone. -/
theorem shift_a_mem (m : Mnemonic) (s : Cpu) (hm : m ∈ shiftMnemonics)
    (hmode : modeOf s._opc ∈ memoryModes) :
    (runPrefetchedOp_switch m s)._a = s._a := by
  have ha := fun t v => setOutput_a_mem t (modeOf s._opc) v hmode
  simp only [shiftMnemonics, List.mem_cons, List.mem_singleton, List.not_mem_nil,
    or_false] at hm
  rcases hm with rfl | rfl | rfl | rfl <;>
    simp only [runPrefetchedOp_switch, SETFLAGS_a, ha, getInput_a]

theorem shift_sub (m : Mnemonic) (hm : m ∈ shiftMnemonics) : m ∈ rmwMnemonics := by
  simp only [shiftMnemonics, List.mem_cons, List.mem_singleton, List.not_mem_nil,
    or_false] at hm
  rcases hm with rfl | rfl | rfl | rfl <;> decide

theorem shift_value_eq (m : Mnemonic) (hm : m ∈ shiftMnemonics) (v c : Nat) (hv : v < 256)
    (hc : c < 2) : rmwValue m v c = shiftResult m v c := by
  obtain ⟨v1, v2, v3, v4⟩ := shift_value v hv c hc
  simp only [shiftMnemonics, List.mem_cons, List.mem_singleton, List.not_mem_nil,
    or_false] at hm
  rcases hm with rfl | rfl | rfl | rfl <;> assumption

theorem rol_ror_arith (a c : Nat) (ha : a < 256) (hc : c < 2) :
    (2 * a % 256 + c) / 2 + 128 * (if 128 ≤ a then 1 else 0) = a ∧
    ((2 * a % 256 + c) % 2 = 1 ↔ c ≠ 0) ∧ 2 * a % 256 + c < 256 := by
  split <;> omega

/-- ROL of the accumulator followed by ROR of the accumulator. -/
theorem rol_ror (s u : Cpu) (hs : mnemonicOf (u8 s._exe_instr_opcode) = Mnemonic.rol)
    (hsm : modeOf (u8 s._exe_instr_opcode) = Mode.acc)
    (hu : mnemonicOf (u8 u._exe_instr_opcode) = Mnemonic.ror)
    (hum : modeOf (u8 u._exe_instr_opcode) = Mode.acc)
    (ha : s._a < 256) (hp : s._p < 256)
    (hua : u._a = (runPrefetchedOp s)._a) (hup : u._p = (runPrefetchedOp s)._p) :
    (runPrefetchedOp u)._a = s._a ∧
    ((runPrefetchedOp u)._p &&& FLAG_C ≠ 0 ↔ s._p &&& FLAG_C ≠ 0) := by
  have i1 : Mnemonic.rol ∈ shiftMnemonics := by decide
  have i2 : Mnemonic.ror ∈ shiftMnemonics := by decide
  obtain ⟨k1, k2, k3⟩ := rol_ror_arith s._a (carryOf s) ha (carryOf_lt s)
  -- the ROL
  have e1 : (runPrefetchedOp s)._a = 2 * s._a % 256 + carryOf s := by
    rw [runPrefetchedOp_eq, hs]
    exact (shift_acc Mnemonic.rol { incPC s with _opc := u8 s._exe_instr_opcode } i1 hsm ha).1
  have hv1 : (getInput { incPC s with _opc := u8 s._exe_instr_opcode }
      (modeOf (u8 s._exe_instr_opcode))).1 = s._a := by
    rw [hsm]; rfl
  have f1 := shift_flags Mnemonic.rol { incPC s with _opc := u8 s._exe_instr_opcode } i1 hp
    (by rw [hv1]; exact ha)
  rw [← hs, ← runPrefetchedOp_eq, hs, hv1] at f1
  obtain ⟨c1, _, _, _, c5⟩ := f1
  simp only [shiftCarry, decide_eq_true_eq] at c1
  -- the ROR
  have hua2 : u._a < 256 := by rw [hua, e1]; exact k3
  have hv2 : (getInput { incPC u with _opc := u8 u._exe_instr_opcode }
      (modeOf (u8 u._exe_instr_opcode))).1 = u._a := by
    rw [hum]; rfl
  have e2 : (runPrefetchedOp u)._a = u._a / 2 + 128 * carryOf u := by
    rw [runPrefetchedOp_eq, hu]
    exact (shift_acc Mnemonic.ror { incPC u with _opc := u8 u._exe_instr_opcode } i2 hum
      hua2).1
  have f2 := shift_flags Mnemonic.ror { incPC u with _opc := u8 u._exe_instr_opcode } i2
    (by show u._p < 256; rw [hup]; exact c5) (by rw [hv2]; exact hua2)
  rw [← hu, ← runPrefetchedOp_eq, hu, hv2] at f2
  obtain ⟨d1, _⟩ := f2
  simp only [shiftCarry, decide_eq_true_eq] at d1
  have hcu : carryOf u = if 128 ≤ s._a then 1 else 0 := by
    unfold carryOf
    rw [hup]
    by_cases h128 : 128 ≤ s._a
    · rw [if_pos (c1.mpr h128), if_pos h128]
    · rw [if_neg (fun h => h128 (c1.mp h)), if_neg h128]
  have hcs : carryOf s ≠ 0 ↔ s._p &&& FLAG_C ≠ 0 := by
    unfold carryOf
    split <;> simp_all
  refine ⟨?_, ?_⟩
  · rw [e2, hcu, hua, e1]; exact k1
  · rw [d1, ← hcs, hua, e1]; exact k2

/-- C28: ASL, LSR, ROL and ROR, on the accumulator or on memory, for every
operand `v` and old carry `c`: the result is `2v mod 256`, `v div 2`, `2v mod
256 + c`, `v div 2 + 128 c` respectively; C is bit 7 of `v` (ASL, ROL) or bit 0
of `v` (LSR, ROR); N is bit 7 of the result and Z says the result is 0; the
other flags, `X`, `Y` and `S` are unchanged; the result is in `A` in
accumulator mode and at the effective address otherwise; and ROL of the
accumulator followed by ROR of the accumulator restores `A` and C. -/
theorem C28_shift_rotate (s : Cpu)
    (hm : mnemonicOf (u8 s._exe_instr_opcode) ∈ shiftMnemonics)
    (ha : s._a < 256) (hp : s._p < 256) :
    ((runPrefetchedOp s)._p &&& FLAG_C ≠ 0 ↔
      shiftCarry (mnemonicOf (u8 s._exe_instr_opcode)) (operandOf s) = true) ∧
    ((runPrefetchedOp s)._p &&& FLAG_N ≠ 0 ↔
      shiftResult (mnemonicOf (u8 s._exe_instr_opcode)) (operandOf s) (carryOf s)
        &&& 0x80 ≠ 0) ∧
    ((runPrefetchedOp s)._p &&& FLAG_Z ≠ 0 ↔
      shiftResult (mnemonicOf (u8 s._exe_instr_opcode)) (operandOf s) (carryOf s) = 0) ∧
    (runPrefetchedOp s)._p &&& (FLAG_V ||| FLAG_D ||| FLAG_I ||| FLAG_B0 ||| FLAG_B1) =
      s._p &&& (FLAG_V ||| FLAG_D ||| FLAG_I ||| FLAG_B0 ||| FLAG_B1) ∧
    (runPrefetchedOp s)._x = s._x ∧ (runPrefetchedOp s)._y = s._y ∧
    (runPrefetchedOp s)._s = s._s ∧
    (modeOf (u8 s._exe_instr_opcode) = Mode.acc →
      operandOf s = s._a ∧
      (runPrefetchedOp s)._a =
        shiftResult (mnemonicOf (u8 s._exe_instr_opcode)) (operandOf s) (carryOf s) ∧
      (runPrefetchedOp s).mem = s.mem ∧ (runPrefetchedOp s).writes = s.writes) ∧
    (modeOf (u8 s._exe_instr_opcode) ∈ memoryModes →
      operandOf s = memGet s (effectiveAddr (incPC s) (modeOf (u8 s._exe_instr_opcode))) ∧
      memGet (runPrefetchedOp s) (effectiveAddr (incPC s) (modeOf (u8 s._exe_instr_opcode))) =
        shiftResult (mnemonicOf (u8 s._exe_instr_opcode)) (operandOf s) (carryOf s) ∧
      (∀ a, a % 65536 ≠ effectiveAddr (incPC s) (modeOf (u8 s._exe_instr_opcode)) →
        memGet (runPrefetchedOp s) a = memGet s a) ∧
      (runPrefetchedOp s)._a = s._a) ∧
    (mnemonicOf (u8 s._exe_instr_opcode) = Mnemonic.rol →
      modeOf (u8 s._exe_instr_opcode) = Mode.acc →
      ∀ u : Cpu, mnemonicOf (u8 u._exe_instr_opcode) = Mnemonic.ror →
        modeOf (u8 u._exe_instr_opcode) = Mode.acc →
        u._a = (runPrefetchedOp s)._a → u._p = (runPrefetchedOp s)._p →
        (runPrefetchedOp u)._a = s._a ∧
        ((runPrefetchedOp u)._p &&& FLAG_C ≠ 0 ↔ s._p &&& FLAG_C ≠ 0)) := by
  have hv : (getInput { incPC s with _opc := u8 s._exe_instr_opcode }
      (modeOf (u8 s._exe_instr_opcode))).1 < 256 := by
    rw [operandOf_eq]; exact operandOf_lt s ha
  obtain ⟨f1, f2, f3, f4, _⟩ := shift_flags (mnemonicOf (u8 s._exe_instr_opcode))
    { incPC s with _opc := u8 s._exe_instr_opcode } hm hp hv
  obtain ⟨g1, g2, g3⟩ := shift_regs (mnemonicOf (u8 s._exe_instr_opcode))
    { incPC s with _opc := u8 s._exe_instr_opcode } hm
  rw [← runPrefetchedOp_eq] at f1 f2 f3 f4 g1 g2 g3
  rw [operandOf_eq] at f1 f2 f3
  refine ⟨f1, f2, f3, f4, g1, g2, g3, ?_, ?_, ?_⟩
  · intro hacc
    have e : operandOf s = s._a := by
      unfold operandOf
      rw [hacc]; rfl
    obtain ⟨a1, a2, a3⟩ := shift_acc (mnemonicOf (u8 s._exe_instr_opcode))
      { incPC s with _opc := u8 s._exe_instr_opcode } hm hacc ha
    rw [← runPrefetchedOp_eq] at a1 a2 a3
    rw [e]
    exact ⟨rfl, a1, a2, a3⟩
  · intro hmem
    have e : operandOf s
        = memGet s (effectiveAddr (incPC s) (modeOf (u8 s._exe_instr_opcode))) :=
      getInput_val (incPC s) _ hmem
    have hr := fun a => rmw_read (mnemonicOf (u8 s._exe_instr_opcode))
      { incPC s with _opc := u8 s._exe_instr_opcode } a (shift_sub _ hm) hmem
    have hr2 : ∀ a, memGet (runPrefetchedOp s) a =
        if a % 65536 = effectiveAddr (incPC s) (modeOf (u8 s._exe_instr_opcode))
        then rmwValue (mnemonicOf (u8 s._exe_instr_opcode))
          (memGet s (effectiveAddr (incPC s) (modeOf (u8 s._exe_instr_opcode)))) (carryOf s)
        else memGet s a := hr
    refine ⟨e, ?_, ?_, ?_⟩
    · rw [hr2, if_pos (Nat.mod_eq_of_lt (effectiveAddr_lt _ _ hmem)), ← e]
      exact shift_value_eq _ hm _ _ (operandOf_lt s ha) (carryOf_lt s)
    · intro a hne
      rw [hr2, if_neg hne]
    · have a1 := shift_a_mem (mnemonicOf (u8 s._exe_instr_opcode))
        { incPC s with _opc := u8 s._exe_instr_opcode } hm hmem
      rw [← runPrefetchedOp_eq] at a1
      exact a1
  · intro hrol hacc u hu hum hua hup
    exact rol_ror s u hrol hacc hu hum ha hp hua hup

/-- Witness of C28: `ROL A` with `A = $81` and the carry set gives `A = $03`
with the carry set, and `ROR A` after it restores `A = $81` and the carry. -/
theorem C28_shift_rotate_witness :
    ((runPrefetchedOp { runPrefetchedOp scenRolA with _exe_instr_opcode := 0x6A })._a = 0x81 ∧
      ((runPrefetchedOp { runPrefetchedOp scenRolA with _exe_instr_opcode := 0x6A })._p
        &&& FLAG_C ≠ 0 ↔ (0x01 : Nat) &&& FLAG_C ≠ 0)) ∧
    (runPrefetchedOp scenRolA)._a = 0x03 ∧ (runPrefetchedOp scenRolA)._p = 0x01 :=
  ⟨(C28_shift_rotate scenRolA (by decide) (by decide) (by decide)).2.2.2.2.2.2.2.2.2
      (by decide) (by decide)
      { runPrefetchedOp scenRolA with _exe_instr_opcode := 0x6A } (by decide) (by decide)
      rfl rfl, by decide, by decide⟩

/-! ## Combined illegal instructions -/

theorem setFlag_lt (p f : Nat) (c : Bool) : setFlag p f c < 256 := by
  unfold setFlag SETFLAGS
  split <;> exact Nat.mod_lt _ (by norm_num)

/-- Setting C, Z and N commutes, and setting a flag twice keeps the second
setting only. -/
theorem setFlag_swap : ∀ p, p < 256 → ∀ a b : Bool,
    setFlag (setFlag p FLAG_Z a) FLAG_C b = setFlag (setFlag p FLAG_C b) FLAG_Z a ∧
    setFlag (setFlag p FLAG_N a) FLAG_C b = setFlag (setFlag p FLAG_C b) FLAG_N a ∧
    setFlag (setFlag p FLAG_N a) FLAG_Z b = setFlag (setFlag p FLAG_Z b) FLAG_N a ∧
    setFlag (setFlag p FLAG_C a) FLAG_C b = setFlag p FLAG_C b ∧
    setFlag (setFlag p FLAG_Z a) FLAG_Z b = setFlag p FLAG_Z b ∧
    setFlag (setFlag p FLAG_N a) FLAG_N b = setFlag p FLAG_N b ∧
    setFlag (setFlag p FLAG_N a) FLAG_Z b &&& FLAG_C = p &&& FLAG_C := by
  decide

theorem swap_ZC (p : Nat) (a b : Bool) (hp : p < 256) :
    setFlag (setFlag p FLAG_Z a) FLAG_C b = setFlag (setFlag p FLAG_C b) FLAG_Z a :=
  (setFlag_swap p hp a b).1

theorem swap_NC (p : Nat) (a b : Bool) (hp : p < 256) :
    setFlag (setFlag p FLAG_N a) FLAG_C b = setFlag (setFlag p FLAG_C b) FLAG_N a :=
  (setFlag_swap p hp a b).2.1

theorem swap_NZ (p : Nat) (a b : Bool) (hp : p < 256) :
    setFlag (setFlag p FLAG_N a) FLAG_Z b = setFlag (setFlag p FLAG_Z b) FLAG_N a :=
  (setFlag_swap p hp a b).2.2.1

theorem idem_C (p : Nat) (a b : Bool) (hp : p < 256) :
    setFlag (setFlag p FLAG_C a) FLAG_C b = setFlag p FLAG_C b :=
  (setFlag_swap p hp a b).2.2.2.1

theorem idem_Z (p : Nat) (a b : Bool) (hp : p < 256) :
    setFlag (setFlag p FLAG_Z a) FLAG_Z b = setFlag p FLAG_Z b :=
  (setFlag_swap p hp a b).2.2.2.2.1

theorem idem_N (p : Nat) (a b : Bool) (hp : p < 256) :
    setFlag (setFlag p FLAG_N a) FLAG_N b = setFlag p FLAG_N b :=
  (setFlag_swap p hp a b).2.2.2.2.2.1

theorem keep_C (p : Nat) (a b : Bool) (hp : p < 256) :
    setFlag (setFlag p FLAG_N a) FLAG_Z b &&& FLAG_C = p &&& FLAG_C :=
  (setFlag_swap p hp a b).2.2.2.2.2.2

/-- After Z and N have been set, setting Z, N and C gives the same status as
setting Z, N and C alone. -/
theorem absorb_ZN_ZNC (p : Nat) (hp : p < 256) (z1 n1 z n c : Bool) :
    setFlag (setFlag (setFlag (setFlag (setFlag p FLAG_Z z1) FLAG_N n1) FLAG_Z z) FLAG_N n)
        FLAG_C c
      = setFlag (setFlag (setFlag p FLAG_Z z) FLAG_N n) FLAG_C c := by
  rw [swap_NZ _ n1 z (setFlag_lt _ _ _), idem_Z _ z1 z hp, idem_N _ n1 n (setFlag_lt _ _ _)]

/-- Z and N set by a shift are overwritten by the Z and N of the logic
operation that follows; C stays. -/
theorem absorb_ZNC_ZN (p : Nat) (hp : p < 256) (z1 n1 c z n : Bool) :
    setFlag (setFlag (setFlag (setFlag (setFlag p FLAG_Z z1) FLAG_N n1) FLAG_C c) FLAG_Z z)
        FLAG_N n
      = setFlag (setFlag (setFlag p FLAG_C c) FLAG_Z z) FLAG_N n := by
  rw [swap_NC _ n1 c (setFlag_lt _ _ _), swap_ZC _ z1 c hp,
    swap_NZ _ n1 z (setFlag_lt _ _ _), idem_Z _ z1 z (setFlag_lt _ _ _),
    idem_N _ n1 n (setFlag_lt _ _ _)]

/-- N and Z set by a rotate are overwritten by the Z and N of the logic
operation that follows; C stays. -/
theorem absorb_CNZ_ZN (p : Nat) (hp : p < 256) (c n1 z1 z n : Bool) :
    setFlag (setFlag (setFlag (setFlag (setFlag p FLAG_C c) FLAG_N n1) FLAG_Z z1) FLAG_Z z)
        FLAG_N n
      = setFlag (setFlag (setFlag p FLAG_C c) FLAG_Z z) FLAG_N n := by
  rw [idem_Z _ z1 z (setFlag_lt _ _ _), swap_NZ _ n1 z (setFlag_lt _ _ _),
    idem_N _ n1 n (setFlag_lt _ _ _)]

/-- The shared addition does not see the N and Z flags it is given. -/
theorem addCore_absorb (a m p : Nat) (hp : p < 256) (n1 z1 : Bool) :
    addCore a m (setFlag (setFlag p FLAG_N n1) FLAG_Z z1) = addCore a m p := by
  unfold addCore
  simp only [keep_C p n1 z1 hp]
  rw [swap_ZC _ z1 _ (setFlag_lt _ _ _), swap_NC _ n1 _ hp,
    idem_Z _ z1 _ (setFlag_lt _ _ _), swap_NZ _ n1 _ (setFlag_lt _ _ _),
    idem_N _ n1 _ (setFlag_lt _ _ _)]

theorem combo_values : ∀ v, v < 256 →
    (v <<< 1 % 65536) &&& 255 = v <<< 1 % 256 ∧ (v >>> 1) &&& 255 = v >>> 1 := by
  decide

theorem carryOf_congr (s t : Cpu) (h : t._p = s._p) : carryOf t = carryOf s := by
  unfold carryOf; rw [h]

/-- The case `dcp` against the cases `dec` and `cmp`: accumulator and status. -/
theorem pair_dcp (S S1 U : Cpu) (hm : modeOf S._opc ∈ memoryModes)
    (hm1 : modeOf S1._opc ∈ memoryModes) (hpS : S._p < 256)
    (hvS : (getInput S (modeOf S._opc)).1 < 256)
    (ha : S1._a = S._a) (hp : S1._p = S._p)
    (hv : (getInput S1 (modeOf S1._opc)).1 = (getInput S (modeOf S._opc)).1)
    (hua : U._a = (runPrefetchedOp_switch Mnemonic.dec S1)._a)
    (hup : U._p = (runPrefetchedOp_switch Mnemonic.dec S1)._p)
    (huv : (getInput U (modeOf U._opc)).1 =
      rmwValue Mnemonic.dec (getInput S1 (modeOf S1._opc)).1 (carryOf S1)) :
    (runPrefetchedOp_switch Mnemonic.dcp S)._a = (runPrefetchedOp_switch Mnemonic.cmp U)._a ∧
    (runPrefetchedOp_switch Mnemonic.dcp S)._p
      = (runPrefetchedOp_switch Mnemonic.cmp U)._p := by
  have k := fun t v => setOutput_a_mem t (modeOf S._opc) v hm
  have k1 := fun t v => setOutput_a_mem t (modeOf S1._opc) v hm1
  obtain ⟨v1, v2⟩ := combo_values _ hvS
  simp only [runPrefetchedOp_switch, SETFLAGS_p, SETFLAGS_a, SETFLAGS_bval, setOutput_p,
    setOutput_bval, getInput_p, getInput_a, getInput_bval, k, k1, rmwValue, carryOf_if]
    at hua hup huv ⊢
  rw [hua, hup, huv, ha, hp, hv]
  try rw [carryOf_congr S S1 hp]
  exact ⟨rfl, (absorb_ZN_ZNC _ hpS _ _ _ _ _).symm⟩

/-- The case `slo` against the cases `asl` and `ora`: accumulator and status. -/
theorem pair_slo (S S1 U : Cpu) (hm : modeOf S._opc ∈ memoryModes)
    (hm1 : modeOf S1._opc ∈ memoryModes) (hpS : S._p < 256)
    (hvS : (getInput S (modeOf S._opc)).1 < 256)
    (ha : S1._a = S._a) (hp : S1._p = S._p)
    (hv : (getInput S1 (modeOf S1._opc)).1 = (getInput S (modeOf S._opc)).1)
    (hua : U._a = (runPrefetchedOp_switch Mnemonic.asl S1)._a)
    (hup : U._p = (runPrefetchedOp_switch Mnemonic.asl S1)._p)
    (huv : (getInput U (modeOf U._opc)).1 =
      rmwValue Mnemonic.asl (getInput S1 (modeOf S1._opc)).1 (carryOf S1)) :
    (runPrefetchedOp_switch Mnemonic.slo S)._a = (runPrefetchedOp_switch Mnemonic.ora U)._a ∧
    (runPrefetchedOp_switch Mnemonic.slo S)._p
      = (runPrefetchedOp_switch Mnemonic.ora U)._p := by
  have k := fun t v => setOutput_a_mem t (modeOf S._opc) v hm
  have k1 := fun t v => setOutput_a_mem t (modeOf S1._opc) v hm1
  obtain ⟨v1, v2⟩ := combo_values _ hvS
  simp only [runPrefetchedOp_switch, SETFLAGS_p, SETFLAGS_a, SETFLAGS_bval, setOutput_p,
    setOutput_bval, getInput_p, getInput_a, getInput_bval, k, k1, rmwValue, carryOf_if]
    at hua hup huv ⊢
  rw [hua, hup, huv, ha, hp, hv]
  try rw [carryOf_congr S S1 hp]
  rw [v1]
  exact ⟨rfl, (absorb_ZNC_ZN _ hpS _ _ _ _ _).symm⟩

/-- The case `sre` against the cases `lsr` and `eor`: accumulator and status. -/
theorem pair_sre (S S1 U : Cpu) (hm : modeOf S._opc ∈ memoryModes)
    (hm1 : modeOf S1._opc ∈ memoryModes) (hpS : S._p < 256)
    (hvS : (getInput S (modeOf S._opc)).1 < 256)
    (ha : S1._a = S._a) (hp : S1._p = S._p)
    (hv : (getInput S1 (modeOf S1._opc)).1 = (getInput S (modeOf S._opc)).1)
    (hua : U._a = (runPrefetchedOp_switch Mnemonic.lsr S1)._a)
    (hup : U._p = (runPrefetchedOp_switch Mnemonic.lsr S1)._p)
    (huv : (getInput U (modeOf U._opc)).1 =
      rmwValue Mnemonic.lsr (getInput S1 (modeOf S1._opc)).1 (carryOf S1)) :
    (runPrefetchedOp_switch Mnemonic.sre S)._a = (runPrefetchedOp_switch Mnemonic.eor U)._a ∧
    (runPrefetchedOp_switch Mnemonic.sre S)._p
      = (runPrefetchedOp_switch Mnemonic.eor U)._p := by
  have k := fun t v => setOutput_a_mem t (modeOf S._opc) v hm
  have k1 := fun t v => setOutput_a_mem t (modeOf S1._opc) v hm1
  obtain ⟨v1, v2⟩ := combo_values _ hvS
  simp only [runPrefetchedOp_switch, SETFLAGS_p, SETFLAGS_a, SETFLAGS_bval, setOutput_p,
    setOutput_bval, getInput_p, getInput_a, getInput_bval, k, k1, rmwValue, carryOf_if]
    at hua hup huv ⊢
  rw [hua, hup, huv, ha, hp, hv]
  try rw [carryOf_congr S S1 hp]
  rw [v2]
  exact ⟨rfl, rfl⟩

/-- The case `rla` against the cases `rol` and `and`: accumulator and status. -/
theorem pair_rla (S S1 U : Cpu) (hm : modeOf S._opc ∈ memoryModes)
    (hm1 : modeOf S1._opc ∈ memoryModes) (hpS : S._p < 256)
    (hvS : (getInput S (modeOf S._opc)).1 < 256)
    (ha : S1._a = S._a) (hp : S1._p = S._p)
    (hv : (getInput S1 (modeOf S1._opc)).1 = (getInput S (modeOf S._opc)).1)
    (hua : U._a = (runPrefetchedOp_switch Mnemonic.rol S1)._a)
    (hup : U._p = (runPrefetchedOp_switch Mnemonic.rol S1)._p)
    (huv : (getInput U (modeOf U._opc)).1 =
      rmwValue Mnemonic.rol (getInput S1 (modeOf S1._opc)).1 (carryOf S1)) :
    (runPrefetchedOp_switch Mnemonic.rla S)._a = (runPrefetchedOp_switch Mnemonic.and U)._a ∧
    (runPrefetchedOp_switch Mnemonic.rla S)._p
      = (runPrefetchedOp_switch Mnemonic.and U)._p := by
  have k := fun t v => setOutput_a_mem t (modeOf S._opc) v hm
  have k1 := fun t v => setOutput_a_mem t (modeOf S1._opc) v hm1
  obtain ⟨v1, v2⟩ := combo_values _ hvS
  simp only [runPrefetchedOp_switch, SETFLAGS_p, SETFLAGS_a, SETFLAGS_bval, setOutput_p,
    setOutput_bval, getInput_p, getInput_a, getInput_bval, k, k1, rmwValue, carryOf_if]
    at hua hup huv ⊢
  rw [hua, hup, huv, ha, hp, hv]
  try rw [carryOf_congr S S1 hp]
  exact ⟨rfl, (absorb_CNZ_ZN _ hpS _ _ _ _ _).symm⟩

/-- The case `isb` against the cases `inc` and `sbc`: accumulator and status. -/
theorem pair_isb (S S1 U : Cpu) (hm : modeOf S._opc ∈ memoryModes)
    (hm1 : modeOf S1._opc ∈ memoryModes) (hpS : S._p < 256)
    (hvS : (getInput S (modeOf S._opc)).1 < 256)
    (ha : S1._a = S._a) (hp : S1._p = S._p)
    (hv : (getInput S1 (modeOf S1._opc)).1 = (getInput S (modeOf S._opc)).1)
    (hua : U._a = (runPrefetchedOp_switch Mnemonic.inc S1)._a)
    (hup : U._p = (runPrefetchedOp_switch Mnemonic.inc S1)._p)
    (huv : (getInput U (modeOf U._opc)).1 =
      rmwValue Mnemonic.inc (getInput S1 (modeOf S1._opc)).1 (carryOf S1)) :
    (runPrefetchedOp_switch Mnemonic.isb S)._a = (runPrefetchedOp_switch Mnemonic.sbc U)._a ∧
    (runPrefetchedOp_switch Mnemonic.isb S)._p
      = (runPrefetchedOp_switch Mnemonic.sbc U)._p := by
  have k := fun t v => setOutput_a_mem t (modeOf S._opc) v hm
  have k1 := fun t v => setOutput_a_mem t (modeOf S1._opc) v hm1
  obtain ⟨q1, q2, _⟩ := switch_sbc U
  rw [q1, q2, hua, hup, huv]
  simp only [runPrefetchedOp_switch, addCore, SETFLAGS_p, SETFLAGS_a, SETFLAGS_bval, setOutput_p,
    setOutput_bval, getInput_p, getInput_a, getInput_bval, k, k1, rmwValue, ha, hp, hv,
    and_self]

/-- The case `rra` against the cases `ror` and `adc`: accumulator and status. -/
theorem pair_rra (S S1 U : Cpu) (hm : modeOf S._opc ∈ memoryModes)
    (hm1 : modeOf S1._opc ∈ memoryModes) (hpS : S._p < 256)
    (hvS : (getInput S (modeOf S._opc)).1 < 256)
    (ha : S1._a = S._a) (hp : S1._p = S._p)
    (hv : (getInput S1 (modeOf S1._opc)).1 = (getInput S (modeOf S._opc)).1)
    (hua : U._a = (runPrefetchedOp_switch Mnemonic.ror S1)._a)
    (hup : U._p = (runPrefetchedOp_switch Mnemonic.ror S1)._p)
    (huv : (getInput U (modeOf U._opc)).1 =
      rmwValue Mnemonic.ror (getInput S1 (modeOf S1._opc)).1 (carryOf S1)) :
    (runPrefetchedOp_switch Mnemonic.rra S)._a = (runPrefetchedOp_switch Mnemonic.adc U)._a ∧
    (runPrefetchedOp_switch Mnemonic.rra S)._p
      = (runPrefetchedOp_switch Mnemonic.adc U)._p := by
  have k := fun t v => setOutput_a_mem t (modeOf S._opc) v hm
  have k1 := fun t v => setOutput_a_mem t (modeOf S1._opc) v hm1
  obtain ⟨q1, q2, _⟩ := switch_adc U
  have e1 : (runPrefetchedOp_switch Mnemonic.ror S1)._a = S._a := by
    simp only [runPrefetchedOp_switch, SETFLAGS_a, k1, getInput_a, ha]
  have e2 : (runPrefetchedOp_switch Mnemonic.ror S1)._p =
      setFlag (setFlag (setFlag S._p FLAG_C (truthy ((getInput S (modeOf S._opc)).1 &&& 1)))
        FLAG_N (truthy (((getInput S (modeOf S._opc)).1 >>> 1 ||| 128 * carryOf S) &&& 128)))
        FLAG_Z (falsy ((getInput S (modeOf S._opc)).1 >>> 1 ||| 128 * carryOf S)) := by
    simp only [runPrefetchedOp_switch, SETFLAGS_p, SETFLAGS_bval, setOutput_p, setOutput_bval,
      getInput_p, getInput_bval, carryOf_if, hp, hv, carryOf_congr S S1 hp]
  have e3 : rmwValue Mnemonic.ror (getInput S1 (modeOf S1._opc)).1 (carryOf S1)
      = (getInput S (modeOf S._opc)).1 >>> 1 ||| 128 * carryOf S := by
    simp only [rmwValue, hv, carryOf_congr S S1 hp]
  rw [q1, q2, hua, hup, huv, e1, e2, e3, addCore_absorb _ _ _ (setFlag_lt _ _ _)]
  simp only [runPrefetchedOp_switch, addCore, SETFLAGS_p, SETFLAGS_a, SETFLAGS_bval, setOutput_p,
    setOutput_bval, getInput_p, getInput_a, getInput_bval, k, carryOf_if, and_self]

/-- None of the mnemonics of `comboParts` touches `X`, `Y` or `S`. -/
theorem combo_xys (m : Mnemonic) (s : Cpu) (hm : m ∈ comboMnemonics) :
    (runPrefetchedOp_switch m s)._x = s._x ∧ (runPrefetchedOp_switch m s)._y = s._y ∧
    (runPrefetchedOp_switch m s)._s = s._s := by
  simp only [comboMnemonics, List.mem_cons, List.mem_singleton, List.not_mem_nil,
    or_false] at hm
  rcases hm with rfl | rfl | rfl | rfl | rfl | rfl | rfl | rfl | rfl | rfl | rfl | rfl | rfl |
      rfl | rfl | rfl | rfl | rfl <;>
    simp only [runPrefetchedOp_switch, SETFLAGS_x, SETFLAGS_y, SETFLAGS_s, setOutput_x,
      setOutput_y, setOutput_s, getInput_x, getInput_y, getInput_s, and_self]

/-- Every opcode of a combined illegal mnemonic has a memory addressing mode. -/
theorem combo_modes : ∀ op, op < 256 →
    mnemonicOf op ∈ [Mnemonic.dcp, Mnemonic.isb, Mnemonic.slo, Mnemonic.sre, Mnemonic.rla,
      Mnemonic.rra] → modeOf op ∈ memoryModes := by
  decide

theorem u8_lt (z : Int) : u8 z < 256 := by
  unfold u8
  omega

/-- The comparison of a combined instruction with its two parts, given the
comparison of accumulator and status at the level of the switch. -/
theorem combo_core (c p1 p2 : Mnemonic) (s s1 u : Cpu)
    (hc : c ∈ rmwMnemonics) (hp1 : p1 ∈ rmwMnemonics)
    (kc : c ∈ comboMnemonics) (k1 : p1 ∈ comboMnemonics) (k2 : p2 ∈ comboMnemonics)
    (hval : ∀ v k, rmwValue c v k = rmwValue p1 v k)
    (hpair : ∀ S S1 U : Cpu, modeOf S._opc ∈ memoryModes → modeOf S1._opc ∈ memoryModes →
      S._p < 256 → (getInput S (modeOf S._opc)).1 < 256 → S1._a = S._a → S1._p = S._p →
      (getInput S1 (modeOf S1._opc)).1 = (getInput S (modeOf S._opc)).1 →
      U._a = (runPrefetchedOp_switch p1 S1)._a → U._p = (runPrefetchedOp_switch p1 S1)._p →
      (getInput U (modeOf U._opc)).1 =
        rmwValue p1 (getInput S1 (modeOf S1._opc)).1 (carryOf S1) →
      (runPrefetchedOp_switch c S)._a = (runPrefetchedOp_switch p2 U)._a ∧
      (runPrefetchedOp_switch c S)._p = (runPrefetchedOp_switch p2 U)._p)
    (hs : mnemonicOf (u8 s._exe_instr_opcode) = c)
    (hsm : modeOf (u8 s._exe_instr_opcode) ∈ memoryModes)
    (h1 : mnemonicOf (u8 s1._exe_instr_opcode) = p1)
    (h1m : modeOf (u8 s1._exe_instr_opcode) ∈ memoryModes)
    (hreg1 : s1._a = s._a ∧ s1._x = s._x ∧ s1._y = s._y ∧ s1._s = s._s ∧ s1._p = s._p)
    (hv1 : operandOf s1 = operandOf s)
    (h2 : mnemonicOf (u8 u._exe_instr_opcode) = p2)
    (hreg2 : u._a = (runPrefetchedOp s1)._a ∧ u._x = (runPrefetchedOp s1)._x ∧
      u._y = (runPrefetchedOp s1)._y ∧ u._s = (runPrefetchedOp s1)._s ∧
      u._p = (runPrefetchedOp s1)._p)
    (hv2 : operandOf u =
      memGet (runPrefetchedOp s1) (effectiveAddr (incPC s1) (modeOf (u8 s1._exe_instr_opcode))))
    (hp : s._p < 256) :
    (runPrefetchedOp s)._a = (runPrefetchedOp u)._a ∧
    (runPrefetchedOp s)._x = (runPrefetchedOp u)._x ∧
    (runPrefetchedOp s)._y = (runPrefetchedOp u)._y ∧
    (runPrefetchedOp s)._s = (runPrefetchedOp u)._s ∧
    (runPrefetchedOp s)._p = (runPrefetchedOp u)._p ∧
    memGet (runPrefetchedOp s) (effectiveAddr (incPC s) (modeOf (u8 s._exe_instr_opcode))) =
      memGet (runPrefetchedOp s1)
        (effectiveAddr (incPC s1) (modeOf (u8 s1._exe_instr_opcode))) := by
  obtain ⟨ra, rx, ry, rs, rp⟩ := hreg1
  obtain ⟨ua, ux, uy, us, up⟩ := hreg2
  -- the values read and written
  have ev : operandOf s = memGet s (effectiveAddr (incPC s) (modeOf (u8 s._exe_instr_opcode))) :=
    getInput_val (incPC s) _ hsm
  have ev1 : operandOf s1
      = memGet s1 (effectiveAddr (incPC s1) (modeOf (u8 s1._exe_instr_opcode))) :=
    getInput_val (incPC s1) _ h1m
  have w : memGet (runPrefetchedOp s)
      (effectiveAddr (incPC s) (modeOf (u8 s._exe_instr_opcode)))
      = rmwValue c (operandOf s) (carryOf s) := by
    have hr := rmw_read c { incPC s with _opc := u8 s._exe_instr_opcode }
      (effectiveAddr (incPC s) (modeOf (u8 s._exe_instr_opcode))) hc hsm
    rw [← hs, ← runPrefetchedOp_eq, hs] at hr
    rw [ev]
    exact hr.trans (if_pos (Nat.mod_eq_of_lt (effectiveAddr_lt _ _ hsm)))
  have w1 : memGet (runPrefetchedOp s1)
      (effectiveAddr (incPC s1) (modeOf (u8 s1._exe_instr_opcode)))
      = rmwValue p1 (operandOf s1) (carryOf s1) := by
    have hr := rmw_read p1 { incPC s1 with _opc := u8 s1._exe_instr_opcode }
      (effectiveAddr (incPC s1) (modeOf (u8 s1._exe_instr_opcode))) hp1 h1m
    rw [← h1, ← runPrefetchedOp_eq, h1] at hr
    rw [ev1]
    exact hr.trans (if_pos (Nat.mod_eq_of_lt (effectiveAddr_lt _ _ h1m)))
  -- the registers X, Y, S
  obtain ⟨x0, y0, s0⟩ := combo_xys c { incPC s with _opc := u8 s._exe_instr_opcode } kc
  obtain ⟨x1, y1, s1'⟩ := combo_xys p1 { incPC s1 with _opc := u8 s1._exe_instr_opcode } k1
  obtain ⟨x2, y2, s2⟩ := combo_xys p2 { incPC u with _opc := u8 u._exe_instr_opcode } k2
  rw [← hs, ← runPrefetchedOp_eq] at x0 y0 s0
  rw [← h1, ← runPrefetchedOp_eq] at x1 y1 s1'
  rw [← h2, ← runPrefetchedOp_eq] at x2 y2 s2
  have x0 : (runPrefetchedOp s)._x = s._x := x0
  have y0 : (runPrefetchedOp s)._y = s._y := y0
  have s0 : (runPrefetchedOp s)._s = s._s := s0
  have x1 : (runPrefetchedOp s1)._x = s1._x := x1
  have y1 : (runPrefetchedOp s1)._y = s1._y := y1
  have s1' : (runPrefetchedOp s1)._s = s1._s := s1'
  have x2 : (runPrefetchedOp u)._x = u._x := x2
  have y2 : (runPrefetchedOp u)._y = u._y := y2
  have s2 : (runPrefetchedOp u)._s = u._s := s2
  -- accumulator and status
  have hvS : (getInput { incPC s with _opc := u8 s._exe_instr_opcode }
      (modeOf (u8 s._exe_instr_opcode))).1 < 256 := by
    rw [operandOf_eq, ev]; exact memGet_lt _ _
  have hua : u._a = (runPrefetchedOp_switch p1
      { incPC s1 with _opc := u8 s1._exe_instr_opcode })._a := by
    rw [ua, runPrefetchedOp_eq, h1]
  have hup : u._p = (runPrefetchedOp_switch p1
      { incPC s1 with _opc := u8 s1._exe_instr_opcode })._p := by
    rw [up, runPrefetchedOp_eq, h1]
  have huv : (getInput { incPC u with _opc := u8 u._exe_instr_opcode }
      (modeOf (u8 u._exe_instr_opcode))).1 =
      rmwValue p1 (getInput { incPC s1 with _opc := u8 s1._exe_instr_opcode }
        (modeOf (u8 s1._exe_instr_opcode))).1 (carryOf s1) := by
    rw [operandOf_eq, operandOf_eq, hv2, w1]
  have hv : (getInput { incPC s1 with _opc := u8 s1._exe_instr_opcode }
      (modeOf (u8 s1._exe_instr_opcode))).1 =
      (getInput { incPC s with _opc := u8 s._exe_instr_opcode }
        (modeOf (u8 s._exe_instr_opcode))).1 := by
    rw [operandOf_eq, operandOf_eq, hv1]
  obtain ⟨pa, pp⟩ := hpair { incPC s with _opc := u8 s._exe_instr_opcode }
    { incPC s1 with _opc := u8 s1._exe_instr_opcode }
    { incPC u with _opc := u8 u._exe_instr_opcode } hsm h1m hp hvS ra rp hv hua hup huv
  rw [← hs, ← runPrefetchedOp_eq, ← h2, ← runPrefetchedOp_eq] at pa pp
  refine ⟨pa, ?_, ?_, ?_, pp, ?_⟩
  · rw [x0, x2]; exact (ux.trans (x1.trans rx)).symm
  · rw [y0, y2]; exact (uy.trans (y1.trans ry)).symm
  · rw [s0, s2]; exact (us.trans (s1'.trans rs)).symm
  · rw [w, w1, hval, hv1, carryOf_congr s s1 rp]

/-- C29: for each of DCP, ISB, SLO, SRE, RLA, RRA with its parts (DEC, CMP),
(INC, SBC), (ASL, ORA), (LSR, EOR), (ROL, AND), (ROR, ADC): let `s` have the
combined opcode in flight, `s1` the first part in a memory mode with the same
`A`, `X`, `Y`, `S`, `P` and reading the same operand value, and `u` the second
part with the registers and flags the first part left and the byte the first
part wrote as its operand.  Then the combined instruction leaves the same `A`,
`X`, `Y`, `S` and `P` as the second part, and at its effective address the byte
the first part wrote. -/
theorem C29_combined_illegal (c p1 p2 : Mnemonic) (s s1 u : Cpu)
    (hc : (c, p1, p2) ∈ comboParts)
    (hs : mnemonicOf (u8 s._exe_instr_opcode) = c)
    (h1 : mnemonicOf (u8 s1._exe_instr_opcode) = p1)
    (h1m : modeOf (u8 s1._exe_instr_opcode) ∈ memoryModes)
    (hreg1 : s1._a = s._a ∧ s1._x = s._x ∧ s1._y = s._y ∧ s1._s = s._s ∧ s1._p = s._p)
    (hv1 : operandOf s1 = operandOf s)
    (h2 : mnemonicOf (u8 u._exe_instr_opcode) = p2)
    (hreg2 : u._a = (runPrefetchedOp s1)._a ∧ u._x = (runPrefetchedOp s1)._x ∧
      u._y = (runPrefetchedOp s1)._y ∧ u._s = (runPrefetchedOp s1)._s ∧
      u._p = (runPrefetchedOp s1)._p)
    (hv2 : operandOf u =
      memGet (runPrefetchedOp s1) (effectiveAddr (incPC s1) (modeOf (u8 s1._exe_instr_opcode))))
    (hp : s._p < 256) :
    (runPrefetchedOp s)._a = (runPrefetchedOp u)._a ∧
    (runPrefetchedOp s)._x = (runPrefetchedOp u)._x ∧
    (runPrefetchedOp s)._y = (runPrefetchedOp u)._y ∧
    (runPrefetchedOp s)._s = (runPrefetchedOp u)._s ∧
    (runPrefetchedOp s)._p = (runPrefetchedOp u)._p ∧
    memGet (runPrefetchedOp s) (effectiveAddr (incPC s) (modeOf (u8 s._exe_instr_opcode))) =
      memGet (runPrefetchedOp s1)
        (effectiveAddr (incPC s1) (modeOf (u8 s1._exe_instr_opcode))) := by
  simp only [comboParts, List.mem_cons, List.mem_singleton, List.not_mem_nil, or_false,
    Prod.mk.injEq] at hc
  rcases hc with ⟨e1, e2, e3⟩ | ⟨e1, e2, e3⟩ | ⟨e1, e2, e3⟩ | ⟨e1, e2, e3⟩ | ⟨e1, e2, e3⟩ |
    ⟨e1, e2, e3⟩ <;> subst e1 e2 e3
  · exact combo_core Mnemonic.dcp Mnemonic.dec Mnemonic.cmp s s1 u (by decide) (by decide)
      (by decide) (by decide) (by decide) (fun _ _ => rfl)
      pair_dcp hs (combo_modes _ (u8_lt _) (by rw [hs]; decide)) h1 h1m hreg1 hv1 h2 hreg2 hv2 hp
  · exact combo_core Mnemonic.isb Mnemonic.inc Mnemonic.sbc s s1 u (by decide) (by decide)
      (by decide) (by decide) (by decide) (fun _ _ => rfl)
      pair_isb hs (combo_modes _ (u8_lt _) (by rw [hs]; decide)) h1 h1m hreg1 hv1 h2 hreg2 hv2 hp
  · exact combo_core Mnemonic.slo Mnemonic.asl Mnemonic.ora s s1 u (by decide) (by decide)
      (by decide) (by decide) (by decide) (fun _ _ => rfl)
      pair_slo hs (combo_modes _ (u8_lt _) (by rw [hs]; decide)) h1 h1m hreg1 hv1 h2 hreg2 hv2 hp
  · exact combo_core Mnemonic.sre Mnemonic.lsr Mnemonic.eor s s1 u (by decide) (by decide)
      (by decide) (by decide) (by decide) (fun _ _ => rfl)
      pair_sre hs (combo_modes _ (u8_lt _) (by rw [hs]; decide)) h1 h1m hreg1 hv1 h2 hreg2 hv2 hp
  · exact combo_core Mnemonic.rla Mnemonic.rol Mnemonic.and s s1 u (by decide) (by decide)
      (by decide) (by decide) (by decide) (fun _ _ => rfl)
      pair_rla hs (combo_modes _ (u8_lt _) (by rw [hs]; decide)) h1 h1m hreg1 hv1 h2 hreg2 hv2 hp
  · exact combo_core Mnemonic.rra Mnemonic.ror Mnemonic.adc s s1 u (by decide) (by decide)
      (by decide) (by decide) (by decide) (fun _ _ => rfl)
      pair_rra hs (combo_modes _ (u8_lt _) (by rw [hs]; decide)) h1 h1m hreg1 hv1 h2 hreg2 hv2 hp

/-- Witness of C29: `SLO $10` with `$81` at `$10`, `A = $02` and N set leaves
`A = $02`, `P = $01` and `$02` at `$10`, as `ASL $10` followed by `ORA $10`
does. -/
theorem C29_combined_illegal_witness :
    ((runPrefetchedOp scenSlo)._a = (runPrefetchedOp scenOra)._a ∧
      (runPrefetchedOp scenSlo)._x = (runPrefetchedOp scenOra)._x ∧
      (runPrefetchedOp scenSlo)._y = (runPrefetchedOp scenOra)._y ∧
      (runPrefetchedOp scenSlo)._s = (runPrefetchedOp scenOra)._s ∧
      (runPrefetchedOp scenSlo)._p = (runPrefetchedOp scenOra)._p ∧
      memGet (runPrefetchedOp scenSlo)
          (effectiveAddr (incPC scenSlo) (modeOf (u8 scenSlo._exe_instr_opcode))) =
        memGet (runPrefetchedOp scenAsl)
          (effectiveAddr (incPC scenAsl) (modeOf (u8 scenAsl._exe_instr_opcode)))) ∧
    (runPrefetchedOp scenSlo)._a = 0x02 ∧ (runPrefetchedOp scenSlo)._p = 0x01 ∧
    memGet (runPrefetchedOp scenSlo) 0x10 = 0x02 :=
  ⟨C29_combined_illegal Mnemonic.slo Mnemonic.asl Mnemonic.ora scenSlo scenAsl scenOra
      (by decide) (by decide) (by decide) (by decide) (by decide) (by decide) (by decide)
      ⟨rfl, rfl, rfl, rfl, rfl⟩ (by decide) (by decide),
    by decide, by decide, by decide⟩

/-! ## SAX -/

theorem setOutput_one_write (t : Cpu) (mode : Mode) (v : Nat) (h : mode ∈ memoryModes) :
    ∃ a, (setOutput t mode v).writes = t.writes ++ [(a, v % 256)] := by
  simp only [memoryModes, List.mem_cons, List.mem_singleton, List.not_mem_nil, or_false] at h
  rcases h with rfl | rfl | rfl | rfl | rfl | rfl | rfl | rfl <;> exact ⟨_, rfl⟩

/-- SAX changes no register and no flag, and its first write stores the byte
left in `bval` by an earlier instruction at the effective address. -/
theorem sax_effect (s : Cpu) (hm : mnemonicOf (u8 s._exe_instr_opcode) = Mnemonic.sax)
    (hmode : modeOf (u8 s._exe_instr_opcode) ∈ memoryModes) :
    (runPrefetchedOp s)._a = s._a ∧ (runPrefetchedOp s)._x = s._x ∧
    (runPrefetchedOp s)._y = s._y ∧ (runPrefetchedOp s)._s = s._s ∧
    (runPrefetchedOp s)._p = s._p ∧
    ∃ a, (runPrefetchedOp s).writes = s.writes ++
      [(effectiveAddr (incPC s) (modeOf (u8 s._exe_instr_opcode)), s.bval % 256),
       (a, (s._a &&& s._x) % 256)] := by
  have k := fun t v => setOutput_a_mem t (modeOf (u8 s._exe_instr_opcode)) v hmode
  have c0 := getInput_consumed { incPC s with _opc := u8 s._exe_instr_opcode } _ hmode
  have w1 := consumed_write _ _ _ _ s.bval hmode c0
  have hregs : (runPrefetchedOp s)._a = s._a ∧ (runPrefetchedOp s)._x = s._x ∧
      (runPrefetchedOp s)._y = s._y ∧ (runPrefetchedOp s)._s = s._s ∧
      (runPrefetchedOp s)._p = s._p := by
    rw [runPrefetchedOp_eq, hm]
    simp only [runPrefetchedOp_switch, setOutput_p, setOutput_x, setOutput_y, setOutput_s,
      setOutput_bval, k, getInput_a, getInput_x, getInput_y, getInput_s, getInput_p,
      getInput_bval, true_and]
    exact ⟨rfl, rfl, rfl, rfl, rfl⟩
  obtain ⟨r1, r2, r3, r4, r5⟩ := hregs
  refine ⟨r1, r2, r3, r4, r5, ?_⟩
  obtain ⟨a, ha⟩ := setOutput_one_write
    { setOutput (getInput { incPC s with _opc := u8 s._exe_instr_opcode }
          (modeOf (u8 s._exe_instr_opcode))).2 (modeOf (u8 s._exe_instr_opcode)) s.bval with
      bval := s._a &&& s._x }
    (modeOf (u8 s._exe_instr_opcode)) (s._a &&& s._x) hmode
  refine ⟨a, ?_⟩
  have e : (runPrefetchedOp s).writes =
      (setOutput
        { setOutput (getInput { incPC s with _opc := u8 s._exe_instr_opcode }
            (modeOf (u8 s._exe_instr_opcode))).2 (modeOf (u8 s._exe_instr_opcode)) s.bval with
          bval := s._a &&& s._x }
        (modeOf (u8 s._exe_instr_opcode)) (s._a &&& s._x)).writes := by
    rw [runPrefetchedOp_eq, hm]
    simp only [runPrefetchedOp_switch, setOutput_x, k, getInput_a, getInput_x, getInput_bval]
    rfl
  rw [e, ha]
  show (setOutput _ _ s.bval).writes ++ _ = _
  rw [w1, List.nil_append, List.append_assoc]
  rfl

/-- C30: evaluation of the code where the claim fails.  After `LDA #$0F`, `LDX
#$3C`, `CMP #$55` the instruction `SAX $0007`, whose low operand byte lies at
`$0007`, first writes the byte `$55` left in `bval` by the CMP to `$0007`, then
recomputes its address from the changed operand and writes `A AND X = $0C` to
`$0055`: the effective address `$0007` computed from the state before the SAX
holds `$55`, not `A AND X`.  Registers and flags are unchanged by the SAX. -/
theorem C30_sax_stale_write :
    Reachable (runClock (cpuInit scenSax 1) quiet 6) ∧
    (runClock (cpuInit scenSax 1) quiet 6)._exe_instr_opcode = -1 ∧
    (runClock (cpuInit scenSax 1) quiet 6)._pc = 0x0006 ∧
    (runClock (cpuInit scenSax 1) quiet 6)._a = 0x0F ∧
    (runClock (cpuInit scenSax 1) quiet 6)._x = 0x3C ∧
    (runClock (cpuInit scenSax 1) quiet 6).bval = 0x55 ∧
    (runClock (cpuInit scenSax 1) quiet 6).writes = [] ∧
    memGet (runClock (cpuInit scenSax 1) quiet 6) 0x0006 = 0x8F ∧
    mnemonicOf 0x8F = Mnemonic.sax ∧ modeOf 0x8F = Mode.abs ∧
    effectiveAddr (incPC (runClock (cpuInit scenSax 1) quiet 6)) Mode.abs = 0x0007 ∧
    (runClock (cpuInit scenSax 1) quiet 10)._exe_instr_opcode = -1 ∧
    (runClock (cpuInit scenSax 1) quiet 10)._pc = 0x0009 ∧
    (runClock (cpuInit scenSax 1) quiet 10).writes = [(0x0007, 0x55), (0x0055, 0x0C)] ∧
    memGet (runClock (cpuInit scenSax 1) quiet 10) 0x0007 = 0x55 ∧
    memGet (runClock (cpuInit scenSax 1) quiet 10) 0x0055 = 0x0C ∧
    (0x0F : Nat) &&& 0x3C = 0x0C ∧
    (runClock (cpuInit scenSax 1) quiet 10)._a = 0x0F ∧
    (runClock (cpuInit scenSax 1) quiet 10)._x = 0x3C ∧
    (runClock (cpuInit scenSax 1) quiet 10)._p = (runClock (cpuInit scenSax 1) quiet 6)._p :=
  ⟨reachable_runClock _ _ (Reachable.init _ _) 6, by decide⟩

/-! ## Register transfers -/

/-- The flags N and Z after `SETFLAGS(FLAG_Z, z); SETFLAGS(FLAG_N, n)`, and the
other six bits of the status register. -/
theorem flags_ZN : ∀ p, p < 256 → ∀ z n : Bool,
    (setFlag (setFlag p FLAG_Z z) FLAG_N n &&& FLAG_N ≠ 0 ↔ n = true) ∧
    (setFlag (setFlag p FLAG_Z z) FLAG_N n &&& FLAG_Z ≠ 0 ↔ z = true) ∧
    setFlag (setFlag p FLAG_Z z) FLAG_N n &&& 0x7D = p &&& 0x7D ∧
    setFlag (setFlag p FLAG_Z z) FLAG_N n < 256 := by
  decide

theorem bit7_byte : ∀ v, v < 256 → (v &&& 0x80 ≠ 0 ↔ 128 ≤ v) := by
  decide

/-- The transfer `dst = src; SETFLAGS(FLAG_Z, !dst); SETFLAGS(FLAG_N, dst & 0x80)`
on the status register. -/
theorem transfer_flags (p v : Nat) (hp : p < 256) (hv : v < 256) :
    (setFlag (setFlag p FLAG_Z (falsy v)) FLAG_N (truthy (v &&& 0x80)) &&& FLAG_N ≠ 0
      ↔ 128 ≤ v) ∧
    (setFlag (setFlag p FLAG_Z (falsy v)) FLAG_N (truthy (v &&& 0x80)) &&& FLAG_Z ≠ 0
      ↔ v = 0) ∧
    setFlag (setFlag p FLAG_Z (falsy v)) FLAG_N (truthy (v &&& 0x80)) &&& 0x7D = p &&& 0x7D ∧
    setFlag (setFlag p FLAG_Z (falsy v)) FLAG_N (truthy (v &&& 0x80)) < 256 := by
  obtain ⟨f1, f2, f3, f4⟩ := flags_ZN p hp (falsy v) (truthy (v &&& 0x80))
  refine ⟨?_, ?_, f3, f4⟩
  · rw [f1]; unfold truthy; rw [decide_eq_true_iff]; exact bit7_byte v hv
  · rw [f2]; unfold falsy; rw [decide_eq_true_iff]

theorem run_tax (s : Cpu) (hm : mnemonicOf (u8 s._exe_instr_opcode) = Mnemonic.tax) :
    (runPrefetchedOp s)._a = s._a ∧ (runPrefetchedOp s)._x = s._a ∧
    (runPrefetchedOp s)._y = s._y ∧ (runPrefetchedOp s)._s = s._s ∧
    (runPrefetchedOp s)._p =
      setFlag (setFlag s._p FLAG_Z (falsy s._a)) FLAG_N (truthy (s._a &&& 0x80)) := by
  rw [runPrefetchedOp_eq, hm]
  simp only [runPrefetchedOp_switch, SETFLAGS_p, SETFLAGS_a, SETFLAGS_x, SETFLAGS_y, SETFLAGS_s]
  exact ⟨rfl, rfl, rfl, rfl, rfl⟩

theorem run_tay (s : Cpu) (hm : mnemonicOf (u8 s._exe_instr_opcode) = Mnemonic.tay) :
    (runPrefetchedOp s)._a = s._a ∧ (runPrefetchedOp s)._x = s._x ∧
    (runPrefetchedOp s)._y = s._a ∧ (runPrefetchedOp s)._s = s._s ∧
    (runPrefetchedOp s)._p =
      setFlag (setFlag s._p FLAG_Z (falsy s._a)) FLAG_N (truthy (s._a &&& 0x80)) := by
  rw [runPrefetchedOp_eq, hm]
  simp only [runPrefetchedOp_switch, SETFLAGS_p, SETFLAGS_a, SETFLAGS_x, SETFLAGS_y, SETFLAGS_s]
  exact ⟨rfl, rfl, rfl, rfl, rfl⟩

theorem run_txa (s : Cpu) (hm : mnemonicOf (u8 s._exe_instr_opcode) = Mnemonic.txa) :
    (runPrefetchedOp s)._a = s._x ∧ (runPrefetchedOp s)._x = s._x ∧
    (runPrefetchedOp s)._y = s._y ∧ (runPrefetchedOp s)._s = s._s ∧
    (runPrefetchedOp s)._p =
      setFlag (setFlag s._p FLAG_Z (falsy s._x)) FLAG_N (truthy (s._x &&& 0x80)) := by
  rw [runPrefetchedOp_eq, hm]
  simp only [runPrefetchedOp_switch, SETFLAGS_p, SETFLAGS_a, SETFLAGS_x, SETFLAGS_y, SETFLAGS_s]
  exact ⟨rfl, rfl, rfl, rfl, rfl⟩

theorem run_tya (s : Cpu) (hm : mnemonicOf (u8 s._exe_instr_opcode) = Mnemonic.tya) :
    (runPrefetchedOp s)._a = s._y ∧ (runPrefetchedOp s)._x = s._x ∧
    (runPrefetchedOp s)._y = s._y ∧ (runPrefetchedOp s)._s = s._s ∧
    (runPrefetchedOp s)._p =
      setFlag (setFlag s._p FLAG_Z (falsy s._y)) FLAG_N (truthy (s._y &&& 0x80)) := by
  rw [runPrefetchedOp_eq, hm]
  simp only [runPrefetchedOp_switch, SETFLAGS_p, SETFLAGS_a, SETFLAGS_x, SETFLAGS_y, SETFLAGS_s]
  exact ⟨rfl, rfl, rfl, rfl, rfl⟩

theorem run_tsx (s : Cpu) (hm : mnemonicOf (u8 s._exe_instr_opcode) = Mnemonic.tsx) :
    (runPrefetchedOp s)._a = s._a ∧ (runPrefetchedOp s)._x = s._s ∧
    (runPrefetchedOp s)._y = s._y ∧ (runPrefetchedOp s)._s = s._s ∧
    (runPrefetchedOp s)._p =
      setFlag (setFlag s._p FLAG_Z (falsy s._s)) FLAG_N (truthy (s._s &&& 0x80)) := by
  rw [runPrefetchedOp_eq, hm]
  simp only [runPrefetchedOp_switch, SETFLAGS_p, SETFLAGS_a, SETFLAGS_x, SETFLAGS_y, SETFLAGS_s]
  exact ⟨rfl, rfl, rfl, rfl, rfl⟩

theorem run_txs (s : Cpu) (hm : mnemonicOf (u8 s._exe_instr_opcode) = Mnemonic.txs) :
    (runPrefetchedOp s)._a = s._a ∧ (runPrefetchedOp s)._x = s._x ∧
    (runPrefetchedOp s)._y = s._y ∧ (runPrefetchedOp s)._s = s._x ∧
    (runPrefetchedOp s)._p = s._p := by
  rw [runPrefetchedOp_eq, hm]
  exact ⟨rfl, rfl, rfl, rfl, rfl⟩

/-- A transfer to an index register followed by the transfer back: the
accumulator `a` is copied twice, so the flags are set twice from `a`. -/
theorem transfer_twice (p a : Nat) (hp : p < 256) (ha : a < 256) :
    (setFlag (setFlag (setFlag (setFlag p FLAG_Z (falsy a)) FLAG_N (truthy (a &&& 0x80)))
        FLAG_Z (falsy a)) FLAG_N (truthy (a &&& 0x80)) &&& FLAG_N ≠ 0 ↔ 128 ≤ a) ∧
    (setFlag (setFlag (setFlag (setFlag p FLAG_Z (falsy a)) FLAG_N (truthy (a &&& 0x80)))
        FLAG_Z (falsy a)) FLAG_N (truthy (a &&& 0x80)) &&& FLAG_Z ≠ 0 ↔ a = 0) ∧
    setFlag (setFlag (setFlag (setFlag p FLAG_Z (falsy a)) FLAG_N (truthy (a &&& 0x80)))
        FLAG_Z (falsy a)) FLAG_N (truthy (a &&& 0x80)) &&& 0x7D = p &&& 0x7D := by
  obtain ⟨_, _, g3, g4⟩ := transfer_flags p a hp ha
  obtain ⟨f1, f2, f3, _⟩ := transfer_flags _ a g4 ha
  exact ⟨f1, f2, f3.trans g3⟩

/-- C31: transfer laws, for every state `s` holding values of the C types.
(1) If `s` has TAX in flight and `u` has TXA in flight with the `A`, `X` and `P`
the TAX left, then after the TXA `A` is the `A` of `s`, `X` equals it, N is bit
7 of `A`, Z tells whether `A = 0` and the other six status bits are those of
`s`.  (2) The same for TAY followed by TYA with `Y`.  (3) TSX copies `S` to `X`,
sets N and Z from it and leaves `S`, `A`, `Y` and the other status bits alone.
(4) TXS copies `X` to `S` and leaves `P`, `A`, `X` and `Y` alone. -/
theorem C31_transfer_laws (s u : Cpu) (hw : s.WF) :
    (mnemonicOf (u8 s._exe_instr_opcode) = Mnemonic.tax →
      mnemonicOf (u8 u._exe_instr_opcode) = Mnemonic.txa →
      u._a = (runPrefetchedOp s)._a → u._x = (runPrefetchedOp s)._x →
      u._p = (runPrefetchedOp s)._p →
        (runPrefetchedOp u)._a = s._a ∧ (runPrefetchedOp u)._x = s._a ∧
        ((runPrefetchedOp u)._p &&& FLAG_N ≠ 0 ↔ 128 ≤ s._a) ∧
        ((runPrefetchedOp u)._p &&& FLAG_Z ≠ 0 ↔ s._a = 0) ∧
        (runPrefetchedOp u)._p &&& 0x7D = s._p &&& 0x7D) ∧
    (mnemonicOf (u8 s._exe_instr_opcode) = Mnemonic.tay →
      mnemonicOf (u8 u._exe_instr_opcode) = Mnemonic.tya →
      u._a = (runPrefetchedOp s)._a → u._y = (runPrefetchedOp s)._y →
      u._p = (runPrefetchedOp s)._p →
        (runPrefetchedOp u)._a = s._a ∧ (runPrefetchedOp u)._y = s._a ∧
        ((runPrefetchedOp u)._p &&& FLAG_N ≠ 0 ↔ 128 ≤ s._a) ∧
        ((runPrefetchedOp u)._p &&& FLAG_Z ≠ 0 ↔ s._a = 0) ∧
        (runPrefetchedOp u)._p &&& 0x7D = s._p &&& 0x7D) ∧
    (mnemonicOf (u8 s._exe_instr_opcode) = Mnemonic.tsx →
        (runPrefetchedOp s)._x = s._s ∧ (runPrefetchedOp s)._s = s._s ∧
        (runPrefetchedOp s)._a = s._a ∧ (runPrefetchedOp s)._y = s._y ∧
        ((runPrefetchedOp s)._p &&& FLAG_N ≠ 0 ↔ 128 ≤ s._s) ∧
        ((runPrefetchedOp s)._p &&& FLAG_Z ≠ 0 ↔ s._s = 0) ∧
        (runPrefetchedOp s)._p &&& 0x7D = s._p &&& 0x7D) ∧
    (mnemonicOf (u8 s._exe_instr_opcode) = Mnemonic.txs →
        (runPrefetchedOp s)._s = s._x ∧ (runPrefetchedOp s)._p = s._p ∧
        (runPrefetchedOp s)._a = s._a ∧ (runPrefetchedOp s)._x = s._x ∧
        (runPrefetchedOp s)._y = s._y) := by
  refine ⟨?_, ?_, ?_, ?_⟩
  · intro h1 h2 ea ex ep
    obtain ⟨a1, x1, _, _, p1⟩ := run_tax s h1
    obtain ⟨a2, x2, _, _, p2⟩ := run_txa u h2
    obtain ⟨f1, f2, f3⟩ := transfer_twice s._p s._a hw.p hw.a
    rw [a2, x2, p2, ep, ex, x1, p1]
    exact ⟨rfl, rfl, f1, f2, f3⟩
  · intro h1 h2 ea ey ep
    obtain ⟨a1, _, y1, _, p1⟩ := run_tay s h1
    obtain ⟨a2, _, y2, _, p2⟩ := run_tya u h2
    obtain ⟨f1, f2, f3⟩ := transfer_twice s._p s._a hw.p hw.a
    rw [a2, y2, p2, ep, ey, y1, p1]
    exact ⟨rfl, rfl, f1, f2, f3⟩
  · intro h
    obtain ⟨a1, x1, y1, s1, p1⟩ := run_tsx s h
    obtain ⟨f1, f2, f3, _⟩ := transfer_flags s._p s._s hw.p hw.sp
    rw [p1]
    exact ⟨x1, s1, a1, y1, f1, f2, f3⟩
  · intro h
    obtain ⟨a1, x1, y1, s1, p1⟩ := run_txs s h
    exact ⟨s1, p1, a1, x1, y1⟩

/-- Witness of C31: `TAX` then `TXA` with `A = $80` and the flags Z and C set
leaves `A = X = $80`, N set, Z clear and C still set. -/
theorem C31_transfer_laws_witness :
    ((runPrefetchedOp scenTxa)._a = scenTax._a ∧ (runPrefetchedOp scenTxa)._x = scenTax._a ∧
      ((runPrefetchedOp scenTxa)._p &&& FLAG_N ≠ 0 ↔ 128 ≤ scenTax._a) ∧
      ((runPrefetchedOp scenTxa)._p &&& FLAG_Z ≠ 0 ↔ scenTax._a = 0) ∧
      (runPrefetchedOp scenTxa)._p &&& 0x7D = scenTax._p &&& 0x7D) ∧
    (runPrefetchedOp scenTxa)._a = 0x80 ∧ (runPrefetchedOp scenTxa)._x = 0x80 ∧
    (runPrefetchedOp scenTxa)._p = 0x81 :=
  ⟨(C31_transfer_laws scenTax scenTxa
      ⟨by decide, by decide, by decide, by decide, by decide, by decide⟩).1
      (by decide) (by decide) rfl rfl rfl,
    by decide, by decide, by decide⟩

/-! ## Reset -/

/-- C32: `cpuInit(is_rsid)` (non-TEST build), from every prior state `s` and for
every argument: `PC`, `A`, `X`, `Y`, `S` and `P` are 0; the in-flight record is
idle (`opcode = -1`, `cycles_total = cycles_remaining = 0`); `irq_committed`,
`irq_line_ts`, `nmi_committed`, the held NMI line and `nmi_line_ts` are
cleared; and a tick through the `cpuClock` pointer is a tick of `cpuClockRSID`
when `is_rsid` is non-zero and of `cpuClockPSID` otherwise.  Memory and the
write log are left alone. -/
theorem C32_cpuInit (s : Cpu) (is_rsid : Nat) :
    (cpuInit s is_rsid)._pc = 0 ∧ (cpuInit s is_rsid)._a = 0 ∧ (cpuInit s is_rsid)._x = 0 ∧
    (cpuInit s is_rsid)._y = 0 ∧ (cpuInit s is_rsid)._s = 0 ∧ (cpuInit s is_rsid)._p = 0 ∧
    idleRecord (cpuInit s is_rsid) ∧
    (cpuInit s is_rsid)._irq_committed = false ∧ (cpuInit s is_rsid)._irq_line_ts = 0 ∧
    (cpuInit s is_rsid)._nmi_committed = false ∧ (cpuInit s is_rsid)._nmi_line = false ∧
    (cpuInit s is_rsid)._nmi_line_ts = 0 ∧
    (is_rsid ≠ 0 → ∀ t ln, t.cpuClock_rsid = (cpuInit s is_rsid).cpuClock_rsid →
      cpuClock t ln = cpuClockRSID t ln) ∧
    (is_rsid = 0 → ∀ t ln, t.cpuClock_rsid = (cpuInit s is_rsid).cpuClock_rsid →
      cpuClock t ln = cpuClockPSID t ln) ∧
    (cpuInit s is_rsid).mem = s.mem ∧ (cpuInit s is_rsid).writes = s.writes := by
  refine ⟨rfl, rfl, rfl, rfl, rfl, rfl, ⟨rfl, rfl, rfl⟩, rfl, rfl, rfl, rfl, rfl, ?_, ?_, rfl, rfl⟩
  · intro h t ln ht
    have e : t.cpuClock_rsid = true := by
      rw [ht]
      show truthy is_rsid = true
      unfold truthy
      exact decide_eq_true h
    unfold cpuClock
    rw [e]
    rfl
  · intro h t ln ht
    have e : t.cpuClock_rsid = false := by
      rw [ht]
      show truthy is_rsid = false
      unfold truthy
      exact decide_eq_false (fun hn => hn h)
    unfold cpuClock
    rw [e]
    rfl

/-- Witness of C32: `cpuInit(1)` on the state left by the SEI scenario selects
the full clock, `cpuInit(0)` the reduced one. -/
theorem C32_cpuInit_witness :
    cpuClock (cpuInit scenSei 1) (quiet 5) = cpuClockRSID (cpuInit scenSei 1) (quiet 5) ∧
    cpuClock (cpuInit scenSei 0) (quiet 5) = cpuClockPSID (cpuInit scenSei 0) (quiet 5) :=
  ⟨(C32_cpuInit scenSei 1).2.2.2.2.2.2.2.2.2.2.2.2.1 (by decide) _ _ rfl,
   (C32_cpuInit scenSei 0).2.2.2.2.2.2.2.2.2.2.2.2.2.1 rfl _ _ rfl⟩

theorem setPC_regs (s : Cpu) (pc a : Nat) :
    (cpuSetProgramCounter s pc a)._pc = pc % 65536 ∧
    (cpuSetProgramCounter s pc a)._a = a % 256 ∧
    (cpuSetProgramCounter s pc a)._x = 0 ∧ (cpuSetProgramCounter s pc a)._y = 0 ∧
    (cpuSetProgramCounter s pc a)._p = 0 ∧ (cpuSetProgramCounter s pc a)._s = 0xFD := by
  refine ⟨rfl, rfl, rfl, rfl, rfl, ?_⟩
  have hs : ({ cpuRegReset s with _a := a % 256, _pc := pc % 65536 } : Cpu)._s = 0xFF := rfl
  unfold cpuSetProgramCounter
  dsimp only
  rw [push_s, push_s, hs]

theorem setPC_stack (s : Cpu) (pc a : Nat) :
    memGet (cpuSetProgramCounter s pc a) 0x1FF = 0 ∧
    memGet (cpuSetProgramCounter s pc a) 0x1FE = 0 := by
  have hs : ({ cpuRegReset s with _a := a % 256, _pc := pc % 65536 } : Cpu)._s = 0xFF := rfl
  have k := fun x => push2_mem { cpuRegReset s with _a := a % 256, _pc := pc % 65536 } 0 0 x
    (by rw [hs]; decide)
  rw [hs] at k
  exact ⟨(k 0x1FF).trans (by simp), (k 0x1FE).trans (by simp)⟩

theorem setPC_writes (s : Cpu) (pc a : Nat) :
    (cpuSetProgramCounter s pc a).writes = s.writes ++ [(0x1FF, 0), (0x1FE, 0)] := by
  have hs : ({ cpuRegReset s with _a := a % 256, _pc := pc % 65536 } : Cpu)._s = 0xFF := rfl
  have k := push2_writes { cpuRegReset s with _a := a % 256, _pc := pc % 65536 } 0 0
    (by rw [hs]; decide) (by decide) (by decide)
  rw [hs] at k
  exact k

/-- C33: `cpuSetProgramCounter(pc, a)`, for every prior state and every `pc` and
`a` of the parameter types: `PC = pc`, `A = a`, `X = Y = 0`, `P = 0`, `S = $FD`
and the bytes at `$01FF` and `$01FE` are zero (written in this order).  An RTS
executed in any later state `u` with that stack pointer and those two stack
bytes sets `PC` to 1 and `S` to `$FF`.  `cpuIsValidPcPSID()` is true exactly
when `PC > 1`, so it is false after that RTS. -/
theorem C33_set_program_counter (s u : Cpu) (pc a : Nat) (hpc : pc < 65536) (ha : a < 256)
    (hu : u._exe_instr_opcode = 0x60)
    (hS : u._s = (cpuSetProgramCounter s pc a)._s)
    (hstack : memGet u 0x1FE = memGet (cpuSetProgramCounter s pc a) 0x1FE ∧
      memGet u 0x1FF = memGet (cpuSetProgramCounter s pc a) 0x1FF) :
    (cpuSetProgramCounter s pc a)._pc = pc ∧ (cpuSetProgramCounter s pc a)._a = a ∧
    (cpuSetProgramCounter s pc a)._x = 0 ∧ (cpuSetProgramCounter s pc a)._y = 0 ∧
    (cpuSetProgramCounter s pc a)._p = 0 ∧ (cpuSetProgramCounter s pc a)._s = 0xFD ∧
    memGet (cpuSetProgramCounter s pc a) 0x1FF = 0 ∧
    memGet (cpuSetProgramCounter s pc a) 0x1FE = 0 ∧
    (cpuSetProgramCounter s pc a).writes = s.writes ++ [(0x1FF, 0), (0x1FE, 0)] ∧
    (runPrefetchedOp u)._pc = 1 ∧ (runPrefetchedOp u)._s = 0xFF ∧
    (∀ t : Cpu, cpuIsValidPcPSID t = true ↔ t._pc > 1) ∧
    cpuIsValidPcPSID (runPrefetchedOp u) = false := by
  obtain ⟨r1, r2, r3, r4, r5, r6⟩ := setPC_regs s pc a
  obtain ⟨m1, m2⟩ := setPC_stack s pc a
  obtain ⟨q1, q2, _⟩ := run_rts u hu
  rw [hS, r6] at q1 q2
  have e1 : (0x100 + (0xFD + 1) % 256 : Nat) = 0x1FE := rfl
  have e2 : (0x100 + ((0xFD + 1) % 256 + 1) % 256 : Nat) = 0x1FF := rfl
  rw [e1, e2, hstack.1, hstack.2, m1, m2] at q1
  have q1 : (runPrefetchedOp u)._pc = 1 := q1
  have q2 : (runPrefetchedOp u)._s = 0xFF := q2
  have hv : ∀ t : Cpu, cpuIsValidPcPSID t = true ↔ t._pc > 1 := by
    intro t
    unfold cpuIsValidPcPSID
    exact decide_eq_true_iff
  refine ⟨r1.trans (Nat.mod_eq_of_lt hpc), r2.trans (Nat.mod_eq_of_lt ha), r3, r4, r5, r6,
    m1, m2, setPC_writes s pc a, q1, q2, hv, ?_⟩
  unfold cpuIsValidPcPSID
  rw [q1]
  rfl

/-- Witness of C33: after `cpuSetProgramCounter($1000, $07)` an RTS returns to
address 1 with `S = $FF`. -/
theorem C33_set_program_counter_witness :
    (cpuSetProgramCounter scenSei 0x1000 0x07)._pc = 0x1000 ∧
    (cpuSetProgramCounter scenSei 0x1000 0x07)._s = 0xFD ∧
    (runPrefetchedOp scenSentinel)._pc = 1 ∧ (runPrefetchedOp scenSentinel)._s = 0xFF ∧
    cpuIsValidPcPSID (runPrefetchedOp scenSentinel) = false :=
  have h := C33_set_program_counter scenSei scenSentinel 0x1000 0x07 (by decide) (by decide)
    rfl rfl ⟨rfl, rfl⟩
  ⟨h.1, h.2.2.2.2.2.1, h.2.2.2.2.2.2.2.2.2.1, h.2.2.2.2.2.2.2.2.2.2.1,
    h.2.2.2.2.2.2.2.2.2.2.2.2⟩

/-! ## JAM -/

theorem jam_table : ∀ op, op < 256 → (mnemonicOf op = Mnemonic.jam ↔ op ∈ jamOpcodes) := by
  decide

/-- C34: JAM handling.  For every state whose in-flight opcode has the
mnemonic-table entry `jam` (these are the nine opcodes of `jamOpcodes`),
executing it sets `PC` to 0 and leaves `A`, `X`, `Y`, `S`, `P`, the memory and
the write log unchanged, after which `cpuIsValidPcPSID()` is false.  Executing
any opcode stays inside the tables: the opcode index of every state is below
the 256 entries of `_mnemonics` and `_modes`. -/
theorem C34_jam (s : Cpu) (hm : mnemonicOf (u8 s._exe_instr_opcode) = Mnemonic.jam) :
    u8 s._exe_instr_opcode ∈ jamOpcodes ∧
    (runPrefetchedOp s)._pc = 0 ∧ (runPrefetchedOp s)._a = s._a ∧
    (runPrefetchedOp s)._x = s._x ∧ (runPrefetchedOp s)._y = s._y ∧
    (runPrefetchedOp s)._s = s._s ∧ (runPrefetchedOp s)._p = s._p ∧
    (runPrefetchedOp s).mem = s.mem ∧ (runPrefetchedOp s).writes = s.writes ∧
    cpuIsValidPcPSID (runPrefetchedOp s) = false ∧
    (∀ t : Cpu, u8 t._exe_instr_opcode < _mnemonics.length ∧
      u8 t._exe_instr_opcode < _modes.length) := by
  refine ⟨(jam_table _ (u8_lt _)).1 hm, ?_⟩
  rw [runPrefetchedOp_eq, hm]
  refine ⟨rfl, rfl, rfl, rfl, rfl, rfl, rfl, rfl, rfl, ?_⟩
  intro t
  have h := u8_lt t._exe_instr_opcode
  exact ⟨h, h⟩

/-- Witness of C34: the opcode `$72` sets `PC` to 0 and keeps the registers. -/
theorem C34_jam_witness :
    (runPrefetchedOp scenJamExec)._pc = 0 ∧ (runPrefetchedOp scenJamExec)._a = 0x11 ∧
    (runPrefetchedOp scenJamExec)._p = 0xC3 ∧
    cpuIsValidPcPSID (runPrefetchedOp scenJamExec) = false :=
  have h := C34_jam scenJamExec (by decide)
  ⟨h.2.1, h.2.2.1, h.2.2.2.2.2.2.1, h.2.2.2.2.2.2.2.2.2.1⟩

/-! ## Signed overflow -/

theorem bit7_value : ∀ v, v < 256 → v &&& 0x80 = if 128 ≤ v then 128 else 0 := by
  decide

/-- Bit 7 of `~(a ^ m) & (a ^ r)`: the signs of `a` and `m` agree and the sign
of `r` differs from them. -/
theorem vbit_signs (a m r : Nat) (ha : a < 256) (hm : m < 256) (hr : r < 256) :
    ((a ^^^ m) ^^^ 0xff) &&& (a ^^^ r) &&& 0x80 ≠ 0 ↔
      ((128 ≤ a ↔ 128 ≤ m) ∧ ¬ (128 ≤ a ↔ 128 ≤ r)) := by
  have e : ((a ^^^ m) ^^^ 0xff) &&& (a ^^^ r) &&& 0x80
      = (((a &&& 0x80) ^^^ (m &&& 0x80)) ^^^ 0x80) &&& ((a &&& 0x80) ^^^ (r &&& 0x80)) := by
    have e1 : ((a ^^^ m) ^^^ 0xff) &&& (a ^^^ r) &&& 0x80
        = (((a ^^^ m) ^^^ 0xff) &&& 0x80) &&& ((a ^^^ r) &&& 0x80) := by
      rw [Nat.and_assoc, Nat.and_assoc]
      congr 1
      rw [← Nat.and_assoc, Nat.and_comm 0x80 (a ^^^ r), Nat.and_assoc, Nat.and_self]
    have e2 : ((a ^^^ m) ^^^ 0xff) &&& 0x80 = ((a &&& 0x80) ^^^ (m &&& 0x80)) ^^^ 0x80 := by
      rw [Nat.and_xor_distrib_right, Nat.and_xor_distrib_right]
      rfl
    have e3 : (a ^^^ r) &&& 0x80 = (a &&& 0x80) ^^^ (r &&& 0x80) :=
      Nat.and_xor_distrib_right
    rw [e1, e2, e3]
  rw [e, bit7_value a ha, bit7_value m hm, bit7_value r hr]
  by_cases h1 : 128 ≤ a <;> by_cases h2 : 128 ≤ m <;> by_cases h3 : 128 ≤ r <;>
    simp only [h1, h2, h3, if_true, if_false] <;> decide

/-- The overflow expression of the shared addition is the signed overflow. -/
theorem vbit_overflow (a m c : Nat) (ha : a < 256) (hm : m < 256) (hc : c < 2) :
    ((a ^^^ m) ^^^ 0xff) &&& (a ^^^ (a + m + c) % 256) &&& 0x80 ≠ 0 ↔
      (signedByte a + signedByte m + c < -128 ∨ 127 < signedByte a + signedByte m + c) := by
  rw [vbit_signs a m _ ha hm (Nat.mod_lt _ (by norm_num))]
  unfold signedByte
  split_ifs <;> omega

theorem signed_compl (m : Nat) (hm : m < 256) : signedByte (255 - m) = - signedByte m - 1 := by
  unfold signedByte
  split_ifs <;> omega

/-- C38: the V flag is the true signed-overflow flag.  For every accumulator
`A`, operand `M` and carry-in `c`: after ADC, V is set iff `signed(A) +
signed(M) + c` lies outside `-128..127`; after SBC, V is set iff `signed(A) -
signed(M) - (1 - c)` lies outside `-128..127`, the new `A` is `(A - M - (1 - c))
mod 256`, and C is set iff `A ≥ M + (1 - c)`. -/
theorem C38_signed_overflow (s : Cpu) (ha : s._a < 256) (hp : s._p < 256) :
    (mnemonicOf (u8 s._exe_instr_opcode) = Mnemonic.adc →
      ((runPrefetchedOp s)._p &&& FLAG_V ≠ 0 ↔
        (signedByte s._a + signedByte (operandOf s) + carryOf s < -128 ∨
          127 < signedByte s._a + signedByte (operandOf s) + carryOf s))) ∧
    (mnemonicOf (u8 s._exe_instr_opcode) = Mnemonic.sbc →
      ((runPrefetchedOp s)._p &&& FLAG_V ≠ 0 ↔
        (signedByte s._a - signedByte (operandOf s) - (1 - (carryOf s : Int)) < -128 ∨
          127 < signedByte s._a - signedByte (operandOf s) - (1 - (carryOf s : Int)))) ∧
      ((runPrefetchedOp s)._a : Int)
        = ((s._a : Int) - (operandOf s : Int) - (1 - (carryOf s : Int))) % 256 ∧
      ((runPrefetchedOp s)._p &&& FLAG_C ≠ 0 ↔ operandOf s + (1 - carryOf s) ≤ s._a)) := by
  have hm := operandOf_lt s ha
  have hc := carryOf_lt s
  constructor
  · intro h
    obtain ⟨_, r2, _⟩ := run_adc s h
    obtain ⟨_, _, _, _, a5, _⟩ := addCore_spec s._a (operandOf s) s._p ha hm hp
    rw [r2, a5, carryOf_if]
    exact vbit_overflow _ _ _ ha hm hc
  · intro h
    obtain ⟨r1, r2, _⟩ := run_sbc s h
    have hx : operandOf s ^^^ 0xff < 256 := xor_byte _ 0xff hm (by norm_num)
    obtain ⟨a1, a2, _, _, a5, _⟩ := addCore_spec s._a (operandOf s ^^^ 0xff) s._p ha hx hp
    rw [r1, r2, a1, a2, a5, carryOf_if, xor_ff _ hm]
    refine ⟨?_, ?_, ?_⟩
    · rw [vbit_overflow _ _ _ ha (by omega) hc, signed_compl _ hm]
      constructor <;> intro k <;> omega
    · omega
    · omega

/-- Witness of C38: `ADC #$90` with `A = $90` and the carry set adds `-112`,
`-112` and 1: the signed sum `-223` is out of range and V is set. -/
theorem C38_signed_overflow_witness :
    ((runPrefetchedOp scenAdc)._p &&& FLAG_V ≠ 0 ↔
      (signedByte scenAdc._a + signedByte (operandOf scenAdc) + carryOf scenAdc < -128 ∨
        127 < signedByte scenAdc._a + signedByte (operandOf scenAdc) + carryOf scenAdc)) ∧
    (runPrefetchedOp scenAdc)._p &&& FLAG_V ≠ 0 ∧
    signedByte scenAdc._a + signedByte (operandOf scenAdc) + carryOf scenAdc = -223 :=
  ⟨(C38_signed_overflow scenAdc (by decide) (by decide)).1 (by decide), by decide, by decide⟩

/-! ## Zero-page addressing -/

/-- `operationSTx` stores at the effective address, with `_pc` advanced as by
`getInput`. -/
theorem operationSTx_eq (s : Cpu) (mode : Mode) (v : Nat) (h : mode ∈ memoryModes) :
    operationSTx s mode v = memSet (getInput s mode).2 (effectiveAddr s mode) v := by
  simp only [memoryModes, List.mem_cons, List.mem_singleton, List.not_mem_nil, or_false] at h
  rcases h with rfl | rfl | rfl | rfl | rfl | rfl | rfl | rfl <;>
    simp only [operationSTx, getInput, effectiveAddr, memGet_incPC, incPC_pc_eq, incPC_x_eq,
      incPC_y_eq, memGet_mod]

theorem operationSTx_write (s : Cpu) (mode : Mode) (v : Nat) (h : mode ∈ memoryModes) :
    (operationSTx s mode v).writes = s.writes ++ [(effectiveAddr s mode, v % 256)] := by
  rw [operationSTx_eq s mode v h]
  show (getInput s mode).2.writes ++ [(effectiveAddr s mode % 65536, v % 256)] = _
  rw [getInput_writes, Nat.mod_eq_of_lt (effectiveAddr_lt s mode h)]

/-- The effective addresses of the four zero-page based modes in arithmetic
form. -/
theorem effectiveAddr_zero_page (s : Cpu) :
    effectiveAddr s Mode.zpx = (memGet s s._pc + s._x) % 256 ∧
    effectiveAddr s Mode.zpy = (memGet s s._pc + s._y) % 256 ∧
    effectiveAddr s Mode.idx =
      memGet s ((memGet s s._pc + s._x) % 256)
        + 256 * memGet s ((memGet s s._pc + s._x + 1) % 256) ∧
    effectiveAddr s Mode.idy =
      (memGet s (memGet s s._pc) + 256 * memGet s ((memGet s s._pc + 1) % 256) + s._y)
        % 65536 := by
  simp only [effectiveAddr, and_ff, or_shl8 _ _ (memGet_lt _ _), and_self]

/-- C40: zero-page addressing never leaves page zero.  With `z` the operand
byte at `_pc`: in zero-page-X (zero-page-Y) mode `getInput` reads and
`operationSTx` writes the address `(z + X) mod 256` (`(z + Y) mod 256`); in
indexed-indirect mode the address is the pointer read from `(z + X) mod 256`
(low) and `(z + X + 1) mod 256` (high); in indirect-indexed mode it is the
pointer read from `z` (low) and `(z + 1) mod 256` (high) plus `Y` modulo `2^16`.
In every memory mode the address written by `operationSTx`, and by `setOutput`
after `getInput` consumed the operand bytes, is the address `getInput` reads;
in the other modes neither writes to memory. -/
theorem C40_zero_page_addressing (s : Cpu) (v : Nat) :
    ((getInput s Mode.zpx).1 = memGet s ((memGet s s._pc + s._x) % 256) ∧
      (operationSTx s Mode.zpx v).writes
        = s.writes ++ [((memGet s s._pc + s._x) % 256, v % 256)]) ∧
    ((getInput s Mode.zpy).1 = memGet s ((memGet s s._pc + s._y) % 256) ∧
      (operationSTx s Mode.zpy v).writes
        = s.writes ++ [((memGet s s._pc + s._y) % 256, v % 256)]) ∧
    ((getInput s Mode.idx).1 =
        memGet s (memGet s ((memGet s s._pc + s._x) % 256)
          + 256 * memGet s ((memGet s s._pc + s._x + 1) % 256)) ∧
      (operationSTx s Mode.idx v).writes =
        s.writes ++ [(memGet s ((memGet s s._pc + s._x) % 256)
          + 256 * memGet s ((memGet s s._pc + s._x + 1) % 256), v % 256)]) ∧
    ((getInput s Mode.idy).1 =
        memGet s ((memGet s (memGet s s._pc)
          + 256 * memGet s ((memGet s s._pc + 1) % 256) + s._y) % 65536) ∧
      (operationSTx s Mode.idy v).writes =
        s.writes ++ [((memGet s (memGet s s._pc)
          + 256 * memGet s ((memGet s s._pc + 1) % 256) + s._y) % 65536, v % 256)]) ∧
    (∀ mode, mode ∈ memoryModes →
      (getInput s mode).1 = memGet s (effectiveAddr s mode) ∧
      (operationSTx s mode v).writes = s.writes ++ [(effectiveAddr s mode, v % 256)] ∧
      (setOutput (getInput s mode).2 mode v).writes
        = s.writes ++ [(effectiveAddr s mode, v % 256)]) ∧
    (∀ mode, mode ∉ memoryModes →
      (operationSTx s mode v).writes = s.writes ∧
      (setOutput (getInput s mode).2 mode v).writes = s.writes) := by
  obtain ⟨e1, e2, e3, e4⟩ := effectiveAddr_zero_page s
  have hx : Mode.zpx ∈ memoryModes := by decide
  have hy : Mode.zpy ∈ memoryModes := by decide
  have hix : Mode.idx ∈ memoryModes := by decide
  have hiy : Mode.idy ∈ memoryModes := by decide
  refine ⟨?_, ?_, ?_, ?_, ?_, ?_⟩
  · rw [← e1]; exact ⟨getInput_val s _ hx, operationSTx_write s _ v hx⟩
  · rw [← e2]; exact ⟨getInput_val s _ hy, operationSTx_write s _ v hy⟩
  · rw [← e3]; exact ⟨getInput_val s _ hix, operationSTx_write s _ v hix⟩
  · rw [← e4]; exact ⟨getInput_val s _ hiy, operationSTx_write s _ v hiy⟩
  · intro mode hm
    refine ⟨getInput_val s mode hm, operationSTx_write s mode v hm, ?_⟩
    have k := consumed_write s _ mode [] v hm (getInput_consumed s mode hm)
    rw [List.nil_append] at k
    exact k
  · intro mode hm
    cases mode <;> first
      | exact absurd (by decide) hm
      | exact ⟨rfl, rfl⟩

/-- Witness of C40: with the operand byte `$FF`, `X = $02` and `Y = $10`, a
zero-page-X store goes to `$0001` and an indirect-indexed store through the
pointer at `$FF/$00` to `$2108`. -/
theorem C40_zero_page_addressing_witness :
    (operationSTx scenZeroPage Mode.zpx 0x5A).writes = [(0x0001, 0x5A)] ∧
    (getInput scenZeroPage Mode.zpx).1 = 0x00 ∧
    (getInput scenZeroPage Mode.idx).1 = 0x88 ∧
    (operationSTx scenZeroPage Mode.idy 0x5A).writes = [(0x2108, 0x5A)] ∧
    (getInput scenZeroPage Mode.idy).1 = 0x99 ∧
    ((getInput scenZeroPage Mode.idy).1
        = memGet scenZeroPage (effectiveAddr scenZeroPage Mode.idy) ∧
      (operationSTx scenZeroPage Mode.idy 0x5A).writes
        = scenZeroPage.writes ++ [(effectiveAddr scenZeroPage Mode.idy, 0x5A % 256)] ∧
      (setOutput (getInput scenZeroPage Mode.idy).2 Mode.idy 0x5A).writes
        = scenZeroPage.writes ++ [(effectiveAddr scenZeroPage Mode.idy, 0x5A % 256)]) :=
  ⟨by decide, by decide, by decide, by decide, by decide,
    (C40_zero_page_addressing scenZeroPage 0x5A).2.2.2.2.1 Mode.idy (by decide)⟩

/-! ## The reduced clock -/

/-- With the NMI line low and no NMI recorded, `CHECK_FOR_NMI` changes nothing. -/
theorem CHECK_FOR_NMI_idle (t : Cpu) (ln : Lines) (hl : ln.ciaNMI = false)
    (h1 : t._nmi_committed = false) (h2 : t._nmi_line = false) (h3 : t._nmi_line_ts = 0) :
    CHECK_FOR_NMI t ln = t := by
  cases t
  simp only at h1 h2 h3
  subst h1 h2 h3
  simp [CHECK_FOR_NMI, hl]

/-- Without stun, with the NMI line low, no NMI recorded and no `START_NMI_OP`
in flight, a tick of the reduced clock is a tick of the full clock. -/
theorem psid_tick_eq_rsid (s : Cpu) (ln : Lines) (hl : ln.ciaNMI = false)
    (hs : ln.vicStunCPU = 0) (h1 : s._nmi_committed = false) (h2 : s._nmi_line = false)
    (h3 : s._nmi_line_ts = 0) (hop : s._exe_instr_opcode ≠ (START_NMI_OP : Int)) :
    cpuClockPSID s ln = cpuClockRSID s ln := by
  have f1 : (CHECK_FOR_IRQ s ln)._nmi_committed = false := by
    rw [← h1]; unfold CHECK_FOR_IRQ; split_ifs <;> rfl
  have f2 : (CHECK_FOR_IRQ s ln)._nmi_line = false := by
    rw [← h2]; unfold CHECK_FOR_IRQ; split_ifs <;> rfl
  have f3 : (CHECK_FOR_IRQ s ln)._nmi_line_ts = 0 := by
    rw [← h3]; unfold CHECK_FOR_IRQ; split_ifs <;> rfl
  have f4 : (CHECK_FOR_IRQ s ln)._exe_instr_opcode = s._exe_instr_opcode := by
    unfold CHECK_FOR_IRQ; split_ifs <;> rfl
  have e : sampled s ln = CHECK_FOR_IRQ s ln := CHECK_FOR_NMI_idle _ ln hl f1 f2 f3
  have hp : IS_NMI_PENDING (CHECK_FOR_IRQ s ln) ln = false := by
    unfold IS_NMI_PENDING; rw [f1]; rfl
  rw [cpuClockPSID_unfold, cpuClockRSID_unfold, e, stun_zero _ ln hs, hp]
  have hop2 : ¬ (CHECK_FOR_IRQ s ln)._exe_instr_opcode = (START_NMI_OP : Int) := by
    rw [f4]; exact hop
  simp only [Bool.false_eq_true, if_false, hop2]

/-- The NMI state stays clear over a tick of the full clock with the NMI line
low. -/
theorem nmi_clear_tick (s : Cpu) (ln : Lines) (hl : ln.ciaNMI = false)
    (h1 : s._nmi_committed = false) (h2 : s._nmi_line = false) (h3 : s._nmi_line_ts = 0) :
    (cpuClockRSID s ln)._nmi_committed = false ∧ (cpuClockRSID s ln)._nmi_line = false ∧
    (cpuClockRSID s ln)._nmi_line_ts = 0 := by
  obtain ⟨_, _, c3, c4, c5, _⟩ := tick_ctl s ln
  obtain ⟨n1, n2, n3⟩ := sampled_nmi s ln
  rw [c3, c4, c5, n1, n2, n3, h1, h2, h3, hl]
  simp

/-- Over a run without stun and with the NMI line low, started with no NMI
state and in which no `START_NMI_OP` byte is in flight, the reduced clock and
the full clock produce the same states. -/
theorem psid_run_eq_rsid (s : Cpu) (ln : Nat → Lines) (n : Nat)
    (hl : ∀ j, j < n → (ln j).ciaNMI = false ∧ (ln j).vicStunCPU = 0)
    (h1 : s._nmi_committed = false) (h2 : s._nmi_line = false) (h3 : s._nmi_line_ts = 0)
    (hop : ∀ j, j < n → (runTicks s ln j)._exe_instr_opcode ≠ (START_NMI_OP : Int)) :
    runTicksPSID s ln n = runTicks s ln n ∧
    (runTicks s ln n)._nmi_committed = false ∧ (runTicks s ln n)._nmi_line = false ∧
    (runTicks s ln n)._nmi_line_ts = 0 := by
  induction n with
  | zero => exact ⟨rfl, h1, h2, h3⟩
  | succ k ih =>
    obtain ⟨e, g1, g2, g3⟩ := ih (fun j hj => hl j (by omega)) (fun j hj => hop j (by omega))
    obtain ⟨l1, l2⟩ := hl k (by omega)
    refine ⟨?_, nmi_clear_tick _ _ l1 g1 g2 g3⟩
    show cpuClockPSID (runTicksPSID s ln k) (ln k) = cpuClockRSID (runTicks s ln k) (ln k)
    rw [e]
    exact psid_tick_eq_rsid _ _ l1 l2 g1 g2 g3 (hop k (by omega))

/-- C36: evaluation of the code where the claim fails.  In the state left by
`cpuInit(0)` over a memory of NOPs (no NMI committed, NMI line never high),
with the video chip reporting stun mode 2, a tick of `cpuClockRSID` returns
early and leaves the in-flight record idle, whereas a tick of `cpuClockPSID`,
which has no stun check, fetches the NOP; after two such ticks the full clock
still has `PC = 0` and the reduced clock has executed the NOP (`PC = 1`). -/
theorem C36_psid_ignores_stun :
    Reachable (cpuInit scenNops 0) ∧
    (cpuInit scenNops 0)._nmi_committed = false ∧ (cpuInit scenNops 0)._nmi_line = false ∧
    (stunned2 0).ciaNMI = false ∧ (stunned2 1).ciaNMI = false ∧
    (cpuClockRSID (cpuInit scenNops 0) (stunned2 0))._exe_instr_opcode = -1 ∧
    (cpuClockPSID (cpuInit scenNops 0) (stunned2 0))._exe_instr_opcode = 0xEA ∧
    (cpuClockPSID (cpuInit scenNops 0) (stunned2 0))._exe_instr_cycles = 2 ∧
    (cpuClockPSID (cpuInit scenNops 0) (stunned2 0))._exe_instr_cycles_remain = 1 ∧
    (runTicks (cpuInit scenNops 0) stunned2 2)._pc = 0 ∧
    (runTicksPSID (cpuInit scenNops 0) stunned2 2)._pc = 1 ∧
    (runTicksPSID (cpuInit scenNops 0) stunned2 2)._opc = 0xEA ∧
    (runTicks (cpuInit scenNops 0) stunned2 2)._opc = 0 :=
  ⟨Reachable.init _ _, by decide⟩

/-! ## Reset and earlier runs -/

/-- What `cpuInit` leaves depends on the prior state only through the memory,
the write log, `_interrupt_lead_time`, `_opc` and the scratch byte `bval`. -/
theorem cpuInit_determined (s1 s2 : Cpu) (r : Nat) (hm : s1.mem = s2.mem)
    (hw : s1.writes = s2.writes) (hl : s1._interrupt_lead_time = s2._interrupt_lead_time)
    (ho : s1._opc = s2._opc) (hb : s1.bval = s2.bval) :
    cpuInit s1 r = cpuInit s2 r := by
  cases s1
  cases s2
  simp only at hm hw hl ho hb
  subst hm hw hl ho hb
  rfl

/-- C39: evaluation of the code where the claim fails.  `cpuInit(1)` after the
history `histSei` and `cpuInit(1)` on `scenSei` leave the same memory,
registers, in-flight record and interrupt state, but `_opc` is still `$78` in
the first.  With the same signals (stun on the first tick, the IRQ line high
from the first tick) the first run loads `START_IRQ_OP` on the second tick
(after-SEI rule, one cycle after the line was stamped) while the second run
fetches the opcode `$00` at `PC = 0`; eight ticks later the stacked bytes
differ.  Likewise `_interrupt_lead_time` is still 3 after the history
`histBne`: with stun on the first two ticks the run after `histBne` fetches on
the third tick, the run from `scenBne` loads `START_IRQ_OP`. -/
theorem C39_reset_keeps_history :
    (Reachable (cpuInit histSei 1) ∧ Reachable (cpuInit scenSei 1)) ∧
    ((cpuInit histSei 1).mem = (cpuInit scenSei 1).mem ∧
      (cpuInit histSei 1).writes = (cpuInit scenSei 1).writes ∧
      (cpuInit histSei 1)._interrupt_lead_time = (cpuInit scenSei 1)._interrupt_lead_time ∧
      (cpuInit histSei 1)._opc = 0x78 ∧ (cpuInit scenSei 1)._opc = 0) ∧
    ((runClock (cpuInit histSei 1) (stunThenIrq 1) 2)._exe_instr_opcode = (START_IRQ_OP : Int) ∧
      (runClock (cpuInit scenSei 1) (stunThenIrq 1) 2)._exe_instr_opcode = 0 ∧
      (runClock (cpuInit histSei 1) (stunThenIrq 1) 8).writes
        = [(0x0100, 0x00), (0x01FF, 0x00), (0x01FE, 0x20)] ∧
      (runClock (cpuInit scenSei 1) (stunThenIrq 1) 8).writes
        = [(0x0100, 0x00), (0x01FF, 0x02), (0x01FE, 0x30)]) ∧
    ((cpuInit histBne 1).mem = (cpuInit scenBne 1).mem ∧
      (cpuInit histBne 1)._opc = (cpuInit scenBne 1)._opc ∧
      (cpuInit histBne 1)._interrupt_lead_time = 3 ∧
      (cpuInit scenBne 1)._interrupt_lead_time = 2) ∧
    ((runClock (cpuInit histBne 1) (stunThenIrq 2) 3)._exe_instr_opcode = 0 ∧
      (runClock (cpuInit scenBne 1) (stunThenIrq 2) 3)._exe_instr_opcode
        = (START_IRQ_OP : Int)) :=
  ⟨⟨Reachable.init _ _, Reachable.init _ _⟩, ⟨rfl, by decide⟩, by decide, ⟨rfl, by decide⟩,
    by decide⟩

/-! ## Read-modify-write in cpu_operations.c -/

theorem SETFLAGS_eq (s : Cpu) (f : Nat) (c : Bool) :
    SETFLAGS s f c = { s with _p := setFlag s._p f c } := by
  unfold setFlag SETFLAGS
  split <;> rfl

theorem setOutput_pc (s : Cpu) (m : Mode) (v : Nat) : (setOutput s m v)._pc = s._pc := by
  cases m <;> rfl

theorem memSet_a (s : Cpu) (a v : Nat) : (memSet s a v)._a = s._a := rfl

theorem memSet_x (s : Cpu) (a v : Nat) : (memSet s a v)._x = s._x := rfl

theorem memSet_y (s : Cpu) (a v : Nat) : (memSet s a v)._y = s._y := rfl

theorem memSet_s (s : Cpu) (a v : Nat) : (memSet s a v)._s = s._s := rfl

theorem memSet_pc (s : Cpu) (a v : Nat) : (memSet s a v)._pc = s._pc := rfl

theorem MEM_SET_IO_eq (s : Cpu) (a v : Nat) : MEM_SET_IO s a v = memSet s a v := rfl

/-- In a memory mode `getOutputAddr` is the address `setOutput` writes to:
with the operand bytes consumed, the effective address. -/
theorem getOutputAddr_consumed (s0 t : Cpu) (mode : Mode) (ws : List (Nat × Nat))
    (hm : mode ∈ memoryModes) (h : Consumed s0 mode t ws) :
    getOutputAddr t mode = (effectiveAddr s0 mode : Int) := by
  obtain ⟨hpc, hrd, hx, hy, _⟩ := h
  simp only [memoryModes, List.mem_cons, List.mem_singleton, List.not_mem_nil, or_false] at hm
  rcases hm with rfl | rfl | rfl | rfl | rfl | rfl | rfl | rfl <;>
    simp only [operandBytes] at hpc <;>
    simp only [getOutputAddr, effectiveAddr, pcMinus, hpc, hrd, hx, hy, pcm_22, pcm_21, pcm_11,
      memGet_mod]

theorem getOutputAddr_nonneg (t : Cpu) (mode : Mode) (hm : mode ∈ memoryModes) :
    ¬ getOutputAddr t mode < 0 := by
  simp only [memoryModes, List.mem_cons, List.mem_singleton, List.not_mem_nil, or_false] at hm
  rcases hm with rfl | rfl | rfl | rfl | rfl | rfl | rfl | rfl <;>
    simp only [getOutputAddr] <;> omega

/-- Registers, flags and program counter agree between the two variants in the
memory modes. -/
theorem ops_regs_mem (m : Mnemonic) (t : Cpu) (hm : m ∈ rmwMnemonics)
    (hmode : modeOf t._opc ∈ memoryModes) :
    (runPrefetchedOp_ops m t)._a = (runPrefetchedOp_switch m t)._a ∧
    (runPrefetchedOp_ops m t)._x = (runPrefetchedOp_switch m t)._x ∧
    (runPrefetchedOp_ops m t)._y = (runPrefetchedOp_switch m t)._y ∧
    (runPrefetchedOp_ops m t)._s = (runPrefetchedOp_switch m t)._s ∧
    (runPrefetchedOp_ops m t)._p = (runPrefetchedOp_switch m t)._p ∧
    (runPrefetchedOp_ops m t)._pc = (runPrefetchedOp_switch m t)._pc := by
  have k := fun u v => setOutput_a_mem u (modeOf t._opc) v hmode
  have hn := fun u => getOutputAddr_nonneg u (modeOf t._opc) hmode
  simp only [rmwMnemonics, List.mem_cons, List.mem_singleton, List.not_mem_nil, or_false] at hm
  rcases hm with rfl | rfl | rfl | rfl | rfl | rfl | rfl | rfl | rfl | rfl | rfl | rfl <;>
    simp only [runPrefetchedOp_ops, runPrefetchedOp_switch, READ_MODIFY_WRITE, MEM_SET_IO_eq,
      hn, if_false] <;>
    by_cases h1 : getOutputAddr (getInput t (modeOf t._opc)).2 (modeOf t._opc) = 0xd019 <;>
    simp only [h1, if_true, if_false, SETFLAGS_a, SETFLAGS_x, SETFLAGS_y, SETFLAGS_s,
      SETFLAGS_p, SETFLAGS_pc, SETFLAGS_bval, setOutput_x, setOutput_y, setOutput_s,
      setOutput_p, setOutput_pc, setOutput_bval, k, getInput_a, getInput_x, getInput_y,
      getInput_s, getInput_p, getInput_bval, memSet_a, memSet_x, memSet_y, memSet_s, memSet_p,
      memSet_pc, and_self]

theorem memSet_writes (s : Cpu) (a v : Nat) :
    (memSet s a v).writes = s.writes ++ [(a % 65536, v % 256)] := rfl

theorem memSet_mem_get (s : Cpu) (a v b : Nat) :
    (memSet s a v).mem (b % 65536) % 256
      = if b % 65536 = a % 65536 then v % 256 else memGet s b :=
  memGet_memSet s a v b

theorem SETFLAGS_mem_get (s : Cpu) (f : Nat) (c : Bool) (b : Nat) :
    (SETFLAGS s f c).mem (b % 65536) % 256 = memGet s b :=
  memGet_SETFLAGS s f c b

theorem mk_mem_get (m : Nat → Nat) (b : Nat) (pc a x y sp p lead : Nat) (ic : Bool)
    (its : Nat) (nc nl : Bool) (nts opc : Nat) (eo ec er : Int) (bv : Nat)
    (ws : List (Nat × Nat)) (nm clk : Bool) :
    memGet
      { _pc := pc, _a := a, _x := x, _y := y, _s := sp, _p := p,
        _interrupt_lead_time := lead, _irq_committed := ic, _irq_line_ts := its,
        _nmi_committed := nc, _nmi_line := nl, _nmi_line_ts := nts, _opc := opc,
        _exe_instr_opcode := eo, _exe_instr_cycles := ec, _exe_instr_cycles_remain := er,
        bval := bv, mem := m, writes := ws, nmi_marker := nm, cpuClock_rsid := clk } b
      = m (b % 65536) % 256 := rfl

theorem memGet_getInput (s : Cpu) (mode : Mode) (b : Nat) :
    memGet (getInput s mode).2 b = memGet s b := by
  unfold memGet
  rw [getInput_mem]

theorem rmw_arith2 : ∀ v, v < 256 →
    v <<< 1 % 65536 % 256 = v <<< 1 % 256 ∧ v >>> 1 % 256 = v >>> 1 := by
  decide

/-- The write log the read-modify-write cases of `cpu_operations.c` leave in a
memory mode: at `$D019` the byte read and then the result, elsewhere the result
only. -/
theorem ops_writes (m : Mnemonic) (t : Cpu) (hm : m ∈ rmwMnemonics)
    (hmode : modeOf t._opc ∈ memoryModes) :
    (runPrefetchedOp_ops m t).writes = t.writes ++
      (if effectiveAddr t (modeOf t._opc) = 0xd019 then
        [(effectiveAddr t (modeOf t._opc), memGet t (effectiveAddr t (modeOf t._opc))),
         (effectiveAddr t (modeOf t._opc),
          rmwValue m (memGet t (effectiveAddr t (modeOf t._opc))) (carryOf t))]
       else
        [(effectiveAddr t (modeOf t._opc),
          rmwValue m (memGet t (effectiveAddr t (modeOf t._opc))) (carryOf t))]) := by
  have ha := getOutputAddr_consumed t _ _ [] hmode (getInput_consumed t _ hmode)
  have hlt := effectiveAddr_lt t _ hmode
  have hv := getInput_val t _ hmode
  have hn : ¬ ((effectiveAddr t (modeOf t._opc) : Nat) : Int) < 0 := by omega
  have hto : (((effectiveAddr t (modeOf t._opc) : Nat) : Int)).toNat
      = effectiveAddr t (modeOf t._opc) := Int.toNat_ofNat _
  have hmod : effectiveAddr t (modeOf t._opc) % 65536 = effectiveAddr t (modeOf t._opc) :=
    Nat.mod_eq_of_lt hlt
  have hvm : memGet t (effectiveAddr t (modeOf t._opc)) % 256
      = memGet t (effectiveAddr t (modeOf t._opc)) := Nat.mod_eq_of_lt (memGet_lt _ _)
  obtain ⟨a1, a2, a3, a4, a5, a6⟩ :=
    rmw_arith (memGet t (effectiveAddr t (modeOf t._opc))) (memGet_lt _ _) (carryOf t)
      (carryOf_lt t)
  obtain ⟨b1, b2⟩ := rmw_arith2 (memGet t (effectiveAddr t (modeOf t._opc))) (memGet_lt _ _)
  have hc : ((effectiveAddr t (modeOf t._opc) : Nat) : Int) = 0xd019
      ↔ effectiveAddr t (modeOf t._opc) = 0xd019 := by omega
  simp only [rmwMnemonics, List.mem_cons, List.mem_singleton, List.not_mem_nil, or_false] at hm
  rcases hm with rfl | rfl | rfl | rfl | rfl | rfl | rfl | rfl | rfl | rfl | rfl | rfl <;>
    simp only [runPrefetchedOp_ops, READ_MODIFY_WRITE, MEM_SET_IO_eq, ha, hn, if_false, hto,
      hc] <;>
    by_cases h1 : effectiveAddr t (modeOf t._opc) = 0xd019
  all_goals
    first
      | simp only [if_pos (id h1 : effectiveAddr t (modeOf t._opc) = 0xd019), SETFLAGS_writes,
          SETFLAGS_p, memSet_writes, memSet_p, getInput_writes, getInput_p, hv, hvm, hmod,
          carryOf_if, rmwValue, a1, a2, a3, a4, a5, a6, b1, b2, List.append_assoc,
          List.singleton_append, List.cons_append, List.nil_append]
      | simp only [if_neg (id h1 : ¬ effectiveAddr t (modeOf t._opc) = 0xd019),
          SETFLAGS_writes, SETFLAGS_p, memSet_writes, memSet_p, getInput_writes, getInput_p, hv,
          hvm, hmod, carryOf_if, rmwValue, a1, a2, a3, a4, a5, a6, b1, b2, List.append_assoc,
          List.singleton_append, List.cons_append, List.nil_append]

/-- The memory the read-modify-write cases of `cpu_operations.c` leave in a
memory mode: the result at the effective address, every other byte as before. -/
theorem ops_read (m : Mnemonic) (t : Cpu) (a : Nat) (hm : m ∈ rmwMnemonics)
    (hmode : modeOf t._opc ∈ memoryModes) :
    memGet (runPrefetchedOp_ops m t) a =
      if a % 65536 = effectiveAddr t (modeOf t._opc)
      then rmwValue m (memGet t (effectiveAddr t (modeOf t._opc))) (carryOf t)
      else memGet t a := by
  have ha := getOutputAddr_consumed t _ _ [] hmode (getInput_consumed t _ hmode)
  have hlt := effectiveAddr_lt t _ hmode
  have hv := getInput_val t _ hmode
  have hn : ¬ ((effectiveAddr t (modeOf t._opc) : Nat) : Int) < 0 := by omega
  have hto : (((effectiveAddr t (modeOf t._opc) : Nat) : Int)).toNat
      = effectiveAddr t (modeOf t._opc) := Int.toNat_ofNat _
  have hmod : effectiveAddr t (modeOf t._opc) % 65536 = effectiveAddr t (modeOf t._opc) :=
    Nat.mod_eq_of_lt hlt
  have hvm : memGet t (effectiveAddr t (modeOf t._opc)) % 256
      = memGet t (effectiveAddr t (modeOf t._opc)) := Nat.mod_eq_of_lt (memGet_lt _ _)
  obtain ⟨a1, a2, a3, a4, a5, a6⟩ :=
    rmw_arith (memGet t (effectiveAddr t (modeOf t._opc))) (memGet_lt _ _) (carryOf t)
      (carryOf_lt t)
  obtain ⟨b1, b2⟩ := rmw_arith2 (memGet t (effectiveAddr t (modeOf t._opc))) (memGet_lt _ _)
  have hc : ((effectiveAddr t (modeOf t._opc) : Nat) : Int) = 0xd019
      ↔ effectiveAddr t (modeOf t._opc) = 0xd019 := by omega
  simp only [rmwMnemonics, List.mem_cons, List.mem_singleton, List.not_mem_nil, or_false] at hm
  rcases hm with rfl | rfl | rfl | rfl | rfl | rfl | rfl | rfl | rfl | rfl | rfl | rfl <;>
    simp only [runPrefetchedOp_ops, READ_MODIFY_WRITE, MEM_SET_IO_eq, ha, hn, if_false, hto,
      hc] <;>
    by_cases h1 : effectiveAddr t (modeOf t._opc) = 0xd019 <;>
    by_cases h2 : a % 65536 = effectiveAddr t (modeOf t._opc)
  all_goals
    first
      | simp only [if_pos (id h1 : effectiveAddr t (modeOf t._opc) = 0xd019),
          if_pos (id h2 : a % 65536 = effectiveAddr t (modeOf t._opc)),
          memGet_SETFLAGS, mk_mem_get, SETFLAGS_mem_get, memSet_mem_get, memGet_memSet,
          memGet_getInput, SETFLAGS_p, memSet_p, getInput_p, hv, hvm, hmod,
          carryOf_if, rmwValue, a1, a2, a3, a4, a5, a6, b1, b2]
      | simp only [if_pos (id h1 : effectiveAddr t (modeOf t._opc) = 0xd019),
          if_neg (id h2 : ¬ a % 65536 = effectiveAddr t (modeOf t._opc)),
          memGet_SETFLAGS, mk_mem_get, SETFLAGS_mem_get, memSet_mem_get, memGet_memSet,
          memGet_getInput, SETFLAGS_p, memSet_p, getInput_p, hv, hvm, hmod,
          carryOf_if, rmwValue, a1, a2, a3, a4, a5, a6, b1, b2]
      | simp only [if_neg (id h1 : ¬ effectiveAddr t (modeOf t._opc) = 0xd019),
          if_pos (id h2 : a % 65536 = effectiveAddr t (modeOf t._opc)),
          memGet_SETFLAGS, mk_mem_get, SETFLAGS_mem_get, memSet_mem_get, memGet_memSet,
          memGet_getInput, SETFLAGS_p, memSet_p, getInput_p, hv, hvm, hmod,
          carryOf_if, rmwValue, a1, a2, a3, a4, a5, a6, b1, b2]
      | simp only [if_neg (id h1 : ¬ effectiveAddr t (modeOf t._opc) = 0xd019),
          if_neg (id h2 : ¬ a % 65536 = effectiveAddr t (modeOf t._opc)),
          memGet_SETFLAGS, mk_mem_get, SETFLAGS_mem_get, memSet_mem_get, memGet_memSet,
          memGet_getInput, SETFLAGS_p, memSet_p, getInput_p, hv, hvm, hmod,
          carryOf_if, rmwValue, a1, a2, a3, a4, a5, a6, b1, b2]

/-- Every opcode of a read-modify-write mnemonic has a memory addressing mode or
the accumulator mode. -/
theorem rmw_modes : ∀ op, op < 256 → mnemonicOf op ∈ rmwMnemonics →
    modeOf op ∈ memoryModes ∨ modeOf op = Mode.acc := by
  decide

/-- In accumulator mode neither variant writes to memory, and registers and
flags agree. -/
theorem ops_acc (m : Mnemonic) (t : Cpu) (hm : m ∈ rmwMnemonics)
    (hmd : modeOf t._opc = Mode.acc) :
    ((runPrefetchedOp_ops m t)._a = (runPrefetchedOp_switch m t)._a ∧
      (runPrefetchedOp_ops m t)._x = (runPrefetchedOp_switch m t)._x ∧
      (runPrefetchedOp_ops m t)._y = (runPrefetchedOp_switch m t)._y ∧
      (runPrefetchedOp_ops m t)._s = (runPrefetchedOp_switch m t)._s ∧
      (runPrefetchedOp_ops m t)._p = (runPrefetchedOp_switch m t)._p ∧
      (runPrefetchedOp_ops m t)._pc = (runPrefetchedOp_switch m t)._pc) ∧
    (runPrefetchedOp_ops m t).writes = t.writes ∧
    (runPrefetchedOp_switch m t).writes = t.writes ∧
    (runPrefetchedOp_ops m t).mem = t.mem ∧ (runPrefetchedOp_switch m t).mem = t.mem := by
  have hA : ¬ ((-1 : Int) = 0xd019) := by decide
  have hB : (-1 : Int) < 0 := by decide
  simp only [rmwMnemonics, List.mem_cons, List.mem_singleton, List.not_mem_nil, or_false] at hm
  rcases hm with rfl | rfl | rfl | rfl | rfl | rfl | rfl | rfl | rfl | rfl | rfl | rfl <;>
    simp only [runPrefetchedOp_ops, runPrefetchedOp_switch, READ_MODIFY_WRITE, hmd, getInput,
      setOutput, getOutputAddr, hA, hB, if_true, if_false, SETFLAGS_a, SETFLAGS_x, SETFLAGS_y,
      SETFLAGS_s, SETFLAGS_p, SETFLAGS_pc, SETFLAGS_bval, SETFLAGS_writes, SETFLAGS_mem,
      Nat.mod_mod, and_self]

/-- C37: the I/O-restricted double write of `cpu_operations.c` refines the
unrestricted one of `cpu.c`.  For every state whose in-flight opcode is one of
ASL, LSR, ROL, ROR, INC, DEC, SLO, SRE, RLA, RRA, ISB, DCP (any addressing mode
the opcode table gives them: a memory mode or the accumulator), entering the
switch of either file in the same state: `A`, `X`, `Y`, `S`, `P` and `PC` agree
and so does every byte of memory.  In a memory mode with effective address
`ea`, byte read `v` and result `w`, `cpu.c` logs the writes `(ea, v)`, `(ea,
w)`; `cpu_operations.c` logs the same two writes when `ea = $D019` and the
single write `(ea, w)` otherwise.  In accumulator mode neither variant writes
to memory. -/
theorem C37_rmw_refinement (s : Cpu)
    (hm : mnemonicOf (u8 s._exe_instr_opcode) ∈ rmwMnemonics) :
    ((runPrefetchedOp_ops (mnemonicOf (u8 s._exe_instr_opcode)) (switchEntry s))._a
        = (runPrefetchedOp s)._a ∧
      (runPrefetchedOp_ops (mnemonicOf (u8 s._exe_instr_opcode)) (switchEntry s))._x
        = (runPrefetchedOp s)._x ∧
      (runPrefetchedOp_ops (mnemonicOf (u8 s._exe_instr_opcode)) (switchEntry s))._y
        = (runPrefetchedOp s)._y ∧
      (runPrefetchedOp_ops (mnemonicOf (u8 s._exe_instr_opcode)) (switchEntry s))._s
        = (runPrefetchedOp s)._s ∧
      (runPrefetchedOp_ops (mnemonicOf (u8 s._exe_instr_opcode)) (switchEntry s))._p
        = (runPrefetchedOp s)._p ∧
      (runPrefetchedOp_ops (mnemonicOf (u8 s._exe_instr_opcode)) (switchEntry s))._pc
        = (runPrefetchedOp s)._pc) ∧
    (∀ a, memGet (runPrefetchedOp_ops (mnemonicOf (u8 s._exe_instr_opcode)) (switchEntry s)) a
        = memGet (runPrefetchedOp s) a) ∧
    (modeOf (u8 s._exe_instr_opcode) ∈ memoryModes →
      (runPrefetchedOp s).writes = s.writes ++
        [(effectiveAddr (incPC s) (modeOf (u8 s._exe_instr_opcode)),
          memGet s (effectiveAddr (incPC s) (modeOf (u8 s._exe_instr_opcode)))),
         (effectiveAddr (incPC s) (modeOf (u8 s._exe_instr_opcode)),
          rmwValue (mnemonicOf (u8 s._exe_instr_opcode))
            (memGet s (effectiveAddr (incPC s) (modeOf (u8 s._exe_instr_opcode))))
            (carryOf s))] ∧
      (runPrefetchedOp_ops (mnemonicOf (u8 s._exe_instr_opcode)) (switchEntry s)).writes
        = s.writes ++
          (if effectiveAddr (incPC s) (modeOf (u8 s._exe_instr_opcode)) = 0xd019 then
            [(effectiveAddr (incPC s) (modeOf (u8 s._exe_instr_opcode)),
              memGet s (effectiveAddr (incPC s) (modeOf (u8 s._exe_instr_opcode)))),
             (effectiveAddr (incPC s) (modeOf (u8 s._exe_instr_opcode)),
              rmwValue (mnemonicOf (u8 s._exe_instr_opcode))
                (memGet s (effectiveAddr (incPC s) (modeOf (u8 s._exe_instr_opcode))))
                (carryOf s))]
           else
            [(effectiveAddr (incPC s) (modeOf (u8 s._exe_instr_opcode)),
              rmwValue (mnemonicOf (u8 s._exe_instr_opcode))
                (memGet s (effectiveAddr (incPC s) (modeOf (u8 s._exe_instr_opcode))))
                (carryOf s))])) ∧
    (modeOf (u8 s._exe_instr_opcode) = Mode.acc →
      (runPrefetchedOp_ops (mnemonicOf (u8 s._exe_instr_opcode)) (switchEntry s)).writes
        = s.writes ∧
      (runPrefetchedOp s).writes = s.writes) ∧
    (modeOf (u8 s._exe_instr_opcode) ∈ memoryModes ∨
      modeOf (u8 s._exe_instr_opcode) = Mode.acc) := by
  have hmodes := rmw_modes _ (u8_lt s._exe_instr_opcode) hm
  have e : runPrefetchedOp s
      = runPrefetchedOp_switch (mnemonicOf (u8 s._exe_instr_opcode)) (switchEntry s) := rfl
  rw [e]
  refine ⟨?_, ?_, ?_, ?_, hmodes⟩
  · rcases hmodes with h | h
    · exact ops_regs_mem _ (switchEntry s) hm h
    · exact (ops_acc _ (switchEntry s) hm h).1
  · intro a
    rcases hmodes with h | h
    · exact (ops_read _ (switchEntry s) a hm h).trans
        (rmw_read _ (switchEntry s) a hm h).symm
    · obtain ⟨_, _, _, m1, m2⟩ := ops_acc _ (switchEntry s) hm h
      unfold memGet
      rw [m1, m2]
  · intro h
    exact ⟨rmw_switch _ (switchEntry s) hm h, ops_writes _ (switchEntry s) hm h⟩
  · intro h
    obtain ⟨_, w1, w2, _⟩ := ops_acc _ (switchEntry s) hm h
    exact ⟨w1, w2⟩

/-- Witness of C37: `INC $D019` with `$81` at `$D019` performs both writes in
either variant; `SLO $10` with `$81` at `$10` performs the writes `$81`, `$02`
in `cpu.c` and the single write `$02` in `cpu_operations.c`. -/
theorem C37_rmw_refinement_witness :
    (runPrefetchedOp_ops Mnemonic.inc (switchEntry scenInc)).writes
      = [(0xD019, 0x81), (0xD019, 0x82)] ∧
    (runPrefetchedOp scenInc).writes = [(0xD019, 0x81), (0xD019, 0x82)] ∧
    (runPrefetchedOp_ops Mnemonic.slo (switchEntry scenSlo)).writes = [(0x0010, 0x02)] ∧
    (runPrefetchedOp scenSlo).writes = [(0x0010, 0x81), (0x0010, 0x02)] ∧
    ((runPrefetchedOp_ops (mnemonicOf (u8 scenSlo._exe_instr_opcode)) (switchEntry scenSlo))._a
        = (runPrefetchedOp scenSlo)._a ∧
      (runPrefetchedOp_ops (mnemonicOf (u8 scenSlo._exe_instr_opcode)) (switchEntry scenSlo))._x
        = (runPrefetchedOp scenSlo)._x ∧
      (runPrefetchedOp_ops (mnemonicOf (u8 scenSlo._exe_instr_opcode)) (switchEntry scenSlo))._y
        = (runPrefetchedOp scenSlo)._y ∧
      (runPrefetchedOp_ops (mnemonicOf (u8 scenSlo._exe_instr_opcode)) (switchEntry scenSlo))._s
        = (runPrefetchedOp scenSlo)._s ∧
      (runPrefetchedOp_ops (mnemonicOf (u8 scenSlo._exe_instr_opcode)) (switchEntry scenSlo))._p
        = (runPrefetchedOp scenSlo)._p ∧
      (runPrefetchedOp_ops (mnemonicOf (u8 scenSlo._exe_instr_opcode)) (switchEntry scenSlo))._pc
        = (runPrefetchedOp scenSlo)._pc) :=
  ⟨by decide, by decide, by decide, by decide, (C37_rmw_refinement scenSlo (by decide)).1⟩

/-! ## Interrupt lead time -/

theorem getInput_opc2 (s : Cpu) (m : Mode) : (getInput s m).2._opc = s._opc := by
  cases m <;> rfl

theorem setOutput_opc (s : Cpu) (m : Mode) (v : Nat) : (setOutput s m v)._opc = s._opc := by
  cases m <;> rfl

theorem operationSTx_opc (s : Cpu) (m : Mode) (v : Nat) :
    (operationSTx s m v)._opc = s._opc := by
  cases m <;> rfl

theorem branch_opc (s : Cpu) (t : Bool) : (branch s t)._opc = s._opc := by
  unfold branch; split <;> rfl

theorem pop_opc (s : Cpu) : (pop s).2._opc = s._opc := rfl

theorem incPC_opc (s : Cpu) : (incPC s)._opc = s._opc := rfl

/-- No case of the switch changes `_opc`. -/
theorem switch_opc (m : Mnemonic) (s : Cpu) : (runPrefetchedOp_switch m s)._opc = s._opc := by
  cases m <;>
    simp only [runPrefetchedOp_switch, SETFLAGS_opc, getInput_opc2, setOutput_opc,
      operationSTx_opc, branch_opc, push_opc, pop_opc, incPC_opc]
  · split_ifs <;> simp only [SETFLAGS_opc, getInput_opc2]
  · split <;> rfl

/-- After `runPrefetchedOp` the last-executed opcode `_opc` is the opcode that
was in flight. -/
theorem runPrefetchedOp_opc (t : Cpu) : (runPrefetchedOp t)._opc = u8 t._exe_instr_opcode := by
  rw [runPrefetchedOp_eq, switch_opc]

/-- A tick with an operation in flight leaves the lead time alone. -/
theorem busy_lead (u : Cpu) (ln : Lines) (h : 0 ≤ u._exe_instr_opcode) :
    (cpuClockRSID u ln)._interrupt_lead_time = u._interrupt_lead_time := by
  rw [(tick_ctl u ln).2.2.2.2.2, (dispatchesIRQ_busy u ln h).2.2]
  rfl

/-- Without a high NMI line no NMI is committed. -/
theorem nmi_quiet_run (s : Cpu) (ln : Nat → Lines) (h : s._nmi_committed = false) :
    ∀ m, (∀ j, j < m → (ln j).ciaNMI = false) → (runTicks s ln m)._nmi_committed = false := by
  intro m
  induction m with
  | zero => intro _; exact h
  | succ m ih =>
    intro hq
    rw [runTicks_succ]
    exact (nmi_stays_uncommitted _ _ (hq m (by omega)) (ih (fun j hj => hq j (by omega)))).1

theorem u8_byte (b : Nat) (h : b < 256) : u8 (b : Int) = b := by
  unfold u8
  omega

/-- The ticks of one instruction that is not a pseudo operation: fetched on tick
0 with `n ≥ 2` cycles, it is in flight on the ticks `1 .. n-1`, the record is
idle after tick `n-1`, `_opc` then holds its opcode, and the lead time set by
the fetch is kept. -/
theorem instr_run (s : Cpu) (ln : Nat → Lines) (n : Nat)
    (hfetch : tickFetches s (ln 0) = true)
    (hop : memGet s s._pc ≠ START_IRQ_OP ∧ memGet s s._pc ≠ START_NMI_OP ∧
      memGet s s._pc ≠ NULL_OP)
    (hn : (prefetchOperation s)._exe_instr_cycles = n) (h2 : 2 ≤ n)
    (hst : ∀ j, j < n → (ln j).vicStunCPU = 0) :
    (∀ j, 1 ≤ j → j < n →
      (runTicks s ln j)._exe_instr_opcode = (memGet s s._pc : Nat)) ∧
    (runTicks s ln n)._exe_instr_opcode = -1 ∧
    (runTicks s ln n)._opc = memGet s s._pc ∧
    (∀ j, 1 ≤ j → j ≤ n →
      (runTicks s ln j)._interrupt_lead_time = (prefetchOperation s)._interrupt_lead_time) := by
  obtain ⟨_, f2, _, f4, f5, _, _⟩ := fetch_tick_facts s (ln 0) hfetch
  have hb := prefetch_cycles_bound s
  have e1 : runTicks s ln 1 = cpuClockRSID s (ln 0) := rfl
  rw [← e1] at f2 f4 f5
  rw [hn] at f4 hb
  have ho1 : 0 ≤ (runTicks s ln 1)._exe_instr_opcode := by rw [f2]; omega
  have hcd : ∀ m : Nat, m + 2 ≤ n →
      (runTicks s ln (1 + m))._exe_instr_opcode = (memGet s s._pc : Nat) ∧
      (runTicks s ln (1 + m))._exe_instr_cycles_remain = (n : Int) - 1 - m := by
    intro m hm
    obtain ⟨_, c2, c3, _⟩ := countdown_ticks s ln 1 m ho1 (by rw [f4]; omega)
      (by rw [f4]; omega) (fun j _ hj => hst j (by omega))
    exact ⟨c3.trans f2, by rw [c2, f4]⟩
  have ha : ∀ j, 1 ≤ j → j < n →
      (runTicks s ln j)._exe_instr_opcode = (memGet s s._pc : Nat) := by
    intro j h1 hj
    obtain ⟨m, rfl⟩ : ∃ m, j = 1 + m := ⟨j - 1, by omega⟩
    exact (hcd m (by omega)).1
  -- the completing tick
  obtain ⟨g1, g2⟩ := hcd (n - 2) (by omega)
  have en : 1 + (n - 2) = n - 1 := by omega
  rw [en] at g1 g2
  have hs : tickStunned (runTicks s ln (n - 1)) (ln (n - 1)) = false :=
    stun_zero _ _ (hst (n - 1) (by omega))
  have hr : wrap8 ((runTicks s ln (n - 1))._exe_instr_cycles_remain - 1) = 0 := by
    rw [g2]; unfold wrap8; omega
  have hstep := tick_complete (runTicks s ln (n - 1)) (ln (n - 1)) hs (by rw [g1]; omega) hr
  have hb1 := memGet_lt s s._pc
  have n1 : ¬ (runTicks s ln (n - 1))._exe_instr_opcode = (START_IRQ_OP : Int) := by
    rw [g1]; intro h; exact hop.1 (by exact_mod_cast h)
  have n2 : ¬ (runTicks s ln (n - 1))._exe_instr_opcode = (START_NMI_OP : Int) := by
    rw [g1]; intro h; exact hop.2.1 (by exact_mod_cast h)
  have n3 : ¬ (runTicks s ln (n - 1))._exe_instr_opcode = (NULL_OP : Int) := by
    rw [g1]; intro h; exact hop.2.2 (by exact_mod_cast h)
  rw [if_neg n1, if_neg n2, if_neg n3] at hstep
  have elast : runTicks s ln n
      = cpuClockRSID (runTicks s ln (n - 1)) (ln (n - 1)) := by
    obtain ⟨m, rfl⟩ : ∃ m, n = m + 1 := ⟨n - 1, by omega⟩
    rfl
  refine ⟨ha, ?_, ?_, ?_⟩
  · rw [elast, hstep]; rfl
  · rw [elast, hstep]
    show (runPrefetchedOp _)._opc = _
    rw [runPrefetchedOp_opc]
    show u8 (sampled (runTicks s ln (n - 1)) (ln (n - 1)))._exe_instr_opcode = _
    rw [sampled_exe_instr_opcode, g1]
    exact u8_byte _ hb1
  · intro j h1 hj
    obtain ⟨m, rfl⟩ : ∃ m, j = 1 + m := ⟨j - 1, by omega⟩
    clear h1
    induction m with
    | zero => exact f5
    | succ m ih =>
      have e : runTicks s ln (1 + (m + 1))
          = cpuClockRSID (runTicks s ln (1 + m)) (ln (1 + m)) := rfl
      rw [e, busy_lead _ _ (by rw [ha (1 + m) (by omega) (by omega)]; omega)]
      exact ih (by omega)

/-- An instruction in flight stays in flight until it is retired: with `d` the
8-bit residue of `cycles_remaining - 1` plus one, the `d` unstunned ticks from
`t0` on all find an operation in flight and the record is idle after them. -/
theorem busy_until (s : Cpu) (ln : Nat → Lines) :
    ∀ (d : Nat) (t0 : Nat), 0 ≤ (runTicks s ln t0)._exe_instr_opcode →
      ((runTicks s ln t0)._exe_instr_cycles_remain - 1) % 256 + 1 = (d : Int) →
      (∀ j, t0 ≤ j → j < t0 + d → (ln j).vicStunCPU = 0) →
      (∀ j, t0 ≤ j → j < t0 + d → 0 ≤ (runTicks s ln j)._exe_instr_opcode) ∧
      (runTicks s ln (t0 + d))._exe_instr_opcode < 0 := by
  intro d
  induction d with
  | zero =>
    intro t0 _ hd _
    exfalso
    have := Int.emod_nonneg ((runTicks s ln t0)._exe_instr_cycles_remain - 1)
      (by norm_num : (256 : Int) ≠ 0)
    simp only [Nat.cast_zero] at hd
    omega
  | succ d ih =>
    intro t0 ho hd hst
    have hs : tickStunned (runTicks s ln t0) (ln t0) = false :=
      stun_zero _ _ (hst t0 (le_refl _) (by omega))
    by_cases hz : wrap8 ((runTicks s ln t0)._exe_instr_cycles_remain - 1) = 0
    · have hd0 : d = 0 := by
        unfold wrap8 at hz
        push_cast at hd
        omega
      subst hd0
      refine ⟨fun j h1 h2 => ?_, ?_⟩
      · have e : j = t0 := by omega
        rw [e]; exact ho
      · show (runTicks s ln (t0 + 1))._exe_instr_opcode < 0
        rw [runTicks_succ, tick_complete _ _ hs ho hz]
        simp [retire]
    · have e : t0 + (d + 1) = (t0 + 1) + d := by omega
      rw [e]
      have hstep := tick_countdown _ _ hs ho hz
      have hnext := ih (t0 + 1)
        (by
          rw [runTicks_succ, hstep]
          show 0 ≤ (sampled _ _)._exe_instr_opcode
          rw [sampled_exe_instr_opcode]; exact ho)
        (by
          rw [runTicks_succ, hstep]
          show (wrap8 ((runTicks s ln t0)._exe_instr_cycles_remain - 1) - 1) % 256 + 1
            = (d : Int)
          unfold wrap8 at hz ⊢
          push_cast at hd
          omega)
        (fun j h1 h2 => hst j (by omega) (by omega))
      refine ⟨fun j h1 h2 => ?_, hnext.2⟩
      by_cases hj : j = t0
      · rw [hj]; exact ho
      · exact hnext.1 j (by omega) (by omega)

/-- An idle, unstunned tick without pending NMI either loads `START_IRQ_OP` or
fetches. -/
theorem idle_tick_cases (u : Cpu) (l : Lines) (hi : tickIdle u l = true)
    (hn : IS_NMI_PENDING (sampled u l) l = false) :
    tickFetches u l = !dispatchesIRQ u l := by
  unfold tickFetches dispatchesIRQ
  rw [hi, hn]
  simp

theorem idle_tick (u : Cpu) (l : Lines) (hs : l.vicStunCPU = 0)
    (ho : u._exe_instr_opcode < 0) : tickIdle u l = true := by
  have h1 : tickStunned u l = false := stun_zero _ _ hs
  unfold tickIdle
  rw [h1, sampled_exe_instr_opcode]
  simp [ho]

/-- C35 (amended): the interrupt lead-time rule of `cpuClockRSID`.  An
instruction other than SEI and other than the pseudo-operation bytes `$02`,
`$12`, `$22`, with `n` cycles and lead time `L`, is fetched on tick 0 (cycle
counter `c`); on the ticks `0 .. n` the counter advances by one per tick, there
is no stun and no NMI, and I is clear.  An IRQ is committed on tick `k < n`, and
the stamp `(c + k) mod 2^32` it records is not zero.  Then the instruction is in
flight on the ticks `1 .. n-1`, tick `n` is idle, and `START_IRQ_OP` is loaded on
tick `n` exactly when `n - k ≥ L`.  Otherwise tick `n` fetches one more
instruction; when the lines stay that way, it is retired after some tick
`m - 1` with `n + 2 ≤ m ≤ n + 257`, and tick `m` loads `START_IRQ_OP` if I is
then clear. -/
theorem C35_irq_lead_rule (s : Cpu) (ln : Nat → Lines) (c k n : Nat)
    (hfetch : tickFetches s (ln 0) = true)
    (hop : memGet s s._pc ≠ SEI_OP ∧ memGet s s._pc ≠ START_IRQ_OP ∧
      memGet s s._pc ≠ START_NMI_OP ∧ memGet s s._pc ≠ NULL_OP)
    (hn : (prefetchOperation s)._exe_instr_cycles = n) (hk : k < n)
    (hln : ∀ j, j ≤ n →
      (ln j).ciaNMI = false ∧ (ln j).vicStunCPU = 0 ∧ (ln j).sysCycles = c + j)
    (hnmi : s._nmi_committed = false)
    (hI : ∀ j, j ≤ n → (runTicks s ln j)._p &&& FLAG_I = 0)
    (hcommit : commitsIRQ (runTicks s ln k) (ln k))
    (hstamp : (c + k) % 4294967296 ≠ 0) :
    (∀ j, 1 ≤ j → j < n → 0 ≤ (runTicks s ln j)._exe_instr_opcode) ∧
    (runTicks s ln n)._exe_instr_opcode = -1 ∧
    (dispatchesIRQ (runTicks s ln n) (ln n) = true ↔
      (prefetchOperation s)._interrupt_lead_time ≤ n - k) ∧
    (n - k < (prefetchOperation s)._interrupt_lead_time →
      tickFetches (runTicks s ln n) (ln n) = true ∧
      ((∀ j, n < j → j ≤ n + 257 →
          (ln j).ciaNMI = false ∧ (ln j).vicStunCPU = 0 ∧ (ln j).sysCycles = c + j) →
        ∃ m, n + 2 ≤ m ∧ m ≤ n + 257 ∧
          (∀ j, n < j → j < m → 0 ≤ (runTicks s ln j)._exe_instr_opcode) ∧
          (runTicks s ln m)._exe_instr_opcode < 0 ∧
          ((runTicks s ln m)._p &&& FLAG_I = 0 →
            dispatchesIRQ (runTicks s ln m) (ln m) = true))) := by
  have hb := prefetch_cycles_bound s
  rw [hn] at hb
  have h2 : 2 ≤ n := by
    rcases prefetch_cycles_shape s with ⟨h0, _⟩ | ⟨h1, _⟩
    · rw [hn] at h0; omega
    · rw [hn] at h1; omega
  obtain ⟨ha, hidle, hopc, hlead⟩ := instr_run s ln n hfetch
    ⟨hop.2.1, hop.2.2.1, hop.2.2.2⟩ hn h2 (fun j hj => (hln j (by omega)).2.1)
  have hbusy : ∀ j, 1 ≤ j → j < n → 0 ≤ (runTicks s ln j)._exe_instr_opcode := by
    intro j h1 hj
    rw [ha j h1 hj]; omega
  have hq : ∀ m, m ≤ n → (runTicks s ln m)._nmi_committed = false := fun m hm =>
    nmi_quiet_run s ln hnmi m (fun j hj => (hln j (by omega)).1)
  -- tick `k` commits and does not dispatch
  have hndk : dispatchesIRQ (runTicks s ln k) (ln k) = false := by
    rcases Nat.eq_zero_or_pos k with h0 | hpos
    · subst h0
      have hf : tickFetches s (ln 0) = true := hfetch
      unfold tickFetches at hf
      simp only [Bool.and_eq_true, Bool.not_eq_true'] at hf
      show dispatchesIRQ s (ln 0) = false
      unfold dispatchesIRQ
      rw [hf.2]; simp
    · exact (dispatchesIRQ_busy _ _ (hbusy k hpos hk)).1
  obtain ⟨c1, c2, c3, c4⟩ := hcommit
  have hcond : irqSampleCond (runTicks s ln k) (ln k) = true :=
    (irqSampleCond_iff _ _).mpr ⟨c1, c2, c3⟩
  obtain ⟨sc, sts⟩ := sampled_irq (runTicks s ln k) (ln k)
  rw [hcond, if_pos rfl, if_pos c4, (hln k (by omega)).2.2] at sts
  have hck : (runTicks s ln (k + 1))._irq_committed = true := by
    rw [runTicks_succ, (tick_ctl _ _).1, sc, hndk, hcond]
    simp [c4]
  have htk : (runTicks s ln (k + 1))._irq_line_ts = (c + k) % 4294967296 := by
    rw [runTicks_succ, (tick_ctl _ _).2.1, sts]
  -- the commitment and its stamp are kept up to tick `n`
  have hp := irq_commit_persists s ln (k + 1) hck (n - (k + 1))
    (fun j h1 h2 => (dispatchesIRQ_busy _ _ (hbusy j (by omega) (by omega))).1)
  have en : k + 1 + (n - (k + 1)) = n := by omega
  rw [en] at hp
  obtain ⟨hcn, htn0⟩ := hp
  have htn : (runTicks s ln n)._irq_line_ts = (c + k) % 4294967296 :=
    (htn0 (by rw [htk]; exact hstamp)).trans htk
  have hidleT : tickIdle (runTicks s ln n) (ln n) = true :=
    idle_tick _ _ (hln n le_rfl).2.1 (by rw [hidle]; omega)
  have hnp : IS_NMI_PENDING (sampled (runTicks s ln n) (ln n)) (ln n) = false :=
    (nmi_stays_uncommitted _ _ (hln n le_rfl).1 (hq n le_rfl)).2.2
  have hsn : (sampled (runTicks s ln n) (ln n))._irq_line_ts = (c + k) % 4294967296 := by
    rw [irq_stamp_sampled _ _ hcn (by rw [htn]; exact hstamp), htn]
  have hel : sub32 (ln n).sysCycles ((c + k) % 4294967296) = n - k := by
    rw [(hln n le_rfl).2.2]
    have e : c + n = (c + k) + (n - k) := by omega
    rw [e]
    exact sub32_offset (c + k) (n - k) (by omega)
  have hiff : dispatchesIRQ (runTicks s ln n) (ln n) = true ↔
      (prefetchOperation s)._interrupt_lead_time ≤ n - k := by
    rw [dispatchesIRQ_iff _ _ hcn, hsn, hel, hlead n (by omega) le_rfl, hopc]
    constructor
    · rintro ⟨_, _, h | h⟩
      · exact absurd h.1 hop.1
      · exact h.2
    · intro h
      exact ⟨hidleT, hnp, Or.inr ⟨hI n le_rfl, h⟩⟩
  refine ⟨hbusy, hidle, hiff, ?_⟩
  intro hlt
  have hnd : dispatchesIRQ (runTicks s ln n) (ln n) = false := by
    cases hd : dispatchesIRQ (runTicks s ln n) (ln n)
    · rfl
    · exact absurd (hiff.mp hd) (by omega)
  have hf : tickFetches (runTicks s ln n) (ln n) = true := by
    rw [idle_tick_cases _ _ hidleT hnp, hnd]; rfl
  refine ⟨hf, ?_⟩
  intro hext
  obtain ⟨_, g2, _, g4, g5, _⟩ := fetch_tick_facts (runTicks s ln n) (ln n) hf
  have gb := prefetch_cycles_bound (runTicks s ln n)
  have e1 : runTicks s ln (n + 1) = cpuClockRSID (runTicks s ln n) (ln n) := rfl
  rw [← e1] at g2 g4 g5
  have hnn := Int.emod_nonneg ((runTicks s ln (n + 1))._exe_instr_cycles_remain - 1)
    (by norm_num : (256 : Int) ≠ 0)
  have hlt2 := Int.emod_lt_of_pos ((runTicks s ln (n + 1))._exe_instr_cycles_remain - 1)
    (by norm_num : (0 : Int) < 256)
  obtain ⟨d, hd⟩ : ∃ d : Nat,
      ((runTicks s ln (n + 1))._exe_instr_cycles_remain - 1) % 256 + 1 = (d : Int) :=
    ⟨(((runTicks s ln (n + 1))._exe_instr_cycles_remain - 1) % 256 + 1).toNat, by
      rw [Int.toNat_of_nonneg]; omega⟩
  have hall : ∀ j, j ≤ n + 257 →
      (ln j).ciaNMI = false ∧ (ln j).vicStunCPU = 0 ∧ (ln j).sysCycles = c + j :=
    fun j hj => if h : j ≤ n then hln j h else hext j (by omega) hj
  obtain ⟨b1, b2⟩ := busy_until s ln d (n + 1) (by rw [g2]; omega) hd
    (fun j h1 h2 => (hall j (by omega)).2.1)
  refine ⟨n + 1 + d, by omega, by omega, fun j h1 h2 => b1 j (by omega) h2, b2,
    fun hIm => ?_⟩
  have hp2 := irq_commit_persists s ln n hcn (1 + d) (fun j h1 h2 => by
    by_cases hj : j = n
    · rw [hj]; exact hnd
    · exact (dispatchesIRQ_busy _ _ (b1 j (by omega) (by omega))).1)
  have em : n + (1 + d) = n + 1 + d := by omega
  rw [em] at hp2
  obtain ⟨hcm, htm0⟩ := hp2
  have htm : (runTicks s ln (n + 1 + d))._irq_line_ts = (c + k) % 4294967296 :=
    (htm0 (by rw [htn]; exact hstamp)).trans htn
  have hlm : ∀ i, (runTicks s ln (n + 1 + i))._interrupt_lead_time ≤ 3 := by
    intro i
    induction i with
    | zero =>
      show (runTicks s ln (n + 1))._interrupt_lead_time ≤ 3
      rw [g5]; exact prefetch_lead_le _
    | succ i ih => exact lead_le_tick _ _ ih
  have hm := hall (n + 1 + d) (by omega)
  apply (dispatchesIRQ_iff _ _ hcm).mpr
  refine ⟨idle_tick _ _ hm.2.1 b2,
    (nmi_stays_uncommitted _ _ hm.1
      (nmi_quiet_run s ln hnmi _ (fun j hj => (hall j (by omega)).1))).2.2,
    Or.inr ⟨hIm, ?_⟩⟩
  rw [irq_stamp_sampled _ _ hcm (by rw [htm]; exact hstamp), htm, hm.2.2]
  have e : c + (n + 1 + d) = (c + k) + (n + 1 + d - k) := by omega
  rw [e, sub32_offset _ _ (by omega)]
  have := hlm d
  omega

/-- C35 counterexample.  (1) `NOP` (2 cycles, lead time 2) is fetched on the tick
with counter 0 and the IRQ line is high from that tick on: the IRQ is committed
on tick `k = 0` with stamp 0, which `CHECK_FOR_IRQ` takes for "no stamp" and
replaces by 1 on the next tick, so although `n - k = 2 ≥ L` tick 2 does not load
`START_IRQ_OP`.  (2) The byte `$22` (2 cycles, lead time 2) is fetched in a
state whose `_opc` is still `$78`, and the IRQ is committed on tick `k = 1`:
although `n - k = 1 < L`, tick 2 loads `START_IRQ_OP`. -/
theorem C35_counterexample :
    (tickFetches scenNops (irqLate 0 0 0) = true ∧
      memGet scenNops scenNops._pc = 0xEA ∧
      (prefetchOperation scenNops)._exe_instr_cycles = 2 ∧
      (prefetchOperation scenNops)._interrupt_lead_time = 2 ∧
      (∀ j, j ≤ 2 → (runTicks scenNops (irqLate 0 0) j)._p &&& FLAG_I = 0) ∧
      commitsIRQ scenNops (irqLate 0 0 0) ∧
      (runTicks scenNops (irqLate 0 0) 1)._irq_committed = true ∧
      (runTicks scenNops (irqLate 0 0) 1)._irq_line_ts = 0 ∧
      (runTicks scenNops (irqLate 0 0) 2)._irq_line_ts = 1 ∧
      (runTicks scenNops (irqLate 0 0) 2)._exe_instr_opcode = -1 ∧
      dispatchesIRQ (runTicks scenNops (irqLate 0 0) 2) (irqLate 0 0 2) = false) ∧
    (tickFetches staleSei (irqLate 20 1 0) = true ∧
      memGet staleSei staleSei._pc = NULL_OP ∧ staleSei._opc = SEI_OP ∧
      (prefetchOperation staleSei)._exe_instr_cycles = 2 ∧
      (prefetchOperation staleSei)._interrupt_lead_time = 2 ∧
      (∀ j, j ≤ 2 → (runTicks staleSei (irqLate 20 1) j)._p &&& FLAG_I = 0) ∧
      commitsIRQ (runTicks staleSei (irqLate 20 1) 1) (irqLate 20 1 1) ∧
      (runTicks staleSei (irqLate 20 1) 2)._exe_instr_opcode = -1 ∧
      dispatchesIRQ (runTicks staleSei (irqLate 20 1) 2) (irqLate 20 1 2) = true) := by
  unfold commitsIRQ
  decide

/-- Witness of C35: the same-page taken BNE of `scenBneNop` (`n = 3`, `L = 3`) is
fetched at counter 10 and the IRQ is committed on its second tick (`k = 1`):
tick 3 does not load `START_IRQ_OP` but fetches the NOP, after which the IRQ is
taken. -/
theorem C35_irq_lead_rule_witness :
    tickFetches scenBneNop (irqLate 10 1 0) = true ∧
    (prefetchOperation scenBneNop)._exe_instr_cycles = 3 ∧
    (prefetchOperation scenBneNop)._interrupt_lead_time = 3 ∧
    commitsIRQ (runTicks scenBneNop (irqLate 10 1) 1) (irqLate 10 1 1) ∧
    (dispatchesIRQ (runTicks scenBneNop (irqLate 10 1) 3) (irqLate 10 1 3) = true ↔
      (prefetchOperation scenBneNop)._interrupt_lead_time ≤ 3 - 1) ∧
    tickFetches (runTicks scenBneNop (irqLate 10 1) 3) (irqLate 10 1 3) = true ∧
    ∃ m, 3 + 2 ≤ m ∧ m ≤ 3 + 257 ∧
      (∀ j, 3 < j → j < m → 0 ≤ (runTicks scenBneNop (irqLate 10 1) j)._exe_instr_opcode) ∧
      (runTicks scenBneNop (irqLate 10 1) m)._exe_instr_opcode < 0 ∧
      ((runTicks scenBneNop (irqLate 10 1) m)._p &&& FLAG_I = 0 →
        dispatchesIRQ (runTicks scenBneNop (irqLate 10 1) m) (irqLate 10 1 m) = true) :=
  have hc : commitsIRQ (runTicks scenBneNop (irqLate 10 1) 1) (irqLate 10 1 1) := by
    unfold commitsIRQ
    decide
  have h := C35_irq_lead_rule scenBneNop (irqLate 10 1) 10 1 3 (by decide) (by decide) rfl
    (by decide) (fun _ _ => ⟨rfl, rfl, rfl⟩) rfl (by decide) hc (by decide)
  have hB := h.2.2.2 (by decide)
  ⟨by decide, rfl, rfl, hc, h.2.2.1, hB.1, hB.2 (fun _ _ _ => ⟨rfl, rfl, rfl⟩)⟩

/-! ## SEI then IRQ with a stamp left behind -/

/-- C9 counterexample: the reachable state `staleStampSei` is idle with I
clear, no IRQ and no NMI committed and `PC` at an SEI opcode, and the IRQ line
is high on every tick with no NMI and no stun; but the stamp of the earlier
IRQ is still recorded.  The SEI is fetched on the first tick and completes on
the second, yet no IRQ is committed, the third tick fetches the next
instruction, and no tick of the run dispatches `START_IRQ_OP`. -/
theorem C9_counterexample :
    Reachable staleStampSei ∧
    (staleStampSei._exe_instr_opcode = -1 ∧ staleStampSei._p &&& FLAG_I = 0 ∧
      staleStampSei._irq_committed = false ∧ staleStampSei._nmi_committed = false ∧
      memGet staleStampSei staleStampSei._pc = SEI_OP ∧
      0 < staleStampSei._interrupt_lead_time ∧ staleStampSei._irq_line_ts = 10) ∧
    ((runTicks staleStampSei (irqLate 19 0) 1)._exe_instr_opcode = (SEI_OP : Int) ∧
      (runTicks staleStampSei (irqLate 19 0) 2)._exe_instr_opcode = -1 ∧
      (runTicks staleStampSei (irqLate 19 0) 2)._p &&& FLAG_I ≠ 0 ∧
      (runTicks staleStampSei (irqLate 19 0) 2)._opc = SEI_OP) ∧
    (dispatchesIRQ (runTicks staleStampSei (irqLate 19 0) 2) (irqLate 19 0 2) = false ∧
      tickFetches (runTicks staleStampSei (irqLate 19 0) 2) (irqLate 19 0 2) = true) ∧
    (∀ j, j < 12 →
      dispatchesIRQ (runTicks staleStampSei (irqLate 19 0) j) (irqLate 19 0 j) = false ∧
      (runTicks staleStampSei (irqLate 19 0) j)._irq_committed = false) :=
  ⟨Reachable.irqFlag _ 0 (reachable_runClock _ _ (Reachable.init _ _) 9), by decide⟩

end WebSid
